import Mathlib

/-!
# RVVP interrupt subsystem: delegation/injection routing, pending aggregation, IMSIC files

A shallow embedding of the interrupt code of the RV32 instruction-set simulator
(`vp/src/core/rv32/csr.h`, `vp/src/core/rv32/iss.cpp`).  Registers are natural numbers;
a `uint64_t` holds a value below `2^64`, a `uint32_t` a value below `2^32`.  Every
conversion the C++ performs implicitly (truncation to 32 bits, the 64-bit complement) is
written out.  An `assert` does not change state: the embedding gives the result of a run in
which no assertion fails, and a property that depends on an asserted condition takes it as a
hypothesis.  Trace output and the `wfi_event` notification are left out.
-/

namespace RVVP

/-! ## Machine words -/

/-- `UINT64_MAX`. -/
def UINT64_MAX : Nat := 2 ^ 64 - 1

/-- `UINT32_MAX`. -/
def UINT32_MAX : Nat := 2 ^ 32 - 1

/-- `BIT(n)`, that is `1ULL << n` (csr.h:19). -/
def BIT (n : Nat) : Nat := 1 <<< n

/-- The complement `~x` of a `uint64_t`. -/
def not64 (x : Nat) : Nat := 2 ^ 64 - 1 - x % 2 ^ 64

/-- The complement `~x` of a `uint32_t`. -/
def not32 (x : Nat) : Nat := 2 ^ 32 - 1 - x % 2 ^ 32

/-- `GENMASK(h, l)` (csr.h:21) on a 64-bit `unsigned long`. -/
def GENMASK (h l : Nat) : Nat :=
  ((UINT64_MAX - (1 <<< l) % 2 ^ 64 + 1) % 2 ^ 64) &&& (UINT64_MAX >>> (64 - 1 - h))

/-! ## Configuration (config.h) -/

/-- `iss_config::MAX_GUEST`. -/
def MAX_GUEST : Nat := 8

/-- `iss_config::IMSIC_MAX_IRQS`. -/
def IMSIC_MAX_IRQS : Nat := 2048

/-- `iss_config::NV_MODE_MAX_VECTOR`. -/
def NV_MODE_MAX_VECTOR : Nat := 255

/-! ## Interrupt cause numbers

`trap-codes.h` is not part of the sources.  The ten leveled causes are fixed by the
`static_assert`s on `MIE_MASK`, `SIE_MASK`, `HIE_MASK`, `HIDELEG_MASK` (csr.h:831-833, 1383)
and by the table in `icsr_ms_table` (csr.h:2789-2802).  The five local causes are kept as
parameters. -/

def EXC_S_SOFTWARE_INTERRUPT : Nat := 1
def EXC_VS_SOFTWARE_INTERRUPT : Nat := 2
def EXC_M_SOFTWARE_INTERRUPT : Nat := 3
def EXC_S_TIMER_INTERRUPT : Nat := 5
def EXC_VS_TIMER_INTERRUPT : Nat := 6
def EXC_M_TIMER_INTERRUPT : Nat := 7
def EXC_S_EXTERNAL_INTERRUPT : Nat := 9
def EXC_VS_EXTERNAL_INTERRUPT : Nat := 10
def EXC_M_EXTERNAL_INTERRUPT : Nat := 11
def EXC_S_GUEST_EXTERNAL_INTERRUPT : Nat := 12

/-- The cause numbers of the local (non-leveled) interrupts, declared in `trap-codes.h`. -/
structure TrapCodes where
  EXC_COUNTER_OVREFLOW_INTERRUPT : Nat
  EXC_DEBUG_TRACE_INTERRUPT : Nat
  EXC_LOW_PRIO_RAS_INTERRUPT : Nat
  EXC_HIGH_PRIO_RAS_INTERRUPT : Nat
  EXC_WDT_INTERRUPT : Nat
deriving Repr, DecidableEq

/-- Local causes are major interrupt ids above the thirteen standard positions 0..12. -/
def TrapCodes.Valid (tc : TrapCodes) : Prop :=
  (13 ≤ tc.EXC_COUNTER_OVREFLOW_INTERRUPT ∧ tc.EXC_COUNTER_OVREFLOW_INTERRUPT < 64) ∧
  (13 ≤ tc.EXC_DEBUG_TRACE_INTERRUPT ∧ tc.EXC_DEBUG_TRACE_INTERRUPT < 64) ∧
  (13 ≤ tc.EXC_LOW_PRIO_RAS_INTERRUPT ∧ tc.EXC_LOW_PRIO_RAS_INTERRUPT < 64) ∧
  (13 ≤ tc.EXC_HIGH_PRIO_RAS_INTERRUPT ∧ tc.EXC_HIGH_PRIO_RAS_INTERRUPT < 64) ∧
  (13 ≤ tc.EXC_WDT_INTERRUPT ∧ tc.EXC_WDT_INTERRUPT < 64)

instance (tc : TrapCodes) : Decidable tc.Valid := by
  unfold TrapCodes.Valid; infer_instance

/-- A concrete numbering used to evaluate the model: the AIA local causes 13, 17, 35, 43
and cause 19 for the watchdog. -/
def aiaCodes : TrapCodes :=
  { EXC_COUNTER_OVREFLOW_INTERRUPT := 13
    EXC_DEBUG_TRACE_INTERRUPT := 17
    EXC_LOW_PRIO_RAS_INTERRUPT := 35
    EXC_HIGH_PRIO_RAS_INTERRUPT := 43
    EXC_WDT_INTERRUPT := 19 }

/-! ## Privilege levels (irq_if.h) -/

def MachineMode : Nat := 3
def SupervisorMode : Nat := 1
def UserMode : Nat := 0
def VirtualSupervisorMode : Nat := 5
def VirtualUserMode : Nat := 4
/-- `NoneMode` (irq_if.h:15): `-1` as a `uint32_t`. -/
def NoneMode : Nat := 2 ^ 32 - 1

/-- `is_irq_capable_level` (irq_if.h:41). -/
def is_irq_capable_level (level : Nat) : Bool :=
  level == MachineMode || level == SupervisorMode || level == VirtualSupervisorMode

/-! ## `csr64_bit_ops` (csr.h:743-786) -/

def WRITE_HI_MASK : Nat := UINT32_MAX <<< 32
def WRITE_LO_MASK : Nat := UINT32_MAX

def lo_to_reg (val : Nat) : Nat := val
def hi_to_reg (val : Nat) : Nat := val <<< 32
def reg_to_lo (val : Nat) : Nat := val % 2 ^ 32
def reg_to_hi (val : Nat) : Nat := (val >>> 32) % 2 ^ 32

def write_64 (reg mask value : Nat) : Nat := (reg &&& not64 mask) ||| (value &&& mask)
def write_lo (reg mask val : Nat) : Nat := write_64 reg (mask &&& WRITE_LO_MASK) (lo_to_reg val)
def write_hi (reg mask val : Nat) : Nat := write_64 reg (mask &&& WRITE_HI_MASK) (hi_to_reg val)
def read_64 (reg mask : Nat) : Nat := reg &&& mask
def read_lo (reg mask : Nat) : Nat := reg_to_lo (read_64 reg mask)
def read_hi (reg mask : Nat) : Nat := reg_to_hi (read_64 reg mask)

/-! ## `csrs_clint_pend` masks (csr.h:788-837) -/

def SIE_MASK : Nat :=
  BIT EXC_S_SOFTWARE_INTERRUPT ||| BIT EXC_S_TIMER_INTERRUPT ||| BIT EXC_S_EXTERNAL_INTERRUPT
def HIE_MASK : Nat :=
  BIT EXC_S_GUEST_EXTERNAL_INTERRUPT ||| BIT EXC_VS_SOFTWARE_INTERRUPT |||
    BIT EXC_VS_TIMER_INTERRUPT ||| BIT EXC_VS_EXTERNAL_INTERRUPT
def MIE_MASK : Nat :=
  BIT EXC_M_SOFTWARE_INTERRUPT ||| BIT EXC_M_TIMER_INTERRUPT ||| BIT EXC_M_EXTERNAL_INTERRUPT |||
    SIE_MASK ||| HIE_MASK
def VSIE_MASK : Nat :=
  BIT EXC_VS_SOFTWARE_INTERRUPT ||| BIT EXC_VS_TIMER_INTERRUPT ||| BIT EXC_VS_EXTERNAL_INTERRUPT
def MIx_VS_MASK : Nat :=
  BIT EXC_VS_SOFTWARE_INTERRUPT ||| BIT EXC_VS_TIMER_INTERRUPT ||| BIT EXC_VS_EXTERNAL_INTERRUPT
def VSIx_VS_MASK : Nat :=
  BIT EXC_S_SOFTWARE_INTERRUPT ||| BIT EXC_S_TIMER_INTERRUPT ||| BIT EXC_S_EXTERNAL_INTERRUPT
def MIx_LEVELED_MASK : Nat := GENMASK EXC_M_EXTERNAL_INTERRUPT 0
def MIx_NON_LEVELED_MASK (tc : TrapCodes) : Nat :=
  BIT tc.EXC_COUNTER_OVREFLOW_INTERRUPT ||| BIT tc.EXC_DEBUG_TRACE_INTERRUPT |||
    BIT tc.EXC_LOW_PRIO_RAS_INTERRUPT ||| BIT tc.EXC_HIGH_PRIO_RAS_INTERRUPT |||
    BIT tc.EXC_WDT_INTERRUPT
def MIx_IRQ_TYPE_EDGE_MASK (tc : TrapCodes) : Nat := MIx_NON_LEVELED_MASK tc
def MIx_IRQ_TYPE_LEVL_MASK : Nat := MIE_MASK
def MIP_TO_VSIP_SHIFT : Nat := 1

/-! xie masks (csr.h:977-987) -/
def MIE_WRITE_MASK (tc : TrapCodes) : Nat := MIx_NON_LEVELED_MASK tc ||| MIE_MASK
def MIE_READ_MASK (tc : TrapCodes) : Nat := MIx_NON_LEVELED_MASK tc ||| MIE_MASK
def SIE_WRITE_MASK (tc : TrapCodes) : Nat := MIx_NON_LEVELED_MASK tc ||| SIE_MASK
def SIE_READ_MASK (tc : TrapCodes) : Nat := MIx_NON_LEVELED_MASK tc ||| SIE_MASK
def HIE_WRITE_MASK : Nat := HIE_MASK
def HIE_READ_MASK : Nat := HIE_MASK
def VSIE_WRITE_MASK (tc : TrapCodes) : Nat := MIx_NON_LEVELED_MASK tc ||| VSIE_MASK
def VSIE_READ_MASK (tc : TrapCodes) : Nat := MIx_NON_LEVELED_MASK tc ||| VSIE_MASK

/-! xip masks (csr.h:1159-1173) -/
def MIP_WRITE_MASK : Nat := 0
def MIP_READ_MASK : Nat := MIE_MASK
def SIP_WRITE_DELEGATED_MASK : Nat := 0
def SIP_WRITE_INJECTED_MASK (tc : TrapCodes) : Nat :=
  (MIx_NON_LEVELED_MASK tc ||| SIE_MASK) &&& MIx_IRQ_TYPE_EDGE_MASK tc
def SIP_READ_MASK (tc : TrapCodes) : Nat := MIx_NON_LEVELED_MASK tc ||| SIE_MASK
def HIP_WRITE_MASK : Nat := 0
def HIP_READ_MASK : Nat := HIE_MASK
def VSIP_WRITE_DELEGATED_MASK : Nat := 0
def VSIP_WRITE_INJECTED_MASK (tc : TrapCodes) : Nat :=
  (MIx_NON_LEVELED_MASK tc ||| VSIE_MASK) &&& MIx_IRQ_TYPE_EDGE_MASK tc
def VSIP_READ_MASK (tc : TrapCodes) : Nat := MIx_NON_LEVELED_MASK tc ||| VSIE_MASK

/-! mvirt / hvirt / mideleg / hideleg masks -/
def MVIEN_MASK (tc : TrapCodes) : Nat := MIx_NON_LEVELED_MASK tc ||| SIE_MASK
def MVIP_MASK (tc : TrapCodes) : Nat := MVIEN_MASK tc
def HVIEN_MASK (tc : TrapCodes) : Nat := MIx_NON_LEVELED_MASK tc
def HVIP_MASK (tc : TrapCodes) : Nat := MIx_NON_LEVELED_MASK tc ||| MIx_VS_MASK
def HVIP_OR_MASK : Nat := VSIE_MASK
def MIDELEG_READ_MASK : Nat := SIE_MASK ||| HIE_MASK
def MIDELEG_WRITE_MASK : Nat := SIE_MASK
def HIDELEG_MASK : Nat := MIx_VS_MASK

/-! ## `csrs_clint_pend` state -/

/-- `csrs_clint_pend::csrs_mvirt` (csr.h:1185). -/
structure csrs_mvirt where
  mvien : Nat
  mvip : Nat
  shadow_enables : Nat
deriving Repr, DecidableEq

/-- `csrs_clint_pend::csrs_hvirt` (csr.h:1238). -/
structure csrs_hvirt where
  hvien : Nat
  hvip : Nat
  shadow_enables : Nat
deriving Repr, DecidableEq

/-- `csrs_clint_pend` (csr.h:788): `mie` and `mip` are the `reg` fields of `xie`/`xip`,
`mideleg` and `hideleg` the `reg` fields of `csr_mideleg`/`csr_hideleg`. -/
structure csrs_clint_pend where
  mie : Nat
  mip : Nat
  mvirt : csrs_mvirt
  hvirt : csrs_hvirt
  mideleg : Nat
  hideleg : Nat
deriving Repr, DecidableEq

namespace csrs_clint_pend

/-- `s_route_masks` (csr.h:1408): `(delegated_mask, injected_mask)` for Supervisor. -/
def s_route_masks (c : csrs_clint_pend) : Nat × Nat :=
  let delegated_mask := c.mideleg
  let injected_mask := not64 c.mideleg &&& c.mvirt.mvien
  (delegated_mask, injected_mask)

/-- `csr_hideleg::hideleg_m_extra_mask` (csr.h:1371). -/
def hideleg_m_extra_mask (c : csrs_clint_pend) : Nat :=
  (s_route_masks c).1 ||| (s_route_masks c).2

/-- `csr_hideleg::checked_read_hideleg_64` (csr.h:1343). -/
def checked_read_hideleg_64 (c : csrs_clint_pend) : Nat :=
  read_64 c.hideleg (HIDELEG_MASK &&& hideleg_m_extra_mask c)

/-- `vs_route_masks` (csr.h:1418): `(delegated_mask, injected_mask)` for VS. -/
def vs_route_masks (c : csrs_clint_pend) : Nat × Nat :=
  let delegated_mask := checked_read_hideleg_64 c
  let injected_mask := not64 delegated_mask &&& c.hvirt.hvien
  (delegated_mask, injected_mask)

/-- `m_to_vs_bits` (csr.h:1443). -/
def m_to_vs_bits (mix : Nat) : Nat :=
  let mix_vs := (mix &&& MIx_VS_MASK) >>> MIP_TO_VSIP_SHIFT
  let mix_unleveled := mix &&& not64 MIx_LEVELED_MASK
  mix_unleveled ||| mix_vs

/-- `vs_to_m_bits` (csr.h:1452). -/
def vs_to_m_bits (vsix : Nat) : Nat :=
  let vsix_vs := ((vsix &&& VSIx_VS_MASK) <<< MIP_TO_VSIP_SHIFT) % 2 ^ 64
  let vsix_unleveled := vsix &&& not64 MIx_LEVELED_MASK
  vsix_unleveled ||| vsix_vs

/-- `pendings_edge_detected` (csr.h:1461). -/
def pendings_edge_detected (pend_old pend_new iid : Nat) : Bool :=
  (pend_old &&& BIT iid) == 0 && (pend_new &&& BIT iid) == BIT iid

/-- `s_irqs_present` (csr.h:1431). -/
def s_irqs_present (c : csrs_clint_pend) : Nat :=
  (s_route_masks c).1 ||| (s_route_masks c).2

/-- `vs_irqs_present` (csr.h:1437). -/
def vs_irqs_present (c : csrs_clint_pend) : Nat :=
  m_to_vs_bits ((vs_route_masks c).1 ||| (vs_route_masks c).2)

/-! ### `xie` (csr.h:839-998) -/

/-- `xie::sie_routed_read_64` (csr.h:869). -/
def sie_routed_read_64 (tc : TrapCodes) (c : csrs_clint_pend) : Nat :=
  let delegated := (s_route_masks c).1 &&& c.mie
  let injected := (s_route_masks c).2 &&& c.mvirt.shadow_enables
  read_64 (delegated ||| injected) (SIE_READ_MASK tc)

/-- `xie::sie_routed_write_64` (csr.h:880). -/
def sie_routed_write_64 (tc : TrapCodes) (c : csrs_clint_pend) (write_mask value : Nat) :
    csrs_clint_pend :=
  let delegated := (s_route_masks c).1
  let injected := (s_route_masks c).2
  { c with
    mie := write_64 c.mie (write_mask &&& SIE_WRITE_MASK tc &&& delegated) value
    mvirt :=
        { c.mvirt with
          shadow_enables := write_64 c.mvirt.shadow_enables (write_mask &&& SIE_WRITE_MASK tc &&& injected) value } }

/-- `xie::checked_write_sie` (csr.h:887). -/
def checked_write_sie (tc : TrapCodes) (c : csrs_clint_pend) (val : Nat) : csrs_clint_pend :=
  sie_routed_write_64 tc c WRITE_LO_MASK (lo_to_reg val)

/-- `xie::checked_write_sieh` (csr.h:891). -/
def checked_write_sieh (tc : TrapCodes) (c : csrs_clint_pend) (val : Nat) : csrs_clint_pend :=
  sie_routed_write_64 tc c WRITE_HI_MASK (hi_to_reg val)

/-- `xie::checked_write_mie` (csr.h:931). -/
def checked_write_mie (tc : TrapCodes) (c : csrs_clint_pend) (val : Nat) : csrs_clint_pend :=
  { c with mie := write_lo c.mie (MIE_WRITE_MASK tc) val }

/-- `xie::hie_routed_write_32` (csr.h:935); `val` is a `uint32_t`. -/
def hie_routed_write_32 (c : csrs_clint_pend) (write_mask val : Nat) : csrs_clint_pend :=
  { c with mie := write_lo c.mie (write_mask &&& HIE_WRITE_MASK) val }

/-- `xie::checked_write_hie` (csr.h:939). -/
def checked_write_hie (c : csrs_clint_pend) (val : Nat) : csrs_clint_pend :=
  hie_routed_write_32 c WRITE_LO_MASK val

/-- `xie::checked_read_mie` (csr.h:943). -/
def checked_read_mie (tc : TrapCodes) (c : csrs_clint_pend) : Nat :=
  read_lo c.mie (MIE_READ_MASK tc)

/-- `xie::checked_read_sie` (csr.h:947). -/
def checked_read_sie (tc : TrapCodes) (c : csrs_clint_pend) : Nat :=
  reg_to_lo (sie_routed_read_64 tc c)

/-- `xie::checked_read_hie` (csr.h:951). -/
def checked_read_hie (c : csrs_clint_pend) : Nat :=
  read_lo c.mie HIE_READ_MASK

/-- `xie::vsie_routed_read_64` (csr.h:895). -/
def vsie_routed_read_64 (tc : TrapCodes) (c : csrs_clint_pend) : Nat :=
  let sie := not64 MIx_LEVELED_MASK &&& sie_routed_read_64 tc c
  let hie := MIx_LEVELED_MASK &&& checked_read_hie c
  let delegated := (vs_route_masks c).1 &&& (sie ||| hie)
  let injected := (vs_route_masks c).2 &&& c.hvirt.shadow_enables
  read_64 (delegated ||| injected) (VSIE_READ_MASK tc)

/-- `xie::vsie_routed_write_64<write_mask>` (csr.h:909).  The call of
`hie_routed_write_32` passes the 64-bit `value` to a `uint32_t` parameter. -/
def vsie_routed_write_64 (tc : TrapCodes) (c : csrs_clint_pend) (write_mask value : Nat) :
    csrs_clint_pend :=
  let value := vs_to_m_bits value
  let delegated := (vs_route_masks c).1
  let injected := (vs_route_masks c).2
  let delegated_mask := write_mask &&& VSIE_WRITE_MASK tc &&& delegated
  let c1 := sie_routed_write_64 tc c delegated_mask value
  let c2 := hie_routed_write_32 c1 delegated_mask (value % 2 ^ 32);
  { c2 with hvirt :=
      { c2.hvirt with
        shadow_enables := write_64 c2.hvirt.shadow_enables (write_mask &&& VSIE_WRITE_MASK tc &&& injected) value } }

/-- `xie::checked_write_vsie` (csr.h:922). -/
def checked_write_vsie (tc : TrapCodes) (c : csrs_clint_pend) (val : Nat) : csrs_clint_pend :=
  vsie_routed_write_64 tc c WRITE_LO_MASK (lo_to_reg val)

/-- `xie::checked_write_vsieh` (csr.h:926). -/
def checked_write_vsieh (tc : TrapCodes) (c : csrs_clint_pend) (val : Nat) : csrs_clint_pend :=
  vsie_routed_write_64 tc c WRITE_HI_MASK (hi_to_reg val)

/-- `xie::checked_read_vsie` (csr.h:955). -/
def checked_read_vsie (tc : TrapCodes) (c : csrs_clint_pend) : Nat :=
  reg_to_lo (m_to_vs_bits (vsie_routed_read_64 tc c))

/-- `xie::checked_write_mieh` (csr.h:960). -/
def checked_write_mieh (tc : TrapCodes) (c : csrs_clint_pend) (val : Nat) : csrs_clint_pend :=
  { c with mie := write_hi c.mie (MIE_WRITE_MASK tc) val }

/-- `xie::checked_read_mieh` (csr.h:964). -/
def checked_read_mieh (tc : TrapCodes) (c : csrs_clint_pend) : Nat :=
  read_hi c.mie (MIE_READ_MASK tc)

/-- `xie::checked_read_sieh` (csr.h:968). -/
def checked_read_sieh (tc : TrapCodes) (c : csrs_clint_pend) : Nat :=
  reg_to_hi (sie_routed_read_64 tc c)

/-- `xie::checked_read_vsieh` (csr.h:972). -/
def checked_read_vsieh (tc : TrapCodes) (c : csrs_clint_pend) : Nat :=
  reg_to_hi (m_to_vs_bits (vsie_routed_read_64 tc c))

/-! ### `xip` (csr.h:1000-1183) -/

/-- `xip::mip_routed_read_64` (csr.h:1030). -/
def mip_routed_read_64 (c : csrs_clint_pend) : Nat :=
  let mip_bits := c.mip ||| (c.hvirt.hvip &&& HVIP_OR_MASK)
  read_64 mip_bits MIP_READ_MASK

/-- `xip::sip_routed_read_64` (csr.h:1038). -/
def sip_routed_read_64 (tc : TrapCodes) (c : csrs_clint_pend) : Nat :=
  let delegated := (s_route_masks c).1 &&& mip_routed_read_64 c
  let injected := (s_route_masks c).2 &&& c.mvirt.mvip
  read_64 (delegated ||| injected) (SIP_READ_MASK tc)

/-- `xip::sip_routed_write_64` (csr.h:1049). -/
def sip_routed_write_64 (tc : TrapCodes) (c : csrs_clint_pend) (write_mask value : Nat) :
    csrs_clint_pend :=
  let delegated := (s_route_masks c).1
  let injected := (s_route_masks c).2
  { c with
    mip := write_64 c.mip (write_mask &&& SIP_WRITE_DELEGATED_MASK &&& delegated) value
    mvirt :=
        { c.mvirt with
          mvip := write_64 c.mvirt.mvip (write_mask &&& SIP_WRITE_INJECTED_MASK tc &&& injected) value } }

/-- `xip::checked_write_sip` (csr.h:1056). -/
def checked_write_sip (tc : TrapCodes) (c : csrs_clint_pend) (val : Nat) : csrs_clint_pend :=
  sip_routed_write_64 tc c WRITE_LO_MASK (lo_to_reg val)

/-- `xip::checked_write_siph` (csr.h:1060). -/
def checked_write_siph (tc : TrapCodes) (c : csrs_clint_pend) (val : Nat) : csrs_clint_pend :=
  sip_routed_write_64 tc c WRITE_HI_MASK (hi_to_reg val)

/-- `xip::checked_read_mip` (csr.h:1113). -/
def checked_read_mip (c : csrs_clint_pend) : Nat :=
  reg_to_lo (mip_routed_read_64 c)

/-- `xip::checked_read_sip` (csr.h:1117). -/
def checked_read_sip (tc : TrapCodes) (c : csrs_clint_pend) : Nat :=
  reg_to_lo (sip_routed_read_64 tc c)

/-- `xip::checked_read_hip` (csr.h:1121). -/
def checked_read_hip (c : csrs_clint_pend) : Nat :=
  reg_to_lo (mip_routed_read_64 c &&& HIP_READ_MASK)

/-- `xip::vsip_routed_read_64` (csr.h:1064). -/
def vsip_routed_read_64 (tc : TrapCodes) (c : csrs_clint_pend) : Nat :=
  let sip := not64 MIx_LEVELED_MASK &&& sip_routed_read_64 tc c
  let hip := MIx_LEVELED_MASK &&& checked_read_hip c
  let delegated := (vs_route_masks c).1 &&& (sip ||| hip)
  let injected := (vs_route_masks c).2 &&& c.hvirt.hvip
  read_64 (delegated ||| injected) (VSIP_READ_MASK tc)

/-- `xip::hip_routed_write_32` (csr.h:1105); `val` is a `uint32_t`. -/
def hip_routed_write_32 (c : csrs_clint_pend) (write_mask val : Nat) : csrs_clint_pend :=
  { c with mip := write_lo c.mip (write_mask &&& HIP_WRITE_MASK) val }

/-- `xip::vsip_routed_write_64<write_mask>` (csr.h:1079). -/
def vsip_routed_write_64 (tc : TrapCodes) (c : csrs_clint_pend) (write_mask value : Nat) :
    csrs_clint_pend :=
  let value := vs_to_m_bits value
  let delegated := (vs_route_masks c).1
  let injected := (vs_route_masks c).2
  let delegated_mask := write_mask &&& VSIP_WRITE_DELEGATED_MASK &&& delegated
  let c1 := sip_routed_write_64 tc c delegated_mask value
  let c2 := hip_routed_write_32 c1 delegated_mask (value % 2 ^ 32);
  { c2 with hvirt :=
      { c2.hvirt with
        hvip := write_64 c2.hvirt.hvip (write_mask &&& VSIP_WRITE_INJECTED_MASK tc &&& injected) value } }

/-- `xip::checked_write_vsip` (csr.h:1092). -/
def checked_write_vsip (tc : TrapCodes) (c : csrs_clint_pend) (val : Nat) : csrs_clint_pend :=
  vsip_routed_write_64 tc c WRITE_LO_MASK (lo_to_reg val)

/-- `xip::checked_write_vsiph` (csr.h:1096). -/
def checked_write_vsiph (tc : TrapCodes) (c : csrs_clint_pend) (val : Nat) : csrs_clint_pend :=
  vsip_routed_write_64 tc c WRITE_HI_MASK (hi_to_reg val)

/-- `xip::checked_write_mip` (csr.h:1101). -/
def checked_write_mip (c : csrs_clint_pend) (val : Nat) : csrs_clint_pend :=
  { c with mip := write_lo c.mip MIP_WRITE_MASK val }

/-- `xip::checked_write_hip` (csr.h:1109). -/
def checked_write_hip (c : csrs_clint_pend) (val : Nat) : csrs_clint_pend :=
  hip_routed_write_32 c WRITE_LO_MASK val

/-- `xip::checked_read_vsip` (csr.h:1126). -/
def checked_read_vsip (tc : TrapCodes) (c : csrs_clint_pend) : Nat :=
  reg_to_lo (m_to_vs_bits (vsip_routed_read_64 tc c))

/-- `xip::checked_write_miph` (csr.h:1131). -/
def checked_write_miph (c : csrs_clint_pend) (val : Nat) : csrs_clint_pend :=
  { c with mip := write_hi c.mip MIP_WRITE_MASK val }

/-- `xip::checked_read_miph` (csr.h:1135). -/
def checked_read_miph (c : csrs_clint_pend) : Nat :=
  reg_to_hi (mip_routed_read_64 c)

/-- `xip::checked_read_siph` (csr.h:1139). -/
def checked_read_siph (tc : TrapCodes) (c : csrs_clint_pend) : Nat :=
  reg_to_hi (sip_routed_read_64 tc c)

/-- `xip::checked_read_vsiph` (csr.h:1143). -/
def checked_read_vsiph (tc : TrapCodes) (c : csrs_clint_pend) : Nat :=
  reg_to_hi (m_to_vs_bits (vsip_routed_read_64 tc c))

/-- `xip::hw_write_mip` (csr.h:1147): the new state and the `edge` flag.  `set << iid` is
the `bool` promoted to `int` and shifted. -/
def hw_write_mip (c : csrs_clint_pend) (iid : Nat) (set : Bool) : csrs_clint_pend × Bool :=
  let reg_before := c.mip
  let reg_after := write_64 c.mip (MIP_READ_MASK &&& BIT iid) ((if set then 1 else 0) <<< iid)
  let edge := (reg_before &&& BIT iid) == 0 && (reg_after &&& BIT iid) == BIT iid
  ({ c with mip := reg_after }, edge)

/-! ### `csrs_mvirt`, `csrs_hvirt`, `csr_mideleg`, `csr_hideleg` accessors -/

def checked_write_mvien (tc : TrapCodes) (c : csrs_clint_pend) (val : Nat) : csrs_clint_pend :=
  { c with mvirt := { c.mvirt with mvien := write_lo c.mvirt.mvien (MVIEN_MASK tc) val } }
def checked_read_mvien (tc : TrapCodes) (c : csrs_clint_pend) : Nat :=
  read_lo c.mvirt.mvien (MVIEN_MASK tc)
def checked_write_mvip (tc : TrapCodes) (c : csrs_clint_pend) (val : Nat) : csrs_clint_pend :=
  { c with mvirt := { c.mvirt with mvip := write_lo c.mvirt.mvip (MVIP_MASK tc) val } }
def checked_read_mvip (tc : TrapCodes) (c : csrs_clint_pend) : Nat :=
  read_lo c.mvirt.mvip (MVIP_MASK tc)
def checked_write_mvienh (tc : TrapCodes) (c : csrs_clint_pend) (val : Nat) : csrs_clint_pend :=
  { c with mvirt := { c.mvirt with mvien := write_hi c.mvirt.mvien (MVIEN_MASK tc) val } }
def checked_read_mvienh (tc : TrapCodes) (c : csrs_clint_pend) : Nat :=
  read_hi c.mvirt.mvien (MVIEN_MASK tc)
def checked_write_mviph (tc : TrapCodes) (c : csrs_clint_pend) (val : Nat) : csrs_clint_pend :=
  { c with mvirt := { c.mvirt with mvip := write_hi c.mvirt.mvip (MVIP_MASK tc) val } }
def checked_read_mviph (tc : TrapCodes) (c : csrs_clint_pend) : Nat :=
  read_hi c.mvirt.mvip (MVIP_MASK tc)

def checked_write_hvien (tc : TrapCodes) (c : csrs_clint_pend) (val : Nat) : csrs_clint_pend :=
  { c with hvirt := { c.hvirt with hvien := write_lo c.hvirt.hvien (HVIEN_MASK tc) val } }
def checked_read_hvien (tc : TrapCodes) (c : csrs_clint_pend) : Nat :=
  read_lo c.hvirt.hvien (HVIEN_MASK tc)
def checked_write_hvip (tc : TrapCodes) (c : csrs_clint_pend) (val : Nat) : csrs_clint_pend :=
  { c with hvirt := { c.hvirt with hvip := write_lo c.hvirt.hvip (HVIP_MASK tc) val } }
def checked_read_hvip (tc : TrapCodes) (c : csrs_clint_pend) : Nat :=
  read_lo c.hvirt.hvip (HVIP_MASK tc)
def checked_write_hvienh (tc : TrapCodes) (c : csrs_clint_pend) (val : Nat) : csrs_clint_pend :=
  { c with hvirt := { c.hvirt with hvien := write_hi c.hvirt.hvien (HVIEN_MASK tc) val } }
def checked_read_hvienh (tc : TrapCodes) (c : csrs_clint_pend) : Nat :=
  read_hi c.hvirt.hvien (HVIEN_MASK tc)
def checked_write_hviph (tc : TrapCodes) (c : csrs_clint_pend) (val : Nat) : csrs_clint_pend :=
  { c with hvirt := { c.hvirt with hvip := write_hi c.hvirt.hvip (HVIP_MASK tc) val } }
def checked_read_hviph (tc : TrapCodes) (c : csrs_clint_pend) : Nat :=
  read_hi c.hvirt.hvip (HVIP_MASK tc)

def checked_read_mideleg_64 (c : csrs_clint_pend) : Nat :=
  read_64 c.mideleg MIDELEG_READ_MASK
def checked_write_mideleg (c : csrs_clint_pend) (val : Nat) : csrs_clint_pend :=
  { c with mideleg := write_lo c.mideleg MIDELEG_WRITE_MASK val }
def checked_read_mideleg (c : csrs_clint_pend) : Nat :=
  read_lo c.mideleg MIDELEG_READ_MASK
def checked_write_midelegh (c : csrs_clint_pend) (val : Nat) : csrs_clint_pend :=
  { c with mideleg := write_hi c.mideleg MIDELEG_WRITE_MASK val }
def checked_read_midelegh (c : csrs_clint_pend) : Nat :=
  read_hi c.mideleg MIDELEG_READ_MASK

def checked_write_hideleg (c : csrs_clint_pend) (val : Nat) : csrs_clint_pend :=
  { c with hideleg := write_lo c.hideleg (HIDELEG_MASK &&& hideleg_m_extra_mask c) val }
def checked_read_hideleg (c : csrs_clint_pend) : Nat :=
  read_lo c.hideleg (HIDELEG_MASK &&& hideleg_m_extra_mask c)
def checked_write_hidelegh (c : csrs_clint_pend) (val : Nat) : csrs_clint_pend :=
  { c with hideleg := write_hi c.hideleg (HIDELEG_MASK &&& hideleg_m_extra_mask c) val }
def checked_read_hidelegh (c : csrs_clint_pend) : Nat :=
  read_hi c.hideleg (HIDELEG_MASK &&& hideleg_m_extra_mask c)

/-- `is_iid_injected` (csr.h:1386) for the three interrupt-capable levels. -/
def is_iid_injected (c : csrs_clint_pend) (level iid : Nat) : Bool :=
  if level = MachineMode then false
  else if level = SupervisorMode then ((s_route_masks c).2 &&& BIT iid) != 0
  else false

/-- The constructed state: every register zero except `mideleg.reg = HIE_MASK`
(csr.h:1330). -/
def init : csrs_clint_pend :=
  { mie := 0, mip := 0
    mvirt := { mvien := 0, mvip := 0, shadow_enables := 0 }
    hvirt := { hvien := 0, hvip := 0, shadow_enables := 0 }
    mideleg := HIE_MASK, hideleg := 0 }

/-- Every register holds a 64-bit value. -/
def WF (c : csrs_clint_pend) : Prop :=
  c.mie < 2 ^ 64 ∧ c.mip < 2 ^ 64 ∧ c.mvirt.mvien < 2 ^ 64 ∧ c.mvirt.mvip < 2 ^ 64 ∧
  c.mvirt.shadow_enables < 2 ^ 64 ∧ c.hvirt.hvien < 2 ^ 64 ∧ c.hvirt.hvip < 2 ^ 64 ∧
  c.hvirt.shadow_enables < 2 ^ 64 ∧ c.mideleg < 2 ^ 64 ∧ c.hideleg < 2 ^ 64

instance (c : csrs_clint_pend) : Decidable c.WF := by
  unfold WF; infer_instance

end csrs_clint_pend

/-! ## Declarations outside the sources -/

/-- Declarations of `trap-codes.h` and `irq-prio.h` (namespace `major_irq`) that the
embedded code uses and that are not part of the sources: the local cause numbers and the two
renumbering helpers between Supervisor and VS interrupt ids; and the constant
`SMPU_NREGIONS`, the number of SMPU regions mapped into the Supervisor and guest tables,
which the sources use without defining it.  They are parameters of the model. -/
structure IrqDecls where
  codes : TrapCodes
  transform_s_to_vs : Nat → Bool × Nat
  transform_vs_to_s : Nat → Nat
  SMPU_NREGIONS : Nat

/-- The type `irq_cprio` of `irq-prio.h`, which is not part of the sources: the combined
priority of an interrupt.  The embedded code uses the object built from the constant
`irq_cprio::LOWEST_NONEXISTING_CPRIO`, the constructors with two arguments `(level, eiid)`,
three arguments `(level, iid, iprio)` and four arguments `(level, iid, prio, dpr)`,
`operator<`, `is_non_existing` and `to_iprio`.  They are parameters of the model. -/
structure CprioDecls where
  irq_cprio : Type
  LOWEST_NONEXISTING_CPRIO : irq_cprio
  mk2 : Nat → Nat → irq_cprio
  mk3 : Nat → Nat → Nat → irq_cprio
  mk4 : Nat → Nat → Nat → Nat → irq_cprio
  lt : irq_cprio → irq_cprio → Bool
  is_non_existing : irq_cprio → Bool
  to_iprio : irq_cprio → Nat

/-- Modelled from the spec: `major_irq::MAX_INTERRUPTS_NUM` (irq-prio.h is not part of the
sources); the spec fixes "64 major IDs", and `icsr_iprio_arr` keeps one presence bit per id
in a `uint64_t`. -/
def MAX_INTERRUPTS_NUM : Nat := 64

/-- Modelled from the spec: `major_irq::get_external_iid` (irq-prio.h is not part of the
sources), the level's own external-interrupt cause: Machine 11, Supervisor 9, VS 10. -/
def get_external_iid (level : Nat) : Nat :=
  if level = MachineMode then EXC_M_EXTERNAL_INTERRUPT
  else if level = SupervisorMode then EXC_S_EXTERNAL_INTERRUPT
  else EXC_VS_EXTERNAL_INTERRUPT

/-! ## Guest numbering (csr.h:494-514) -/

/-- `vgein_to_id` (csr.h:495), on `uint32_t`. -/
def vgein_to_id (vgein : Nat) : Nat :=
  let id := (vgein + 2 ^ 32 - 1) % 2 ^ 32
  if id > MAX_GUEST - 1 then MAX_GUEST - 1 else id

/-- `id_to_vgein` (csr.h:506), on `uint32_t`. -/
def id_to_vgein (id : Nat) : Nat :=
  let vgein := (id + 1) % 2 ^ 32
  if vgein = 0 ∨ vgein > MAX_GUEST then MAX_GUEST else vgein

/-! ## Plain registers with bit fields -/

/-- Bits `lo .. lo+width-1` of a register. -/
def get_field (reg lo width : Nat) : Nat := (reg >>> lo) % 2 ^ width

/-- Assignment to the bit field `lo .. lo+width-1` of a 32-bit register: the value is
truncated to the field width, the other bits are kept. -/
def set_field (reg lo width val : Nat) : Nat :=
  (reg &&& not32 ((2 ^ width - 1) <<< lo)) ||| ((val % 2 ^ width) <<< lo)

/-- `csr_mtvec` (csr.h:719). -/
structure csr_mtvec where
  reg : Nat
deriving Repr, DecidableEq

namespace csr_mtvec
def Direct : Nat := 0
def Vectored : Nat := 1
def SnpsNestedVectored : Nat := 3
/-- `fields.mode`. -/
def mode (t : csr_mtvec) : Nat := get_field t.reg 0 2
/-- `get_base_address` (csr.h:728): `fields.base << 2` as a `uint32_t`. -/
def get_base_address (t : csr_mtvec) : Nat := (get_field t.reg 2 30 <<< 2) % 2 ^ 32
/-- `checked_write` (csr.h:734). -/
def checked_write (_t : csr_mtvec) (val : Nat) : csr_mtvec :=
  let t1 : csr_mtvec := { reg := val }
  if t1.mode ≠ Direct ∧ t1.mode ≠ Vectored ∧ t1.mode ≠ SnpsNestedVectored then
    { reg := set_field t1.reg 0 2 SnpsNestedVectored }
  else t1
end csr_mtvec

/-- `csr_mcause` (csr.h:1474). -/
structure csr_mcause where
  reg : Nat
deriving Repr, DecidableEq

namespace csr_mcause
def exception_code (c : csr_mcause) : Nat := get_field c.reg 0 31
def interrupt (c : csr_mcause) : Nat := get_field c.reg 31 1
end csr_mcause

namespace csr_mstatus
/-- `csr_mstatus::fields.sie` (csr.h:603), bit 1 of the register. -/
def sie (reg : Nat) : Nat := get_field reg 1 1
/-- `csr_mstatus::fields.mie`, bit 3 of the register. -/
def mie (reg : Nat) : Nat := get_field reg 3 1
end csr_mstatus

namespace csr_vsstatus
/-- `csr_vsstatus::fields.sie` (csr.h:632), bit 1 of the register. -/
def sie (reg : Nat) : Nat := get_field reg 1 1
end csr_vsstatus

/-- `csr_hstatus` (csr.h:670). -/
structure csr_hstatus where
  reg : Nat
deriving Repr, DecidableEq

namespace csr_hstatus
def HSTATUS_MASK : Nat := 0b00000000011101111111001111100000
/-- `fields.vgein`: six bits from bit 12. -/
def vgein (h : csr_hstatus) : Nat := get_field h.reg 12 6
def get_vgein (h : csr_hstatus) : Nat := h.vgein
def get_guest_id (h : csr_hstatus) : Nat := vgein_to_id h.vgein
def is_imsic_connected (h : csr_hstatus) : Bool := h.vgein != 0
/-- `checked_write` (csr.h:691). -/
def checked_write (h : csr_hstatus) (value : Nat) : csr_hstatus :=
  let h1 : csr_hstatus := { reg := (h.reg &&& not32 HSTATUS_MASK) ||| (value &&& HSTATUS_MASK) }
  if h1.vgein ≥ MAX_GUEST then { reg := set_field h1.reg 12 6 MAX_GUEST } else h1
def VGEIN_FIRST_GUEST : Nat := 1
def MAX_VGEIN_BANKS : Nat := MAX_GUEST + VGEIN_FIRST_GUEST
end csr_hstatus

/-- `csr_topei` (csr.h:1578): `iprio` in bits 0..7, `iid` in bits 16..27. -/
structure csr_topei where
  reg : Nat
deriving Repr, DecidableEq

namespace csr_topei
def iprio (t : csr_topei) : Nat := get_field t.reg 0 8
def iid (t : csr_topei) : Nat := get_field t.reg 16 12
end csr_topei

/-- `csr_topi` (csr.h:1566): `iprio` in bits 0..7, `iid` in bits 16..21. -/
structure csr_topi where
  reg : Nat
deriving Repr, DecidableEq

namespace csr_topi
def iprio (t : csr_topi) : Nat := get_field t.reg 0 8
def iid (t : csr_topi) : Nat := get_field t.reg 16 6
/-- The two assignments `fields.iid = exc; fields.iprio = iprio;` of `recalc_xtopi`. -/
def set_iid_iprio (t : csr_topi) (exc iprio : Nat) : csr_topi :=
  { reg := set_field (set_field t.reg 16 6 exc) 0 8 iprio }
end csr_topi

/-- `csr_hgeip` (csr.h:1590). -/
structure csr_hgeip where
  reg : Nat
deriving Repr, DecidableEq

namespace csr_hgeip
def HGIP_MASK : Nat := GENMASK MAX_GUEST 1
def checked_write (h : csr_hgeip) (_val : Nat) : csr_hgeip := h
def checked_read (h : csr_hgeip) : Nat := h.reg &&& HGIP_MASK
/-- `set_guest_pending` (csr.h:1599); the store to the `uint32_t` register truncates. -/
def set_guest_pending (h : csr_hgeip) (id : Nat) (val : Bool) : csr_hgeip :=
  let vgein := id_to_vgein id
  { reg := ((h.reg &&& not64 (BIT vgein)) ||| ((if val then 1 else 0) <<< vgein)) % 2 ^ 32 }
end csr_hgeip

/-- `csr_hgeie` (csr.h:1616). -/
structure csr_hgeie where
  reg : Nat
deriving Repr, DecidableEq

namespace csr_hgeie
def HGEIE_MASK : Nat := GENMASK MAX_GUEST 1
def checked_write (h : csr_hgeie) (val : Nat) : csr_hgeie :=
  { reg := (h.reg &&& not32 HGEIE_MASK) ||| (val &&& HGEIE_MASK) }
def checked_read (h : csr_hgeie) : Nat := h.reg &&& HGEIE_MASK
end csr_hgeie

/-- `csr_hvictl` (csr.h:1633): `iprio` bits 0..7, `ipriom` bit 8, `dpr` bit 9, `iid` bits
16..27, `vti` bit 30. -/
structure csr_hvictl where
  reg : Nat
deriving Repr, DecidableEq

namespace csr_hvictl
def HVICTL_MASK : Nat := 0b1000000111111110000001111111111
def iprio (h : csr_hvictl) : Nat := get_field h.reg 0 8
def ipriom (h : csr_hvictl) : Nat := get_field h.reg 8 1
def dpr (h : csr_hvictl) : Nat := get_field h.reg 9 1
def iid (h : csr_hvictl) : Nat := get_field h.reg 16 12
def vti (h : csr_hvictl) : Nat := get_field h.reg 30 1
def checked_write (h : csr_hvictl) (val : Nat) : csr_hvictl :=
  { reg := (h.reg &&& not32 HVICTL_MASK) ||| (val &&& HVICTL_MASK) }
def checked_read (h : csr_hvictl) : Nat := h.reg &&& HVICTL_MASK
/-- `get_s_iid` (csr.h:1655) returns a `uint8_t`. -/
def get_s_iid (h : csr_hvictl) : Nat := h.iid % 2 ^ 8
def get_prio (h : csr_hvictl) : Nat := h.iprio
def is_vti_active (h : csr_hvictl) : Bool := h.vti != 0
def is_external_injected (h : csr_hvictl) : Bool :=
  h.get_s_iid == EXC_S_EXTERNAL_INTERRUPT && h.iprio != 0
def is_local_injected (h : csr_hvictl) : Bool :=
  h.is_vti_active && h.get_s_iid != EXC_S_EXTERNAL_INTERRUPT
def is_ipriom_full_mode (h : csr_hvictl) : Bool := h.ipriom != 0
end csr_hvictl

/-! ## Indirect registers of the interrupt files (csr.h:1893-2146) -/

/-- `icsr_32` (csr.h:1900). -/
structure icsr_32 where
  reg : Nat
  mask : Nat
deriving Repr, DecidableEq

namespace icsr_32
def BITS_PER_CSR : Nat := 32
def checked_write (r : icsr_32) (val : Nat) : icsr_32 :=
  { r with reg := (r.reg &&& not32 r.mask) ||| (val &&& r.mask) }
def checked_read (r : icsr_32) : Nat := r.reg &&& r.mask
end icsr_32

/-- `icsr_32::checked_write(val)` on element `k` of an `eip`/`eie` array, the register that
`register_mapping_icsr[icsr_addr_eip0 + k]` (or `icsr_addr_eie0 + k`) points to. -/
def array_checked_write (arr : List icsr_32) (k val : Nat) : List icsr_32 :=
  arr.set k ((arr.getD k { reg := 0, mask := 0 }).checked_write val)

/-- `icsr_eidelivery` (csr.h:1915); its `mask` is the constant `0x1`. -/
structure icsr_eidelivery where
  reg : Nat
deriving Repr, DecidableEq

namespace icsr_eidelivery
def mask : Nat := 0x1
def checked_write (_d : icsr_eidelivery) (val : Nat) : icsr_eidelivery := { reg := val &&& mask }
def checked_read (d : icsr_eidelivery) : Nat := d.reg &&& mask
/-- `delivery_on` (csr.h:1924): the one-bit field `delivery`. -/
def delivery_on (d : icsr_eidelivery) : Bool := get_field d.reg 0 1 != 0
end icsr_eidelivery

/-- `icsr_eithreshold` (csr.h:1940). -/
structure icsr_eithreshold where
  reg : Nat
  mode_snps_vectored : Bool
  thresholds : List Bool
  threshold_tail : Nat
deriving Repr, DecidableEq

/-- `is_upper_bound_valid_minor_iid` (irq-helpers.h:10). -/
def is_upper_bound_valid_minor_iid (minor_iid : Nat) : Bool :=
  if minor_iid ≥ IMSIC_MAX_IRQS then false else true

/-- `is_valid_minor_iid` (irq-helpers.h:17). -/
def is_valid_minor_iid (minor_iid : Nat) : Bool :=
  if minor_iid ≥ IMSIC_MAX_IRQS then false
  else if minor_iid = 0 then false
  else true

/-- `minor_iid_correct_top` (irq-helpers.h:28). -/
def minor_iid_correct_top (minor_iid : Nat) : Nat :=
  if minor_iid ≥ IMSIC_MAX_IRQS then IMSIC_MAX_IRQS - 1 else minor_iid

namespace icsr_eithreshold

/-- `read_snps_vectored` (csr.h:1978). -/
def read_snps_vectored (t : icsr_eithreshold) : Nat := t.reg

/-- `is_tailed_iid` (csr.h:1982). -/
def is_tailed_iid (minor_iid : Nat) : Bool := decide (minor_iid > NV_MODE_MAX_VECTOR)

/-- `is_reg_unstackable` (csr.h:2006). -/
def is_reg_unstackable (t : icsr_eithreshold) : Bool := t.reg == 0 || is_tailed_iid t.reg

/-- `tstack_insert` (csr.h:2012). -/
def tstack_insert (t : icsr_eithreshold) (minor_iid : Nat) : icsr_eithreshold :=
  if t.is_reg_unstackable then { t with reg := minor_iid }
  else
    let t1 := { t with thresholds := t.thresholds.set t.reg true }
    if t1.reg > minor_iid then { t1 with reg := minor_iid } else t1

/-- `tstack_put_tail` (csr.h:2027). -/
def tstack_put_tail (t : icsr_eithreshold) (minor_iid : Nat) : icsr_eithreshold :=
  let t1 := { t with threshold_tail := minor_iid }
  if t1.is_reg_unstackable then { t1 with reg := minor_iid } else t1

/-- The `for` loop of `tstack_pop` (csr.h:2036): `n` indices remain, `i` is the current one;
the result is the first index found set. -/
def tstack_pop_scan (thresholds : List Bool) : Nat → Nat → Option Nat
  | 0, _ => none
  | n + 1, i => if thresholds.getD i false then some i else tstack_pop_scan thresholds n (i + 1)

/-- `tstack_pop` (csr.h:2035). -/
def tstack_pop (t : icsr_eithreshold) : icsr_eithreshold :=
  match tstack_pop_scan t.thresholds NV_MODE_MAX_VECTOR 1 with
  | some i => { t with thresholds := t.thresholds.set i false, reg := i }
  | none => { t with reg := t.threshold_tail }

/-- `write_snps_vectored` (csr.h:1986). -/
def write_snps_vectored (t : icsr_eithreshold) (val : Nat) : icsr_eithreshold :=
  if val = 0 then t.tstack_pop
  else if is_tailed_iid val then t.tstack_put_tail val
  else t.tstack_insert val

/-- `update_with_new_irq_snps_vectored` (csr.h:1996). -/
def update_with_new_irq_snps_vectored (t : icsr_eithreshold) (minor_iid : Nat) :
    icsr_eithreshold :=
  if is_tailed_iid minor_iid then t.tstack_insert NV_MODE_MAX_VECTOR
  else t.tstack_insert minor_iid

/-- `checked_write` (csr.h:1944). -/
def checked_write (t : icsr_eithreshold) (val : Nat) : icsr_eithreshold :=
  if is_upper_bound_valid_minor_iid val then
    if t.mode_snps_vectored then t.write_snps_vectored val
    else { t with reg := val }
  else t

/-- `checked_read` (csr.h:1956). -/
def checked_read (t : icsr_eithreshold) : Nat :=
  if t.mode_snps_vectored then t.read_snps_vectored else t.reg

/-- `set_mode_snps_vectored` (csr.h:1963). -/
def set_mode_snps_vectored (t : icsr_eithreshold) (mode : Nat) : icsr_eithreshold :=
  { t with mode_snps_vectored := mode == csr_mtvec.SnpsNestedVectored }

/-- `update_with_new_irq` (csr.h:1967). -/
def update_with_new_irq (t : icsr_eithreshold) (minor_iid : Nat) : icsr_eithreshold :=
  if t.mode_snps_vectored then t.update_with_new_irq_snps_vectored minor_iid else t

/-- `mark_irq_as_handled` (csr.h:1973). -/
def mark_irq_as_handled (t : icsr_eithreshold) : icsr_eithreshold := t.tstack_pop

end icsr_eithreshold

/-- `icsr_iprio_arr` (csr.h:2068). -/
structure icsr_iprio_arr where
  static_mask : Nat
  dynamic_mask : Nat
  iprio : List Nat
deriving Repr, DecidableEq

namespace icsr_iprio_arr
/-- `is_iprio_present` (csr.h:2132). -/
def is_iprio_present (a : icsr_iprio_arr) (iid : Nat) : Bool :=
  (a.static_mask &&& a.dynamic_mask &&& BIT iid) != 0
/-- `get_iprio` (csr.h:2114), a `uint8_t`. -/
def get_iprio (a : icsr_iprio_arr) (iid : Nat) : Nat :=
  if a.is_iprio_present iid then a.iprio.getD iid 0 else 0
/-- `set_iprio` (csr.h:2122); `value` is a `uint8_t`. -/
def set_iprio (a : icsr_iprio_arr) (iid value : Nat) : icsr_iprio_arr :=
  if a.is_iprio_present iid then { a with iprio := a.iprio.set iid (value % 2 ^ 8) } else a
/-- `mark_present_in_hw` (csr.h:2104). -/
def mark_present_in_hw (a : icsr_iprio_arr) (iid : Nat) : icsr_iprio_arr :=
  { a with static_mask := a.static_mask ||| BIT iid }
/-- `update_dynamic_presence` (csr.h:2110). -/
def update_dynamic_presence (a : icsr_iprio_arr) (new_mask : Nat) : icsr_iprio_arr :=
  { a with dynamic_mask := new_mask }

def icsr_addr_iprio0 : Nat := 0x30
/-- `iprio_reg::PRIO_PER_IPRIO_CSR`. -/
def PRIO_PER_IPRIO_CSR : Nat := 4
def iprio_csr_arr_size : Nat := MAX_INTERRUPTS_NUM / PRIO_PER_IPRIO_CSR

/-- `icsr_iprio::checked_write` (csr.h:2074) of the register `iprio_icsr_regs[index]`: byte
`i` of `val` goes to the priority of id `index * 4 + i`. -/
def icsr_iprio_checked_write (a : icsr_iprio_arr) (index val : Nat) : icsr_iprio_arr :=
  (List.range PRIO_PER_IPRIO_CSR).foldl
    (fun a i => a.set_iprio (index * PRIO_PER_IPRIO_CSR + i) ((val >>> (8 * i)) % 2 ^ 8)) a

/-- `icsr_iprio::checked_read` (csr.h:2083) of the register `iprio_icsr_regs[index]`. -/
def icsr_iprio_checked_read (a : icsr_iprio_arr) (index : Nat) : Nat :=
  (List.range PRIO_PER_IPRIO_CSR).foldl
    (fun reg i => reg ||| (a.get_iprio (index * PRIO_PER_IPRIO_CSR + i) <<< (8 * i))) 0
end icsr_iprio_arr

/-- `icsr_ms_table` (csr.h:2763): the Machine or Supervisor interrupt file. -/
structure icsr_ms_table where
  iprio : icsr_iprio_arr
  eidelivery : icsr_eidelivery
  eithreshold : icsr_eithreshold
  eip : List icsr_32
  eie : List icsr_32
deriving Repr, DecidableEq

/-- `icsr_ms_table::eip_eie_arr_size`. -/
def eip_eie_arr_size : Nat := IMSIC_MAX_IRQS / icsr_32.BITS_PER_CSR

/-- `icsr_vs_table::bank` (csr.h:2878): one guest interrupt file. -/
structure icsr_vs_bank where
  eidelivery : icsr_eidelivery
  eithreshold : icsr_eithreshold
  eip : List icsr_32
  eie : List icsr_32
deriving Repr, DecidableEq

/-- `icsr_vs_table` (csr.h:2870): `iprio` holds the `MAX_VGEIN_BANKS` priority banks of
`vs_iprio_banks`, `bank` the `MAX_GUEST` guest files. -/
structure icsr_vs_table where
  iprio : List icsr_iprio_arr
  bank : List icsr_vs_bank
deriving Repr, DecidableEq

/-! ## The hart -/

/-- The registers of `csr_table` (csr.h:2304) that the interrupt code reads or writes. -/
structure csr_table where
  mstatus : Nat
  vsstatus : Nat
  mcounteren : Nat
  scounteren : Nat
  mtvec : csr_mtvec
  stvec : csr_mtvec
  vstvec : csr_mtvec
  clint : csrs_clint_pend
  mtopi : csr_topi
  stopi : csr_topi
  vstopi : csr_topi
  mtopei : csr_topei
  stopei : csr_topei
  vstopei : csr_topei
  hstatus : csr_hstatus
  hvictl : csr_hvictl
  hgeip : csr_hgeip
  hgeie : csr_hgeie
  mcause : csr_mcause
  scause : csr_mcause
  vscause : csr_mcause
  miselect : Nat
  siselect : Nat
  vsiselect : Nat
deriving Repr, DecidableEq

/-- `PendingIvtAccess` (iss.h:164). -/
structure PendingIvtAccess where
  pending : Bool
  entry_address : Nat
deriving Repr, DecidableEq

/-- The part of `ISS` (iss.h:169) that the interrupt code reads or writes. -/
structure ISS where
  csrs : csr_table
  icsrs_m : icsr_ms_table
  icsrs_s : icsr_ms_table
  icsrs_vs : icsr_vs_table
  prv : Nat
  pc : Nat
  ivt_access : PendingIvtAccess
  error_on_zero_traphandler : Bool
deriving Repr, DecidableEq

/-- `PendingInterrupts` (iss.h:158). -/
structure PendingInterrupts where
  m_pending : Nat
  s_hs_pending : Nat
  vs_pending : Nat
deriving Repr, DecidableEq

namespace ISS

def m_mode (s : ISS) : Bool := s.prv == MachineMode
def s_mode (s : ISS) : Bool := s.prv == SupervisorMode
def vs_mode (s : ISS) : Bool := s.prv == VirtualSupervisorMode
def u_mode (s : ISS) : Bool := s.prv == UserMode

/-- `get_xtvec` (iss.cpp:2452). -/
def get_xtvec (s : ISS) (level : Nat) : csr_mtvec :=
  if level = MachineMode then s.csrs.mtvec
  else if level = SupervisorMode then s.csrs.stvec
  else s.csrs.vstvec

/-- `get_topei` (iss.cpp:2464). -/
def get_topei (s : ISS) (level : Nat) : csr_topei :=
  if level = MachineMode then s.csrs.mtopei
  else if level = SupervisorMode then s.csrs.stopei
  else s.csrs.vstopei

/-- `set_topei` (iss.cpp:2476): both fields of the level's `xtopei` receive `eiid`. -/
def set_topei (s : ISS) (level eiid : Nat) : ISS :=
  let upd (t : csr_topei) : csr_topei := { reg := set_field (set_field t.reg 16 12 eiid) 0 8 eiid }
  if level = MachineMode then { s with csrs := { s.csrs with mtopei := upd s.csrs.mtopei } }
  else if level = SupervisorMode then { s with csrs := { s.csrs with stopei := upd s.csrs.stopei } }
  else { s with csrs := { s.csrs with vstopei := upd s.csrs.vstopei } }

/-- `is_irq_mode_snps_nested_vectored` (iss.cpp:3123). -/
def is_irq_mode_snps_nested_vectored (s : ISS) (target_mode : Nat) : Bool :=
  (s.get_xtvec target_mode).mode == csr_mtvec.SnpsNestedVectored

/-- `compute_clint_pending_irq_bits_per_level` (iss.cpp:3249). -/
def compute_clint_pending_irq_bits_per_level (d : IrqDecls) (s : ISS) : PendingInterrupts :=
  let c := s.csrs.clint
  let m_pending := c.mie &&& c.mip &&& not64 c.checked_read_mideleg_64
  let s_pending := c.sip_routed_read_64 d.codes &&& c.sie_routed_read_64 d.codes
  let hs_pending := c.checked_read_hip &&& c.checked_read_hie
  let s_hs_pending := (s_pending ||| hs_pending) &&& not64 c.checked_read_hideleg_64
  let vs_pending := c.vsip_routed_read_64 d.codes &&& c.vsie_routed_read_64 d.codes
  let vs_pending :=
    if s.csrs.hvictl.is_local_injected then
      let vs_pending := vs_pending &&& BIT EXC_VS_EXTERNAL_INTERRUPT
      let r := d.transform_s_to_vs s.csrs.hvictl.get_s_iid
      if r.1 then vs_pending ||| BIT r.2 else vs_pending
    else vs_pending
  { m_pending := m_pending, s_hs_pending := s_hs_pending, vs_pending := vs_pending }

/-- `process_clint_pending_irq_bits_per_level` (iss.cpp:3272). -/
def process_clint_pending_irq_bits_per_level (s : ISS) (pendings : PendingInterrupts) :
    PendingInterrupts :=
  let p := pendings
  let p := if s.is_irq_mode_snps_nested_vectored MachineMode then
      { p with m_pending := p.m_pending &&& BIT EXC_M_EXTERNAL_INTERRUPT } else p
  let p := if s.is_irq_mode_snps_nested_vectored SupervisorMode then
      { p with s_hs_pending := p.s_hs_pending &&& BIT EXC_S_EXTERNAL_INTERRUPT } else p
  let p := if s.is_irq_mode_snps_nested_vectored VirtualSupervisorMode then
      { p with vs_pending := p.vs_pending &&& BIT EXC_VS_EXTERNAL_INTERRUPT } else p
  p

end ISS

/-! ## The external interrupt files (iss.cpp:2549-2660) -/

/-- Bit scan used by `builtin_ctz`. -/
def ctz_loop : Nat → Nat → Nat
  | 0, _ => 0
  | fuel + 1, x => if x % 2 = 1 then 0 else 1 + ctz_loop fuel (x / 2)

/-- The compiler intrinsic `__builtin_ctz`: the number of trailing zero bits of a non-zero
32-bit value. -/
def builtin_ctz (x : Nat) : Nat := ctz_loop 32 x

/-- The `reg` of word `i` of an `eip`/`eie` array. -/
def word_reg (arr : List icsr_32) (i : Nat) : Nat := (arr.getD i { reg := 0, mask := 0 }).reg

/-- `ISS::imsic_update_eip_bit` (iss.cpp:2549).  The stores go to a `uint32_t`. -/
def imsic_update_eip_bit (eip : List icsr_32) (value : Nat) (set_bit : Bool) : List icsr_32 :=
  if value = 0 then eip
  else
    let eip_arr_idx := value / icsr_32.BITS_PER_CSR
    let eip_bit := value % icsr_32.BITS_PER_CSR
    let w := eip.getD eip_arr_idx { reg := 0, mask := 0 }
    if set_bit then
      eip.set eip_arr_idx { w with reg := (w.reg ||| BIT eip_bit) % 2 ^ 32 }
    else
      eip.set eip_arr_idx { w with reg := (w.reg &&& not64 (BIT eip_bit)) % 2 ^ 32 }

/-- `NO_IRQ_PENDING` of `compute_imsic_pending`. -/
def NO_IRQ_PENDING : Nat := IMSIC_MAX_IRQS * 2

/-- The `for` loop of `compute_imsic_pending` (iss.cpp:2590): `n` words remain, `i` is the
current word; the result is `active_iid_num`. -/
def imsic_scan (eip eie : List icsr_32) : Nat → Nat → Nat
  | 0, _ => NO_IRQ_PENDING
  | n + 1, i =>
    let ext_pend := word_reg eip i &&& word_reg eie i
    if ext_pend ≠ 0 then i * icsr_32.BITS_PER_CSR + builtin_ctz ext_pend
    else imsic_scan eip eie n (i + 1)

/-- `ISS::compute_imsic_pending` (iss.cpp:2569): `(irq_pending, topei_val)`. -/
def compute_imsic_pending (eip eie : List icsr_32) (size : Nat) (eithreshold : icsr_eithreshold)
    (eidelivery : icsr_eidelivery) (nested_vectored : Bool) : Bool × Nat :=
  if !eidelivery.delivery_on then (false, 0)
  else
    let eithreshold_value := eithreshold.reg
    let eithreshold_value := if eithreshold_value = 0 then IMSIC_MAX_IRQS else eithreshold_value
    let active_iid_num := imsic_scan eip eie size 0
    let threshold_matched : Bool := decide (active_iid_num < eithreshold_value)
    let irq_pending := threshold_matched
    let topei_val := if threshold_matched || nested_vectored then active_iid_num else 0
    (irq_pending, topei_val)

namespace ISS

/-- Store into `csrs.clint.mip` through `xip::hw_write_mip`. -/
def hw_write_mip (s : ISS) (iid : Nat) (set : Bool) : ISS :=
  { s with csrs := { s.csrs with clint := (s.csrs.clint.hw_write_mip iid set).1 } }

/-- `compute_imsic_pending_interrupts_m` (iss.cpp:2617). -/
def compute_imsic_pending_interrupts_m (s : ISS) : ISS :=
  let nv := s.is_irq_mode_snps_nested_vectored MachineMode
  let r := compute_imsic_pending s.icsrs_m.eip s.icsrs_m.eie eip_eie_arr_size
    s.icsrs_m.eithreshold s.icsrs_m.eidelivery nv
  (s.hw_write_mip EXC_M_EXTERNAL_INTERRUPT r.1).set_topei MachineMode r.2

/-- `compute_imsic_pending_interrupts_s` (iss.cpp:2625). -/
def compute_imsic_pending_interrupts_s (s : ISS) : ISS :=
  let nv := s.is_irq_mode_snps_nested_vectored SupervisorMode
  let r := compute_imsic_pending s.icsrs_s.eip s.icsrs_s.eie eip_eie_arr_size
    s.icsrs_s.eithreshold s.icsrs_s.eidelivery nv
  (s.hw_write_mip EXC_S_EXTERNAL_INTERRUPT r.1).set_topei SupervisorMode r.2

/-- An empty guest file, the value of an out-of-range bank index. -/
def no_bank : icsr_vs_bank :=
  { eidelivery := { reg := 0 }
    eithreshold := { reg := 0, mode_snps_vectored := false, thresholds := [], threshold_tail := 0 }
    eip := [], eie := [] }

/-- One iteration of the loop of `compute_imsic_pending_interrupts_vs` (iss.cpp:2639): the
state and the `(vs_pend[i], vs_eiid[i])` computed so far. -/
def vs_bank_step (acc : ISS × List (Bool × Nat)) (i : Nat) : ISS × List (Bool × Nat) :=
  let s := acc.1
  let nv := s.is_irq_mode_snps_nested_vectored VirtualSupervisorMode
  let bank := s.icsrs_vs.bank.getD i no_bank
  let r := compute_imsic_pending bank.eip bank.eie eip_eie_arr_size bank.eithreshold
    bank.eidelivery nv
  ({ s with csrs := { s.csrs with hgeip := s.csrs.hgeip.set_guest_pending i r.1 } }, acc.2 ++ [r])

/-- `recalc_sgeip` (iss.cpp:3085); `hw` stands for `clint_hw_irq_route`. -/
def recalc_sgeip (hw : ISS → Nat → Bool → Option ISS) (s : ISS) : Option ISS :=
  let pending := s.csrs.hgeip.checked_read &&& s.csrs.hgeie.checked_read
  hw s EXC_S_GUEST_EXTERNAL_INTERRUPT (pending != 0)

/-- `compute_imsic_pending_interrupts_vs` (iss.cpp:2633). -/
def compute_imsic_pending_interrupts_vs (hw : ISS → Nat → Bool → Option ISS) (s : ISS) :
    Option ISS :=
  let acc := (List.range MAX_GUEST).foldl vs_bank_step (s, [])
  match recalc_sgeip hw acc.1 with
  | none => none
  | some s2 =>
    if s2.csrs.hstatus.is_imsic_connected then
      let current_guest := s2.csrs.hstatus.get_guest_id
      let r := acc.2.getD current_guest (false, 0)
      some ((s2.hw_write_mip EXC_VS_EXTERNAL_INTERRUPT r.1).set_topei VirtualSupervisorMode r.2)
    else
      some ((s2.set_topei VirtualSupervisorMode 0).hw_write_mip EXC_VS_EXTERNAL_INTERRUPT false)

/-- `get_iprio` (iss.cpp:2993). -/
def get_iprio (d : IrqDecls) (s : ISS) (level iid : Nat) : Nat :=
  if level = MachineMode then s.icsrs_m.iprio.get_iprio iid
  else if level = SupervisorMode then s.icsrs_s.iprio.get_iprio iid
  else
    let iid := d.transform_vs_to_s iid
    (s.icsrs_vs.iprio.getD s.csrs.hstatus.get_vgein
      { static_mask := 0, dynamic_mask := 0, iprio := [] }).get_iprio iid

/-- `route_imsic_write` (iss.cpp:2862). -/
def route_imsic_write (hw : ISS → Nat → Bool → Option ISS) (s : ISS)
    (target_imsic guest_index value : Nat) : Option ISS :=
  if value = 0 then some s
  else if target_imsic = MachineMode then
    some (compute_imsic_pending_interrupts_m
      { s with icsrs_m := { s.icsrs_m with eip := imsic_update_eip_bit s.icsrs_m.eip value true } })
  else if target_imsic = SupervisorMode then
    some (compute_imsic_pending_interrupts_s
      { s with icsrs_s := { s.icsrs_s with eip := imsic_update_eip_bit s.icsrs_s.eip value true } })
  else if target_imsic = VirtualSupervisorMode then
    let bank := s.icsrs_vs.bank.getD guest_index no_bank
    let bank := { bank with eip := imsic_update_eip_bit bank.eip value true }
    compute_imsic_pending_interrupts_vs hw
      { s with icsrs_vs := { s.icsrs_vs with bank := s.icsrs_vs.bank.set guest_index bank } }
  else some s

/-- `deliver_pending_to_imsic` (iss.cpp:2821); `owner` is the level found by the first
`if` chain together with the `edge` flag. -/
def deliver_pending_to_imsic (hw : ISS → Nat → Bool → Option ISS) (d : IrqDecls) (s : ISS)
    (prev_pendings new_pendings : PendingInterrupts) (iid : Nat) : Option ISS :=
  let owner : Option (Nat × Bool) :=
    if new_pendings.m_pending &&& BIT iid ≠ 0 then
      some (MachineMode, csrs_clint_pend.pendings_edge_detected prev_pendings.m_pending
        new_pendings.m_pending iid)
    else if new_pendings.s_hs_pending &&& BIT iid ≠ 0 then
      some (SupervisorMode, csrs_clint_pend.pendings_edge_detected prev_pendings.s_hs_pending
        new_pendings.s_hs_pending iid)
    else if new_pendings.vs_pending &&& BIT iid ≠ 0 then
      some (VirtualSupervisorMode, csrs_clint_pend.pendings_edge_detected
        prev_pendings.vs_pending new_pendings.vs_pending iid)
    else none
  match owner with
  | none => some s
  | some (imsic_level, edge) =>
    if !edge then some s
    else if iid = get_external_iid imsic_level then some s
    else if !s.is_irq_mode_snps_nested_vectored imsic_level then some s
    else if imsic_level = VirtualSupervisorMode ∧ !s.csrs.hstatus.is_imsic_connected then some s
    else
      let minor_iid := s.get_iprio d imsic_level iid
      let current_guest := s.csrs.hstatus.get_guest_id
      route_imsic_write hw s imsic_level current_guest minor_iid

/-- `cascade_pendings_to_imsics` (iss.cpp:2808). -/
def cascade_pendings_to_imsics (hw : ISS → Nat → Bool → Option ISS) (d : IrqDecls) (s : ISS)
    (pendings_1 : PendingInterrupts) : Option ISS :=
  let pendings_2 := s.compute_clint_pending_irq_bits_per_level d
  match deliver_pending_to_imsic hw d s pendings_1 pendings_2 EXC_VS_EXTERNAL_INTERRUPT with
  | none => none
  | some s1 =>
    let pendings_3 := s1.compute_clint_pending_irq_bits_per_level d
    deliver_pending_to_imsic hw d s1 pendings_2 pendings_3 EXC_S_EXTERNAL_INTERRUPT

/-- `deliver_clint_changes_to_imsics(old_pendings_0, iid)` (iss.cpp:2801). -/
def deliver_clint_changes_to_imsics_iid (hw : ISS → Nat → Bool → Option ISS) (d : IrqDecls)
    (s : ISS) (old_pendings_0 : PendingInterrupts) (iid : Nat) : Option ISS :=
  let pendings_1 := s.compute_clint_pending_irq_bits_per_level d
  match deliver_pending_to_imsic hw d s old_pendings_0 pendings_1 iid with
  | none => none
  | some s1 => cascade_pendings_to_imsics hw d s1 pendings_1

/-- `deliver_clint_changes_to_imsics(old_pendings_0)` (iss.cpp:2789). -/
def deliver_clint_changes_to_imsics (hw : ISS → Nat → Bool → Option ISS) (d : IrqDecls)
    (s : ISS) (old_pendings_0 : PendingInterrupts) : Option ISS :=
  let pendings_1 := s.compute_clint_pending_irq_bits_per_level d
  let looped := (List.range MAX_INTERRUPTS_NUM).foldl
    (fun (acc : Option ISS) iid =>
      match acc with
      | none => none
      | some s1 => deliver_pending_to_imsic hw d s1 old_pendings_0 pendings_1 iid)
    (some s)
  match looped with
  | none => none
  | some s1 => cascade_pendings_to_imsics hw d s1 pendings_1

/-- `clint_hw_irq_route` (iss.cpp:2663).  It reaches itself again through
`route_imsic_write`, `compute_imsic_pending_interrupts_vs` and `recalc_sgeip`; `fuel` bounds
the depth of that recursion and `none` means the bound was reached. -/
def clint_hw_irq_route (d : IrqDecls) : Nat → ISS → Nat → Bool → Option ISS
  | 0, _, _, _ => none
  | fuel + 1, s, iid, set =>
    let old_pendings_0 := s.compute_clint_pending_irq_bits_per_level d
    let s1 := s.hw_write_mip iid set
    deliver_clint_changes_to_imsics_iid (clint_hw_irq_route d fuel) d s1 old_pendings_0 iid

/-- `iprio_icsr_access_adjust` (iss.cpp:2677). -/
def iprio_icsr_access_adjust (s : ISS) : ISS :=
  { s with
    icsrs_s := { s.icsrs_s with
      iprio := s.icsrs_s.iprio.update_dynamic_presence s.csrs.clint.s_irqs_present }
    icsrs_vs := { s.icsrs_vs with
      iprio := s.icsrs_vs.iprio.map
        (fun bank => bank.update_dynamic_presence s.csrs.clint.vs_irqs_present) } }

end ISS

/-! ## Claiming and taking interrupts (iss.cpp:2157-2184, 2440-2548, 3128-3160, 3355-3415) -/

namespace ISS

/-- `update_interrupt_mode` (iss.cpp:2157). -/
def update_interrupt_mode (s : ISS) (level : Nat) : ISS :=
  if level = MachineMode then
    { s with icsrs_m := { s.icsrs_m with
        eithreshold := s.icsrs_m.eithreshold.set_mode_snps_vectored s.csrs.mtvec.mode } }
  else if level = VirtualSupervisorMode then
    if s.csrs.hstatus.is_imsic_connected then
      let current_guest := s.csrs.hstatus.get_guest_id
      let bank := s.icsrs_vs.bank.getD current_guest no_bank
      { s with icsrs_vs := { s.icsrs_vs with
          bank := s.icsrs_vs.bank.set current_guest
            { bank with
              eithreshold := bank.eithreshold.set_mode_snps_vectored s.csrs.vstvec.mode } } }
    else s
  else if level = SupervisorMode then
    { s with icsrs_s := { s.icsrs_s with
        eithreshold := s.icsrs_s.eithreshold.set_mode_snps_vectored s.csrs.stvec.mode } }
  else s

/-- `on_xtvec_write` (iss.cpp:2182). -/
def on_xtvec_write (s : ISS) (level : Nat) : ISS := s.update_interrupt_mode level

/-- `on_guest_switch` (iss.cpp:2612). -/
def on_guest_switch (hw : ISS → Nat → Bool → Option ISS) (s : ISS) : Option ISS :=
  compute_imsic_pending_interrupts_vs hw (s.update_interrupt_mode VirtualSupervisorMode)

/-- `get_xcause` (iss.cpp:2440). -/
def get_xcause (s : ISS) (level : Nat) : csr_mcause :=
  if level = MachineMode then s.csrs.mcause
  else if level = SupervisorMode then s.csrs.scause
  else s.csrs.vscause

/-- `claim_topei_interrupt` (iss.cpp:2511); `hw` stands for `clint_hw_irq_route`. -/
def claim_topei_interrupt (hw : ISS → Nat → Bool → Option ISS) (s : ISS)
    (target_level : Nat) (mark_irq_handled : Bool) : Option ISS :=
  let topei_iid := (s.get_topei target_level).iid
  if target_level = MachineMode then
    let s1 : ISS :=
      if mark_irq_handled then
        { s with icsrs_m := { s.icsrs_m with
            eithreshold := s.icsrs_m.eithreshold.mark_irq_as_handled } }
      else
        { s with icsrs_m := { s.icsrs_m with
            eip := imsic_update_eip_bit s.icsrs_m.eip topei_iid false } }
    some s1.compute_imsic_pending_interrupts_m
  else if target_level = SupervisorMode then
    let s1 : ISS :=
      if mark_irq_handled then
        { s with icsrs_s := { s.icsrs_s with
            eithreshold := s.icsrs_s.eithreshold.mark_irq_as_handled } }
      else
        { s with icsrs_s := { s.icsrs_s with
            eip := imsic_update_eip_bit s.icsrs_s.eip topei_iid false } }
    some s1.compute_imsic_pending_interrupts_s
  else
    let s1 : ISS :=
      if s.csrs.hstatus.is_imsic_connected then
        let current_guest := s.csrs.hstatus.get_guest_id
        let bank := s.icsrs_vs.bank.getD current_guest no_bank
        let bank : icsr_vs_bank :=
          if mark_irq_handled then
            { bank with eithreshold := bank.eithreshold.mark_irq_as_handled }
          else { bank with eip := imsic_update_eip_bit bank.eip topei_iid false }
        { s with icsrs_vs := { s.icsrs_vs with bank := s.icsrs_vs.bank.set current_guest bank } }
      else s
    compute_imsic_pending_interrupts_vs hw s1

/-- `claim_topei_interrupt_on_xtopei` (iss.cpp:2497). -/
def claim_topei_interrupt_on_xtopei (hw : ISS → Nat → Bool → Option ISS) (s : ISS)
    (target_level value : Nat) (access_write_only : Bool) : Option ISS :=
  let mark_irq_handled :=
    s.is_irq_mode_snps_nested_vectored target_level && value == 0 && access_write_only
  claim_topei_interrupt hw s target_level mark_irq_handled

/-- `claim_topei_interrupt_internal` (iss.cpp:2507). -/
def claim_topei_interrupt_internal (hw : ISS → Nat → Bool → Option ISS) (s : ISS)
    (target_level : Nat) : Option ISS :=
  claim_topei_interrupt hw s target_level false

/-- `notify_irq_taken` (iss.cpp:3128); the `default: assert(false)` arm returns the state. -/
def notify_irq_taken (hw : ISS → Nat → Bool → Option ISS) (s : ISS) (target_mode : Nat) :
    Option ISS :=
  let topei_iid := (s.get_topei target_mode).iid
  if target_mode = MachineMode then
    if s.is_irq_mode_snps_nested_vectored target_mode then
      claim_topei_interrupt_internal hw
        { s with icsrs_m := { s.icsrs_m with
            eithreshold := s.icsrs_m.eithreshold.update_with_new_irq topei_iid } } target_mode
    else some s
  else if target_mode = SupervisorMode then
    if s.is_irq_mode_snps_nested_vectored target_mode &&
        !s.csrs.clint.is_iid_injected target_mode EXC_S_EXTERNAL_INTERRUPT then
      claim_topei_interrupt_internal hw
        { s with icsrs_s := { s.icsrs_s with
            eithreshold := s.icsrs_s.eithreshold.update_with_new_irq topei_iid } } target_mode
    else some s
  else if target_mode = VirtualSupervisorMode then
    if s.csrs.hstatus.is_imsic_connected && s.is_irq_mode_snps_nested_vectored target_mode then
      let current_guest := s.csrs.hstatus.get_guest_id
      let bank := s.icsrs_vs.bank.getD current_guest no_bank
      claim_topei_interrupt_internal hw
        { s with icsrs_vs := { s.icsrs_vs with
            bank := s.icsrs_vs.bank.set current_guest
              { bank with eithreshold := bank.eithreshold.update_with_new_irq topei_iid } } }
        target_mode
    else some s
  else some s

/-- `set_pending_ivt` (iss.cpp:3355). -/
def set_pending_ivt (s : ISS) (address : Nat) : ISS :=
  { s with ivt_access := { pending := true, entry_address := address } }

/-- `nv_mode_get_ivt_line_num` (iss.cpp:3373). -/
def nv_mode_get_ivt_line_num (s : ISS) (base_mode : Nat) : Nat :=
  let xtopei := (s.get_topei base_mode).iid
  let xtopei :=
    if base_mode = SupervisorMode ∧
        s.csrs.clint.is_iid_injected SupervisorMode EXC_S_EXTERNAL_INTERRUPT then 256
    else xtopei
  if xtopei ≥ NV_MODE_MAX_VECTOR then NV_MODE_MAX_VECTOR else xtopei

/-- `verify_m_trap_vector` (iss.cpp:3342): `true` when it throws `std::runtime_error`. -/
def verify_m_trap_vector (s : ISS) (mtvec_base_addr : Nat) : Bool :=
  mtvec_base_addr == 0 && s.error_on_zero_traphandler

/-- `jump_to_trap_vector` (iss.cpp:3390).  The additions are on `uint32_t`.  `none` when
`verify_m_trap_vector` throws or when the recursion bound of `hw` was reached. -/
def jump_to_trap_vector (hw : ISS → Nat → Bool → Option ISS) (s : ISS) (base_mode : Nat) :
    Option ISS :=
  let xtvec_ptr_size := 4
  let xtvec := s.get_xtvec base_mode
  let xcause := s.get_xcause base_mode
  let xtvec_base := xtvec.get_base_address
  if base_mode = MachineMode ∧ s.verify_m_trap_vector xtvec_base then none
  else
    let is_interrupt : Bool := xcause.interrupt != 0
    let s1 : ISS :=
      if is_interrupt ∧ xtvec.mode = csr_mtvec.Vectored then
        { s with pc := (xtvec_base + xtvec_ptr_size * xcause.exception_code) % 2 ^ 32 }
      else if is_interrupt ∧ xtvec.mode = csr_mtvec.SnpsNestedVectored then
        s.set_pending_ivt
          ((xtvec_base + xtvec_ptr_size * s.nv_mode_get_ivt_line_num base_mode) % 2 ^ 32)
      else if ¬ is_interrupt ∧ xtvec.mode = csr_mtvec.SnpsNestedVectored then
        s.set_pending_ivt xtvec_base
      else { s with pc := xtvec_base }
    if is_interrupt then notify_irq_taken hw s1 base_mode else some s1

end ISS

/-! ## Top interrupt of each level (iss.cpp:2943-3121, 3162-3172, 3232-3247) -/

namespace ISS

/-- `get_external_cprio_generic` (iss.cpp:2943). -/
def get_external_cprio_generic (cp : CprioDecls) (s : ISS) (level : Nat) : cp.irq_cprio :=
  cp.mk2 level (s.get_topei level).iid

/-- `get_external_cprio_256` (iss.cpp:2947). -/
def get_external_cprio_256 (cp : CprioDecls) (level : Nat) : cp.irq_cprio := cp.mk2 level 256

/-- `get_external_cprio` (iss.cpp:2951). -/
def get_external_cprio (cp : CprioDecls) (s : ISS) (level : Nat) : cp.irq_cprio :=
  if level = SupervisorMode ∧
      s.csrs.clint.is_iid_injected SupervisorMode EXC_S_EXTERNAL_INTERRUPT = true then
    get_external_cprio_256 cp level
  else if level = VirtualSupervisorMode then
    if s.csrs.hstatus.is_imsic_connected then
      if (s.get_topei level).reg ≠ 0 then s.get_external_cprio_generic cp level
      else get_external_cprio_256 cp level
    else
      if s.csrs.hvictl.is_external_injected then cp.mk2 level s.csrs.hvictl.iprio
      else get_external_cprio_256 cp level
  else s.get_external_cprio_generic cp level

/-- `get_local_cprio` (iss.cpp:2978). -/
def get_local_cprio (cp : CprioDecls) (d : IrqDecls) (s : ISS) (level iid : Nat) :
    cp.irq_cprio :=
  if level = VirtualSupervisorMode ∧ s.csrs.hvictl.is_local_injected = true ∧
      d.transform_vs_to_s iid = s.csrs.hvictl.get_s_iid then
    cp.mk4 level iid s.csrs.hvictl.get_prio s.csrs.hvictl.dpr
  else cp.mk3 level iid (s.get_iprio d level iid)

/-- `major_irq_to_prio` (iss.cpp:3013). -/
def major_irq_to_prio (cp : CprioDecls) (d : IrqDecls) (s : ISS) (target_level iid : Nat) :
    cp.irq_cprio :=
  if target_level = MachineMode ∧ iid = EXC_M_EXTERNAL_INTERRUPT then
    s.get_external_cprio cp MachineMode
  else if target_level = SupervisorMode ∧ iid = EXC_S_EXTERNAL_INTERRUPT then
    s.get_external_cprio cp SupervisorMode
  else if target_level = VirtualSupervisorMode ∧ iid = EXC_VS_EXTERNAL_INTERRUPT then
    s.get_external_cprio cp VirtualSupervisorMode
  else s.get_local_cprio cp d target_level iid

/-- One iteration of the loop of `major_irq_prepare_iid_prio` (iss.cpp:3063): the pair
`(cprio, iid)` after looking at bit `i`. -/
def major_irq_step (cp : CprioDecls) (d : IrqDecls) (s : ISS) (level levels_pending : Nat)
    (acc : cp.irq_cprio × Nat) (i : Nat) : cp.irq_cprio × Nat :=
  if levels_pending &&& BIT i ≠ 0 then
    let new_cprio := s.major_irq_to_prio cp d level i
    if cp.lt new_cprio acc.1 then (new_cprio, i) else acc
  else acc

/-- `major_irq_prepare_iid_prio` (iss.cpp:3059): `(iid, iprio)`, the second component a
`uint8_t`; `none` when it throws `std::runtime_error`. -/
def major_irq_prepare_iid_prio (cp : CprioDecls) (d : IrqDecls) (s : ISS)
    (level levels_pending : Nat) : Option (Nat × Nat) :=
  let r := (List.range MAX_INTERRUPTS_NUM).foldl (s.major_irq_step cp d level levels_pending)
    (cp.LOWEST_NONEXISTING_CPRIO, 0)
  if cp.is_non_existing r.1 then none
  else some (r.2, cp.to_iprio r.1 % 2 ^ 8)

/-- The conditions asserted by `sanitize_vs_external_pend` (iss.cpp:3032), which does nothing
else. -/
def sanitize_vs_external_pend (s : ISS) (irqs_pend : PendingInterrupts) : Prop :=
  let vs_ext_irq := BIT EXC_VS_EXTERNAL_INTERRUPT
  let non_ext_irqs := not64 (BIT EXC_M_EXTERNAL_INTERRUPT ||| BIT EXC_S_EXTERNAL_INTERRUPT |||
    BIT EXC_VS_EXTERNAL_INTERRUPT)
  irqs_pend.m_pending &&& vs_ext_irq = 0 ∧
  ((s.csrs.hstatus.is_imsic_connected = false ∧
      s.csrs.clint.hvirt.hvip &&& BIT EXC_VS_EXTERNAL_INTERRUPT = 0) →
    irqs_pend.s_hs_pending &&& vs_ext_irq = 0 ∧ irqs_pend.vs_pending &&& vs_ext_irq = 0) ∧
  (s.is_irq_mode_snps_nested_vectored MachineMode = true →
    irqs_pend.m_pending &&& non_ext_irqs = 0) ∧
  (s.is_irq_mode_snps_nested_vectored SupervisorMode = true →
    irqs_pend.s_hs_pending &&& non_ext_irqs = 0) ∧
  (s.is_irq_mode_snps_nested_vectored VirtualSupervisorMode = true →
    irqs_pend.vs_pending &&& non_ext_irqs = 0)

/-- `recalc_xtopi` (iss.cpp:3091); the call of `sanitize_vs_external_pend` only asserts.
`none` when `major_irq_prepare_iid_prio` throws. -/
def recalc_xtopi (cp : CprioDecls) (d : IrqDecls) (s : ISS) (irqs_pend : PendingInterrupts) :
    Option ISS :=
  let m : Option csr_topi :=
    if irqs_pend.m_pending ≠ 0 then
      match s.major_irq_prepare_iid_prio cp d MachineMode irqs_pend.m_pending with
      | some r => some (s.csrs.mtopi.set_iid_iprio r.1 r.2)
      | none => none
    else some { reg := 0 }
  match m with
  | none => none
  | some mtopi =>
    let s1 : ISS := { s with csrs := { s.csrs with mtopi := mtopi } }
    let st : Option csr_topi :=
      if irqs_pend.s_hs_pending ≠ 0 then
        match s1.major_irq_prepare_iid_prio cp d SupervisorMode irqs_pend.s_hs_pending with
        | some r => some (s1.csrs.stopi.set_iid_iprio r.1 r.2)
        | none => none
      else some { reg := 0 }
    match st with
    | none => none
    | some stopi =>
      let s2 : ISS := { s1 with csrs := { s1.csrs with stopi := stopi } }
      let vs : Option csr_topi :=
        if irqs_pend.vs_pending ≠ 0 then
          match s2.major_irq_prepare_iid_prio cp d VirtualSupervisorMode
              irqs_pend.vs_pending with
          | some r => some (s2.csrs.vstopi.set_iid_iprio (d.transform_vs_to_s r.1) r.2)
          | none => none
        else some { reg := 0 }
      match vs with
      | none => none
      | some vstopi => some { s2 with csrs := { s2.csrs with vstopi := vstopi } }

/-- `is_irq_globaly_enable_per_level` (iss.cpp:3232); `none` when it throws
`std::runtime_error` in the `default` arm. -/
def is_irq_globaly_enable_per_level (s : ISS) (target_mode : Nat) : Option Bool :=
  if target_mode = MachineMode then
    some (s.prv != MachineMode ||
      (s.prv == MachineMode && csr_mstatus.mie s.csrs.mstatus != 0))
  else if target_mode = SupervisorMode then
    some ((s.prv != MachineMode && s.prv != SupervisorMode) ||
      (s.prv == SupervisorMode && csr_mstatus.sie s.csrs.mstatus != 0))
  else if target_mode = VirtualSupervisorMode then
    some (s.prv == VirtualUserMode ||
      (s.prv == VirtualSupervisorMode && csr_vsstatus.sie s.csrs.vsstatus != 0))
  else none

/-- The test `pending && is_irq_globaly_enable_per_level(level)` of
`compute_pending_interrupt`: the call is made only when `pending` is non-zero. -/
def pending_and_enabled (s : ISS) (pending level : Nat) : Option Bool :=
  if pending ≠ 0 then s.is_irq_globaly_enable_per_level level else some false

/-- `compute_pending_interrupt` (iss.cpp:3162); `none` when
`is_irq_globaly_enable_per_level` throws. -/
def compute_pending_interrupt (s : ISS) (irqs_pend : PendingInterrupts) : Option Nat :=
  match s.pending_and_enabled irqs_pend.m_pending MachineMode with
  | none => none
  | some true => some MachineMode
  | some false =>
    match s.pending_and_enabled irqs_pend.s_hs_pending SupervisorMode with
    | none => none
    | some true => some SupervisorMode
    | some false =>
      match s.pending_and_enabled irqs_pend.vs_pending VirtualSupervisorMode with
      | none => none
      | some true => some VirtualSupervisorMode
      | some false => some NoneMode

end ISS

/-! ## CSR access (iss.cpp:1366-2155) -/

/-- The two guest-visible exceptions the interrupt code raises (`trap-codes.h`). -/
inductive Exc where
  | EXC_ILLEGAL_INSTR
  | EXC_VIRTUAL_INSTRUCTION
deriving Repr, DecidableEq

/-- Outcome of a CSR access: a value and the new state; a trap raised by `raise_trap` with
the state at the moment of the `throw`; `out_of_fuel` when the recursion bound of
`clint_hw_irq_route` was reached; `other_arm` for an address whose `switch` arm is not
embedded here. -/
inductive Result (α : Type) where
  | ok (val : α) (s : ISS)
  | trap (e : Exc) (s : ISS)
  | out_of_fuel
  | other_arm
deriving Repr, DecidableEq

namespace csr
def CSR_TYPE_U : Nat := 0b00
def CSR_TYPE_S : Nat := 0b01
def CSR_TYPE_HS_VS : Nat := 0b10
def CSR_TYPE_M : Nat := 0b11
def CSR_TYPE_MASK : Nat := 0x300
def CSR_TYPE_SHIFT : Nat := 8

def MIP_ADDR : Nat := 0x344
def MIPH_ADDR : Nat := 0x354
def SIP_ADDR : Nat := 0x144
def SIPH_ADDR : Nat := 0x154
def HIP_ADDR : Nat := 0x644
def VSIP_ADDR : Nat := 0x244
def VSIPH_ADDR : Nat := 0x254
def MIE_ADDR : Nat := 0x304
def MIEH_ADDR : Nat := 0x314
def SIE_ADDR : Nat := 0x104
def SIEH_ADDR : Nat := 0x114
def HIE_ADDR : Nat := 0x604
def VSIE_ADDR : Nat := 0x204
def VSIEH_ADDR : Nat := 0x214
def MVIP_ADDR : Nat := 0x309
def MVIPH_ADDR : Nat := 0x319
def MVIEN_ADDR : Nat := 0x308
def MVIENH_ADDR : Nat := 0x318
def HVIP_ADDR : Nat := 0x645
def HVIPH_ADDR : Nat := 0x655
def HVIEN_ADDR : Nat := 0x608
def HVIENH_ADDR : Nat := 0x618
def MIDELEG_ADDR : Nat := 0x303
def MIDELEGH_ADDR : Nat := 0x313
def HIDELEG_ADDR : Nat := 0x603
def HIDELEGH_ADDR : Nat := 0x613

def MTVEC_ADDR : Nat := 0x305
def STVEC_ADDR : Nat := 0x105
def VSTVEC_ADDR : Nat := 0x205
def HVICTL_ADDR : Nat := 0x609
def HGEIE_ADDR : Nat := 0x607
def HGEIP_ADDR : Nat := 0xE12
def MTOPEI_ADDR : Nat := 0x35C
def STOPEI_ADDR : Nat := 0x15C
def VSTOPEI_ADDR : Nat := 0x25C
def MISELECT_ADDR : Nat := 0x350
def MIREG_ADDR : Nat := 0x351
def MIREG2_ADDR : Nat := 0x352
def MIREG3_ADDR : Nat := 0x353
def MIREG4_ADDR : Nat := 0x355
def MIREG5_ADDR : Nat := 0x356
def MIREG6_ADDR : Nat := 0x357
def SISELECT_ADDR : Nat := 0x150
def SISELECT_MASK : Nat := 0xFFF
def SIREG_ADDR : Nat := 0x151
def SIREG2_ADDR : Nat := 0x152
def SIREG3_ADDR : Nat := 0x153
def SIREG4_ADDR : Nat := 0x155
def SIREG5_ADDR : Nat := 0x156
def SIREG6_ADDR : Nat := 0x157
def VSISELECT_ADDR : Nat := 0x250
def VSISELECT_MASK : Nat := 0xFFF
def VSIREG_ADDR : Nat := 0x251
def VSIREG2_ADDR : Nat := 0x252
def VSIREG3_ADDR : Nat := 0x253
def VSIREG4_ADDR : Nat := 0x255
def VSIREG5_ADDR : Nat := 0x256
def VSIREG6_ADDR : Nat := 0x257

/-- `xireg_to_xselect_offset` (csr.h:459). -/
def xireg_to_xselect_offset (xireg : Nat) : Nat :=
  if xireg = MIREG_ADDR ∨ xireg = SIREG_ADDR ∨ xireg = VSIREG_ADDR then 0
  else if xireg = MIREG2_ADDR ∨ xireg = SIREG2_ADDR ∨ xireg = VSIREG2_ADDR then 1
  else if xireg = MIREG3_ADDR ∨ xireg = SIREG3_ADDR ∨ xireg = VSIREG3_ADDR then 2
  else if xireg = MIREG4_ADDR ∨ xireg = SIREG4_ADDR ∨ xireg = VSIREG4_ADDR then 3
  else if xireg = MIREG5_ADDR ∨ xireg = SIREG5_ADDR ∨ xireg = VSIREG5_ADDR then 4
  else if xireg = MIREG6_ADDR ∨ xireg = SIREG6_ADDR ∨ xireg = VSIREG6_ADDR then 5
  else 0

/-- `csr::is_bitset` (csr.h:36). -/
def is_bitset (reg bitpos : Nat) : Bool := (reg &&& (1 <<< bitpos)) != 0
end csr

/-! ### Indirect registers of the tables (csr.h:2224-2293, 2555-2560, 2761-2945) -/

namespace icsr
def icsr_addr_eidelivery : Nat := 0x70
def icsr_addr_eithreshold : Nat := 0x72
def icsr_addr_eip0 : Nat := 0x80
def icsr_addr_eie0 : Nat := 0xC0
def icsr_addr_smpuaddr0 : Nat := 0x100
def icsr_addr_smpuconf31 : Nat := 0x13F
def icsr_addr_hmpuaddr0 : Nat := 0x180
end icsr

/-- `is_smpuaddr` (csr.h:2291). -/
def is_smpuaddr (addr : Nat) : Bool :=
  decide (addr ≥ icsr.icsr_addr_smpuaddr0 ∧ addr ≤ icsr.icsr_addr_smpuconf31)

/-- The register an entry of `register_mapping_icsr` points to: a priority register
`iprio_icsr_regs[index]`, `eidelivery`, `eithreshold`, `eip[k]`, `eie[k]`, or a register of
the SMPU / HSMPU extension, which is not embedded. -/
inductive icsr_ref where
  | iprio (index : Nat)
  | eidelivery
  | eithreshold
  | eip (k : Nat)
  | eie (k : Nat)
  | smpu
deriving Repr, DecidableEq

/-- The entries every table has for a file: `eidelivery`, `eithreshold`, `eip0 + k`,
`eie0 + k` (csr.h:2833-2842, 2903-2912). -/
def imsic_lookup (addr : Nat) : Option icsr_ref :=
  if addr = icsr.icsr_addr_eidelivery then some icsr_ref.eidelivery
  else if addr = icsr.icsr_addr_eithreshold then some icsr_ref.eithreshold
  else if icsr.icsr_addr_eip0 ≤ addr ∧ addr < icsr.icsr_addr_eip0 + eip_eie_arr_size then
    some (icsr_ref.eip (addr - icsr.icsr_addr_eip0))
  else if icsr.icsr_addr_eie0 ≤ addr ∧ addr < icsr.icsr_addr_eie0 + eip_eie_arr_size then
    some (icsr_ref.eie (addr - icsr.icsr_addr_eie0))
  else none

/-- The entries of `icsr_iprio_arr::map` (csr.h:2097). -/
def iprio_lookup (addr : Nat) : Option icsr_ref :=
  if icsr_iprio_arr.icsr_addr_iprio0 ≤ addr ∧
      addr < icsr_iprio_arr.icsr_addr_iprio0 + icsr_iprio_arr.iprio_csr_arr_size then
    some (icsr_ref.iprio (addr - icsr_iprio_arr.icsr_addr_iprio0))
  else none

/-- An address among `first + 2 * i`, `first + 1 + 2 * i` for `i < nregions`. -/
def smpu_lookup (nregions first addr : Nat) : Option icsr_ref :=
  if first ≤ addr ∧ addr < first + 2 * nregions then some icsr_ref.smpu else none

namespace icsr_ms_table

/-- The map `register_mapping_icsr` built by the constructor `icsr_ms_table(level)`
(csr.h:2784). -/
def lookup (nregions level addr : Nat) : Option icsr_ref :=
  (iprio_lookup addr).orElse fun _ =>
  (imsic_lookup addr).orElse fun _ =>
  if level = SupervisorMode then
    (smpu_lookup nregions icsr.icsr_addr_smpuaddr0 addr).orElse fun _ =>
      smpu_lookup nregions icsr.icsr_addr_hmpuaddr0 addr
  else none

/-- `is_valid_addr` (csr.h:2857). -/
def is_valid_addr (nregions level addr : Nat) : Bool := (lookup nregions level addr).isSome

/-- `checked_read()` of the register a map entry points to; `none` for a register that is
not embedded. -/
def ref_read (t : icsr_ms_table) : icsr_ref → Option Nat
  | icsr_ref.iprio index => some (t.iprio.icsr_iprio_checked_read index)
  | icsr_ref.eidelivery => some t.eidelivery.checked_read
  | icsr_ref.eithreshold => some t.eithreshold.checked_read
  | icsr_ref.eip k => some (t.eip.getD k { reg := 0, mask := 0 }).checked_read
  | icsr_ref.eie k => some (t.eie.getD k { reg := 0, mask := 0 }).checked_read
  | icsr_ref.smpu => none

/-- `checked_write(value)` of the register a map entry points to; `none` for a register that
is not embedded. -/
def ref_write (t : icsr_ms_table) (value : Nat) : icsr_ref → Option icsr_ms_table
  | icsr_ref.iprio index => some { t with iprio := t.iprio.icsr_iprio_checked_write index value }
  | icsr_ref.eidelivery => some { t with eidelivery := t.eidelivery.checked_write value }
  | icsr_ref.eithreshold => some { t with eithreshold := t.eithreshold.checked_write value }
  | icsr_ref.eip k => some { t with eip := array_checked_write t.eip k value }
  | icsr_ref.eie k => some { t with eie := array_checked_write t.eie k value }
  | icsr_ref.smpu => none

/-- `default_read32` (csr.h:2867); `none` when the `ensure` fails or the register is not
embedded. -/
def default_read32 (t : icsr_ms_table) (nregions level addr : Nat) : Option Nat :=
  (lookup nregions level addr).bind t.ref_read

/-- `default_write32` (csr.h:2861); `none` when the `ensure` fails or the register is not
embedded. -/
def default_write32 (t : icsr_ms_table) (nregions level addr value : Nat) :
    Option icsr_ms_table :=
  (lookup nregions level addr).bind (t.ref_write value)

end icsr_ms_table

namespace icsr_vs_table

/-- The map `register_mapping_icsr[vgein]` built by the constructor `icsr_vs_table()`
(csr.h:2897); `vgein <= MAX_GUEST` is asserted by the callers. -/
def lookup (nregions addr vgein : Nat) : Option icsr_ref :=
  (iprio_lookup addr).orElse fun _ =>
  if csr_hstatus.VGEIN_FIRST_GUEST ≤ vgein ∧ vgein < csr_hstatus.MAX_VGEIN_BANKS then
    (imsic_lookup addr).orElse fun _ => smpu_lookup nregions icsr.icsr_addr_smpuaddr0 addr
  else none

/-- `is_valid_addr` (csr.h:2921). -/
def is_valid_addr (nregions addr vgein : Nat) : Bool := (lookup nregions addr vgein).isSome

/-- `checked_read()` of the register an entry of `register_mapping_icsr[vgein]` points to. -/
def ref_read (t : icsr_vs_table) (vgein : Nat) : icsr_ref → Option Nat
  | icsr_ref.iprio index =>
    let a := t.iprio.getD vgein { static_mask := 0, dynamic_mask := 0, iprio := [] }
    some (a.icsr_iprio_checked_read index)
  | icsr_ref.eidelivery => some (t.bank.getD (vgein_to_id vgein) ISS.no_bank).eidelivery.checked_read
  | icsr_ref.eithreshold =>
    some (t.bank.getD (vgein_to_id vgein) ISS.no_bank).eithreshold.checked_read
  | icsr_ref.eip k =>
    some ((t.bank.getD (vgein_to_id vgein) ISS.no_bank).eip.getD k
      { reg := 0, mask := 0 }).checked_read
  | icsr_ref.eie k =>
    some ((t.bank.getD (vgein_to_id vgein) ISS.no_bank).eie.getD k
      { reg := 0, mask := 0 }).checked_read
  | icsr_ref.smpu => none

/-- `checked_write(value)` of the register an entry of `register_mapping_icsr[vgein]` points
to. -/
def ref_write (t : icsr_vs_table) (vgein value : Nat) : icsr_ref → Option icsr_vs_table
  | icsr_ref.iprio index =>
    let a := t.iprio.getD vgein { static_mask := 0, dynamic_mask := 0, iprio := [] }
    some { t with iprio := t.iprio.set vgein (a.icsr_iprio_checked_write index value) }
  | icsr_ref.eidelivery =>
    let bank := t.bank.getD (vgein_to_id vgein) ISS.no_bank
    let bank : icsr_vs_bank := { bank with eidelivery := bank.eidelivery.checked_write value }
    some { t with bank := t.bank.set (vgein_to_id vgein) bank }
  | icsr_ref.eithreshold =>
    let bank := t.bank.getD (vgein_to_id vgein) ISS.no_bank
    let bank : icsr_vs_bank := { bank with eithreshold := bank.eithreshold.checked_write value }
    some { t with bank := t.bank.set (vgein_to_id vgein) bank }
  | icsr_ref.eip k =>
    let bank := t.bank.getD (vgein_to_id vgein) ISS.no_bank
    let bank : icsr_vs_bank := { bank with eip := array_checked_write bank.eip k value }
    some { t with bank := t.bank.set (vgein_to_id vgein) bank }
  | icsr_ref.eie k =>
    let bank := t.bank.getD (vgein_to_id vgein) ISS.no_bank
    let bank : icsr_vs_bank := { bank with eie := array_checked_write bank.eie k value }
    some { t with bank := t.bank.set (vgein_to_id vgein) bank }
  | icsr_ref.smpu => none

/-- `default_read32` (csr.h:2933). -/
def default_read32 (t : icsr_vs_table) (nregions addr vgein : Nat) : Option Nat :=
  (lookup nregions addr vgein).bind (t.ref_read vgein)

/-- `default_write32` (csr.h:2926). -/
def default_write32 (t : icsr_vs_table) (nregions addr vgein value : Nat) :
    Option icsr_vs_table :=
  (lookup nregions addr vgein).bind (t.ref_write vgein value)

end icsr_vs_table

namespace ISS

/-- `csr_address_virt_transform` (iss.cpp:1380). -/
def csr_address_virt_transform (s : ISS) (addr : Nat) : Nat :=
  let csr_prv := (csr.CSR_TYPE_MASK &&& addr) >>> csr.CSR_TYPE_SHIFT
  if s.vs_mode && csr_prv == csr.CSR_TYPE_S then
    (addr &&& not32 csr.CSR_TYPE_MASK) ||| (csr.CSR_TYPE_HS_VS <<< csr.CSR_TYPE_SHIFT)
  else addr

/-- `validate_csr_counter_read_access_rights` (iss.cpp:1366): `some` is the raised trap. -/
def validate_csr_counter_read_access_rights (s : ISS) (addr : Nat) : Option Exc :=
  if (addr ≥ 0xC00 ∧ addr ≤ 0xC1F) ∨ (addr ≥ 0xC80 ∧ addr ≤ 0xC9F) then
    let cnt := addr &&& 0x1F
    if s.s_mode && !csr.is_bitset s.csrs.mcounteren cnt then some Exc.EXC_ILLEGAL_INSTR
    else if s.u_mode &&
        (!csr.is_bitset s.csrs.mcounteren cnt || !csr.is_bitset s.csrs.scounteren cnt) then
      some Exc.EXC_ILLEGAL_INSTR
    else none
  else none

/-- `vs_clint_vti_access_check` (iss.cpp:1475): `some` is the raised trap. -/
def vs_clint_vti_access_check (s : ISS) : Option Exc :=
  if !s.csrs.hvictl.is_vti_active then none
  else if s.prv ≠ VirtualSupervisorMode then none
  else some Exc.EXC_VIRTUAL_INSTRUCTION

/-- `vs_csr_icsrs_access_exception` (iss.cpp:1395): the raised trap; `none` is the
`assert(false)` arm. -/
def vs_csr_icsrs_access_exception (s : ISS) : Option Exc :=
  if s.prv = MachineMode ∨ s.prv = SupervisorMode then some Exc.EXC_ILLEGAL_INSTR
  else if s.prv = VirtualSupervisorMode then some Exc.EXC_VIRTUAL_INSTRUCTION
  else none

/-- `vstopei_access_check` (iss.cpp:1406): `some` is the raised trap. -/
def vstopei_access_check (s : ISS) : Option Exc :=
  if !s.csrs.hstatus.is_imsic_connected then s.vs_csr_icsrs_access_exception else none

/-- `vs_icsrs_access_check` (iss.cpp:1411): `some` is the raised trap. -/
def vs_icsrs_access_check (d : IrqDecls) (s : ISS) (icsr_addr : Nat) : Option Exc :=
  let valid_access := icsr_vs_table.is_valid_addr d.SMPU_NREGIONS icsr_addr s.csrs.hstatus.get_vgein
  if valid_access then none else s.vs_csr_icsrs_access_exception

/-- `s_sei_injection_access_check` (iss.cpp:1420): `some` is the raised trap. -/
def s_sei_injection_access_check (s : ISS) : Option Exc :=
  let need_trap := s.prv == SupervisorMode &&
    s.csrs.clint.is_iid_injected SupervisorMode EXC_S_EXTERNAL_INTERRUPT
  if need_trap then some Exc.EXC_ILLEGAL_INSTR else none

/-- `s_icsr_imsic_access_check` (iss.cpp:1429): `some` is the raised trap. -/
def s_icsr_imsic_access_check (s : ISS) (icsr_addr : Nat) : Option Exc :=
  if 0x70 ≤ icsr_addr ∧ icsr_addr ≤ 0xFF then s.s_sei_injection_access_check else none

/-- The register write selected by the `switch` of `on_clint_csr_write` (iss.cpp:2683);
`none` is the `default: assert(false)` arm. -/
def clint_csr_store (tc : TrapCodes) (c : csrs_clint_pend) (addr value : Nat) :
    Option csrs_clint_pend :=
  if addr = csr.MIP_ADDR then some (c.checked_write_mip value)
  else if addr = csr.SIP_ADDR then some (c.checked_write_sip tc value)
  else if addr = csr.HIP_ADDR then some (c.checked_write_hip value)
  else if addr = csr.VSIP_ADDR then some (c.checked_write_vsip tc value)
  else if addr = csr.MIPH_ADDR then some (c.checked_write_miph value)
  else if addr = csr.SIPH_ADDR then some (c.checked_write_siph tc value)
  else if addr = csr.VSIPH_ADDR then some (c.checked_write_vsiph tc value)
  else if addr = csr.MIE_ADDR then some (c.checked_write_mie tc value)
  else if addr = csr.SIE_ADDR then some (c.checked_write_sie tc value)
  else if addr = csr.HIE_ADDR then some (c.checked_write_hie value)
  else if addr = csr.VSIE_ADDR then some (c.checked_write_vsie tc value)
  else if addr = csr.MIEH_ADDR then some (c.checked_write_mieh tc value)
  else if addr = csr.SIEH_ADDR then some (c.checked_write_sieh tc value)
  else if addr = csr.VSIEH_ADDR then some (c.checked_write_vsieh tc value)
  else if addr = csr.MVIP_ADDR then some (c.checked_write_mvip tc value)
  else if addr = csr.MVIPH_ADDR then some (c.checked_write_mviph tc value)
  else if addr = csr.MVIEN_ADDR then some (c.checked_write_mvien tc value)
  else if addr = csr.MVIENH_ADDR then some (c.checked_write_mvienh tc value)
  else if addr = csr.HVIP_ADDR then some (c.checked_write_hvip tc value)
  else if addr = csr.HVIPH_ADDR then some (c.checked_write_hviph tc value)
  else if addr = csr.HVIEN_ADDR then some (c.checked_write_hvien tc value)
  else if addr = csr.HVIENH_ADDR then some (c.checked_write_hvienh tc value)
  else if addr = csr.MIDELEG_ADDR then some (c.checked_write_mideleg value)
  else if addr = csr.MIDELEGH_ADDR then some (c.checked_write_midelegh value)
  else if addr = csr.HIDELEG_ADDR then some (c.checked_write_hideleg value)
  else if addr = csr.HIDELEGH_ADDR then some (c.checked_write_hidelegh value)
  else none

/-- `on_clint_csr_write` (iss.cpp:2681); `none` when `fuel` is exhausted. -/
def on_clint_csr_write (d : IrqDecls) (fuel : Nat) (s : ISS) (addr value : Nat) : Option ISS :=
  let old_pendings_0 := s.compute_clint_pending_irq_bits_per_level d
  let s1 : ISS :=
    match clint_csr_store d.codes s.csrs.clint addr value with
    | some c => { s with csrs := { s.csrs with clint := c } }
    | none => s
  let s2 := s1.iprio_icsr_access_adjust
  deliver_clint_changes_to_imsics (clint_hw_irq_route d fuel) d s2 old_pendings_0

/-- A read arm of `get_csr_value` that begins with `vs_clint_vti_access_check()`. -/
def read_after_vti_check (s : ISS) (v : Nat) : Result Nat :=
  match s.vs_clint_vti_access_check with
  | some e => Result.trap e s
  | none => Result.ok v s

/-- The `MIREG_ADDR` .. `MIREG6_ADDR` arm of `get_csr_value` (iss.cpp:1689). -/
def mireg_read (d : IrqDecls) (s : ISS) (addr : Nat) : Result Nat :=
  let icsr_addr := (s.csrs.miselect + csr.xireg_to_xselect_offset addr) % 2 ^ 32
  if !icsr_ms_table.is_valid_addr d.SMPU_NREGIONS MachineMode icsr_addr then
    Result.trap Exc.EXC_ILLEGAL_INSTR s
  else
    match s.icsrs_m.default_read32 d.SMPU_NREGIONS MachineMode icsr_addr with
    | some v => Result.ok v s
    | none => Result.other_arm

/-- The `SIREG_ADDR` .. `SIREG6_ADDR` arm of `get_csr_value` (iss.cpp:1707). -/
def sireg_read (d : IrqDecls) (s : ISS) (addr : Nat) : Result Nat :=
  let icsr_addr := (s.csrs.siselect + csr.xireg_to_xselect_offset addr) % 2 ^ 32
  if !icsr_ms_table.is_valid_addr d.SMPU_NREGIONS SupervisorMode icsr_addr then
    Result.trap Exc.EXC_ILLEGAL_INSTR s
  else
    match s.s_icsr_imsic_access_check icsr_addr with
    | some e => Result.trap e s
    | none =>
      match s.icsrs_s.default_read32 d.SMPU_NREGIONS SupervisorMode icsr_addr with
      | some v => Result.ok v s
      | none => Result.other_arm

/-- The `VSIREG_ADDR` .. `VSIREG6_ADDR` arm of `get_csr_value` (iss.cpp:1727). -/
def vsireg_read (d : IrqDecls) (s : ISS) (addr : Nat) : Result Nat :=
  let icsr_addr := (s.csrs.vsiselect + csr.xireg_to_xselect_offset addr) % 2 ^ 32
  match s.vs_icsrs_access_check d icsr_addr with
  | some e => Result.trap e s
  | none =>
    match s.icsrs_vs.default_read32 d.SMPU_NREGIONS icsr_addr s.csrs.hstatus.get_vgein with
    | some v => Result.ok v s
    | none => Result.other_arm

/-- A read arm of `get_csr_value` that begins with an access check and then returns `v`. -/
def read_after_check (s : ISS) (check : Option Exc) (v : Nat) : Result Nat :=
  match check with
  | some e => Result.trap e s
  | none => Result.ok v s

/-- `get_csr_value` (iss.cpp:1490), the arms of the interrupt pending / enable / delegation
registers (iss.cpp:1541-1598, 1618-1621), of `hvictl`, `hgeie`, `hgeip`, `stopei`, `vstopei`
(iss.cpp:1609-1632) and of the indirect-access registers (iss.cpp:1689-1738); the other arms
give `other_arm`, as does an indirect access to a register that is not embedded. -/
def get_csr_value (d : IrqDecls) (s : ISS) (addr : Nat) : Result Nat :=
  match s.validate_csr_counter_read_access_rights addr with
  | some e => Result.trap e s
  | none =>
    let addr := s.csr_address_virt_transform addr
    let c := s.csrs.clint
    let tc := d.codes
    if addr = csr.MIP_ADDR then Result.ok c.checked_read_mip s
    else if addr = csr.SIP_ADDR then Result.ok (c.checked_read_sip tc) s
    else if addr = csr.HIP_ADDR then Result.ok c.checked_read_hip s
    else if addr = csr.VSIP_ADDR then s.read_after_vti_check (c.checked_read_vsip tc)
    else if addr = csr.MIPH_ADDR then Result.ok c.checked_read_miph s
    else if addr = csr.SIPH_ADDR then Result.ok (c.checked_read_siph tc) s
    else if addr = csr.VSIPH_ADDR then s.read_after_vti_check (c.checked_read_vsiph tc)
    else if addr = csr.MIE_ADDR then Result.ok (c.checked_read_mie tc) s
    else if addr = csr.SIE_ADDR then Result.ok (c.checked_read_sie tc) s
    else if addr = csr.HIE_ADDR then Result.ok c.checked_read_hie s
    else if addr = csr.VSIE_ADDR then s.read_after_vti_check (c.checked_read_vsie tc)
    else if addr = csr.MIEH_ADDR then Result.ok (c.checked_read_mieh tc) s
    else if addr = csr.SIEH_ADDR then Result.ok (c.checked_read_sieh tc) s
    else if addr = csr.VSIEH_ADDR then s.read_after_vti_check (c.checked_read_vsieh tc)
    else if addr = csr.MVIP_ADDR then Result.ok (c.checked_read_mvip tc) s
    else if addr = csr.MVIPH_ADDR then Result.ok (c.checked_read_mviph tc) s
    else if addr = csr.MVIEN_ADDR then Result.ok (c.checked_read_mvien tc) s
    else if addr = csr.MVIENH_ADDR then Result.ok (c.checked_read_mvienh tc) s
    else if addr = csr.HVIP_ADDR then Result.ok (c.checked_read_hvip tc) s
    else if addr = csr.HVIPH_ADDR then Result.ok (c.checked_read_hviph tc) s
    else if addr = csr.HVIEN_ADDR then Result.ok (c.checked_read_hvien tc) s
    else if addr = csr.HVIENH_ADDR then Result.ok (c.checked_read_hvienh tc) s
    else if addr = csr.HIDELEG_ADDR then Result.ok c.checked_read_hideleg s
    else if addr = csr.HIDELEGH_ADDR then Result.ok c.checked_read_hidelegh s
    else if addr = csr.MIDELEG_ADDR then Result.ok c.checked_read_mideleg s
    else if addr = csr.MIDELEGH_ADDR then Result.ok c.checked_read_midelegh s
    else if addr = csr.HVICTL_ADDR then Result.ok s.csrs.hvictl.checked_read s
    else if addr = csr.HGEIE_ADDR then Result.ok s.csrs.hgeie.checked_read s
    else if addr = csr.HGEIP_ADDR then Result.ok s.csrs.hgeip.checked_read s
    else if addr = csr.STOPEI_ADDR then
      s.read_after_check s.s_sei_injection_access_check s.csrs.stopei.reg
    else if addr = csr.VSTOPEI_ADDR then
      s.read_after_check s.vstopei_access_check s.csrs.vstopei.reg
    else if addr = csr.MIREG_ADDR ∨ addr = csr.MIREG2_ADDR ∨ addr = csr.MIREG3_ADDR ∨
        addr = csr.MIREG4_ADDR ∨ addr = csr.MIREG5_ADDR ∨ addr = csr.MIREG6_ADDR then
      s.mireg_read d addr
    else if addr = csr.SISELECT_ADDR then Result.ok (s.csrs.siselect &&& csr.SISELECT_MASK) s
    else if addr = csr.SIREG_ADDR ∨ addr = csr.SIREG2_ADDR ∨ addr = csr.SIREG3_ADDR ∨
        addr = csr.SIREG4_ADDR ∨ addr = csr.SIREG5_ADDR ∨ addr = csr.SIREG6_ADDR then
      s.sireg_read d addr
    else if addr = csr.VSISELECT_ADDR then
      Result.ok (s.csrs.vsiselect &&& csr.VSISELECT_MASK) s
    else if addr = csr.VSIREG_ADDR ∨ addr = csr.VSIREG2_ADDR ∨ addr = csr.VSIREG3_ADDR ∨
        addr = csr.VSIREG4_ADDR ∨ addr = csr.VSIREG5_ADDR ∨ addr = csr.VSIREG6_ADDR then
      s.vsireg_read d addr
    else Result.other_arm

/-- The call `on_clint_csr_write(addr, value); break;` that ends the interrupt-register arms
of `set_csr_value`. -/
def clint_write_arm (d : IrqDecls) (fuel : Nat) (s : ISS) (addr value : Nat) : Result Unit :=
  match s.on_clint_csr_write d fuel addr value with
  | some s1 => Result.ok () s1
  | none => Result.out_of_fuel

/-- The end of an arm of `set_csr_value` whose last call can reach `clint_hw_irq_route`. -/
def write_arm_result (o : Option ISS) : Result Unit :=
  match o with
  | some s1 => Result.ok () s1
  | none => Result.out_of_fuel

/-- The plain `write(x, mask)` of `set_csr_value` (iss.cpp:1754) on a 32-bit register. -/
def masked_write (reg mask value : Nat) : Nat := (reg &&& not32 mask) ||| (value &&& mask)

/-- The `MIREG_ADDR` .. `MIREG6_ADDR` arm of `set_csr_value` (iss.cpp:1970). -/
def mireg_write (d : IrqDecls) (s : ISS) (addr value : Nat) : Result Unit :=
  let icsr_addr := (s.csrs.miselect + csr.xireg_to_xselect_offset addr) % 2 ^ 32
  if !icsr_ms_table.is_valid_addr d.SMPU_NREGIONS MachineMode icsr_addr then
    Result.trap Exc.EXC_ILLEGAL_INSTR s
  else
    match s.icsrs_m.default_write32 d.SMPU_NREGIONS MachineMode icsr_addr value with
    | some t => Result.ok () (compute_imsic_pending_interrupts_m { s with icsrs_m := t })
    | none => Result.other_arm

/-- The `SIREG_ADDR` .. `SIREG6_ADDR` arm of `set_csr_value` (iss.cpp:2000); the register
`smpumask` is not embedded, so an SMPU address gives `other_arm`. -/
def sireg_write (d : IrqDecls) (s : ISS) (addr value : Nat) : Result Unit :=
  let icsr_addr := (s.csrs.siselect + csr.xireg_to_xselect_offset addr) % 2 ^ 32
  if !icsr_ms_table.is_valid_addr d.SMPU_NREGIONS SupervisorMode icsr_addr then
    Result.trap Exc.EXC_ILLEGAL_INSTR s
  else
    match s.s_icsr_imsic_access_check icsr_addr with
    | some e => Result.trap e s
    | none =>
      if is_smpuaddr icsr_addr then Result.other_arm
      else
        match s.icsrs_s.default_write32 d.SMPU_NREGIONS SupervisorMode icsr_addr value with
        | some t => Result.ok () (compute_imsic_pending_interrupts_s { s with icsrs_s := t })
        | none => Result.other_arm

/-- The `VSIREG_ADDR` .. `VSIREG6_ADDR` arm of `set_csr_value` (iss.cpp:2027); the register
`vsmpumask` is not embedded, so an SMPU address gives `other_arm`. -/
def vsireg_write (d : IrqDecls) (fuel : Nat) (s : ISS) (addr value : Nat) : Result Unit :=
  let icsr_addr := (s.csrs.vsiselect + csr.xireg_to_xselect_offset addr) % 2 ^ 32
  match s.vs_icsrs_access_check d icsr_addr with
  | some e => Result.trap e s
  | none =>
    if is_smpuaddr icsr_addr then Result.other_arm
    else
      match s.icsrs_vs.default_write32 d.SMPU_NREGIONS icsr_addr s.csrs.hstatus.get_vgein
          value with
      | some t =>
        write_arm_result
          (compute_imsic_pending_interrupts_vs (clint_hw_irq_route d fuel) { s with icsrs_vs := t })
      | none => Result.other_arm

/-- An arm of `set_csr_value` that begins with an access check and then claims through
`claim_topei_interrupt_on_xtopei`. -/
def xtopei_write (d : IrqDecls) (fuel : Nat) (s : ISS) (check : Option Exc)
    (target_level value : Nat) (read_accessed : Bool) : Result Unit :=
  match check with
  | some e => Result.trap e s
  | none =>
    write_arm_result
      (claim_topei_interrupt_on_xtopei (clint_hw_irq_route d fuel) s target_level value
        (!read_accessed))

/-- `set_csr_value` (iss.cpp:1753), the arms of the interrupt pending / enable / delegation
registers (iss.cpp:1810-1839), of the trap vectors (iss.cpp:1772-1783), of `hvictl`, `hgeie`,
`hgeip`, `mtopei`, `stopei`, `vstopei` (iss.cpp:1854-1883) and of the indirect-access
registers (iss.cpp:1970-2046); the other arms give `other_arm`, as does an indirect access
to a register that is not embedded. -/
def set_csr_value (d : IrqDecls) (fuel : Nat) (s : ISS) (addr value : Nat)
    (read_accessed : Bool) : Result Unit :=
  let addr := s.csr_address_virt_transform addr
  if addr = csr.VSIP_ADDR ∨ addr = csr.VSIPH_ADDR ∨ addr = csr.VSIE_ADDR ∨
      addr = csr.VSIEH_ADDR then
    match s.vs_clint_vti_access_check with
    | some e => Result.trap e s
    | none => s.clint_write_arm d fuel addr value
  else if addr = csr.MIP_ADDR ∨ addr = csr.SIP_ADDR ∨ addr = csr.HIP_ADDR ∨
      addr = csr.MIPH_ADDR ∨ addr = csr.SIPH_ADDR ∨ addr = csr.MIE_ADDR ∨
      addr = csr.SIE_ADDR ∨ addr = csr.HIE_ADDR ∨ addr = csr.MIEH_ADDR ∨
      addr = csr.SIEH_ADDR ∨ addr = csr.MVIP_ADDR ∨ addr = csr.MVIPH_ADDR ∨
      addr = csr.MVIEN_ADDR ∨ addr = csr.MVIENH_ADDR ∨ addr = csr.HVIP_ADDR ∨
      addr = csr.HVIPH_ADDR ∨ addr = csr.HVIEN_ADDR ∨ addr = csr.HVIENH_ADDR ∨
      addr = csr.MIDELEG_ADDR ∨ addr = csr.MIDELEGH_ADDR ∨ addr = csr.HIDELEG_ADDR ∨
      addr = csr.HIDELEGH_ADDR then
    s.clint_write_arm d fuel addr value
  else if addr = csr.MTVEC_ADDR then
    Result.ok () (on_xtvec_write
      { s with csrs := { s.csrs with mtvec := s.csrs.mtvec.checked_write value } } MachineMode)
  else if addr = csr.STVEC_ADDR then
    Result.ok () (on_xtvec_write
      { s with csrs := { s.csrs with stvec := s.csrs.stvec.checked_write value } } SupervisorMode)
  else if addr = csr.VSTVEC_ADDR then
    Result.ok () (on_xtvec_write
      { s with csrs := { s.csrs with vstvec := s.csrs.vstvec.checked_write value } }
      VirtualSupervisorMode)
  else if addr = csr.HVICTL_ADDR then
    Result.ok () { s with csrs := { s.csrs with hvictl := s.csrs.hvictl.checked_write value } }
  else if addr = csr.HGEIE_ADDR then
    write_arm_result (recalc_sgeip (clint_hw_irq_route d fuel)
      { s with csrs := { s.csrs with hgeie := s.csrs.hgeie.checked_write value } })
  else if addr = csr.HGEIP_ADDR then
    Result.ok () { s with csrs := { s.csrs with hgeip := s.csrs.hgeip.checked_write value } }
  else if addr = csr.MTOPEI_ADDR then
    s.xtopei_write d fuel none MachineMode value read_accessed
  else if addr = csr.STOPEI_ADDR then
    s.xtopei_write d fuel s.s_sei_injection_access_check SupervisorMode value read_accessed
  else if addr = csr.VSTOPEI_ADDR then
    s.xtopei_write d fuel s.vstopei_access_check VirtualSupervisorMode value read_accessed
  else if addr = csr.MIREG_ADDR ∨ addr = csr.MIREG2_ADDR ∨ addr = csr.MIREG3_ADDR ∨
      addr = csr.MIREG4_ADDR ∨ addr = csr.MIREG5_ADDR ∨ addr = csr.MIREG6_ADDR then
    s.mireg_write d addr value
  else if addr = csr.SISELECT_ADDR then
    Result.ok () { s with csrs := { s.csrs with
      siselect := masked_write s.csrs.siselect csr.SISELECT_MASK value } }
  else if addr = csr.SIREG_ADDR ∨ addr = csr.SIREG2_ADDR ∨ addr = csr.SIREG3_ADDR ∨
      addr = csr.SIREG4_ADDR ∨ addr = csr.SIREG5_ADDR ∨ addr = csr.SIREG6_ADDR then
    s.sireg_write d addr value
  else if addr = csr.VSISELECT_ADDR then
    Result.ok () { s with csrs := { s.csrs with
      vsiselect := masked_write s.csrs.vsiselect csr.VSISELECT_MASK value } }
  else if addr = csr.VSIREG_ADDR ∨ addr = csr.VSIREG2_ADDR ∨ addr = csr.VSIREG3_ADDR ∨
      addr = csr.VSIREG4_ADDR ∨ addr = csr.VSIREG5_ADDR ∨ addr = csr.VSIREG6_ADDR then
    s.vsireg_write d fuel addr value
  else Result.other_arm

end ISS

/-! ## Memory-mapped interrupt files (imsic-mem.h) -/

namespace ImsicMem
def page_size : Nat := 4096
def max_imsic_iid : Nat := 32 * 64 - 1

/-- `post_write_imsic_mmio` (imsic-mem.h:48): `addr` is `t.addr`, the byte offset of the
write, and `word` the content of `imsic_mmio[t.addr / 4]` after the write. -/
def post_write_imsic_mmio (d : IrqDecls) (fuel : Nat) (s : ISS) (addr word : Nat) :
    Option ISS :=
  if addr % page_size = 0 then
    let imsic_idx := addr / page_size
    let value := word &&& max_imsic_iid
    if imsic_idx = 0 then
      ISS.route_imsic_write (ISS.clint_hw_irq_route d fuel) s MachineMode 0 value
    else if imsic_idx = 1 then
      ISS.route_imsic_write (ISS.clint_hw_irq_route d fuel) s SupervisorMode 0 value
    else
      ISS.route_imsic_write (ISS.clint_hw_irq_route d fuel) s VirtualSupervisorMode
        (imsic_idx - 2) value
  else some s
end ImsicMem

namespace ISS

end ISS

/-! ## The constructed hart -/

/-- The `thresholds` array and the other members of a constructed `icsr_eithreshold`. -/
def icsr_eithreshold.init : icsr_eithreshold :=
  { reg := 0, mode_snps_vectored := false
    thresholds := List.replicate (NV_MODE_MAX_VECTOR + 1) false, threshold_tail := 0 }

/-- A constructed `eip`/`eie` array: all zero, `mask` of word 0 is `0xFFFFFFFE`
(csr.h:2836, 2840). -/
def eip_init : List icsr_32 :=
  { reg := 0, mask := 0xFFFFFFFE } ::
    List.replicate (eip_eie_arr_size - 1) { reg := 0, mask := 0xFFFFFFFF }

/-- The five local causes, marked present in every priority table. -/
def mark_local_present (tc : TrapCodes) (a : icsr_iprio_arr) : icsr_iprio_arr :=
  ((((a.mark_present_in_hw tc.EXC_COUNTER_OVREFLOW_INTERRUPT).mark_present_in_hw
    tc.EXC_DEBUG_TRACE_INTERRUPT).mark_present_in_hw
    tc.EXC_LOW_PRIO_RAS_INTERRUPT).mark_present_in_hw
    tc.EXC_HIGH_PRIO_RAS_INTERRUPT).mark_present_in_hw tc.EXC_WDT_INTERRUPT

/-- A constructed `icsr_iprio_arr` (csr.h:2138, 2145). -/
def icsr_iprio_arr.init : icsr_iprio_arr :=
  { static_mask := 0, dynamic_mask := UINT64_MAX, iprio := List.replicate MAX_INTERRUPTS_NUM 0 }

/-- `icsr_ms_table(level)` (csr.h:2783). -/
def icsr_ms_table.init (tc : TrapCodes) (level : Nat) : icsr_ms_table :=
  let iprio :=
    if level = MachineMode then
      mark_local_present tc
        (((((icsr_iprio_arr.init.mark_present_in_hw EXC_S_SOFTWARE_INTERRUPT).mark_present_in_hw
          EXC_M_SOFTWARE_INTERRUPT).mark_present_in_hw EXC_S_TIMER_INTERRUPT).mark_present_in_hw
          EXC_M_TIMER_INTERRUPT).mark_present_in_hw EXC_S_EXTERNAL_INTERRUPT)
    else
      mark_local_present tc
        ((((((icsr_iprio_arr.init.mark_present_in_hw EXC_S_SOFTWARE_INTERRUPT).mark_present_in_hw
          EXC_VS_SOFTWARE_INTERRUPT).mark_present_in_hw EXC_S_TIMER_INTERRUPT).mark_present_in_hw
          EXC_VS_TIMER_INTERRUPT).mark_present_in_hw EXC_VS_EXTERNAL_INTERRUPT).mark_present_in_hw
          EXC_S_GUEST_EXTERNAL_INTERRUPT)
  { iprio := iprio, eidelivery := { reg := 0 }, eithreshold := icsr_eithreshold.init
    eip := eip_init, eie := eip_init }

/-- `icsr_vs_table()` with `vs_iprio_banks()` (csr.h:2152, 2890). -/
def icsr_vs_table.init (tc : TrapCodes) : icsr_vs_table :=
  { iprio := List.replicate csr_hstatus.MAX_VGEIN_BANKS
      (mark_local_present tc
        ((icsr_iprio_arr.init.mark_present_in_hw EXC_S_SOFTWARE_INTERRUPT).mark_present_in_hw
          EXC_S_TIMER_INTERRUPT))
    bank := List.replicate MAX_GUEST
      { eidelivery := { reg := 0 }, eithreshold := icsr_eithreshold.init
        eip := eip_init, eie := eip_init } }

/-- A constructed `csr_table`: every modelled register zero, `mideleg.reg = HIE_MASK`. -/
def csr_table.init : csr_table :=
  { mstatus := 0, vsstatus := 0, mcounteren := 0, scounteren := 0
    mtvec := { reg := 0 }, stvec := { reg := 0 }, vstvec := { reg := 0 }
    clint := csrs_clint_pend.init
    mtopi := { reg := 0 }, stopi := { reg := 0 }, vstopi := { reg := 0 }
    mtopei := { reg := 0 }, stopei := { reg := 0 }, vstopei := { reg := 0 }
    hstatus := { reg := 0 }, hvictl := { reg := 0 }, hgeip := { reg := 0 }, hgeie := { reg := 0 }
    mcause := { reg := 0 }, scause := { reg := 0 }, vscause := { reg := 0 }
    miselect := 0, siselect := 0, vsiselect := 0 }

/-- The hart after `ISS::ISS` and `ISS::init` (iss.cpp:86, 2208) with entry point 0; `init`
ends with `iprio_icsr_access_adjust`. -/
def ISS.init (tc : TrapCodes) : ISS :=
  ISS.iprio_icsr_access_adjust
    { csrs := csr_table.init
      icsrs_m := icsr_ms_table.init tc MachineMode
      icsrs_s := icsr_ms_table.init tc SupervisorMode
      icsrs_vs := icsr_vs_table.init tc
      prv := MachineMode
      pc := 0
      ivt_access := { pending := false, entry_address := 0 }
      error_on_zero_traphandler := false }

/-- A sample of the declarations outside the sources, used to evaluate the model: the AIA
local causes, the renumbering 1/5/9 to 2/6/10 and back, and 32 SMPU regions. -/
def sampleDecls : IrqDecls :=
  { codes := aiaCodes
    transform_s_to_vs := fun iid =>
      if iid = 1 ∨ iid = 5 ∨ iid = 9 then (true, iid + 1) else (false, iid)
    transform_vs_to_s := fun iid =>
      if iid = 2 ∨ iid = 6 ∨ iid = 10 then iid - 1 else iid
    SMPU_NREGIONS := 32 }

/-- A sample of `irq_cprio`, used to evaluate the model: a number, the smaller one being the
higher priority, with `2 ^ 32` for the object built from `LOWEST_NONEXISTING_CPRIO`. -/
def sampleCprio : CprioDecls :=
  { irq_cprio := Nat
    LOWEST_NONEXISTING_CPRIO := 2 ^ 32
    mk2 := fun _ eiid => eiid
    mk3 := fun _ iid iprio => 256 * iprio + iid
    mk4 := fun _ iid prio _ => 256 * prio + iid
    lt := fun a b => decide (a < b)
    is_non_existing := fun a => a == 2 ^ 32
    to_iprio := fun a => a / 256 }

/-! ## Concrete states used to evaluate the model -/

/-- A state reached from reset by delegating the Supervisor software interrupt
(`mideleg` bit 1) while the hardware has that interrupt pending (`mip` bit 1). -/
def sipPendingState : csrs_clint_pend :=
  { csrs_clint_pend.init with mideleg := HIE_MASK ||| BIT EXC_S_SOFTWARE_INTERRUPT
                              mip := BIT EXC_S_SOFTWARE_INTERRUPT }

/-- The bits of `sip` that `checked_write_sip` can change (csr.h:1052-1053), low half. -/
def sip_write_mask (tc : TrapCodes) (c : csrs_clint_pend) : Nat :=
  reg_to_lo ((SIP_WRITE_DELEGATED_MASK &&& (csrs_clint_pend.s_route_masks c).1) |||
    (SIP_WRITE_INJECTED_MASK tc &&& (csrs_clint_pend.s_route_masks c).2))

/-- A Machine-mode hart with the VS external interrupt enabled, pending and delegated to VS
(`hideleg` bit 10). -/
def delegState : ISS :=
  let s := ISS.init aiaCodes
  { s with csrs := { s.csrs with clint :=
      { s.csrs.clint with mie := 0x400, mip := 0x400, hideleg := 0x400 } } }

/-- A hart whose three trap vectors were written with a nested-vectored mode. -/
def nvState : ISS :=
  let s := ISS.init aiaCodes
  { s with csrs := { s.csrs with mtvec := s.csrs.mtvec.checked_write 3
                                 stvec := s.csrs.stvec.checked_write 0x1003
                                 vstvec := s.csrs.vstvec.checked_write 0x2002 } }

/-- Pending sets with the timer and the external interrupt of each level. -/
def nvPendings : PendingInterrupts :=
  { m_pending := 0x880, s_hs_pending := 0x220, vs_pending := 0x440 }

/-- A hart in VS mode after `hvictl` was written with `vti = 1` and `iid = 5`. -/
def vtiState : ISS :=
  let s := ISS.init aiaCodes
  { s with prv := VirtualSupervisorMode
           csrs := { s.csrs with hvictl := s.csrs.hvictl.checked_write (2 ^ 30 ||| (5 <<< 16)) } }

/-- A hart with `mtvec` in nested-vectored mode, the Machine timer interrupt enabled in `mie`
and Machine priority 5 for major id 7. -/
def mtimerState : ISS :=
  let s := ISS.init aiaCodes
  { s with
    csrs := { s.csrs with mtvec := s.csrs.mtvec.checked_write 3
                          clint := s.csrs.clint.checked_write_mie aiaCodes 0x80 }
    icsrs_m := { s.icsrs_m with iprio := s.icsrs_m.iprio.set_iprio EXC_M_TIMER_INTERRUPT 5 } }

/-- Pending sets with no interrupt at any level. -/
def noPendings : PendingInterrupts := { m_pending := 0, s_hs_pending := 0, vs_pending := 0 }

/-- Pending sets with the Machine timer interrupt alone. -/
def mtimerPendings : PendingInterrupts :=
  { m_pending := 0x80, s_hs_pending := 0, vs_pending := 0 }

/-- One-word pending and enable arrays: ids 4 and 5 pending, id 5 enabled. -/
def pendEip : List icsr_32 := [{ reg := 0x30, mask := 0xFFFFFFFE }]
def pendEie : List icsr_32 := [{ reg := 0x20, mask := 0xFFFFFFFE }]

/-- A freshly constructed `eithreshold` (head 0, nothing recorded, tail 0) put in
nested-vectored mode. -/
def nvThreshold : icsr_eithreshold :=
  icsr_eithreshold.init.set_mode_snps_vectored csr_mtvec.SnpsNestedVectored

/-- A nested-vectored `eithreshold` with head 4, recorded entries 6 and 9, tail 300. -/
def stackedThreshold : icsr_eithreshold :=
  ((((nvThreshold.checked_write 300).checked_write 9).checked_write 6).checked_write 4)

/-- A Machine-mode hart about to take a Machine external interrupt in nested-vectored mode:
`mtvec` holds base `0x1000` and mode 3, `mcause` holds interrupt 11, the Machine file has
delivery on and minor id 5 pending and enabled, so `mtopei` reports 5. -/
def dispatchState : ISS :=
  let s := ISS.init aiaCodes
  let s : ISS := ISS.on_xtvec_write
    { s with csrs := { s.csrs with mtvec := s.csrs.mtvec.checked_write 0x1003
                                   mcause := { reg := 0x8000000B } } } MachineMode
  ISS.compute_imsic_pending_interrupts_m
    { s with icsrs_m := { s.icsrs_m with
        eidelivery := s.icsrs_m.eidelivery.checked_write 1
        eie := array_checked_write s.icsrs_m.eie 0 0x20
        eip := array_checked_write s.icsrs_m.eip 0 0x20 } }

/-- A hart with every guest line enabled in `hgeie` and the file of guest 2 with delivery on
and minor id 7 pending and enabled. -/
def guestState : ISS :=
  let s := ISS.init aiaCodes
  let bank := s.icsrs_vs.bank.getD 2 ISS.no_bank
  let bank : icsr_vs_bank :=
    { bank with eidelivery := bank.eidelivery.checked_write 1
                eip := array_checked_write bank.eip 0 0x80
                eie := array_checked_write bank.eie 0 0x80 }
  { s with csrs := { s.csrs with hgeie := s.csrs.hgeie.checked_write 0x1FE }
           icsrs_vs := { s.icsrs_vs with bank := s.icsrs_vs.bank.set 2 bank } }

/-- A hart in VS mode with no guest file selected (`hstatus.vgein = 0`) and
`vsiselect = 0x70`. -/
def vsDisconnectedState : ISS :=
  let s := ISS.init aiaCodes
  { s with prv := VirtualSupervisorMode, csrs := { s.csrs with vsiselect := 0x70 } }

/-- A hart in Supervisor mode after `mvien` bit 9 was written, with `siselect = 0x80`: the
Supervisor external interrupt is injected. -/
def seiInjectedState : ISS :=
  let s := ISS.init aiaCodes
  { s with prv := SupervisorMode
           csrs := { s.csrs with clint := s.csrs.clint.checked_write_mvien aiaCodes 0x200
                                 siselect := 0x80 } }

/-- A hart with the Supervisor external interrupt delegated (`mideleg` bit 9) but not enabled
(`mie` bit 9 clear), the Supervisor file with delivery on, threshold 0 and minor id 5 pending
and enabled. -/
def sFileMaskedState : ISS :=
  let s := ISS.init aiaCodes
  { s with
    csrs := { s.csrs with clint := s.csrs.clint.checked_write_mideleg 0x200 }
    icsrs_s := { s.icsrs_s with
      eidelivery := s.icsrs_s.eidelivery.checked_write 1
      eie := array_checked_write s.icsrs_s.eie 0 0x20
      eip := array_checked_write s.icsrs_s.eip 0 0x20 } }

/-- The state `sFileMaskedState` after `mie` bit 9 was written. -/
def sFileState : ISS :=
  { sFileMaskedState with
    csrs := { sFileMaskedState.csrs with
      clint := sFileMaskedState.csrs.clint.checked_write_mie aiaCodes 0x200 } }

/-- A hart with the Machine and the Supervisor trap vector in nested-vectored mode, the
Supervisor timer interrupt delegated (`mideleg` bit 5) and enabled, the Supervisor external
interrupt not delegated (`mideleg` bit 9 = 0) and enabled (`mie` bit 9), Machine priority 4
for major id 9, Supervisor priority 7 for major id 5, and the Supervisor file with delivery
on, threshold 0 and minor id 7 enabled. -/
def sCascadeState : ISS :=
  let s := ISS.init aiaCodes
  let s : ISS := ISS.iprio_icsr_access_adjust
    { s with csrs := { s.csrs with
        clint := (s.csrs.clint.checked_write_mideleg 0x20).checked_write_mie aiaCodes 0x220 } }
  let s : ISS := ISS.on_xtvec_write
    { s with csrs := { s.csrs with mtvec := s.csrs.mtvec.checked_write 3 } } MachineMode
  let s : ISS := ISS.on_xtvec_write
    { s with csrs := { s.csrs with stvec := s.csrs.stvec.checked_write 3 } } SupervisorMode
  { s with
    icsrs_m := { s.icsrs_m with iprio := s.icsrs_m.iprio.set_iprio EXC_S_EXTERNAL_INTERRUPT 4 }
    icsrs_s := { s.icsrs_s with
      iprio := s.icsrs_s.iprio.set_iprio EXC_S_TIMER_INTERRUPT 7
      eidelivery := s.icsrs_s.eidelivery.checked_write 1
      eie := array_checked_write s.icsrs_s.eie 0 0x80 } }

/-- A Machine-mode hart with `mtvec` in Direct mode whose Machine file has delivery on,
threshold 3 and minor id 5 pending and enabled, after `compute_imsic_pending_interrupts_m`:
the file does not assert and `mtopei` is 0. -/
def thresholdBlockedState : ISS :=
  let s := ISS.init aiaCodes
  ISS.compute_imsic_pending_interrupts_m
    { s with icsrs_m := { s.icsrs_m with
        eidelivery := s.icsrs_m.eidelivery.checked_write 1
        eithreshold := s.icsrs_m.eithreshold.checked_write 3
        eie := array_checked_write s.icsrs_m.eie 0 0x20
        eip := array_checked_write s.icsrs_m.eip 0 0x20 } }

/-- A hart in Direct mode with the Machine timer interrupt enabled and pending, and values
left in `mtopi`, `stopi` and `vstopi`. -/
def timerPendingState : ISS :=
  let s := ISS.init aiaCodes
  { s with csrs := { s.csrs with
      clint := { s.csrs.clint with mie := 0x80, mip := 0x80 }
      mtopi := { reg := 0x90001 }, stopi := { reg := 0x50003 }, vstopi := { reg := 0x10002 } } }

/-- A hart in Supervisor (HS) mode with `mstatus.mie = 0` and `mstatus.sie = 1`. -/
def hsState : ISS :=
  let s := ISS.init aiaCodes
  { s with prv := SupervisorMode, csrs := { s.csrs with mstatus := 0x2 } }

/-- Pending sets with the timer interrupt of each level. -/
def timerPendings : PendingInterrupts :=
  { m_pending := 0x80, s_hs_pending := 0x20, vs_pending := 0x40 }

/-! ## Notions used to state the properties -/

/-- `i` is a recorded entry of the threshold stack: `thresholds[i]` is set, `i` in 1..255 (the
indices `tstack_pop` looks at). -/
def icsr_eithreshold.recorded (t : icsr_eithreshold) (i : Nat) : Bool :=
  decide (1 ≤ i ∧ i ≤ NV_MODE_MAX_VECTOR) && t.thresholds.getD i false

/-- `n` pops in a row: `checked_write(0)` applied `n` times. -/
def icsr_eithreshold.pops : Nat → icsr_eithreshold → icsr_eithreshold
  | 0, t => t
  | n + 1, t => icsr_eithreshold.pops n (t.checked_write 0)

/-- One interrupt file of the hart: the Machine file, the Supervisor file, or the file of
guest `i`. -/
inductive FileId where
  | machine
  | supervisor
  | guest (i : Nat)
deriving Repr, DecidableEq

/-- The guest index of a file is below `MAX_GUEST`. -/
def FileId.Valid : FileId → Prop
  | FileId.guest i => i < MAX_GUEST
  | _ => True

instance (f : FileId) : Decidable f.Valid := by
  cases f <;> unfold FileId.Valid <;> infer_instance

/-- The `eip` array of a file. -/
def ISS.file_eip (s : ISS) : FileId → List icsr_32
  | FileId.machine => s.icsrs_m.eip
  | FileId.supervisor => s.icsrs_s.eip
  | FileId.guest i => (s.icsrs_vs.bank.getD i ISS.no_bank).eip

/-- The `eie` array of a file. -/
def ISS.file_eie (s : ISS) : FileId → List icsr_32
  | FileId.machine => s.icsrs_m.eie
  | FileId.supervisor => s.icsrs_s.eie
  | FileId.guest i => (s.icsrs_vs.bank.getD i ISS.no_bank).eie

/-- Store a new `eip` array into a file. -/
def ISS.set_file_eip (s : ISS) (f : FileId) (eip : List icsr_32) : ISS :=
  match f with
  | FileId.machine => { s with icsrs_m := { s.icsrs_m with eip := eip } }
  | FileId.supervisor => { s with icsrs_s := { s.icsrs_s with eip := eip } }
  | FileId.guest i =>
    { s with icsrs_vs := { s.icsrs_vs with
        bank := s.icsrs_vs.bank.set i { s.icsrs_vs.bank.getD i ISS.no_bank with eip := eip } } }

/-- Store a new `eie` array into a file. -/
def ISS.set_file_eie (s : ISS) (f : FileId) (eie : List icsr_32) : ISS :=
  match f with
  | FileId.machine => { s with icsrs_m := { s.icsrs_m with eie := eie } }
  | FileId.supervisor => { s with icsrs_s := { s.icsrs_s with eie := eie } }
  | FileId.guest i =>
    { s with icsrs_vs := { s.icsrs_vs with
        bank := s.icsrs_vs.bank.set i { s.icsrs_vs.bank.getD i ISS.no_bank with eie := eie } } }

/-- The operations that store into the `eip`/`eie` arrays of the interrupt files: an
indirect-register write to `eip[k]` or `eie[k]`, a call of `imsic_update_eip_bit`, and a call
of `route_imsic_write`. -/
inductive FileOp where
  | write_eip (f : FileId) (k val : Nat)
  | write_eie (f : FileId) (k val : Nat)
  | update_eip_bit (f : FileId) (id : Nat) (set_bit : Bool)
  | route (target_imsic guest_index value : Nat)
deriving Repr, DecidableEq

/-- The arguments of an operation are in range: array index below `eip_eie_arr_size`, minor
id below `IMSIC_MAX_IRQS`, guest index below `MAX_GUEST` (the asserted conditions of
`imsic_update_eip_bit` and `route_imsic_write`). -/
def FileOp.Valid : FileOp → Prop
  | FileOp.write_eip f k _ => f.Valid ∧ k < eip_eie_arr_size
  | FileOp.write_eie f k _ => f.Valid ∧ k < eip_eie_arr_size
  | FileOp.update_eip_bit f id _ => f.Valid ∧ id < IMSIC_MAX_IRQS
  | FileOp.route t g v =>
    (t = MachineMode ∨ t = SupervisorMode ∨ t = VirtualSupervisorMode) ∧ g < MAX_GUEST ∧
      v < IMSIC_MAX_IRQS

instance (op : FileOp) : Decidable op.Valid := by
  cases op <;> unfold FileOp.Valid <;> infer_instance

/-- The effect of one `FileOp`; `fuel` bounds the recursion of `clint_hw_irq_route` reached
from `route_imsic_write`. -/
def ISS.apply_file_op (d : IrqDecls) (fuel : Nat) (s : ISS) : FileOp → Option ISS
  | FileOp.write_eip f k val => some (s.set_file_eip f (array_checked_write (s.file_eip f) k val))
  | FileOp.write_eie f k val => some (s.set_file_eie f (array_checked_write (s.file_eie f) k val))
  | FileOp.update_eip_bit f id set_bit =>
    some (s.set_file_eip f (imsic_update_eip_bit (s.file_eip f) id set_bit))
  | FileOp.route t g v => ISS.route_imsic_write (ISS.clint_hw_irq_route d fuel) s t g v

/-- A sequence of `FileOp`s, applied from left to right. -/
def ISS.run_file_ops (d : IrqDecls) (fuel : Nat) : List FileOp → ISS → Option ISS
  | [], s => some s
  | op :: ops, s =>
    match s.apply_file_op d fuel op with
    | none => none
    | some s1 => ISS.run_file_ops d fuel ops s1

/-- Bit 0 of word 0 is clear in `reg` and in `mask`. -/
def bit0_clear (arr : List icsr_32) : Prop :=
  (arr.getD 0 { reg := 0, mask := 0 }).reg.testBit 0 = false ∧
    (arr.getD 0 { reg := 0, mask := 0 }).mask.testBit 0 = false

/-- Every `eip` and `eie` array of the hart has bit 0 of word 0 clear in `reg` and `mask`. -/
def ISS.minor0_clear (s : ISS) : Prop :=
  bit0_clear s.icsrs_m.eip ∧ bit0_clear s.icsrs_m.eie ∧
  bit0_clear s.icsrs_s.eip ∧ bit0_clear s.icsrs_s.eie ∧
  ∀ b ∈ s.icsrs_vs.bank, bit0_clear b.eip ∧ bit0_clear b.eie

/-- What `route_imsic_write` and the delivery chain leave in place from `s` to `s'`: the
register `hvictl`, and bit 0 of word 0 of every `eip`/`eie` array if it was clear. -/
def ISS.route_frame (s s' : ISS) : Prop :=
  s'.csrs.hvictl = s.csrs.hvictl ∧ (s.minor0_clear → s'.minor0_clear)

/-- The sample operations on the files: writes of all-ones to `eip[0]` and `eie[0]` of the
Machine file and of guest 2, bit updates, and a message for each kind of file. -/
def sampleFileOps : List FileOp :=
  [FileOp.write_eip FileId.machine 0 0xFFFFFFFF, FileOp.write_eie FileId.machine 0 0xFFFFFFFF,
   FileOp.write_eip (FileId.guest 2) 0 0xFFFFFFFF, FileOp.write_eie (FileId.guest 2) 0 0xFFFFFFFF,
   FileOp.update_eip_bit FileId.supervisor 32 true, FileOp.update_eip_bit FileId.supervisor 0 true,
   FileOp.route MachineMode 0 1, FileOp.route SupervisorMode 0 33,
   FileOp.route VirtualSupervisorMode 2 7]

/-- Only bits of `HVICTL_MASK` are set in `hvictl.reg`: the register after construction and
after every `checked_write`. -/
def csr_hvictl.WF (h : csr_hvictl) : Prop := h.reg &&& csr_hvictl.HVICTL_MASK = h.reg

instance (h : csr_hvictl) : Decidable h.WF := by
  unfold csr_hvictl.WF; infer_instance

/-- Minor id `id` has both its `eip` and its `eie` bit set: bit `id mod 32` of word
`id div 32`. -/
def eip_eie_bit (eip eie : List icsr_32) (id : Nat) : Bool :=
  (word_reg eip (id / 32) &&& word_reg eie (id / 32)).testBit (id % 32)

/-- `c` is the lowest-numbered minor id that is both pending and enabled. -/
def is_lowest_pending_enabled (eip eie : List icsr_32) (c : Nat) : Prop :=
  c < IMSIC_MAX_IRQS ∧ eip_eie_bit eip eie c = true ∧
    ∀ id, id < c → eip_eie_bit eip eie id = false

/-- The state `clint_hw_irq_route(EXC_M_TIMER_INTERRUPT, true)` leaves when the Machine level
is in nested-vectored mode: `mip` bit 7 is set and, on a 0 to 1 edge of the enabled timer
bit with a non-zero Machine priority `p` for id 7, minor id `p` is written to the Machine
file. -/
def mtimer_route_result (s : ISS) : ISS :=
  let s_hw := s.hw_write_mip EXC_M_TIMER_INTERRUPT true
  if s.csrs.clint.mie.testBit 7 = true ∧ s.csrs.clint.mip.testBit 7 = false ∧
      s.icsrs_m.iprio.get_iprio EXC_M_TIMER_INTERRUPT ≠ 0 then
    ISS.compute_imsic_pending_interrupts_m
      { s_hw with
        icsrs_m :=
          { s_hw.icsrs_m with
            eip := imsic_update_eip_bit s_hw.icsrs_m.eip
              (s.icsrs_m.iprio.get_iprio EXC_M_TIMER_INTERRUPT) true } }
  else s_hw

/-- What a message to the Machine or the Supervisor file leaves in place from `s` to `s'`:
everything except the `eip` arrays of these two files, `mtopei`, `stopei` and `mip`, where
among the low 64 bits only bits 9 and 11 can differ. -/
def ISS.ms_frame (s s' : ISS) : Prop :=
  ∃ (eip_m eip_s : List icsr_32) (mtopei stopei : csr_topei) (mip : Nat),
    s' = { s with
      icsrs_m := { s.icsrs_m with eip := eip_m }
      icsrs_s := { s.icsrs_s with eip := eip_s }
      csrs := { s.csrs with
        clint := { s.csrs.clint with mip := mip }
        mtopei := mtopei
        stopei := stopei } } ∧
    ∀ j, j < 64 → j ≠ 9 → j ≠ 11 → mip.testBit j = s.csrs.clint.mip.testBit j

/-- What the recomputation of the interrupt files leaves in place from `s` to `s'`:
everything except the `eip` arrays of the Machine and the Supervisor file, the three `xtopei`
registers, `hgeip` and `mip`. -/
def ISS.imsic_frame (s s' : ISS) : Prop :=
  ∃ (eip_m eip_s : List icsr_32) (mtopei stopei vstopei : csr_topei) (hgeip : csr_hgeip)
      (mip : Nat),
    s' = { s with
      icsrs_m := { s.icsrs_m with eip := eip_m }
      icsrs_s := { s.icsrs_s with eip := eip_s }
      csrs := { s.csrs with
        clint := { s.csrs.clint with mip := mip }
        mtopei := mtopei
        stopei := stopei
        vstopei := vstopei
        hgeip := hgeip } }

/-- The interrupt file of a level: for VS the file of the current guest. -/
def ISS.level_file (s : ISS) (level : Nat) : FileId :=
  if level = MachineMode then FileId.machine
  else if level = SupervisorMode then FileId.supervisor
  else FileId.guest s.csrs.hstatus.get_guest_id

/-- The `eithreshold` of a file. -/
def ISS.file_eithreshold (s : ISS) : FileId → icsr_eithreshold
  | FileId.machine => s.icsrs_m.eithreshold
  | FileId.supervisor => s.icsrs_s.eithreshold
  | FileId.guest i => (s.icsrs_vs.bank.getD i ISS.no_bank).eithreshold

/-- The vector-table line of a nested-vectored dispatch to `level`: 0 for an exception; for an
interrupt 255 when the level is Supervisor and major id 9 is injected, otherwise the smaller
of 255 and the top minor id in the level's `xtopei`. -/
def ISS.nv_line (s : ISS) (level : Nat) : Nat :=
  if (s.get_xcause level).interrupt = 0 then 0
  else if level = SupervisorMode ∧
      s.csrs.clint.is_iid_injected SupervisorMode EXC_S_EXTERNAL_INTERRUPT = true then 255
  else min (s.get_topei level).iid 255

/-- Bit 12 of the hardware `mip` is set exactly when the read values of `hgeip` and `hgeie`
have a common bit. -/
def ISS.sgeip_line_ok (s : ISS) : Prop :=
  s.csrs.clint.mip.testBit 12 = true ↔
    s.csrs.hgeip.checked_read &&& s.csrs.hgeie.checked_read ≠ 0

instance (s : ISS) : Decidable s.sgeip_line_ok := by
  unfold ISS.sgeip_line_ok; infer_instance

/-- The output of `compute_imsic_pending` on the file of guest `i`. -/
def ISS.guest_pending (s : ISS) (i : Nat) : Bool × Nat :=
  let bank := s.icsrs_vs.bank.getD i ISS.no_bank
  compute_imsic_pending bank.eip bank.eie eip_eie_arr_size bank.eithreshold bank.eidelivery
    (s.is_irq_mode_snps_nested_vectored VirtualSupervisorMode)

/-- The level whose file page `k` of the memory-mapped region belongs to. -/
def mmio_level (k : Nat) : Nat :=
  if k = 0 then MachineMode else if k = 1 then SupervisorMode else VirtualSupervisorMode

/-- The file page `k` of the memory-mapped region belongs to. -/
def mmio_file (k : Nat) : FileId :=
  if k = 0 then FileId.machine else if k = 1 then FileId.supervisor else FileId.guest (k - 2)

/-- The exception `vs_csr_icsrs_access_exception` raises for a requesting level: the
virtual-instruction exception for VS, the illegal-instruction exception for M and HS. -/
def vs_access_exc (prv : Nat) : Exc :=
  if prv = VirtualSupervisorMode then Exc.EXC_VIRTUAL_INSTRUCTION else Exc.EXC_ILLEGAL_INSTR

/-- The hart is in Supervisor (HS) mode and major id 9 is injected: `mideleg` bit 9 is 0 and
`mvien` bit 9 is 1. -/
def ISS.sei_blocked (s : ISS) : Prop :=
  s.prv = SupervisorMode ∧ s.csrs.clint.mideleg.testBit 9 = false ∧
    s.csrs.clint.mvirt.mvien.testBit 9 = true

instance (s : ISS) : Decidable s.sei_blocked := by
  unfold ISS.sei_blocked; infer_instance

/-- The pending set of a level. -/
def level_pending (p : PendingInterrupts) (level : Nat) : Nat :=
  if level = MachineMode then p.m_pending
  else if level = SupervisorMode then p.s_hs_pending
  else p.vs_pending

/-- The level that owns `iid` in the pending sets `q`: the first of Machine, Supervisor, VS
whose pending set has bit `iid`. -/
def owner_level (q : PendingInterrupts) (iid : Nat) : Option Nat :=
  if q.m_pending.testBit iid then some MachineMode
  else if q.s_hs_pending.testBit iid then some SupervisorMode
  else if q.vs_pending.testBit iid then some VirtualSupervisorMode
  else none

/-- The conditions under which `deliver_pending_to_imsic(prev, new, iid)` writes to the file
of level `L`: `L` owns `iid` in `new`, bit `iid` of `L` goes from 0 in `prev` to 1 in `new`,
`iid` is not the external-interrupt id of `L`, the trap vector of `L` is in nested-vectored
mode, and `L` is not VS with `hstatus.vgein = 0`. -/
def ISS.delivers (s : ISS) (prev new : PendingInterrupts) (iid L : Nat) : Prop :=
  owner_level new iid = some L ∧ (level_pending prev L).testBit iid = false ∧
    iid ≠ get_external_iid L ∧ (s.get_xtvec L).mode = csr_mtvec.SnpsNestedVectored ∧
    ¬ (L = VirtualSupervisorMode ∧ s.csrs.hstatus.vgein = 0)

instance (s : ISS) (prev new : PendingInterrupts) (iid L : Nat) :
    Decidable (s.delivers prev new iid L) := by
  unfold ISS.delivers; infer_instance

/-- A write to `mideleg` or to `midelegh`. -/
inductive MidelegWrite where
  | lo (val : Nat)
  | hi (val : Nat)
deriving Repr, DecidableEq

/-- The effect of one `MidelegWrite`: `checked_write_mideleg` or `checked_write_midelegh`. -/
def csrs_clint_pend.apply_mideleg_write (c : csrs_clint_pend) : MidelegWrite → csrs_clint_pend
  | MidelegWrite.lo val => c.checked_write_mideleg val
  | MidelegWrite.hi val => c.checked_write_midelegh val

/-- A sequence of `MidelegWrite`s, applied from left to right. -/
def csrs_clint_pend.run_mideleg_writes : List MidelegWrite → csrs_clint_pend → csrs_clint_pend
  | [], c => c
  | w :: ws, c => csrs_clint_pend.run_mideleg_writes ws (c.apply_mideleg_write w)

/-- The operations on an `eithreshold` register: `checked_write(v)`,
`update_with_new_irq(id)` and `mark_irq_as_handled()`. -/
inductive ThresholdOp where
  | write (v : Nat)
  | new_irq (id : Nat)
  | handled
deriving Repr, DecidableEq

/-- The arguments of an operation are in range: a 32-bit value for `checked_write`, a minor
id in 1..2047 for `update_with_new_irq`. -/
def ThresholdOp.Valid : ThresholdOp → Prop
  | ThresholdOp.write v => v < 2 ^ 32
  | ThresholdOp.new_irq id => 1 ≤ id ∧ id < IMSIC_MAX_IRQS
  | ThresholdOp.handled => True

instance (op : ThresholdOp) : Decidable op.Valid := by
  cases op <;> unfold ThresholdOp.Valid <;> infer_instance

/-- The effect of one `ThresholdOp`. -/
def icsr_eithreshold.apply_op (t : icsr_eithreshold) : ThresholdOp → icsr_eithreshold
  | ThresholdOp.write v => t.checked_write v
  | ThresholdOp.new_irq id => t.update_with_new_irq id
  | ThresholdOp.handled => t.mark_irq_as_handled

/-- A sequence of `ThresholdOp`s, applied from left to right. -/
def icsr_eithreshold.run_ops : List ThresholdOp → icsr_eithreshold → icsr_eithreshold
  | [], t => t
  | op :: ops, t => icsr_eithreshold.run_ops ops (t.apply_op op)

/-- The sample operations on a threshold register: writes of a tail value, of stackable
values and of an out-of-range value, interrupts taken, and pops. -/
def sampleThresholdOps : List ThresholdOp :=
  [ThresholdOp.write 300, ThresholdOp.write 9, ThresholdOp.new_irq 6, ThresholdOp.write 7,
   ThresholdOp.new_irq 2000, ThresholdOp.write 0xFFFFFFFF, ThresholdOp.handled,
   ThresholdOp.write 0, ThresholdOp.new_irq 4]

/-- Minor id `id` is pending in an `eip` array: bit `id mod 32` of word `id div 32`. -/
def eip_bit (eip : List icsr_32) (id : Nat) : Bool :=
  (word_reg eip (id / 32)).testBit (id % 32)

/-- The output `(asserted, top minor id)` of `compute_imsic_pending` on the file of a level
with the nested-vectored flag of that level; for VS the file of the current guest. -/
def ISS.file_output (s : ISS) (level : Nat) : Bool × Nat :=
  if level = MachineMode then
    compute_imsic_pending s.icsrs_m.eip s.icsrs_m.eie eip_eie_arr_size s.icsrs_m.eithreshold
      s.icsrs_m.eidelivery (s.is_irq_mode_snps_nested_vectored MachineMode)
  else if level = SupervisorMode then
    compute_imsic_pending s.icsrs_s.eip s.icsrs_s.eie eip_eie_arr_size s.icsrs_s.eithreshold
      s.icsrs_s.eidelivery (s.is_irq_mode_snps_nested_vectored SupervisorMode)
  else s.guest_pending s.csrs.hstatus.get_guest_id

/-- The registers of a level agree with its file: bit `get_external_iid level` of the
hardware `mip` is the asserted output of the file, and the `iid` field of the level's `xtopei`
is the top minor id reduced to the 12 bits of the field. -/
def ISS.file_closed (s : ISS) (level : Nat) : Prop :=
  s.csrs.clint.mip.testBit (get_external_iid level) = (s.file_output level).1 ∧
    (s.get_topei level).iid = (s.file_output level).2 % 2 ^ 12

instance (s : ISS) (level : Nat) : Decidable (s.file_closed level) := by
  unfold ISS.file_closed; infer_instance

/-- The recompute chain of the per-level top interrupts, the first three statements of
`prepare_interrupt` (iss.cpp:3174): `compute_clint_pending_irq_bits_per_level`,
`process_clint_pending_irq_bits_per_level`, `recalc_xtopi`. -/
def ISS.recompute_xtopi (cp : CprioDecls) (d : IrqDecls) (s : ISS) : Option ISS :=
  let irqs_pend := s.compute_clint_pending_irq_bits_per_level d
  let irqs_pend := s.process_clint_pending_irq_bits_per_level irqs_pend
  s.recalc_xtopi cp d irqs_pend

/-- The value `recalc_xtopi` stores in the `xtopi` register `t` of a level whose pending set
is `pend`: 0 when nothing is pending, otherwise `t` with the fields `iid` and `iprio` set from
`major_irq_prepare_iid_prio` (for VS the id renumbered by `transform_vs_to_s`); `none` when
`major_irq_prepare_iid_prio` throws. -/
def ISS.new_xtopi (cp : CprioDecls) (d : IrqDecls) (s : ISS) (level pend : Nat)
    (t : csr_topi) : Option csr_topi :=
  if pend ≠ 0 then
    match s.major_irq_prepare_iid_prio cp d level pend with
    | some r =>
      some (t.set_iid_iprio
        (if level = VirtualSupervisorMode then d.transform_vs_to_s r.1 else r.1) r.2)
    | none => none
  else some { reg := 0 }

/-! # Bit-level lemmas -/

theorem testBit_not64 (x i : Nat) :
    (not64 x).testBit i = (decide (i < 64) && !x.testBit i) := by
  unfold not64
  have h : 2 ^ 64 - 1 - x % 2 ^ 64 = 2 ^ 64 - (x % 2 ^ 64 + 1) := by omega
  rw [h, Nat.testBit_two_pow_sub_succ (Nat.mod_lt _ (by decide)), Nat.testBit_mod_two_pow]
  cases decide (i < 64) <;> simp

theorem testBit_not32 (x i : Nat) :
    (not32 x).testBit i = (decide (i < 32) && !x.testBit i) := by
  unfold not32
  have h : 2 ^ 32 - 1 - x % 2 ^ 32 = 2 ^ 32 - (x % 2 ^ 32 + 1) := by omega
  rw [h, Nat.testBit_two_pow_sub_succ (Nat.mod_lt _ (by decide)), Nat.testBit_mod_two_pow]
  cases decide (i < 32) <;> simp

theorem testBit_write_64 (reg mask value i : Nat) :
    (write_64 reg mask value).testBit i =
      ((reg.testBit i && (decide (i < 64) && !mask.testBit i)) ||
        (value.testBit i && mask.testBit i)) := by
  simp [write_64, Nat.testBit_or, Nat.testBit_and, testBit_not64]

theorem testBit_WRITE_LO_MASK (i : Nat) : WRITE_LO_MASK.testBit i = decide (i < 32) := by
  unfold WRITE_LO_MASK UINT32_MAX
  exact Nat.testBit_two_pow_sub_one 32 i

theorem testBit_reg_to_lo (x i : Nat) :
    (reg_to_lo x).testBit i = (decide (i < 32) && x.testBit i) := by
  unfold reg_to_lo
  exact Nat.testBit_mod_two_pow x 32 i

theorem testBit_BIT (n i : Nat) : (BIT n).testBit i = decide (n = i) := by
  unfold BIT
  rw [Nat.one_shiftLeft]
  exact Nat.testBit_two_pow

theorem testBit_MIx_VS_MASK (i : Nat) :
    MIx_VS_MASK.testBit i = decide (i = 2 ∨ i = 6 ∨ i = 10) := by
  simp only [MIx_VS_MASK, Nat.testBit_or, testBit_BIT, EXC_VS_SOFTWARE_INTERRUPT,
    EXC_VS_TIMER_INTERRUPT, EXC_VS_EXTERNAL_INTERRUPT]
  apply Bool.eq_iff_iff.mpr
  simp
  omega

theorem testBit_VSIx_VS_MASK (i : Nat) :
    VSIx_VS_MASK.testBit i = decide (i = 1 ∨ i = 5 ∨ i = 9) := by
  simp only [VSIx_VS_MASK, Nat.testBit_or, testBit_BIT, EXC_S_SOFTWARE_INTERRUPT,
    EXC_S_TIMER_INTERRUPT, EXC_S_EXTERNAL_INTERRUPT]
  apply Bool.eq_iff_iff.mpr
  simp
  omega

theorem testBit_SIE_MASK (i : Nat) :
    SIE_MASK.testBit i = decide (i = 1 ∨ i = 5 ∨ i = 9) := testBit_VSIx_VS_MASK i

theorem testBit_VSIE_MASK (i : Nat) :
    VSIE_MASK.testBit i = decide (i = 2 ∨ i = 6 ∨ i = 10) := testBit_MIx_VS_MASK i

theorem testBit_HIE_MASK (i : Nat) :
    HIE_MASK.testBit i = decide (i = 2 ∨ i = 6 ∨ i = 10 ∨ i = 12) := by
  simp only [HIE_MASK, Nat.testBit_or, testBit_BIT, EXC_VS_SOFTWARE_INTERRUPT,
    EXC_VS_TIMER_INTERRUPT, EXC_VS_EXTERNAL_INTERRUPT, EXC_S_GUEST_EXTERNAL_INTERRUPT]
  apply Bool.eq_iff_iff.mpr
  simp
  omega

theorem testBit_MIE_MASK (i : Nat) :
    MIE_MASK.testBit i = decide (1 ≤ i ∧ i ≤ 12 ∧ i ≠ 4 ∧ i ≠ 8) := by
  simp only [MIE_MASK, Nat.testBit_or, testBit_BIT, testBit_SIE_MASK, testBit_HIE_MASK,
    EXC_M_SOFTWARE_INTERRUPT, EXC_M_TIMER_INTERRUPT, EXC_M_EXTERNAL_INTERRUPT]
  apply Bool.eq_iff_iff.mpr
  simp
  omega

theorem testBit_MIx_NON_LEVELED_MASK (tc : TrapCodes) (i : Nat) :
    (MIx_NON_LEVELED_MASK tc).testBit i =
      decide (i = tc.EXC_COUNTER_OVREFLOW_INTERRUPT ∨ i = tc.EXC_DEBUG_TRACE_INTERRUPT ∨
        i = tc.EXC_LOW_PRIO_RAS_INTERRUPT ∨ i = tc.EXC_HIGH_PRIO_RAS_INTERRUPT ∨
        i = tc.EXC_WDT_INTERRUPT) := by
  simp only [MIx_NON_LEVELED_MASK, Nat.testBit_or, testBit_BIT]
  apply Bool.eq_iff_iff.mpr
  simp
  omega

theorem testBit_MIx_NON_LEVELED_MASK_low (tc : TrapCodes) (h : tc.Valid) (i : Nat)
    (hi : i < 13) : (MIx_NON_LEVELED_MASK tc).testBit i = false := by
  rw [testBit_MIx_NON_LEVELED_MASK]
  unfold TrapCodes.Valid at h
  simp
  omega

open csrs_clint_pend

/-- Claim C1. For every register state the delegated and injected masks returned by
`s_route_masks` and by `vs_route_masks` are disjoint: their bitwise AND is zero (the
asserted condition of both functions), and no bit position is set in both. -/
theorem route_masks_disjoint (c : csrs_clint_pend) :
    (s_route_masks c).1 &&& (s_route_masks c).2 = 0 ∧
    (vs_route_masks c).1 &&& (vs_route_masks c).2 = 0 ∧
    ∀ i : Nat,
      ¬ ((s_route_masks c).1.testBit i = true ∧ (s_route_masks c).2.testBit i = true) ∧
      ¬ ((vs_route_masks c).1.testBit i = true ∧ (vs_route_masks c).2.testBit i = true) := by
  refine ⟨?_, ?_, ?_⟩
  · apply Nat.eq_of_testBit_eq; intro i
    simp only [s_route_masks, Nat.testBit_and, testBit_not64, Nat.zero_testBit]
    cases c.mideleg.testBit i <;> simp
  · apply Nat.eq_of_testBit_eq; intro i
    simp only [vs_route_masks, Nat.testBit_and, testBit_not64, Nat.zero_testBit]
    cases c.checked_read_hideleg_64.testBit i <;> simp
  · intro i
    simp only [s_route_masks, vs_route_masks, Nat.testBit_and, testBit_not64]
    constructor <;>
      (cases c.mideleg.testBit i <;> cases c.checked_read_hideleg_64.testBit i <;> simp)

/-- Claim C2. Writing `v` with `checked_write_sie` and reading back with `checked_read_sie`
returns `v` restricted to the low half of `SIE_WRITE_MASK & (delegated | injected)`. -/
theorem sie_round_trip (tc : TrapCodes) (c : csrs_clint_pend) (v : Nat) :
    checked_read_sie tc (checked_write_sie tc c v) =
      v &&& reg_to_lo (SIE_WRITE_MASK tc &&& ((s_route_masks c).1 ||| (s_route_masks c).2)) := by
  apply Nat.eq_of_testBit_eq; intro i
  simp only [checked_read_sie, checked_write_sie, sie_routed_read_64, sie_routed_write_64,
    s_route_masks, read_64, lo_to_reg, SIE_READ_MASK, SIE_WRITE_MASK,
    testBit_reg_to_lo, Nat.testBit_and, Nat.testBit_or, testBit_write_64, testBit_not64,
    testBit_WRITE_LO_MASK]
  generalize (MIx_NON_LEVELED_MASK tc).testBit i = a
  generalize SIE_MASK.testBit i = b
  by_cases h : i < 32
  · have h64 : i < 64 := by omega
    simp only [h, h64, decide_True, Bool.true_and]
    cases a <;> cases b <;> cases c.mideleg.testBit i <;> cases c.mvirt.mvien.testBit i <;>
      cases v.testBit i <;> cases c.mie.testBit i <;>
      cases c.mvirt.shadow_enables.testBit i <;> rfl
  · simp [h]

/-- Claim C4, counterexample. In `sipPendingState` (Supervisor software interrupt delegated
and pending in hardware) `checked_write_sip 0` followed by `checked_read_sip` returns 2 for
every numbering of the local causes, while `0` restricted to the write mask is `0`. -/
theorem sip_round_trip_counterexample :
    checked_read_sip aiaCodes (checked_write_sip aiaCodes sipPendingState 0) = 2 ∧
    0 &&& sip_write_mask aiaCodes sipPendingState = 0 ∧
    ¬ ∃ tc : TrapCodes,
      checked_read_sip tc (checked_write_sip tc sipPendingState 0) =
        0 &&& sip_write_mask tc sipPendingState := by
  refine ⟨by decide, by decide, ?_⟩
  rintro ⟨tc, h⟩
  have hb := congrArg (fun x => Nat.testBit x 1) h
  simp only [checked_read_sip, checked_write_sip, sip_routed_read_64, sip_routed_write_64,
    mip_routed_read_64, s_route_masks, read_64, lo_to_reg, SIP_READ_MASK, MIP_READ_MASK,
    SIP_WRITE_DELEGATED_MASK, sipPendingState, csrs_clint_pend.init, HVIP_OR_MASK,
    testBit_reg_to_lo, Nat.testBit_and, Nat.testBit_or, testBit_write_64, testBit_not64,
    testBit_WRITE_LO_MASK, testBit_SIE_MASK, testBit_MIE_MASK, testBit_HIE_MASK, testBit_BIT,
    EXC_S_SOFTWARE_INTERRUPT, Nat.zero_testBit, Nat.zero_and, Nat.and_zero] at hb
  simp at hb

/-- Claim C4, amended. After `checked_write_sip tc c v`, `checked_read_sip` agrees with `v`
on the bits of the write mask and, on every other bit, returns what it returned before the
write (hardware-pending and `mvip` bits stay visible). -/
theorem sip_write_then_read (tc : TrapCodes) (c : csrs_clint_pend) (v : Nat) :
    checked_read_sip tc (checked_write_sip tc c v) &&& sip_write_mask tc c =
        v &&& sip_write_mask tc c ∧
    ∀ i : Nat, (sip_write_mask tc c).testBit i = false →
      (checked_read_sip tc (checked_write_sip tc c v)).testBit i =
        (checked_read_sip tc c).testBit i := by
  have key : ∀ i : Nat,
      (checked_read_sip tc (checked_write_sip tc c v)).testBit i =
        ((sip_write_mask tc c).testBit i && v.testBit i ||
          !(sip_write_mask tc c).testBit i && (checked_read_sip tc c).testBit i) := by
    intro i
    simp only [checked_read_sip, checked_write_sip, sip_routed_read_64, sip_routed_write_64,
      sip_write_mask, mip_routed_read_64, s_route_masks, read_64, lo_to_reg, SIP_READ_MASK,
      SIP_WRITE_INJECTED_MASK, SIP_WRITE_DELEGATED_MASK, MIx_IRQ_TYPE_EDGE_MASK,
      testBit_reg_to_lo, Nat.testBit_and, Nat.testBit_or, testBit_write_64, testBit_not64,
      testBit_WRITE_LO_MASK, Nat.zero_testBit, Nat.zero_and, Nat.and_zero]
    generalize (MIx_NON_LEVELED_MASK tc).testBit i = nl
    generalize SIE_MASK.testBit i = sm
    generalize MIP_READ_MASK.testBit i = mr
    generalize HVIP_OR_MASK.testBit i = ho
    by_cases h : i < 32
    · have h64 : i < 64 := by omega
      simp only [h, h64, decide_True, Bool.true_and]
      cases nl <;> cases sm <;> cases mr <;> cases ho <;> cases c.mideleg.testBit i <;>
        cases c.mvirt.mvien.testBit i <;> cases v.testBit i <;> cases c.mip.testBit i <;>
        cases c.mvirt.mvip.testBit i <;> cases c.hvirt.hvip.testBit i <;> rfl
    · simp [h]
  constructor
  · apply Nat.eq_of_testBit_eq; intro i
    rw [Nat.testBit_and, Nat.testBit_and, key i]
    cases (sip_write_mask tc c).testBit i <;> simp
  · intro i hi
    rw [key i, hi]
    simp

/-! # Pending aggregator -/

open ISS

/-- Claim C5. In the result of `compute_clint_pending_irq_bits_per_level` a bit set in the
value read from `mideleg` is clear in `m_pending`, and a bit set in the value read from
`hideleg` is clear in `s_hs_pending`. -/
theorem pending_excludes_lower_level (d : IrqDecls) (s : ISS) (i : Nat) :
    (s.csrs.clint.checked_read_mideleg_64.testBit i = true →
      (s.compute_clint_pending_irq_bits_per_level d).m_pending.testBit i = false) ∧
    (s.csrs.clint.checked_read_hideleg_64.testBit i = true →
      (s.compute_clint_pending_irq_bits_per_level d).s_hs_pending.testBit i = false) := by
  constructor
  · intro h
    simp only [compute_clint_pending_irq_bits_per_level, Nat.testBit_and, testBit_not64, h,
      Bool.not_true, Bool.and_false]
  · intro h
    simp only [compute_clint_pending_irq_bits_per_level, Nat.testBit_and, testBit_not64, h,
      Bool.not_true, Bool.and_false]

/-- Claim C5 at `delegState`, bit 10: delegated by `mideleg` and by `hideleg`, enabled and
pending, and absent from the Machine and the Supervisor pending sets. -/
theorem pending_excludes_lower_level_witness :
    delegState.csrs.clint.checked_read_mideleg_64.testBit 10 = true ∧
    delegState.csrs.clint.checked_read_hideleg_64.testBit 10 = true ∧
    (delegState.compute_clint_pending_irq_bits_per_level sampleDecls).m_pending.testBit 10 =
      false ∧
    (delegState.compute_clint_pending_irq_bits_per_level sampleDecls).s_hs_pending.testBit 10 =
      false :=
  ⟨by decide, by decide,
   (pending_excludes_lower_level sampleDecls delegState 10).1 (by decide),
   (pending_excludes_lower_level sampleDecls delegState 10).2 (by decide)⟩

/-- Claim C6. `process_clint_pending_irq_bits_per_level`: a level in nested-vectored mode
keeps only its own external-interrupt bit (Machine 11, Supervisor 9, VS 10), with the value
of the input bit, so Machine timer bit 7 never survives; a level in another mode keeps its
pending set unchanged. -/
theorem nested_vectored_filter (s : ISS) (p : PendingInterrupts) :
    (s.is_irq_mode_snps_nested_vectored MachineMode = true →
      (∀ i, i ≠ 11 → (s.process_clint_pending_irq_bits_per_level p).m_pending.testBit i = false) ∧
      (s.process_clint_pending_irq_bits_per_level p).m_pending.testBit 11 =
        p.m_pending.testBit 11 ∧
      (s.process_clint_pending_irq_bits_per_level p).m_pending.testBit 7 = false) ∧
    (s.is_irq_mode_snps_nested_vectored SupervisorMode = true →
      (∀ i, i ≠ 9 →
        (s.process_clint_pending_irq_bits_per_level p).s_hs_pending.testBit i = false) ∧
      (s.process_clint_pending_irq_bits_per_level p).s_hs_pending.testBit 9 =
        p.s_hs_pending.testBit 9) ∧
    (s.is_irq_mode_snps_nested_vectored VirtualSupervisorMode = true →
      (∀ i, i ≠ 10 →
        (s.process_clint_pending_irq_bits_per_level p).vs_pending.testBit i = false) ∧
      (s.process_clint_pending_irq_bits_per_level p).vs_pending.testBit 10 =
        p.vs_pending.testBit 10) ∧
    (s.is_irq_mode_snps_nested_vectored MachineMode = false →
      (s.process_clint_pending_irq_bits_per_level p).m_pending = p.m_pending) ∧
    (s.is_irq_mode_snps_nested_vectored SupervisorMode = false →
      (s.process_clint_pending_irq_bits_per_level p).s_hs_pending = p.s_hs_pending) ∧
    (s.is_irq_mode_snps_nested_vectored VirtualSupervisorMode = false →
      (s.process_clint_pending_irq_bits_per_level p).vs_pending = p.vs_pending) := by
  unfold process_clint_pending_irq_bits_per_level
  cases hm : s.is_irq_mode_snps_nested_vectored MachineMode <;>
  cases hs : s.is_irq_mode_snps_nested_vectored SupervisorMode <;>
  cases hv : s.is_irq_mode_snps_nested_vectored VirtualSupervisorMode <;>
  simp [Nat.testBit_and, testBit_BIT, EXC_M_EXTERNAL_INTERRUPT, EXC_S_EXTERNAL_INTERRUPT,
    EXC_VS_EXTERNAL_INTERRUPT] <;>
  (repeat' constructor) <;> intro i hi <;> omega

/-- Claim C6 at `nvState` and `nvPendings`: the Machine level is in nested-vectored mode, the
timer bit 7 is pending on input and gone from the result, bit 11 is kept. -/
theorem nested_vectored_filter_witness :
    nvState.is_irq_mode_snps_nested_vectored MachineMode = true ∧
    nvPendings.m_pending.testBit 7 = true ∧
    (nvState.process_clint_pending_irq_bits_per_level nvPendings).m_pending.testBit 7 = false ∧
    (nvState.process_clint_pending_irq_bits_per_level nvPendings).m_pending.testBit 11 =
      nvPendings.m_pending.testBit 11 :=
  ⟨by decide, by decide,
   ((nested_vectored_filter nvState nvPendings).1 (by decide)).2.2,
   ((nested_vectored_filter nvState nvPendings).1 (by decide)).2.1⟩

/-! # Delivery cascade -/

theorem BIT_ne_zero (i : Nat) : BIT i ≠ 0 := by
  unfold BIT
  rw [Nat.one_shiftLeft]
  exact Nat.pos_iff_ne_zero.mp (Nat.two_pow_pos i)

theorem and_BIT (x i : Nat) : x &&& BIT i = if x.testBit i then BIT i else 0 := by
  apply Nat.eq_of_testBit_eq; intro j
  rw [Nat.testBit_and, testBit_BIT]
  by_cases h : x.testBit i = true
  · rw [if_pos h, testBit_BIT]
    by_cases hij : i = j
    · subst hij; simp [h]
    · simp [hij]
  · rw [if_neg h, Nat.zero_testBit]
    by_cases hij : i = j
    · subst hij; simp at h; simp [h]
    · simp [hij]

theorem and_BIT_ne_zero (x i : Nat) : (x &&& BIT i ≠ 0) ↔ x.testBit i = true := by
  rw [and_BIT]
  by_cases h : x.testBit i = true
  · simp [h, BIT_ne_zero]
  · simp [h]

theorem pendings_edge_detected_eq (a b i : Nat) :
    pendings_edge_detected a b i = (!a.testBit i && b.testBit i) := by
  unfold pendings_edge_detected
  rw [and_BIT, and_BIT]
  have hz := BIT_ne_zero i
  cases a.testBit i <;> cases b.testBit i <;> simp [hz, Ne.symm hz]

/-- Without an edge at any level `deliver_pending_to_imsic` returns the state unchanged. -/
theorem deliver_no_edge (hw : ISS → Nat → Bool → Option ISS) (d : IrqDecls) (s : ISS)
    (p q : PendingInterrupts) (iid : Nat)
    (hm : p.m_pending.testBit iid = q.m_pending.testBit iid)
    (hs : p.s_hs_pending.testBit iid = q.s_hs_pending.testBit iid)
    (hv : p.vs_pending.testBit iid = q.vs_pending.testBit iid) :
    deliver_pending_to_imsic hw d s p q iid = some s := by
  unfold deliver_pending_to_imsic
  simp only [pendings_edge_detected_eq, and_BIT_ne_zero, hm, hs, hv]
  cases q.m_pending.testBit iid <;> cases q.s_hs_pending.testBit iid <;>
    cases q.vs_pending.testBit iid <;> simp

theorem deliver_same (hw : ISS → Nat → Bool → Option ISS) (d : IrqDecls) (s : ISS)
    (p : PendingInterrupts) (iid : Nat) :
    deliver_pending_to_imsic hw d s p p iid = some s :=
  deliver_no_edge hw d s p p iid rfl rfl rfl

theorem testBit_hw_write_mip_other (c : csrs_clint_pend) (iid j : Nat) (set : Bool)
    (hj : j < 64) (hne : j ≠ iid) :
    (c.hw_write_mip iid set).1.mip.testBit j = c.mip.testBit j := by
  simp only [csrs_clint_pend.hw_write_mip, testBit_write_64, Nat.testBit_and, testBit_BIT, hj, decide_True,
    Bool.true_and]
  have : ¬ iid = j := fun h => hne h.symm
  simp [this]

theorem testBit_hw_write_mip_timer (c : csrs_clint_pend) :
    (c.hw_write_mip EXC_M_TIMER_INTERRUPT true).1.mip.testBit 7 = true := by
  simp [csrs_clint_pend.hw_write_mip, testBit_write_64, Nat.testBit_and, testBit_BIT, MIP_READ_MASK,
    testBit_MIE_MASK, EXC_M_TIMER_INTERRUPT, Nat.testBit_shiftLeft]
  decide

/-- The routed reads at bit position `j` see `mip` only through its bit `j`. -/
theorem routed_reads_local (tc : TrapCodes) (c : csrs_clint_pend) (m j : Nat)
    (h : m.testBit j = c.mip.testBit j) :
    (sip_routed_read_64 tc { c with mip := m }).testBit j = (sip_routed_read_64 tc c).testBit j ∧
    (checked_read_hip { c with mip := m }).testBit j = (checked_read_hip c).testBit j ∧
    (vsip_routed_read_64 tc { c with mip := m }).testBit j =
      (vsip_routed_read_64 tc c).testBit j := by
  refine ⟨?_, ?_, ?_⟩ <;>
  simp only [sip_routed_read_64, vsip_routed_read_64, checked_read_hip, mip_routed_read_64,
    vs_route_masks, s_route_masks, checked_read_hideleg_64, hideleg_m_extra_mask, read_64,
    testBit_reg_to_lo, Nat.testBit_and, Nat.testBit_or, h]

theorem compute_congr (d : IrqDecls) (s s' : ISS) (h1 : s.csrs.clint = s'.csrs.clint)
    (h2 : s.csrs.hvictl = s'.csrs.hvictl) :
    s.compute_clint_pending_irq_bits_per_level d = s'.compute_clint_pending_irq_bits_per_level d := by
  unfold compute_clint_pending_irq_bits_per_level
  rw [h1, h2]

/-- Bit `j` of the three pending sets depends on `mip` only through its bit `j`. -/
theorem compute_local (d : IrqDecls) (s s' : ISS) (j : Nat)
    (hc : s'.csrs.clint = { s.csrs.clint with mip := s'.csrs.clint.mip })
    (hh : s'.csrs.hvictl = s.csrs.hvictl)
    (hb : s'.csrs.clint.mip.testBit j = s.csrs.clint.mip.testBit j) :
    (s'.compute_clint_pending_irq_bits_per_level d).m_pending.testBit j =
      (s.compute_clint_pending_irq_bits_per_level d).m_pending.testBit j ∧
    (s'.compute_clint_pending_irq_bits_per_level d).s_hs_pending.testBit j =
      (s.compute_clint_pending_irq_bits_per_level d).s_hs_pending.testBit j ∧
    (s'.compute_clint_pending_irq_bits_per_level d).vs_pending.testBit j =
      (s.compute_clint_pending_irq_bits_per_level d).vs_pending.testBit j := by
  obtain ⟨r1, r2, r3⟩ := routed_reads_local d.codes s.csrs.clint s'.csrs.clint.mip j hb
  rw [← hc] at r1 r2 r3
  have e1 : s'.csrs.clint.mie = s.csrs.clint.mie := by rw [hc]
  have e2 : s'.csrs.clint.checked_read_mideleg_64 = s.csrs.clint.checked_read_mideleg_64 := by
    rw [hc]; rfl
  have e3 : s'.csrs.clint.checked_read_hideleg_64 = s.csrs.clint.checked_read_hideleg_64 := by
    rw [hc]; rfl
  have e4 : s'.csrs.clint.sie_routed_read_64 d.codes = s.csrs.clint.sie_routed_read_64 d.codes := by
    rw [hc]; rfl
  have e5 : s'.csrs.clint.checked_read_hie = s.csrs.clint.checked_read_hie := by
    rw [hc]; rfl
  have e6 : s'.csrs.clint.vsie_routed_read_64 d.codes = s.csrs.clint.vsie_routed_read_64 d.codes := by
    rw [hc]; rfl
  unfold compute_clint_pending_irq_bits_per_level
  simp only [hh, e1, e2, e3, e4, e5, e6]
  refine ⟨?_, ?_, ?_⟩
  · simp only [Nat.testBit_and, hb]
  · simp only [Nat.testBit_and, Nat.testBit_or, r1, r2]
  · split
    · split
      · simp only [Nat.testBit_and, Nat.testBit_or, r3]
      · simp only [Nat.testBit_and, Nat.testBit_or, r3]
    · simp only [Nat.testBit_and, Nat.testBit_or, r3]

/-- Bit 7 (Machine timer) of the three pending sets. -/
theorem pending_bit_mtimer (d : IrqDecls) (hv : d.codes.Valid) (s : ISS) :
    (s.compute_clint_pending_irq_bits_per_level d).m_pending.testBit 7 =
      (s.csrs.clint.mie.testBit 7 && s.csrs.clint.mip.testBit 7) ∧
    (s.compute_clint_pending_irq_bits_per_level d).s_hs_pending.testBit 7 = false ∧
    (s.compute_clint_pending_irq_bits_per_level d).vs_pending.testBit 7 =
      (s.csrs.hvictl.is_local_injected &&
        ((d.transform_s_to_vs s.csrs.hvictl.get_s_iid).1 &&
          decide ((d.transform_s_to_vs s.csrs.hvictl.get_s_iid).2 = 7))) := by
  have hnl := testBit_MIx_NON_LEVELED_MASK_low d.codes hv 7 (by decide)
  unfold compute_clint_pending_irq_bits_per_level
  refine ⟨?_, ?_, ?_⟩
  · simp [Nat.testBit_and, testBit_not64, checked_read_mideleg_64, read_64, MIDELEG_READ_MASK,
      Nat.testBit_or, testBit_SIE_MASK, testBit_HIE_MASK]
  · simp [Nat.testBit_and, Nat.testBit_or, sip_routed_read_64, checked_read_hip, read_64,
      SIP_READ_MASK, HIP_READ_MASK, testBit_reg_to_lo, testBit_SIE_MASK, testBit_HIE_MASK, hnl]
  · have hz : (vsip_routed_read_64 d.codes s.csrs.clint).testBit 7 = false := by
      simp [vsip_routed_read_64, read_64, VSIP_READ_MASK, Nat.testBit_and, Nat.testBit_or,
        testBit_VSIE_MASK, hnl]
    cases h1 : s.csrs.hvictl.is_local_injected
    · simp [Nat.testBit_and, hz]
    · cases h2 : (d.transform_s_to_vs s.csrs.hvictl.get_s_iid).1
      · simp [h2, Nat.testBit_and, hz, testBit_BIT, EXC_VS_EXTERNAL_INTERRUPT]
      · simp [h2, Nat.testBit_and, Nat.testBit_or, testBit_BIT, hz, EXC_VS_EXTERNAL_INTERRUPT]

theorem deliver_mtimer (hw : ISS → Nat → Bool → Option ISS) (d : IrqDecls)
    (hv : d.codes.Valid) (s : ISS)
    (hnv : s.is_irq_mode_snps_nested_vectored MachineMode = true) :
    deliver_pending_to_imsic hw d (s.hw_write_mip EXC_M_TIMER_INTERRUPT true)
      (s.compute_clint_pending_irq_bits_per_level d)
      ((s.hw_write_mip EXC_M_TIMER_INTERRUPT true).compute_clint_pending_irq_bits_per_level d)
      EXC_M_TIMER_INTERRUPT = some (mtimer_route_result s) := by
  obtain ⟨o1, o2, o3⟩ := pending_bit_mtimer d hv s
  obtain ⟨n1, n2, n3⟩ := pending_bit_mtimer d hv (s.hw_write_mip EXC_M_TIMER_INTERRUPT true)
  have hmip : (s.hw_write_mip EXC_M_TIMER_INTERRUPT true).csrs.clint.mip.testBit 7 = true :=
    testBit_hw_write_mip_timer s.csrs.clint
  have hmie : (s.hw_write_mip EXC_M_TIMER_INTERRUPT true).csrs.clint.mie = s.csrs.clint.mie := rfl
  have hhv : (s.hw_write_mip EXC_M_TIMER_INTERRUPT true).csrs.hvictl = s.csrs.hvictl := rfl
  rw [hmip, hmie] at n1
  rw [hhv, ← o3] at n3
  have hnv' : (s.hw_write_mip EXC_M_TIMER_INTERRUPT true).is_irq_mode_snps_nested_vectored
      MachineMode = true := hnv
  have hip : (s.hw_write_mip EXC_M_TIMER_INTERRUPT true).get_iprio d MachineMode
      EXC_M_TIMER_INTERRUPT = s.icsrs_m.iprio.get_iprio EXC_M_TIMER_INTERRUPT := rfl
  unfold deliver_pending_to_imsic mtimer_route_result
  simp only [pendings_edge_detected_eq, and_BIT_ne_zero, EXC_M_TIMER_INTERRUPT] at *
  simp only [o1, o2, n1, n2, n3, Bool.and_true]
  cases hA : s.csrs.clint.mie.testBit 7
  · cases hV : (s.compute_clint_pending_irq_bits_per_level d).vs_pending.testBit 7 <;> simp
  · cases hB : s.csrs.clint.mip.testBit 7
    · have hext : ¬ (7 = get_external_iid MachineMode) := by decide
      have hvs : ¬ (MachineMode = VirtualSupervisorMode) := by decide
      by_cases hP : s.icsrs_m.iprio.get_iprio 7 = 0
      · simp [hP, hnv', hext, hvs, route_imsic_write, hip]
      · simp [hP, hnv', hext, hvs, route_imsic_write, hip]
    · simp

/-- The two re-checks of `cascade_pendings_to_imsics` change nothing when bits 10 and 9 of
the pending sets are the same before and after the first-order delivery. -/
theorem cascade_quiet (hw : ISS → Nat → Bool → Option ISS) (d : IrqDecls) (s : ISS)
    (p : PendingInterrupts)
    (h10 : p.m_pending.testBit 10 = (s.compute_clint_pending_irq_bits_per_level d).m_pending.testBit 10 ∧
      p.s_hs_pending.testBit 10 =
        (s.compute_clint_pending_irq_bits_per_level d).s_hs_pending.testBit 10 ∧
      p.vs_pending.testBit 10 =
        (s.compute_clint_pending_irq_bits_per_level d).vs_pending.testBit 10) :
    cascade_pendings_to_imsics hw d s p = some s := by
  unfold cascade_pendings_to_imsics
  simp only [deliver_no_edge hw d s p _ EXC_VS_EXTERNAL_INTERRUPT h10.1 h10.2.1 h10.2.2,
    deliver_same]

theorem mtimer_route_result_local (d : IrqDecls) (s : ISS) (j : Nat) (hj : j < 64)
    (hne : j ≠ 11) :
    ((s.hw_write_mip EXC_M_TIMER_INTERRUPT true).compute_clint_pending_irq_bits_per_level
        d).m_pending.testBit j =
      ((mtimer_route_result s).compute_clint_pending_irq_bits_per_level d).m_pending.testBit j ∧
    ((s.hw_write_mip EXC_M_TIMER_INTERRUPT true).compute_clint_pending_irq_bits_per_level
        d).s_hs_pending.testBit j =
      ((mtimer_route_result s).compute_clint_pending_irq_bits_per_level
        d).s_hs_pending.testBit j ∧
    ((s.hw_write_mip EXC_M_TIMER_INTERRUPT true).compute_clint_pending_irq_bits_per_level
        d).vs_pending.testBit j =
      ((mtimer_route_result s).compute_clint_pending_irq_bits_per_level d).vs_pending.testBit j := by
  unfold mtimer_route_result
  split
  · obtain ⟨a, b, c⟩ := compute_local d (s.hw_write_mip EXC_M_TIMER_INTERRUPT true)
      (ISS.compute_imsic_pending_interrupts_m
        { s.hw_write_mip EXC_M_TIMER_INTERRUPT true with
          icsrs_m :=
            { (s.hw_write_mip EXC_M_TIMER_INTERRUPT true).icsrs_m with
              eip := imsic_update_eip_bit (s.hw_write_mip EXC_M_TIMER_INTERRUPT true).icsrs_m.eip
                (s.icsrs_m.iprio.get_iprio EXC_M_TIMER_INTERRUPT) true } }) j rfl rfl
      (testBit_hw_write_mip_other _ EXC_M_EXTERNAL_INTERRUPT j _ hj hne)
    exact ⟨a.symm, b.symm, c.symm⟩
  · exact ⟨rfl, rfl, rfl⟩

/-- The full effect of `clint_hw_irq_route(EXC_M_TIMER_INTERRUPT, true)` with `mtvec` in
nested-vectored mode. -/
theorem clint_hw_irq_route_mtimer (d : IrqDecls) (hv : d.codes.Valid) (fuel : Nat) (s : ISS)
    (hnv : s.is_irq_mode_snps_nested_vectored MachineMode = true) :
    clint_hw_irq_route d (fuel + 1) s EXC_M_TIMER_INTERRUPT true =
      some (mtimer_route_result s) := by
  simp only [clint_hw_irq_route, deliver_clint_changes_to_imsics_iid,
    deliver_mtimer _ d hv s hnv]
  exact cascade_quiet _ d _ _ (mtimer_route_result_local d s 10 (by decide) (by decide))

/-- Claim C7, counterexample. In `mtimerState` (`mtvec` nested-vectored, `mie` bit 7 set,
Machine priority 5 for id 7, Machine file empty) `clint_hw_irq_route(EXC_M_TIMER_INTERRUPT,
true)` sets bit 5 of `eip[0]` of the Machine file. -/
theorem mtimer_cascade_counterexample :
    mtimerState.is_irq_mode_snps_nested_vectored MachineMode = true ∧
    word_reg mtimerState.icsrs_m.eip 0 = 0 ∧
    (clint_hw_irq_route sampleDecls 1 mtimerState EXC_M_TIMER_INTERRUPT true).map
      (fun s => word_reg s.icsrs_m.eip 0) = some 32 := by
  decide

/-- Claim C7, amended. With `mtvec` in nested-vectored mode,
`clint_hw_irq_route(EXC_M_TIMER_INTERRUPT, true)` returns, and the cascade does not fire (the
Machine `eip` array and `mtopei` are unchanged) when `mie` bit 7 is clear, or `mip` bit 7 was
already set, or the Machine priority of id 7 is 0; otherwise it writes that priority as a
minor id into the Machine `eip` array. -/
theorem mtimer_cascade (d : IrqDecls) (hv : d.codes.Valid) (fuel : Nat) (s : ISS)
    (hnv : s.is_irq_mode_snps_nested_vectored MachineMode = true) :
    ∃ s', clint_hw_irq_route d (fuel + 1) s EXC_M_TIMER_INTERRUPT true = some s' ∧
      ((s.csrs.clint.mie.testBit 7 = false ∨ s.csrs.clint.mip.testBit 7 = true ∨
          s.get_iprio d MachineMode EXC_M_TIMER_INTERRUPT = 0) →
        s'.icsrs_m.eip = s.icsrs_m.eip ∧ s'.csrs.mtopei = s.csrs.mtopei) ∧
      ((s.csrs.clint.mie.testBit 7 = true ∧ s.csrs.clint.mip.testBit 7 = false ∧
          s.get_iprio d MachineMode EXC_M_TIMER_INTERRUPT ≠ 0) →
        s'.icsrs_m.eip = imsic_update_eip_bit s.icsrs_m.eip
          (s.get_iprio d MachineMode EXC_M_TIMER_INTERRUPT) true) := by
  refine ⟨mtimer_route_result s, clint_hw_irq_route_mtimer d hv fuel s hnv, ?_, ?_⟩
  · intro h
    have hn : ¬ (s.csrs.clint.mie.testBit 7 = true ∧ s.csrs.clint.mip.testBit 7 = false ∧
        s.icsrs_m.iprio.get_iprio EXC_M_TIMER_INTERRUPT ≠ 0) := by
      rintro ⟨a, b, c⟩
      rcases h with h | h | h
      · rw [a] at h; exact absurd h (by simp)
      · rw [b] at h; exact absurd h (by simp)
      · exact c h
    simp only [mtimer_route_result, if_neg hn]
    exact ⟨rfl, rfl⟩
  · intro h
    have h' : s.csrs.clint.mie.testBit 7 = true ∧ s.csrs.clint.mip.testBit 7 = false ∧
        s.icsrs_m.iprio.get_iprio EXC_M_TIMER_INTERRUPT ≠ 0 := h
    simp only [mtimer_route_result, if_pos h']
    rfl

/-- Claim C7, amended, at `mtimerState`: the local cause numbers are valid, `mtvec` is in
nested-vectored mode, and the route returns. -/
theorem mtimer_cascade_witness :
    sampleDecls.codes.Valid ∧
    mtimerState.is_irq_mode_snps_nested_vectored MachineMode = true ∧
    ∃ s', clint_hw_irq_route sampleDecls 1 mtimerState EXC_M_TIMER_INTERRUPT true = some s' ∧
      ((mtimerState.csrs.clint.mie.testBit 7 = false ∨
          mtimerState.csrs.clint.mip.testBit 7 = true ∨
          mtimerState.get_iprio sampleDecls MachineMode EXC_M_TIMER_INTERRUPT = 0) →
        s'.icsrs_m.eip = mtimerState.icsrs_m.eip ∧ s'.csrs.mtopei = mtimerState.csrs.mtopei) ∧
      ((mtimerState.csrs.clint.mie.testBit 7 = true ∧
          mtimerState.csrs.clint.mip.testBit 7 = false ∧
          mtimerState.get_iprio sampleDecls MachineMode EXC_M_TIMER_INTERRUPT ≠ 0) →
        s'.icsrs_m.eip = imsic_update_eip_bit mtimerState.icsrs_m.eip
          (mtimerState.get_iprio sampleDecls MachineMode EXC_M_TIMER_INTERRUPT) true) :=
  ⟨by decide, by decide, mtimer_cascade sampleDecls (by decide) 0 mtimerState (by decide)⟩

/-! # CSR access checks -/

theorem virt_transform_vs (s : ISS) (h : s.prv = VirtualSupervisorMode) :
    s.csr_address_virt_transform csr.SIP_ADDR = csr.VSIP_ADDR ∧
    s.csr_address_virt_transform csr.SIE_ADDR = csr.VSIE_ADDR ∧
    s.csr_address_virt_transform csr.SIPH_ADDR = csr.VSIPH_ADDR ∧
    s.csr_address_virt_transform csr.SIEH_ADDR = csr.VSIEH_ADDR := by
  have hvs : s.vs_mode = true := by simp [vs_mode, h]
  unfold csr_address_virt_transform
  rw [hvs]
  decide

theorem no_counter_trap (s : ISS) (addr : Nat)
    (haddr : addr = csr.SIP_ADDR ∨ addr = csr.SIE_ADDR ∨ addr = csr.SIPH_ADDR ∨
      addr = csr.SIEH_ADDR) :
    s.validate_csr_counter_read_access_rights addr = none := by
  have h : ¬ ((addr ≥ 0xC00 ∧ addr ≤ 0xC1F) ∨ (addr ≥ 0xC80 ∧ addr ≤ 0xC9F)) := by
    rcases haddr with h | h | h | h <;> subst h <;> decide
  unfold validate_csr_counter_read_access_rights
  rw [if_neg h]

set_option maxRecDepth 8000 in
/-- Claim C8. With `hvictl.vti = 1` in VS mode, `get_csr_value` and `set_csr_value` on `sip`,
`sie`, `siph`, `sieh` raise `EXC_VIRTUAL_INSTRUCTION` and leave the state unchanged; with
`vti = 0`, or from M or HS mode, `vs_clint_vti_access_check` raises nothing. -/
theorem vti_blocks_vs_alias (d : IrqDecls) (fuel : Nat) (s : ISS) (addr value : Nat)
    (read_accessed : Bool)
    (haddr : addr = csr.SIP_ADDR ∨ addr = csr.SIE_ADDR ∨ addr = csr.SIPH_ADDR ∨
      addr = csr.SIEH_ADDR) :
    (s.csrs.hvictl.vti = 1 ∧ s.prv = VirtualSupervisorMode →
      s.get_csr_value d addr = Result.trap Exc.EXC_VIRTUAL_INSTRUCTION s ∧
      s.set_csr_value d fuel addr value read_accessed =
        Result.trap Exc.EXC_VIRTUAL_INSTRUCTION s) ∧
    (s.csrs.hvictl.vti = 0 ∨ s.prv = MachineMode ∨ s.prv = SupervisorMode →
      s.vs_clint_vti_access_check = none) := by
  constructor
  · rintro ⟨hvti, hprv⟩
    have hchk : s.vs_clint_vti_access_check = some Exc.EXC_VIRTUAL_INSTRUCTION := by
      simp [vs_clint_vti_access_check, csr_hvictl.is_vti_active, hvti, hprv]
    obtain ⟨t1, t2, t3, t4⟩ := virt_transform_vs s hprv
    have hc := no_counter_trap s addr haddr
    unfold get_csr_value set_csr_value
    rw [hc]
    rcases haddr with h | h | h | h <;> subst h
    · rw [t1]
      simp [csr.MIP_ADDR, csr.MIPH_ADDR, csr.SIP_ADDR, csr.SIPH_ADDR, csr.HIP_ADDR,
        csr.VSIP_ADDR, csr.VSIPH_ADDR, csr.MIE_ADDR, csr.MIEH_ADDR, csr.SIE_ADDR, csr.SIEH_ADDR,
        csr.HIE_ADDR, csr.VSIE_ADDR, csr.VSIEH_ADDR, read_after_vti_check, hchk]
    · rw [t2]
      simp [csr.MIP_ADDR, csr.MIPH_ADDR, csr.SIP_ADDR, csr.SIPH_ADDR, csr.HIP_ADDR,
        csr.VSIP_ADDR, csr.VSIPH_ADDR, csr.MIE_ADDR, csr.MIEH_ADDR, csr.SIE_ADDR, csr.SIEH_ADDR,
        csr.HIE_ADDR, csr.VSIE_ADDR, csr.VSIEH_ADDR, read_after_vti_check, hchk]
    · rw [t3]
      simp [csr.MIP_ADDR, csr.MIPH_ADDR, csr.SIP_ADDR, csr.SIPH_ADDR, csr.HIP_ADDR,
        csr.VSIP_ADDR, csr.VSIPH_ADDR, csr.MIE_ADDR, csr.MIEH_ADDR, csr.SIE_ADDR, csr.SIEH_ADDR,
        csr.HIE_ADDR, csr.VSIE_ADDR, csr.VSIEH_ADDR, read_after_vti_check, hchk]
    · rw [t4]
      simp [csr.MIP_ADDR, csr.MIPH_ADDR, csr.SIP_ADDR, csr.SIPH_ADDR, csr.HIP_ADDR,
        csr.VSIP_ADDR, csr.VSIPH_ADDR, csr.MIE_ADDR, csr.MIEH_ADDR, csr.SIE_ADDR, csr.SIEH_ADDR,
        csr.HIE_ADDR, csr.VSIE_ADDR, csr.VSIEH_ADDR, read_after_vti_check, hchk]
  · rintro (h | h | h)
    · simp [vs_clint_vti_access_check, csr_hvictl.is_vti_active, h]
    · simp [vs_clint_vti_access_check, h, MachineMode, VirtualSupervisorMode]
    · simp [vs_clint_vti_access_check, h, SupervisorMode, VirtualSupervisorMode]

/-- Claim C8 at `vtiState` (VS mode, `vti = 1`): reading and writing `sip` trap with the
virtual-instruction exception and the state is `vtiState` again. -/
theorem vti_blocks_vs_alias_witness :
    vtiState.csrs.hvictl.vti = 1 ∧ vtiState.prv = VirtualSupervisorMode ∧
    vtiState.get_csr_value sampleDecls csr.SIP_ADDR =
      Result.trap Exc.EXC_VIRTUAL_INSTRUCTION vtiState ∧
    vtiState.set_csr_value sampleDecls 2 csr.SIP_ADDR 0 false =
      Result.trap Exc.EXC_VIRTUAL_INSTRUCTION vtiState :=
  ⟨by decide, by decide,
   ((vti_blocks_vs_alias sampleDecls 2 vtiState csr.SIP_ADDR 0 false (Or.inl rfl)).1
      ⟨by decide, by decide⟩).1,
   ((vti_blocks_vs_alias sampleDecls 2 vtiState csr.SIP_ADDR 0 false (Or.inl rfl)).1
      ⟨by decide, by decide⟩).2⟩

/-! # hvictl local injection -/

theorem testBit_HVICTL_MASK (i : Nat) :
    csr_hvictl.HVICTL_MASK.testBit i = decide (i < 10 ∨ (16 ≤ i ∧ i < 24) ∨ i = 30) := by
  have h : csr_hvictl.HVICTL_MASK = (2 ^ 10 - 1) ||| ((2 ^ 8 - 1) <<< 16) ||| 2 ^ 30 := by
    decide
  rw [h]
  simp only [Nat.testBit_or, Nat.testBit_shiftLeft, Nat.testBit_two_pow_sub_one,
    Nat.testBit_two_pow]
  apply Bool.eq_iff_iff.mpr
  simp
  omega

/-- The constructed `hvictl` is well-formed and `checked_write` keeps it so. -/
theorem hvictl_WF_reachable (h : csr_hvictl) (val : Nat) :
    (csr_hvictl.mk 0).WF ∧ (h.WF → (h.checked_write val).WF) := by
  constructor
  · decide
  · intro hwf
    unfold csr_hvictl.WF at hwf
    unfold csr_hvictl.WF csr_hvictl.checked_write
    apply Nat.eq_of_testBit_eq; intro i
    have hb : h.reg.testBit i = (h.reg.testBit i && csr_hvictl.HVICTL_MASK.testBit i) := by
      rw [← Nat.testBit_and, hwf]
    simp only [Nat.testBit_and, Nat.testBit_or, testBit_not32]
    rw [hb]
    cases csr_hvictl.HVICTL_MASK.testBit i <;> simp

theorem hvictl_iid_lt (h : csr_hvictl) (hwf : h.WF) : h.iid < 2 ^ 8 := by
  unfold csr_hvictl.iid get_field
  have e : (h.reg >>> 16) % 2 ^ 12 = (h.reg >>> 16) % 2 ^ 8 := by
    apply Nat.eq_of_testBit_eq; intro i
    simp only [Nat.testBit_mod_two_pow, Nat.testBit_shiftRight]
    have hb : h.reg.testBit (16 + i) = (h.reg.testBit (16 + i) &&
        csr_hvictl.HVICTL_MASK.testBit (16 + i)) := by
      rw [← Nat.testBit_and, hwf]
    rw [hb, testBit_HVICTL_MASK]
    cases h.reg.testBit (16 + i)
    · simp
    · apply Bool.eq_iff_iff.mpr
      simp
      omega
  rw [e]
  exact Nat.mod_lt _ (by decide)

/-- Claim C9. With `hvictl.vti = 1` and `hvictl.iid` not 9, the `vs_pending` set of
`compute_clint_pending_irq_bits_per_level` has no bit other than bit 10 and the VS-numbered
bit of `hvictl.iid`, and has that bit whenever the id is transformable, whatever `vsip` and
`vsie` hold. -/
theorem hvictl_local_injection (d : IrqDecls) (s : ISS)
    (hwf : s.csrs.hvictl.WF)
    (hvti : s.csrs.hvictl.vti = 1) (hiid : s.csrs.hvictl.iid ≠ 9) :
    (∀ j : Nat, (s.compute_clint_pending_irq_bits_per_level d).vs_pending.testBit j = true →
      j = 10 ∨ ((d.transform_s_to_vs s.csrs.hvictl.iid).1 = true ∧
        j = (d.transform_s_to_vs s.csrs.hvictl.iid).2)) ∧
    ((d.transform_s_to_vs s.csrs.hvictl.iid).1 = true →
      (s.compute_clint_pending_irq_bits_per_level d).vs_pending.testBit
        (d.transform_s_to_vs s.csrs.hvictl.iid).2 = true) := by
  have hlt := hvictl_iid_lt s.csrs.hvictl hwf
  have hs : s.csrs.hvictl.get_s_iid = s.csrs.hvictl.iid := by
    unfold csr_hvictl.get_s_iid
    exact Nat.mod_eq_of_lt hlt
  have hli : s.csrs.hvictl.is_local_injected = true := by
    simp [csr_hvictl.is_local_injected, csr_hvictl.is_vti_active, hvti, hs, hiid,
      EXC_S_EXTERNAL_INTERRUPT]
  simp only [compute_clint_pending_irq_bits_per_level, hli, hs, if_true]
  cases ht : (d.transform_s_to_vs s.csrs.hvictl.iid).1
  · simp [Nat.testBit_and, testBit_BIT, EXC_VS_EXTERNAL_INTERRUPT]
    intro j _ _ hj
    exact hj.symm
  · simp [Nat.testBit_and, Nat.testBit_or, testBit_BIT, EXC_VS_EXTERNAL_INTERRUPT]
    intro j hj
    rcases hj with ⟨_, hj⟩ | hj
    · exact Or.inl hj.symm
    · exact Or.inr hj.symm

/-- Claim C9 at `vtiState` (`vti = 1`, `iid = 5`, `vsip` and `vsie` empty): bit 6, the
VS-numbered Supervisor timer, is in `vs_pending`. -/
theorem hvictl_local_injection_witness :
    vtiState.csrs.hvictl.WF ∧ vtiState.csrs.hvictl.vti = 1 ∧
    vtiState.csrs.hvictl.iid = 5 ∧ sampleDecls.transform_s_to_vs 5 = (true, 6) ∧
    (vtiState.compute_clint_pending_irq_bits_per_level sampleDecls).vs_pending.testBit 6 =
      true :=
  ⟨by decide, by decide, by decide, by decide,
    (hvictl_local_injection sampleDecls vtiState (by decide) (by decide) (by decide)).2
      (by decide)⟩

/-! # External interrupt file -/

theorem ctz_loop_spec : ∀ (fuel x : Nat), x ≠ 0 → x < 2 ^ fuel →
    x.testBit (ctz_loop fuel x) = true ∧ (∀ j, j < ctz_loop fuel x → x.testBit j = false) ∧
      ctz_loop fuel x < fuel := by
  intro fuel
  induction fuel with
  | zero => intro x h0 hlt; simp at hlt; exact absurd hlt h0
  | succ f ih =>
    intro x h0 hlt
    by_cases hodd : x % 2 = 1
    · simp only [ctz_loop, hodd, if_true]
      refine ⟨?_, ?_, by omega⟩
      · simp [Nat.testBit_zero, hodd]
      · intro j hj; omega
    · simp only [ctz_loop, hodd, if_false]
      have h1 : x / 2 ≠ 0 := by omega
      have h2 : x / 2 < 2 ^ f := by
        rw [Nat.pow_succ] at hlt; omega
      obtain ⟨a, b, c⟩ := ih (x / 2) h1 h2
      refine ⟨?_, ?_, by omega⟩
      · rw [Nat.add_comm, Nat.testBit_succ]; exact a
      · intro j hj
        cases j with
        | zero => simp [Nat.testBit_zero]; omega
        | succ j => rw [Nat.testBit_succ]; exact b j (by omega)

theorem imsic_scan_spec (eip eie : List icsr_32) (hw : ∀ k, word_reg eip k < 2 ^ 32) :
    ∀ (n i : Nat),
      (imsic_scan eip eie n i = NO_IRQ_PENDING ∧
        ∀ id, i * 32 ≤ id → id < (i + n) * 32 → eip_eie_bit eip eie id = false) ∨
      (i * 32 ≤ imsic_scan eip eie n i ∧ imsic_scan eip eie n i < (i + n) * 32 ∧
        eip_eie_bit eip eie (imsic_scan eip eie n i) = true ∧
        ∀ id, i * 32 ≤ id → id < imsic_scan eip eie n i → eip_eie_bit eip eie id = false) := by
  intro n
  induction n with
  | zero =>
    intro i
    left
    refine ⟨rfl, ?_⟩
    intro id h1 h2
    omega
  | succ n ih =>
    intro i
    by_cases he : word_reg eip i &&& word_reg eie i = 0
    · have hs : imsic_scan eip eie (n + 1) i = imsic_scan eip eie n (i + 1) := by
        simp [imsic_scan, he]
      rw [hs]
      have hlow : ∀ id, i * 32 ≤ id → id < (i + 1) * 32 → eip_eie_bit eip eie id = false := by
        intro id h1 h2
        have : id / 32 = i := by omega
        simp [eip_eie_bit, this, he]
      rcases ih (i + 1) with ⟨h1, h2⟩ | ⟨h1, h2, h3, h4⟩
      · left
        refine ⟨h1, ?_⟩
        intro id a b
        by_cases hc : id < (i + 1) * 32
        · exact hlow id a hc
        · exact h2 id (by omega) (by omega)
      · right
        refine ⟨by omega, by omega, h3, ?_⟩
        intro id a b
        by_cases hc : id < (i + 1) * 32
        · exact hlow id a hc
        · exact h4 id (by omega) b
    · have hs : imsic_scan eip eie (n + 1) i =
          i * 32 + builtin_ctz (word_reg eip i &&& word_reg eie i) := by
        simp [imsic_scan, he, icsr_32.BITS_PER_CSR]
      have hlt : word_reg eip i &&& word_reg eie i < 2 ^ 32 :=
        Nat.lt_of_le_of_lt Nat.and_le_left (hw i)
      obtain ⟨a, b, c⟩ := ctz_loop_spec 32 _ he hlt
      rw [hs]
      right
      refine ⟨by omega, by unfold builtin_ctz; omega, ?_, ?_⟩
      · have e1 : (i * 32 + builtin_ctz (word_reg eip i &&& word_reg eie i)) / 32 = i := by
          unfold builtin_ctz; omega
        have e2 : (i * 32 + builtin_ctz (word_reg eip i &&& word_reg eie i)) % 32 =
            builtin_ctz (word_reg eip i &&& word_reg eie i) := by
          unfold builtin_ctz; omega
        simp only [eip_eie_bit, e1, e2]
        exact a
      · intro id h1 h2
        have e1 : id / 32 = i := by unfold builtin_ctz at h2; omega
        simp only [eip_eie_bit, e1]
        apply b
        unfold builtin_ctz at h2
        omega

/-- Claim C10. `compute_imsic_pending` on a file of `eip_eie_arr_size` words with threshold
`t < 2048`: the asserted flag is true exactly when the delivery gate is on, some id is both
pending and enabled, and the lowest such id `c` has `t = 0` or `c < t`; with the gate off the
result is `(false, 0)`. -/
theorem compute_imsic_pending_asserted (eip eie : List icsr_32) (eithreshold : icsr_eithreshold)
    (eidelivery : icsr_eidelivery) (nested_vectored : Bool)
    (hw : ∀ k, word_reg eip k < 2 ^ 32) (ht : eithreshold.reg < IMSIC_MAX_IRQS) :
    ((compute_imsic_pending eip eie eip_eie_arr_size eithreshold eidelivery
        nested_vectored).1 = true ↔
      eidelivery.delivery_on = true ∧
        ∃ c, is_lowest_pending_enabled eip eie c ∧ (eithreshold.reg = 0 ∨ c < eithreshold.reg)) ∧
    (eidelivery.delivery_on = false →
      compute_imsic_pending eip eie eip_eie_arr_size eithreshold eidelivery nested_vectored =
        (false, 0)) := by
  have hsize : eip_eie_arr_size = 64 := by decide
  have hmax : IMSIC_MAX_IRQS = 2048 := rfl
  have hno : NO_IRQ_PENDING = 4096 := by decide
  rw [hmax] at ht
  constructor
  · cases hd : eidelivery.delivery_on
    · simp [compute_imsic_pending, hd]
    · simp only [compute_imsic_pending, hd, Bool.not_true, Bool.false_eq_true, if_false,
        true_and, decide_eq_true_eq, hsize, hmax]
      rcases imsic_scan_spec eip eie hw 64 0 with ⟨h1, h2⟩ | ⟨_, h2, h3, h4⟩
      · rw [h1, hno]
        constructor
        · intro h
          split at h <;> omega
        · rintro ⟨c, ⟨hc1, hc2, _⟩, _⟩
          rw [hmax] at hc1
          rw [h2 c (by omega) (by omega)] at hc2
          exact absurd hc2 (by simp)
      · constructor
        · intro h
          refine ⟨imsic_scan eip eie 64 0, ⟨by rw [hmax]; omega, h3, ?_⟩, ?_⟩
          · intro id hid
            exact h4 id (by omega) hid
          · by_cases h0 : eithreshold.reg = 0
            · exact Or.inl h0
            · right
              simpa [h0] using h
        · rintro ⟨c, ⟨hc1, hc2, hc3⟩, hc4⟩
          have hceq : c = imsic_scan eip eie 64 0 := by
            rcases Nat.lt_trichotomy c (imsic_scan eip eie 64 0) with h | h | h
            · rw [h4 c (by omega) h] at hc2
              exact absurd hc2 (by simp)
            · exact h
            · rw [hc3 _ h] at h3
              exact absurd h3 (by simp)
          rw [← hceq]
          rw [hmax] at hc1
          rcases hc4 with h0 | hlt
          · simp [h0]; exact hc1
          · have : eithreshold.reg ≠ 0 := by omega
            simp [this]; exact hlt
  · intro hd
    simp [compute_imsic_pending, hd]

theorem pendEip_word_lt : ∀ k, word_reg pendEip k < 2 ^ 32 := by
  intro k
  cases k with
  | zero => decide
  | succ k => simp [word_reg, pendEip]

theorem pend_lowest : is_lowest_pending_enabled pendEip pendEie 5 := by
  unfold is_lowest_pending_enabled
  decide

/-- Claim C10 at `pendEip`, `pendEie` with threshold 0 and the gate on: id 5 is the lowest
pending and enabled id and the file asserts. -/
theorem compute_imsic_pending_asserted_witness :
    (∀ k, word_reg pendEip k < 2 ^ 32) ∧ (0 : Nat) < IMSIC_MAX_IRQS ∧
    is_lowest_pending_enabled pendEip pendEie 5 ∧
    (compute_imsic_pending pendEip pendEie eip_eie_arr_size
        { reg := 0, mode_snps_vectored := false, thresholds := [], threshold_tail := 0 }
        { reg := 1 } false).1 = true :=
  ⟨pendEip_word_lt, by decide, pend_lowest,
    (compute_imsic_pending_asserted pendEip pendEie
      { reg := 0, mode_snps_vectored := false, thresholds := [], threshold_tail := 0 }
      { reg := 1 } false pendEip_word_lt (by decide)).1.mpr
      ⟨by decide, 5, pend_lowest, Or.inl rfl⟩⟩

/-! # Threshold stack -/

open icsr_eithreshold

theorem checked_write_nv_pop (t : icsr_eithreshold) (hm : t.mode_snps_vectored = true) :
    t.checked_write 0 = t.tstack_pop := by
  simp [checked_write, is_upper_bound_valid_minor_iid, IMSIC_MAX_IRQS, hm, write_snps_vectored]

theorem checked_write_nv_insert (t : icsr_eithreshold) (v : Nat)
    (hm : t.mode_snps_vectored = true) (h1 : 1 ≤ v) (h2 : v ≤ 255) :
    t.checked_write v = t.tstack_insert v := by
  have hv : ¬ (v ≥ IMSIC_MAX_IRQS) := by unfold IMSIC_MAX_IRQS; omega
  have hv0 : v ≠ 0 := by omega
  have hnt : ¬ (v > NV_MODE_MAX_VECTOR) := by unfold NV_MODE_MAX_VECTOR; omega
  simp [checked_write, is_upper_bound_valid_minor_iid, hv, hm, write_snps_vectored, hv0,
    is_tailed_iid, hnt]

theorem checked_write_nv_tail (t : icsr_eithreshold) (v : Nat)
    (hm : t.mode_snps_vectored = true) (h1 : 255 < v) (h2 : v < 2048) :
    t.checked_write v = t.tstack_put_tail v := by
  have hv : ¬ (v ≥ IMSIC_MAX_IRQS) := by unfold IMSIC_MAX_IRQS; omega
  have hv0 : v ≠ 0 := by omega
  have hnt : v > NV_MODE_MAX_VECTOR := by unfold NV_MODE_MAX_VECTOR; omega
  simp [checked_write, is_upper_bound_valid_minor_iid, hv, hm, write_snps_vectored, hv0,
    is_tailed_iid, hnt]

theorem is_reg_unstackable_iff (t : icsr_eithreshold) :
    t.is_reg_unstackable = true ↔ (t.reg = 0 ∨ 255 < t.reg) := by
  simp [is_reg_unstackable, is_tailed_iid, NV_MODE_MAX_VECTOR]

theorem nvThreshold_recorded (i : Nat) : nvThreshold.recorded i = false := by
  unfold recorded
  by_cases h : 1 ≤ i ∧ i ≤ NV_MODE_MAX_VECTOR
  · have hi : i < NV_MODE_MAX_VECTOR + 1 := by omega
    simp [h, nvThreshold, icsr_eithreshold.init, set_mode_snps_vectored,
      List.getD_eq_getElem?_getD, List.getElem?_replicate, hi]
  · simp [h]

set_option maxRecDepth 100000 in
/-- Claim C15. Threshold-stack LIFO law: a freshly constructed `eithreshold` put in
nested-vectored mode has head 0, no recorded entry and tail 0; after `checked_write(5)`,
`checked_write(3)`, `checked_write(7)` the head read by `checked_read` is 3 after one pop
(`checked_write(0)`), 5 after two pops, and the tail value after three pops. -/
theorem threshold_lifo_law :
    (nvThreshold.checked_read = 0 ∧ nvThreshold.threshold_tail = 0 ∧
      ∀ i, nvThreshold.recorded i = false) ∧
    (pops 1 (((nvThreshold.checked_write 5).checked_write 3).checked_write 7)).checked_read = 3 ∧
    (pops 2 (((nvThreshold.checked_write 5).checked_write 3).checked_write 7)).checked_read = 5 ∧
    (pops 3 (((nvThreshold.checked_write 5).checked_write 3).checked_write 7)).checked_read =
      (((nvThreshold.checked_write 5).checked_write 3).checked_write 7).threshold_tail := by
  refine ⟨⟨by decide, by decide, nvThreshold_recorded⟩, by decide, by decide, by decide⟩

theorem tstack_insert_reg (t : icsr_eithreshold) (v : Nat) :
    (t.tstack_insert v).reg =
      if t.reg = 0 ∨ 255 < t.reg then v else if t.reg > v then v else t.reg := by
  unfold tstack_insert
  by_cases hu : t.is_reg_unstackable = true
  · have h := (is_reg_unstackable_iff t).mp hu
    simp only [hu, if_true, h]
  · have hn : ¬ (t.reg = 0 ∨ 255 < t.reg) := fun h => hu ((is_reg_unstackable_iff t).mpr h)
    by_cases hgt : t.reg > v
    · simp [hu, hn, hgt]
    · simp [hu, hn, hgt]

theorem tstack_insert_thresholds (t : icsr_eithreshold) (v : Nat) :
    (t.tstack_insert v).thresholds =
      if t.reg = 0 ∨ 255 < t.reg then t.thresholds else t.thresholds.set t.reg true := by
  unfold tstack_insert
  by_cases hu : t.is_reg_unstackable = true
  · have h := (is_reg_unstackable_iff t).mp hu
    simp only [hu, if_true, h]
  · have hn : ¬ (t.reg = 0 ∨ 255 < t.reg) := fun h => hu ((is_reg_unstackable_iff t).mpr h)
    by_cases hgt : t.reg > v
    · simp [hu, hn, hgt]
    · simp [hu, hn, hgt]

theorem tstack_insert_frame (t : icsr_eithreshold) (v : Nat) :
    (t.tstack_insert v).threshold_tail = t.threshold_tail ∧
      (t.tstack_insert v).mode_snps_vectored = t.mode_snps_vectored := by
  unfold tstack_insert
  by_cases hu : t.is_reg_unstackable = true
  · simp only [hu, if_true, and_self]
  · by_cases hgt : t.reg > v
    · simp [hu, hgt]
    · simp [hu, hgt]

theorem checked_read_nv (t : icsr_eithreshold) (hm : t.mode_snps_vectored = true) :
    t.checked_read = t.reg := by
  simp [checked_read, read_snps_vectored, hm]

/-- Claim C16. In nested-vectored mode, for `v` in 1..255, after `checked_write(v)` the head
is `v` if the previous head was 0, above 255 (a tail value) or strictly greater than `v`, and
is the unchanged previous head otherwise. -/
theorem nv_insert_head (t : icsr_eithreshold) (v : Nat) (hm : t.mode_snps_vectored = true)
    (h1 : 1 ≤ v) (h2 : v ≤ 255) :
    ((t.checked_read = 0 ∨ 255 < t.checked_read ∨ v < t.checked_read) →
      (t.checked_write v).checked_read = v) ∧
    (¬ (t.checked_read = 0 ∨ 255 < t.checked_read ∨ v < t.checked_read) →
      (t.checked_write v).checked_read = t.checked_read) := by
  rw [checked_write_nv_insert t v hm h1 h2]
  have hm' : (t.tstack_insert v).mode_snps_vectored = true := by
    rw [(tstack_insert_frame t v).2]; exact hm
  rw [checked_read_nv t hm, checked_read_nv _ hm', tstack_insert_reg]
  constructor
  · intro h
    split
    · rfl
    · split
      · rfl
      · omega
  · intro h
    split
    · omega
    · split
      · omega
      · rfl

set_option maxRecDepth 100000 in
/-- Claim C16 at `stackedThreshold` (head 4): writing 2 makes the head 2, writing 8 leaves
it. -/
theorem nv_insert_head_witness :
    stackedThreshold.mode_snps_vectored = true ∧ stackedThreshold.checked_read = 4 ∧
    (stackedThreshold.checked_write 2).checked_read = 2 ∧
    (stackedThreshold.checked_write 8).checked_read = stackedThreshold.checked_read :=
  ⟨by decide, by decide,
    (nv_insert_head stackedThreshold 2 (by decide) (by decide) (by decide)).1
      (Or.inr (Or.inr (by decide))),
    (nv_insert_head stackedThreshold 8 (by decide) (by decide) (by decide)).2 (by decide)⟩

/-- Claim C20. When the `eithreshold` is not in nested-vectored mode, `checked_write(v)`
stores `v` for `v < IMSIC_MAX_IRQS` and `checked_read` then returns `v`; for
`v >= IMSIC_MAX_IRQS` the register state is unchanged. -/
theorem plain_threshold_write (t : icsr_eithreshold) (v : Nat) (hm : t.mode_snps_vectored = false) :
    (v < IMSIC_MAX_IRQS → (t.checked_write v).reg = v ∧ (t.checked_write v).checked_read = v) ∧
    (IMSIC_MAX_IRQS ≤ v → t.checked_write v = t) := by
  constructor
  · intro h
    have hv : is_upper_bound_valid_minor_iid v = true := by
      simp [is_upper_bound_valid_minor_iid]; omega
    simp [checked_write, checked_read, hv, hm]
  · intro h
    have hv : is_upper_bound_valid_minor_iid v = false := by
      simp [is_upper_bound_valid_minor_iid]; omega
    simp [checked_write, hv]

/-- Claim C20 at a constructed `eithreshold`: 100 is stored and read back, 2048 is
rejected. -/
theorem plain_threshold_write_witness :
    icsr_eithreshold.init.mode_snps_vectored = false ∧
    (icsr_eithreshold.init.checked_write 100).checked_read = 100 ∧
    (icsr_eithreshold.init.checked_write 100).checked_write 2048 =
      icsr_eithreshold.init.checked_write 100 :=
  ⟨by decide,
    ((plain_threshold_write icsr_eithreshold.init 100 (by decide)).1 (by decide)).2,
    (plain_threshold_write (icsr_eithreshold.init.checked_write 100) 2048 (by decide)).2
      (by decide)⟩

theorem getD_set_false (l : List Bool) (i j : Nat) :
    (l.set i false).getD j false = (l.getD j false && decide (j ≠ i)) := by
  simp only [List.getD_eq_getElem?_getD, List.getElem?_set]
  by_cases h : i = j
  · subst h
    by_cases hl : i < l.length <;> simp [hl]
  · have h' : ¬ j = i := fun e => h e.symm
    simp [h, h']

theorem getD_set_true (l : List Bool) (i j : Nat) (hi : i < l.length) :
    (l.set i true).getD j false = (l.getD j false || decide (j = i)) := by
  simp only [List.getD_eq_getElem?_getD, List.getElem?_set]
  by_cases h : i = j
  · subst h
    simp [hi]
  · have h' : ¬ j = i := fun e => h e.symm
    simp [h, h']

theorem tstack_pop_scan_some (th : List Bool) : ∀ (n i k : Nat),
    tstack_pop_scan th n i = some k →
      i ≤ k ∧ k < i + n ∧ th.getD k false = true ∧
        ∀ j, i ≤ j → j < k → th.getD j false = false := by
  intro n
  induction n with
  | zero => intro i k h; simp [tstack_pop_scan] at h
  | succ n ih =>
    intro i k h
    by_cases hb : th.getD i false = true
    · simp only [tstack_pop_scan, hb, if_true, Option.some.injEq] at h
      subst h
      exact ⟨Nat.le_refl _, by omega, hb, fun j h1 h2 => by omega⟩
    · simp only [tstack_pop_scan, hb, if_false] at h
      obtain ⟨a, b, c, e⟩ := ih (i + 1) k h
      refine ⟨by omega, by omega, c, ?_⟩
      intro j h1 h2
      by_cases hj : j = i
      · subst hj; simpa using hb
      · exact e j (by omega) h2

theorem tstack_pop_scan_none (th : List Bool) : ∀ (n i : Nat),
    tstack_pop_scan th n i = none → ∀ j, i ≤ j → j < i + n → th.getD j false = false := by
  intro n
  induction n with
  | zero => intro i _ j h1 h2; omega
  | succ n ih =>
    intro i h j h1 h2
    by_cases hb : th.getD i false = true
    · simp only [tstack_pop_scan, hb, if_true] at h
      exact absurd h (by simp)
    · simp only [tstack_pop_scan, hb, if_false] at h
      by_cases hj : j = i
      · subst hj; simpa using hb
      · exact ih (i + 1) h j (by omega) (by omega)

theorem recorded_iff (t : icsr_eithreshold) (i : Nat) :
    t.recorded i = true ↔ (1 ≤ i ∧ i ≤ 255) ∧ t.thresholds.getD i false = true := by
  simp [recorded, NV_MODE_MAX_VECTOR]

theorem tstack_pop_lowest (t : icsr_eithreshold) (i : Nat) (hi : t.recorded i = true)
    (hlow : ∀ j, j < i → t.recorded j = false) :
    t.tstack_pop = { t with thresholds := t.thresholds.set i false, reg := i } := by
  obtain ⟨⟨h1, h2⟩, h3⟩ := (recorded_iff t i).mp hi
  unfold tstack_pop
  cases hs : tstack_pop_scan t.thresholds NV_MODE_MAX_VECTOR 1 with
  | none =>
    have := tstack_pop_scan_none _ _ _ hs i h1 (by unfold NV_MODE_MAX_VECTOR; omega)
    rw [this] at h3
    exact absurd h3 (by simp)
  | some k =>
    obtain ⟨a, b, c, e⟩ := tstack_pop_scan_some _ _ _ _ hs
    unfold NV_MODE_MAX_VECTOR at b
    have hk : k = i := by
      rcases Nat.lt_trichotomy k i with h | h | h
      · have := hlow k h
        have hr : t.recorded k = true := (recorded_iff t k).mpr ⟨⟨a, by omega⟩, c⟩
        rw [hr] at this
        exact absurd this (by simp)
      · exact h
      · have := e i h1 h
        rw [this] at h3
        exact absurd h3 (by simp)
    subst hk
    rfl

theorem tstack_pop_empty (t : icsr_eithreshold) (hnone : ∀ i, t.recorded i = false) :
    t.tstack_pop = { t with reg := t.threshold_tail } := by
  unfold tstack_pop
  cases hs : tstack_pop_scan t.thresholds NV_MODE_MAX_VECTOR 1 with
  | none => rfl
  | some k =>
    obtain ⟨a, b, c, _⟩ := tstack_pop_scan_some _ _ _ _ hs
    unfold NV_MODE_MAX_VECTOR at b
    have hr : t.recorded k = true := (recorded_iff t k).mpr ⟨⟨a, by omega⟩, c⟩
    rw [hnone k] at hr
    exact absurd hr (by simp)

theorem tstack_pop_frame (t : icsr_eithreshold) :
    t.tstack_pop.threshold_tail = t.threshold_tail ∧
      t.tstack_pop.mode_snps_vectored = t.mode_snps_vectored := by
  unfold tstack_pop
  cases tstack_pop_scan t.thresholds NV_MODE_MAX_VECTOR 1 <;> exact ⟨rfl, rfl⟩

theorem recorded_set_false (t : icsr_eithreshold) (i r j : Nat) :
    recorded { t with thresholds := t.thresholds.set i false, reg := r } j =
      (t.recorded j && decide (j ≠ i)) := by
  simp only [recorded, getD_set_false, Bool.and_assoc]

/-- Claim C18. In nested-vectored mode `checked_write(0)` keeps the tail value; if `i` is the
lowest-numbered recorded entry the head becomes `i`, entry `i` is no longer recorded and every
other entry is recorded exactly as before; if no entry is recorded the head becomes the tail
value and still no entry is recorded. -/
theorem nv_threshold_pop (t : icsr_eithreshold) (hm : t.mode_snps_vectored = true) :
    (t.checked_write 0).threshold_tail = t.threshold_tail ∧
    (∀ i, t.recorded i = true → (∀ j, j < i → t.recorded j = false) →
      (t.checked_write 0).checked_read = i ∧ (t.checked_write 0).recorded i = false ∧
        ∀ j, j ≠ i → (t.checked_write 0).recorded j = t.recorded j) ∧
    ((∀ i, t.recorded i = false) →
      (t.checked_write 0).checked_read = t.threshold_tail ∧
        ∀ j, (t.checked_write 0).recorded j = false) := by
  rw [checked_write_nv_pop t hm]
  have hm' : t.tstack_pop.mode_snps_vectored = true := by rw [(tstack_pop_frame t).2]; exact hm
  rw [checked_read_nv _ hm']
  refine ⟨(tstack_pop_frame t).1, ?_, ?_⟩
  · intro i hi hlow
    rw [tstack_pop_lowest t i hi hlow]
    refine ⟨rfl, ?_, ?_⟩
    · rw [recorded_set_false]; simp
    · intro j hj
      rw [recorded_set_false]; simp [hj]
  · intro hnone
    rw [tstack_pop_empty t hnone]
    exact ⟨rfl, hnone⟩

set_option maxRecDepth 100000 in
/-- Claim C18 at `stackedThreshold` (recorded entries 6 and 9): the pop makes the head 6 and
removes entry 6. -/
theorem nv_threshold_pop_witness :
    stackedThreshold.mode_snps_vectored = true ∧
    (stackedThreshold.recorded 6 = true ∧ ∀ j, j < 6 → stackedThreshold.recorded j = false) ∧
    (stackedThreshold.checked_write 0).checked_read = 6 ∧
    (stackedThreshold.checked_write 0).recorded 6 = false :=
  ⟨by decide, ⟨by decide, by decide⟩,
    ((nv_threshold_pop stackedThreshold (by decide)).2.1 6 (by decide) (by decide)).1,
    ((nv_threshold_pop stackedThreshold (by decide)).2.1 6 (by decide) (by decide)).2.1⟩

theorem recorded_of_getD_false (t : icsr_eithreshold) (i : Nat)
    (h : t.thresholds.getD i false = false) : t.recorded i = false := by
  unfold recorded
  rw [h]
  exact Bool.and_false _

theorem recorded_out_of_range (t : icsr_eithreshold) (i : Nat) (h : ¬ (1 ≤ i ∧ i ≤ 255)) :
    t.recorded i = false := by
  unfold recorded NV_MODE_MAX_VECTOR
  rw [decide_eq_false h]
  exact Bool.false_and _

theorem lowest_recorded_cases (t : icsr_eithreshold) :
    (∀ i, t.recorded i = false) ∨
      ∃ i, t.recorded i = true ∧ ∀ j, j < i → t.recorded j = false := by
  cases hs : tstack_pop_scan t.thresholds NV_MODE_MAX_VECTOR 1 with
  | none =>
    left
    intro i
    by_cases h : 1 ≤ i ∧ i ≤ 255
    · exact recorded_of_getD_false t i
        (tstack_pop_scan_none _ _ _ hs i h.1 (by unfold NV_MODE_MAX_VECTOR; omega))
    · exact recorded_out_of_range t i h
  | some k =>
    right
    obtain ⟨a, b, c, e⟩ := tstack_pop_scan_some _ _ _ _ hs
    unfold NV_MODE_MAX_VECTOR at b
    refine ⟨k, (recorded_iff t k).mpr ⟨⟨a, by omega⟩, c⟩, ?_⟩
    intro j hj
    by_cases h1 : 1 ≤ j
    · exact recorded_of_getD_false t j (e j h1 hj)
    · exact recorded_out_of_range t j (fun h => h1 h.1)

theorem pops_succ (n : Nat) (t : icsr_eithreshold) :
    pops (n + 1) t = (pops n t).checked_write 0 := by
  induction n generalizing t with
  | zero => rfl
  | succ n ih =>
    show pops (n + 1) (t.checked_write 0) = (pops n (t.checked_write 0)).checked_write 0
    exact ih (t.checked_write 0)

theorem pops_frame (n : Nat) (t : icsr_eithreshold) (hm : t.mode_snps_vectored = true) :
    (pops n t).threshold_tail = t.threshold_tail ∧ (pops n t).mode_snps_vectored = true := by
  induction n generalizing t with
  | zero => exact ⟨rfl, hm⟩
  | succ n ih =>
    have h1 : (t.checked_write 0).mode_snps_vectored = true := by
      rw [checked_write_nv_pop t hm, (tstack_pop_frame t).2]; exact hm
    have h2 : (t.checked_write 0).threshold_tail = t.threshold_tail := by
      rw [checked_write_nv_pop t hm]; exact (tstack_pop_frame t).1
    obtain ⟨a, b⟩ := ih (t.checked_write 0) h1
    exact ⟨by show (pops n (t.checked_write 0)).threshold_tail = _; rw [a, h2], b⟩

theorem pops_empty (n : Nat) (t : icsr_eithreshold) (hm : t.mode_snps_vectored = true)
    (hnone : ∀ i, t.recorded i = false) (hn : 0 < n) :
    (pops n t).reg = t.threshold_tail := by
  induction n generalizing t with
  | zero => omega
  | succ n ih =>
    have e : t.checked_write 0 = { t with reg := t.threshold_tail } := by
      rw [checked_write_nv_pop t hm, tstack_pop_empty t hnone]
    show (pops n (t.checked_write 0)).reg = _
    rw [e]
    by_cases h0 : n = 0
    · subst h0; rfl
    · exact ih { t with reg := t.threshold_tail } hm hnone (by omega)

theorem pops_eventually_tail (m : Nat) : ∀ (t : icsr_eithreshold),
    t.mode_snps_vectored = true → (∀ j, j + m < 256 → t.recorded j = false) →
      ∀ n, m < n → (pops n t).reg = t.threshold_tail := by
  induction m with
  | zero =>
    intro t hm h n hn
    apply pops_empty n t hm _ hn
    intro i
    by_cases hi : i < 256
    · exact h i (by omega)
    · exact recorded_out_of_range t i (by omega)
  | succ m ih =>
    intro t hm h n hn
    rcases lowest_recorded_cases t with hnone | ⟨k, hk, hlow⟩
    · exact pops_empty n t hm hnone (by omega)
    · obtain ⟨n', rfl⟩ : ∃ n', n = n' + 1 := ⟨n - 1, by omega⟩
      have e : t.checked_write 0 = { t with thresholds := t.thresholds.set k false, reg := k } := by
        rw [checked_write_nv_pop t hm, tstack_pop_lowest t k hk hlow]
      show (pops n' (t.checked_write 0)).reg = _
      rw [e]
      apply ih { t with thresholds := t.thresholds.set k false, reg := k } hm _ n' (by omega)
      intro j hj
      rw [recorded_set_false]
      by_cases hjk : j = k
      · simp [hjk]
      · by_cases hlt : j < k
        · simp [hlow j hlt]
        · have : t.recorded k = false := h k (by omega)
          rw [this] at hk
          exact absurd hk (by simp)

theorem tstack_put_tail_eq (t : icsr_eithreshold) (v : Nat) :
    t.tstack_put_tail v =
      { t with threshold_tail := v, reg := if t.reg = 0 ∨ 255 < t.reg then v else t.reg } := by
  unfold tstack_put_tail
  by_cases hu : t.is_reg_unstackable = true
  · have h := (is_reg_unstackable_iff t).mp hu
    have hu' : is_reg_unstackable { t with threshold_tail := v } = true := hu
    simp [hu', h]
  · have hn : ¬ (t.reg = 0 ∨ 255 < t.reg) := fun h => hu ((is_reg_unstackable_iff t).mpr h)
    have hu' : ¬ is_reg_unstackable { t with threshold_tail := v } = true := hu
    simp [hu', hn]

/-- Claim C19. In nested-vectored mode, for `255 < v < 2048`, `checked_write(v)` sets the tail
value to `v` and leaves the `thresholds` array unchanged; the head becomes `v` if it was 0 or
above 255 and is unchanged otherwise; a pop that finds no recorded entry leaves the head equal
to `v`, and after more than 255 pops the head is `v`. -/
theorem nv_threshold_tail_write (t : icsr_eithreshold) (v : Nat)
    (hm : t.mode_snps_vectored = true) (h1 : 255 < v) (h2 : v < 2048) :
    (t.checked_write v).threshold_tail = v ∧
    (t.checked_write v).thresholds = t.thresholds ∧
    ((t.checked_read = 0 ∨ 255 < t.checked_read) → (t.checked_write v).checked_read = v) ∧
    (¬ (t.checked_read = 0 ∨ 255 < t.checked_read) →
      (t.checked_write v).checked_read = t.checked_read) ∧
    (∀ n, (∀ i, (pops n (t.checked_write v)).recorded i = false) →
      (pops (n + 1) (t.checked_write v)).checked_read = v) ∧
    (∀ n, 255 < n → (pops n (t.checked_write v)).checked_read = v) := by
  have hm' : (t.checked_write v).mode_snps_vectored = true := by
    rw [checked_write_nv_tail t v hm h1 h2, tstack_put_tail_eq]; exact hm
  have htail : (t.checked_write v).threshold_tail = v := by
    rw [checked_write_nv_tail t v hm h1 h2, tstack_put_tail_eq]
  refine ⟨htail, ?_, ?_, ?_, ?_, ?_⟩
  · rw [checked_write_nv_tail t v hm h1 h2, tstack_put_tail_eq]
  · intro h
    rw [checked_read_nv t hm] at h
    rw [checked_read_nv _ hm', checked_write_nv_tail t v hm h1 h2, tstack_put_tail_eq]
    simp [h]
  · intro h
    rw [checked_read_nv t hm] at h
    rw [checked_read_nv _ hm', checked_read_nv t hm, checked_write_nv_tail t v hm h1 h2,
      tstack_put_tail_eq]
    simp [h]
  · intro n hnone
    obtain ⟨a, b⟩ := pops_frame n _ hm'
    have hb : (pops (n + 1) (t.checked_write v)).mode_snps_vectored = true :=
      (pops_frame (n + 1) _ hm').2
    rw [checked_read_nv _ hb, pops_succ, checked_write_nv_pop _ b, tstack_pop_empty _ hnone]
    show (pops n (t.checked_write v)).threshold_tail = v
    rw [a, htail]
  · intro n hn
    have hb : (pops n (t.checked_write v)).mode_snps_vectored = true := (pops_frame n _ hm').2
    rw [checked_read_nv _ hb, pops_eventually_tail 255 _ hm' _ n hn, htail]
    intro j hj
    exact recorded_out_of_range _ j (by omega)

set_option maxRecDepth 100000 in
/-- Claim C19 at `stackedThreshold` (tail 300): writing 500 sets the tail, and after 256 pops
the head is 500. -/
theorem nv_threshold_tail_write_witness :
    stackedThreshold.mode_snps_vectored = true ∧ stackedThreshold.threshold_tail = 300 ∧
    (stackedThreshold.checked_write 500).threshold_tail = 500 ∧
    (pops 256 (stackedThreshold.checked_write 500)).checked_read = 500 :=
  ⟨by decide, by decide,
    (nv_threshold_tail_write stackedThreshold 500 (by decide) (by decide) (by decide)).1,
    (nv_threshold_tail_write stackedThreshold 500 (by decide) (by decide)
      (by decide)).2.2.2.2.2 256 (by decide)⟩

theorem getD_set_ne (l : List Bool) (i j : Nat) (b : Bool) (h : j ≠ i) :
    (l.set i b).getD j false = l.getD j false := by
  simp only [List.getD_eq_getElem?_getD, List.getElem?_set]
  have h' : ¬ i = j := fun e => h e.symm
  simp [h']

set_option maxRecDepth 100000 in
/-- Claim C17, counterexample. From reset in nested-vectored mode, after `checked_write(3)`
and then `checked_write(7)` (7 in 1..255) the head is never 7, whatever the number of pops
that follow. -/
theorem nv_insert_keeps_counterexample :
    (((nvThreshold.checked_write 3).checked_write 7).mode_snps_vectored = true ∧
      (1 ≤ 7 ∧ 7 ≤ 255)) ∧
    ∀ n, (pops n ((nvThreshold.checked_write 3).checked_write 7)).checked_read ≠ 7 := by
  refine ⟨by decide, ?_⟩
  intro n
  match n with
  | 0 => decide
  | 1 => decide
  | n + 2 =>
    have e : (((nvThreshold.checked_write 3).checked_write 7).checked_write 0).checked_write 0 =
        nvThreshold := by decide
    show (pops n ((((nvThreshold.checked_write 3).checked_write 7).checked_write
      0).checked_write 0)).checked_read ≠ 7
    rw [e]
    have hm : nvThreshold.mode_snps_vectored = true := by decide
    rw [checked_read_nv _ (pops_frame n _ hm).2]
    by_cases h0 : n = 0
    · subst h0; decide
    · rw [pops_empty n _ hm nvThreshold_recorded (by omega)]
      decide

/-- Claim C17, amended. In nested-vectored mode, with the `thresholds` array of its declared
size `NV_MODE_MAX_VECTOR + 1`, for `v` in 1..255, after `checked_write(v)` the head is `v`
when the previous head was 0, above 255, or at least `v`; when the previous head `h` is in
1..`v`-1 the write does not keep `v`: the head stays `h`, the tail is unchanged, `h` itself
is recorded afterwards, `v` is recorded exactly as before, and so is every entry other than
`h`. -/
theorem nv_insert_keeps (t : icsr_eithreshold) (v : Nat) (hm : t.mode_snps_vectored = true)
    (hlen : t.thresholds.length = NV_MODE_MAX_VECTOR + 1)
    (h1 : 1 ≤ v) (h2 : v ≤ 255) :
    ((t.checked_read = 0 ∨ 255 < t.checked_read ∨ v ≤ t.checked_read) →
      (t.checked_write v).checked_read = v) ∧
    ((1 ≤ t.checked_read ∧ t.checked_read < v) →
      (t.checked_write v).checked_read = t.checked_read ∧
        (t.checked_write v).threshold_tail = t.threshold_tail ∧
        (t.checked_write v).recorded t.checked_read = true ∧
        (t.checked_write v).recorded v = t.recorded v ∧
        ∀ j, j ≠ t.checked_read → (t.checked_write v).recorded j = t.recorded j) := by
  have hm' : (t.tstack_insert v).mode_snps_vectored = true := by
    rw [(tstack_insert_frame t v).2]; exact hm
  rw [checked_write_nv_insert t v hm h1 h2, checked_read_nv t hm, checked_read_nv _ hm',
    tstack_insert_reg]
  constructor
  · intro h
    split
    · rfl
    · split
      · rfl
      · omega
  · intro h
    have hn : ¬ (t.reg = 0 ∨ 255 < t.reg) := by omega
    have hgt : ¬ (t.reg > v) := by omega
    have hframe : ∀ j, j ≠ t.reg → (t.tstack_insert v).recorded j = t.recorded j := by
      intro j hj
      simp only [recorded, tstack_insert_thresholds, hn, if_false, getD_set_ne _ _ _ _ hj]
    refine ⟨by simp [hn, hgt], (tstack_insert_frame t v).1, ?_, hframe v (by omega), hframe⟩
    have hl : t.reg < t.thresholds.length := by
      rw [hlen]; unfold NV_MODE_MAX_VECTOR; omega
    simp only [recorded, tstack_insert_thresholds, hn, if_false, getD_set_true _ _ _ hl,
      NV_MODE_MAX_VECTOR]
    have hr : 1 ≤ t.reg ∧ t.reg ≤ 255 := by omega
    simp [hr]

set_option maxRecDepth 100000 in
/-- Claim C17, amended, at `stackedThreshold` (head 4, not recorded): writing 7 leaves the
head 4, records 4 and does not record 7. -/
theorem nv_insert_keeps_witness :
    stackedThreshold.mode_snps_vectored = true ∧
    stackedThreshold.thresholds.length = NV_MODE_MAX_VECTOR + 1 ∧
    (1 ≤ stackedThreshold.checked_read ∧ stackedThreshold.checked_read < 7) ∧
    stackedThreshold.checked_read = 4 ∧ stackedThreshold.recorded 4 = false ∧
    (stackedThreshold.checked_write 7).checked_read = stackedThreshold.checked_read ∧
    (stackedThreshold.checked_write 7).recorded stackedThreshold.checked_read = true ∧
    (stackedThreshold.checked_write 7).recorded 7 = stackedThreshold.recorded 7 :=
  ⟨by decide, by decide, by decide, by decide, by decide,
    ((nv_insert_keeps stackedThreshold 7 (by decide) (by decide) (by decide) (by decide)).2
      (by decide)).1,
    ((nv_insert_keeps stackedThreshold 7 (by decide) (by decide) (by decide) (by decide)).2
      (by decide)).2.2.1,
    ((nv_insert_keeps stackedThreshold 7 (by decide) (by decide) (by decide) (by decide)).2
      (by decide)).2.2.2.1⟩

/-! # External interrupt file: top minor id and bit updates -/

theorem imsic_scan_cases (eip eie : List icsr_32) (hw : ∀ k, word_reg eip k < 2 ^ 32) :
    (imsic_scan eip eie eip_eie_arr_size 0 = NO_IRQ_PENDING ∧
      ∀ id, id < IMSIC_MAX_IRQS → eip_eie_bit eip eie id = false) ∨
    is_lowest_pending_enabled eip eie (imsic_scan eip eie eip_eie_arr_size 0) := by
  have hsize : eip_eie_arr_size = 64 := by decide
  have hmax : IMSIC_MAX_IRQS = 2048 := rfl
  rw [hsize, hmax]
  rcases imsic_scan_spec eip eie hw 64 0 with ⟨h1, h2⟩ | ⟨_, h2, h3, h4⟩
  · left
    exact ⟨h1, fun id hid => h2 id (by omega) (by omega)⟩
  · right
    exact ⟨by rw [hmax]; omega, h3, fun id hid => h4 id (by omega) hid⟩

theorem lowest_pending_enabled_unique (eip eie : List icsr_32) (a b : Nat)
    (ha : is_lowest_pending_enabled eip eie a) (hb : is_lowest_pending_enabled eip eie b) :
    a = b := by
  obtain ⟨_, a2, a3⟩ := ha
  obtain ⟨_, b2, b3⟩ := hb
  rcases Nat.lt_trichotomy a b with h | h | h
  · rw [b3 a h] at a2; exact absurd a2 (by simp)
  · exact h
  · rw [a3 b h] at b2; exact absurd b2 (by simp)

theorem imsic_scan_lowest (eip eie : List icsr_32) (hw : ∀ k, word_reg eip k < 2 ^ 32)
    (c : Nat) (hc : is_lowest_pending_enabled eip eie c) :
    imsic_scan eip eie eip_eie_arr_size 0 = c := by
  rcases imsic_scan_cases eip eie hw with ⟨_, h2⟩ | h
  · have h3 := hc.2.1
    rw [h2 c hc.1] at h3
    exact absurd h3 (by simp)
  · exact lowest_pending_enabled_unique eip eie _ _ h hc

/-- Claim C11. `compute_imsic_pending` with the delivery gate on and `c` the lowest id that is
both pending and enabled: the returned top minor id is `c` when the asserted flag is true or
`nested_vectored` is true, and 0 when the asserted flag is false and `nested_vectored` is
false. -/
theorem compute_imsic_pending_top (eip eie : List icsr_32) (eithreshold : icsr_eithreshold)
    (eidelivery : icsr_eidelivery) (nested_vectored : Bool)
    (hw : ∀ k, word_reg eip k < 2 ^ 32) (hd : eidelivery.delivery_on = true) (c : Nat)
    (hc : is_lowest_pending_enabled eip eie c) :
    (((compute_imsic_pending eip eie eip_eie_arr_size eithreshold eidelivery
          nested_vectored).1 = true ∨ nested_vectored = true) →
      (compute_imsic_pending eip eie eip_eie_arr_size eithreshold eidelivery
        nested_vectored).2 = c) ∧
    (((compute_imsic_pending eip eie eip_eie_arr_size eithreshold eidelivery
          nested_vectored).1 = false ∧ nested_vectored = false) →
      (compute_imsic_pending eip eie eip_eie_arr_size eithreshold eidelivery
        nested_vectored).2 = 0) := by
  have hs := imsic_scan_lowest eip eie hw c hc
  simp only [compute_imsic_pending, hd, Bool.not_true, Bool.false_eq_true, if_false, hs]
  constructor
  · intro h
    rcases h with h | h
    · simp [h]
    · simp [h]
  · rintro ⟨h1, h2⟩
    simp [h1, h2]

/-- Claim C11 at `pendEip`, `pendEie` with threshold 3 in nested-vectored mode: id 5 is the
lowest pending and enabled id, the file does not assert, and the top minor id is still 5. -/
theorem compute_imsic_pending_top_witness :
    (∀ k, word_reg pendEip k < 2 ^ 32) ∧ icsr_eidelivery.delivery_on { reg := 1 } = true ∧
    is_lowest_pending_enabled pendEip pendEie 5 ∧
    (compute_imsic_pending pendEip pendEie eip_eie_arr_size
        { reg := 3, mode_snps_vectored := true, thresholds := [], threshold_tail := 0 }
        { reg := 1 } true).1 = false ∧
    (compute_imsic_pending pendEip pendEie eip_eie_arr_size
        { reg := 3, mode_snps_vectored := true, thresholds := [], threshold_tail := 0 }
        { reg := 1 } true).2 = 5 :=
  ⟨pendEip_word_lt, by decide, pend_lowest, by decide,
    (compute_imsic_pending_top pendEip pendEie
      { reg := 3, mode_snps_vectored := true, thresholds := [], threshold_tail := 0 }
      { reg := 1 } true pendEip_word_lt (by decide) 5 pend_lowest).1 (Or.inr rfl)⟩

/-- Claim C13. If bit 0 of `eip[0] & eie[0]` is clear and the threshold is below 2048 (the
asserted condition of `compute_imsic_pending`), then whenever `compute_imsic_pending` returns
asserted = true the returned top minor id is in 1..2047 and both its `eip` bit and its `eie`
bit are set. -/
theorem minor0_never_wins (eip eie : List icsr_32) (eithreshold : icsr_eithreshold)
    (eidelivery : icsr_eidelivery) (nested_vectored : Bool)
    (hw : ∀ k, word_reg eip k < 2 ^ 32) (ht : eithreshold.reg < IMSIC_MAX_IRQS)
    (h0 : (word_reg eip 0 &&& word_reg eie 0).testBit 0 = false)
    (ha : (compute_imsic_pending eip eie eip_eie_arr_size eithreshold eidelivery
      nested_vectored).1 = true) :
    1 ≤ (compute_imsic_pending eip eie eip_eie_arr_size eithreshold eidelivery
      nested_vectored).2 ∧
    (compute_imsic_pending eip eie eip_eie_arr_size eithreshold eidelivery
      nested_vectored).2 ≤ 2047 ∧
    (word_reg eip ((compute_imsic_pending eip eie eip_eie_arr_size eithreshold eidelivery
      nested_vectored).2 / 32)).testBit ((compute_imsic_pending eip eie eip_eie_arr_size
        eithreshold eidelivery nested_vectored).2 % 32) = true ∧
    (word_reg eie ((compute_imsic_pending eip eie eip_eie_arr_size eithreshold eidelivery
      nested_vectored).2 / 32)).testBit ((compute_imsic_pending eip eie eip_eie_arr_size
        eithreshold eidelivery nested_vectored).2 % 32) = true := by
  have hmax : IMSIC_MAX_IRQS = 2048 := rfl
  have hno : NO_IRQ_PENDING = 4096 := by decide
  rw [hmax] at ht
  cases hd : eidelivery.delivery_on
  · simp [compute_imsic_pending, hd] at ha
  · simp only [compute_imsic_pending, hd, Bool.not_true, Bool.false_eq_true, if_false,
      decide_eq_true_eq, hmax] at ha
    have hr : (compute_imsic_pending eip eie eip_eie_arr_size eithreshold eidelivery
        nested_vectored).2 = imsic_scan eip eie eip_eie_arr_size 0 := by
      simp [compute_imsic_pending, hd, hmax, ha]
    rw [hr]
    rcases imsic_scan_cases eip eie hw with ⟨h1, _⟩ | ⟨c1, c2, _⟩
    · rw [h1, hno] at ha
      split at ha <;> omega
    · rw [hmax] at c1
      have hne : imsic_scan eip eie eip_eie_arr_size 0 ≠ 0 := by
        intro e
        rw [e] at c2
        have : eip_eie_bit eip eie 0 = false := h0
        rw [this] at c2
        exact absurd c2 (by simp)
      have c3 := c2
      unfold eip_eie_bit at c3
      rw [Nat.testBit_and, Bool.and_eq_true] at c3
      exact ⟨by omega, by omega, c3.1, c3.2⟩

/-- Claim C13 at `pendEip`, `pendEie` with threshold 0 and the gate on: the file asserts and
the winner is at least 1. -/
theorem minor0_never_wins_witness :
    (∀ k, word_reg pendEip k < 2 ^ 32) ∧ (0 : Nat) < IMSIC_MAX_IRQS ∧
    (word_reg pendEip 0 &&& word_reg pendEie 0).testBit 0 = false ∧
    (compute_imsic_pending pendEip pendEie eip_eie_arr_size
        { reg := 0, mode_snps_vectored := false, thresholds := [], threshold_tail := 0 }
        { reg := 1 } false).1 = true ∧
    1 ≤ (compute_imsic_pending pendEip pendEie eip_eie_arr_size
        { reg := 0, mode_snps_vectored := false, thresholds := [], threshold_tail := 0 }
        { reg := 1 } false).2 :=
  ⟨pendEip_word_lt, by decide, by decide, by decide,
    (minor0_never_wins pendEip pendEie
      { reg := 0, mode_snps_vectored := false, thresholds := [], threshold_tail := 0 }
      { reg := 1 } false pendEip_word_lt (by decide) (by decide) (by decide)).1⟩

theorem getD_set_icsr (l : List icsr_32) (i j : Nat) (a d : icsr_32) :
    (l.set i a).getD j d = if i = j ∧ i < l.length then a else l.getD j d := by
  simp only [List.getD_eq_getElem?_getD, List.getElem?_set]
  by_cases h : i = j
  · subst h
    by_cases hl : i < l.length
    · simp [hl]
    · simp [hl]
      have : l.length ≤ i := by omega
      simp [List.getElem?_eq_none this]
  · simp [h]

theorem word_reg_update (eip : List icsr_32) (id : Nat) (set_bit : Bool) (k : Nat)
    (h0 : id ≠ 0) (hlen : id / 32 < eip.length) :
    word_reg (imsic_update_eip_bit eip id set_bit) k =
      if k = id / 32 then
        (if set_bit then (word_reg eip k ||| BIT (id % 32)) % 2 ^ 32
          else (word_reg eip k &&& not64 (BIT (id % 32))) % 2 ^ 32)
      else word_reg eip k := by
  unfold imsic_update_eip_bit word_reg
  simp only [h0, if_false, icsr_32.BITS_PER_CSR]
  cases set_bit
  · simp only [Bool.false_eq_true, if_false, getD_set_icsr, hlen, and_true]
    by_cases hk : id / 32 = k
    · subst hk; simp
    · have hk' : ¬ k = id / 32 := fun e => hk e.symm
      simp [hk, hk']
  · simp only [if_true, getD_set_icsr, hlen, and_true]
    by_cases hk : id / 32 = k
    · subst hk; simp
    · have hk' : ¬ k = id / 32 := fun e => hk e.symm
      simp [hk, hk']

theorem mask_update (eip : List icsr_32) (id : Nat) (set_bit : Bool) (k : Nat) :
    ((imsic_update_eip_bit eip id set_bit).getD k { reg := 0, mask := 0 }).mask =
      (eip.getD k { reg := 0, mask := 0 }).mask := by
  unfold imsic_update_eip_bit
  by_cases h0 : id = 0
  · simp [h0]
  · simp only [h0, if_false, icsr_32.BITS_PER_CSR]
    cases set_bit
    · simp only [Bool.false_eq_true, if_false, getD_set_icsr]
      by_cases hk : id / 32 = k ∧ id / 32 < eip.length
      · rw [if_pos hk, hk.1]
      · rw [if_neg hk]
    · simp only [if_true, getD_set_icsr]
      by_cases hk : id / 32 = k ∧ id / 32 < eip.length
      · rw [if_pos hk, hk.1]
      · rw [if_neg hk]

/-- Claim C14. `imsic_update_eip_bit(eip, id, set_bit)` on an array of `eip_eie_arr_size`
32-bit words: for `id = 0` the array is unchanged; for `id` in 1..2047 bit `id mod 32` of word
`id div 32` becomes `set_bit` and every other bit of every word is unchanged. -/
theorem imsic_update_eip_bit_frame (eip : List icsr_32) (id : Nat) (set_bit : Bool)
    (hlen : eip.length = eip_eie_arr_size) (hw : ∀ k, word_reg eip k < 2 ^ 32) :
    (id = 0 → imsic_update_eip_bit eip id set_bit = eip) ∧
    (1 ≤ id → id ≤ 2047 → ∀ k j,
      (word_reg (imsic_update_eip_bit eip id set_bit) k).testBit j =
        if k = id / 32 ∧ j = id % 32 then set_bit else (word_reg eip k).testBit j) := by
  constructor
  · intro h
    simp [imsic_update_eip_bit, h]
  · intro h1 h2 k j
    have hsize : eip_eie_arr_size = 64 := by decide
    rw [hsize] at hlen
    rw [word_reg_update eip id set_bit k (by omega) (by omega)]
    by_cases hk : k = id / 32
    · simp only [hk, if_true, true_and]
      have hb : ∀ j, 32 ≤ j → (word_reg eip (id / 32)).testBit j = false := by
        intro j hj
        apply Nat.testBit_eq_false_of_lt
        exact Nat.lt_of_lt_of_le (hw _) (Nat.pow_le_pow_right (by decide) hj)
      have hm : id % 32 < 32 := Nat.mod_lt _ (by decide)
      cases set_bit
      · simp only [Bool.false_eq_true, if_false, Nat.testBit_mod_two_pow, Nat.testBit_and,
          testBit_not64, testBit_BIT]
        by_cases hj : j = id % 32
        · subst hj; simp
        · have hj' : ¬ id % 32 = j := fun e => hj e.symm
          simp only [hj, hj', if_false, decide_False, Bool.not_false, Bool.true_and]
          by_cases h32 : j < 32
          · have : j < 64 := by omega
            simp [h32, this]
          · simp [h32, hb j (by omega)]
      · simp only [if_true, Nat.testBit_mod_two_pow, Nat.testBit_or, testBit_BIT]
        by_cases hj : j = id % 32
        · subst hj; simp [hm]
        · have hj' : ¬ id % 32 = j := fun e => hj e.symm
          simp only [hj, hj', if_false, decide_False, Bool.or_false]
          by_cases h32 : j < 32
          · simp [h32]
          · simp [h32, hb j (by omega)]
    · simp [hk]

theorem eip_init_word_lt : ∀ k, word_reg eip_init k < 2 ^ 32 := by
  intro k
  cases k with
  | zero => decide
  | succ k =>
    unfold word_reg eip_init
    simp only [List.getD_eq_getElem?_getD, List.getElem?_cons_succ, List.getElem?_replicate]
    split <;> simp

/-- Claim C14 at a constructed `eip` array and id 33: bit 1 of word 1 is set, bit 1 of word 0
is as before. -/
theorem imsic_update_eip_bit_frame_witness :
    eip_init.length = eip_eie_arr_size ∧ (∀ k, word_reg eip_init k < 2 ^ 32) ∧
    (word_reg (imsic_update_eip_bit eip_init 33 true) 1).testBit 1 = true ∧
    (word_reg (imsic_update_eip_bit eip_init 33 true) 0).testBit 1 =
      (word_reg eip_init 0).testBit 1 :=
  ⟨by decide, eip_init_word_lt,
    by simpa using (imsic_update_eip_bit_frame eip_init 33 true (by decide)
      eip_init_word_lt).2 (by decide) (by decide) 1 1,
    by simpa using (imsic_update_eip_bit_frame eip_init 33 true (by decide)
      eip_init_word_lt).2 (by decide) (by decide) 0 1⟩

theorem bit0_clear_update (eip : List icsr_32) (id : Nat) (set_bit : Bool)
    (h : bit0_clear eip) : bit0_clear (imsic_update_eip_bit eip id set_bit) := by
  unfold bit0_clear
  refine ⟨?_, by rw [mask_update]; exact h.2⟩
  have hreg := h.1
  by_cases h0 : id = 0
  · simp only [imsic_update_eip_bit, h0, if_true]; exact hreg
  · by_cases hlen : id / 32 < eip.length
    · have e := word_reg_update eip id set_bit 0 h0 hlen
      unfold word_reg at e
      rw [e]
      by_cases hk : 0 = id / 32
      · have hid : id % 32 ≠ 0 := by omega
        have hid' : ¬ (id % 32 = 0) := hid
        simp only [hk.symm, if_true]
        cases set_bit
        · simp only [Bool.false_eq_true, if_false, Nat.testBit_mod_two_pow, Nat.testBit_and,
            hreg]
          simp
        · simp only [if_true, Nat.testBit_mod_two_pow, Nat.testBit_or, testBit_BIT, hreg, hid']
          simp
      · simp only [hk, if_false]; exact hreg
    · have hle : eip.length ≤ id / 32 := by omega
      unfold imsic_update_eip_bit
      simp only [h0, if_false, icsr_32.BITS_PER_CSR]
      cases set_bit
      · simp only [Bool.false_eq_true, if_false, getD_set_icsr, hlen, and_false]; exact hreg
      · simp only [if_true, getD_set_icsr, hlen, and_false, if_false]; exact hreg

theorem bit0_clear_checked_write (arr : List icsr_32) (k val : Nat) (h : bit0_clear arr) :
    bit0_clear (array_checked_write arr k val) := by
  unfold bit0_clear array_checked_write
  rw [getD_set_icsr]
  by_cases hk : k = 0 ∧ k < arr.length
  · rw [if_pos hk, hk.1]
    unfold icsr_32.checked_write
    refine ⟨?_, h.2⟩
    simp only [Nat.testBit_or, Nat.testBit_and, h.1, h.2]
    simp
  · rw [if_neg hk]; exact h

/-! # Minor id 0 -/

theorem route_frame_refl (s : ISS) : s.route_frame s := ⟨rfl, id⟩

theorem route_frame_trans (a b c : ISS) (h1 : a.route_frame b) (h2 : b.route_frame c) :
    a.route_frame c := ⟨h2.1.trans h1.1, fun h => h2.2 (h1.2 h)⟩

theorem route_frame_of_eq (s s' : ISS) (hh : s'.csrs.hvictl = s.csrs.hvictl)
    (hm : s'.icsrs_m = s.icsrs_m) (hs : s'.icsrs_s = s.icsrs_s)
    (hv : s'.icsrs_vs = s.icsrs_vs) : s.route_frame s' := by
  refine ⟨hh, ?_⟩
  unfold ISS.minor0_clear
  rw [hm, hs, hv]
  exact id

theorem route_frame_compute_m (s : ISS) : s.route_frame s.compute_imsic_pending_interrupts_m :=
  route_frame_of_eq _ _ rfl rfl rfl rfl

theorem route_frame_compute_s (s : ISS) : s.route_frame s.compute_imsic_pending_interrupts_s :=
  route_frame_of_eq _ _ rfl rfl rfl rfl

theorem route_frame_vs_fold (l : List Nat) (acc : ISS × List (Bool × Nat)) :
    acc.1.route_frame (l.foldl vs_bank_step acc).1 := by
  induction l generalizing acc with
  | nil => exact route_frame_refl _
  | cons i l ih =>
    exact route_frame_trans _ _ _ (route_frame_of_eq _ _ rfl rfl rfl rfl) (ih (vs_bank_step acc i))

theorem route_frame_compute_vs (hw : ISS → Nat → Bool → Option ISS)
    (hhw : ∀ s iid set s', hw s iid set = some s' → s.route_frame s')
    (s s' : ISS) (h : compute_imsic_pending_interrupts_vs hw s = some s') : s.route_frame s' := by
  unfold compute_imsic_pending_interrupts_vs at h
  have hf := route_frame_vs_fold (List.range MAX_GUEST) (s, [])
  cases hr : recalc_sgeip hw ((List.range MAX_GUEST).foldl vs_bank_step (s, [])).1 with
  | none => simp [hr] at h
  | some s2 =>
    have h2 : ((List.range MAX_GUEST).foldl vs_bank_step (s, [])).1.route_frame s2 :=
      hhw _ _ _ _ hr
    simp only [hr] at h
    split at h
    · simp only [Option.some.injEq] at h
      subst h
      exact route_frame_trans _ _ _ (route_frame_trans _ _ _ hf h2)
        (route_frame_of_eq _ _ rfl rfl rfl rfl)
    · simp only [Option.some.injEq] at h
      subst h
      exact route_frame_trans _ _ _ (route_frame_trans _ _ _ hf h2)
        (route_frame_of_eq _ _ rfl rfl rfl rfl)


theorem bit0_clear_nil : bit0_clear [] := by
  unfold bit0_clear
  exact ⟨rfl, rfl⟩

theorem bit0_clear_file (s : ISS) (f : FileId) (h : s.minor0_clear) :
    bit0_clear (s.file_eip f) ∧ bit0_clear (s.file_eie f) := by
  obtain ⟨h1, h2, h3, h4, h5⟩ := h
  cases f with
  | machine => exact ⟨h1, h2⟩
  | supervisor => exact ⟨h3, h4⟩
  | guest i =>
    show bit0_clear (s.icsrs_vs.bank.getD i no_bank).eip ∧
      bit0_clear (s.icsrs_vs.bank.getD i no_bank).eie
    by_cases hi : i < s.icsrs_vs.bank.length
    · have e : s.icsrs_vs.bank.getD i no_bank = s.icsrs_vs.bank[i] := by
        simp [List.getD_eq_getElem?_getD, List.getElem?_eq_getElem hi]
      rw [e]
      exact h5 _ (List.getElem_mem hi)
    · have e : s.icsrs_vs.bank.getD i no_bank = no_bank := by
        simp [List.getD_eq_getElem?_getD, List.getElem?_eq_none (by omega : s.icsrs_vs.bank.length ≤ i)]
      rw [e]
      exact ⟨bit0_clear_nil, bit0_clear_nil⟩

theorem minor0_clear_set_file_eip (s : ISS) (f : FileId) (eip : List icsr_32)
    (h : s.minor0_clear) (he : bit0_clear eip) : (s.set_file_eip f eip).minor0_clear := by
  have hf := bit0_clear_file s f h
  obtain ⟨h1, h2, h3, h4, h5⟩ := h
  cases f with
  | machine => exact ⟨he, h2, h3, h4, h5⟩
  | supervisor => exact ⟨h1, h2, he, h4, h5⟩
  | guest i =>
    refine ⟨h1, h2, h3, h4, ?_⟩
    intro b hb
    rcases List.mem_or_eq_of_mem_set hb with hb | hb
    · exact h5 b hb
    · subst hb
      exact ⟨he, hf.2⟩

theorem minor0_clear_set_file_eie (s : ISS) (f : FileId) (eie : List icsr_32)
    (h : s.minor0_clear) (he : bit0_clear eie) : (s.set_file_eie f eie).minor0_clear := by
  have hf := bit0_clear_file s f h
  obtain ⟨h1, h2, h3, h4, h5⟩ := h
  cases f with
  | machine => exact ⟨h1, he, h3, h4, h5⟩
  | supervisor => exact ⟨h1, h2, h3, he, h5⟩
  | guest i =>
    refine ⟨h1, h2, h3, h4, ?_⟩
    intro b hb
    rcases List.mem_or_eq_of_mem_set hb with hb | hb
    · exact h5 b hb
    · subst hb
      exact ⟨hf.1, he⟩

theorem route_frame_update (s : ISS) (f : FileId) (id : Nat) (set_bit : Bool) :
    s.route_frame (s.set_file_eip f (imsic_update_eip_bit (s.file_eip f) id set_bit)) := by
  refine ⟨by cases f <;> rfl, ?_⟩
  intro h
  exact minor0_clear_set_file_eip s f _ h (bit0_clear_update _ _ _ (bit0_clear_file s f h).1)

theorem route_frame_route (hw : ISS → Nat → Bool → Option ISS)
    (hhw : ∀ s iid set s', hw s iid set = some s' → s.route_frame s')
    (s s' : ISS) (t g v : Nat) (h : route_imsic_write hw s t g v = some s') :
    s.route_frame s' := by
  unfold route_imsic_write at h
  split at h
  · simp only [Option.some.injEq] at h; subst h; exact route_frame_refl _
  · split at h
    · simp only [Option.some.injEq] at h; subst h
      exact route_frame_trans _ _ _ (route_frame_update s FileId.machine v true)
        (route_frame_compute_m _)
    · split at h
      · simp only [Option.some.injEq] at h; subst h
        exact route_frame_trans _ _ _ (route_frame_update s FileId.supervisor v true)
          (route_frame_compute_s _)
      · split at h
        · exact route_frame_trans _ _ _ (route_frame_update s (FileId.guest g) v true)
            (route_frame_compute_vs hw hhw _ _ h)
        · simp only [Option.some.injEq] at h; subst h; exact route_frame_refl _

theorem route_frame_deliver_owner (hw : ISS → Nat → Bool → Option ISS)
    (hhw : ∀ s iid set s', hw s iid set = some s' → s.route_frame s')
    (d : IrqDecls) (s s' : ISS) (iid imsic_level : Nat) (edge : Bool)
    (h : (if !edge then some s
      else if iid = get_external_iid imsic_level then some s
      else if !s.is_irq_mode_snps_nested_vectored imsic_level then some s
      else if imsic_level = VirtualSupervisorMode ∧ !s.csrs.hstatus.is_imsic_connected then
        some s
      else route_imsic_write hw s imsic_level s.csrs.hstatus.get_guest_id
        (s.get_iprio d imsic_level iid)) = some s') : s.route_frame s' := by
  split at h
  · simp only [Option.some.injEq] at h; subst h; exact route_frame_refl _
  · split at h
    · simp only [Option.some.injEq] at h; subst h; exact route_frame_refl _
    · split at h
      · simp only [Option.some.injEq] at h; subst h; exact route_frame_refl _
      · split at h
        · simp only [Option.some.injEq] at h; subst h; exact route_frame_refl _
        · exact route_frame_route hw hhw _ _ _ _ _ h

theorem route_frame_deliver (hw : ISS → Nat → Bool → Option ISS)
    (hhw : ∀ s iid set s', hw s iid set = some s' → s.route_frame s')
    (d : IrqDecls) (s s' : ISS) (p q : PendingInterrupts) (iid : Nat)
    (h : deliver_pending_to_imsic hw d s p q iid = some s') : s.route_frame s' := by
  unfold deliver_pending_to_imsic at h
  by_cases hm : q.m_pending &&& BIT iid ≠ 0
  · rw [if_pos hm] at h
    exact route_frame_deliver_owner hw hhw d s s' iid _ _ h
  · rw [if_neg hm] at h
    by_cases hs : q.s_hs_pending &&& BIT iid ≠ 0
    · rw [if_pos hs] at h
      exact route_frame_deliver_owner hw hhw d s s' iid _ _ h
    · rw [if_neg hs] at h
      by_cases hv : q.vs_pending &&& BIT iid ≠ 0
      · rw [if_pos hv] at h
        exact route_frame_deliver_owner hw hhw d s s' iid _ _ h
      · rw [if_neg hv] at h
        simp only [Option.some.injEq] at h; subst h; exact route_frame_refl _

theorem route_frame_cascade (hw : ISS → Nat → Bool → Option ISS)
    (hhw : ∀ s iid set s', hw s iid set = some s' → s.route_frame s')
    (d : IrqDecls) (s s' : ISS) (p : PendingInterrupts)
    (h : cascade_pendings_to_imsics hw d s p = some s') : s.route_frame s' := by
  unfold cascade_pendings_to_imsics at h
  cases h1 : deliver_pending_to_imsic hw d s p (s.compute_clint_pending_irq_bits_per_level d)
      EXC_VS_EXTERNAL_INTERRUPT with
  | none => simp [h1] at h
  | some s1 =>
    simp only [h1] at h
    exact route_frame_trans _ _ _ (route_frame_deliver hw hhw d _ _ _ _ _ h1)
      (route_frame_deliver hw hhw d _ _ _ _ _ h)

theorem route_frame_deliver_iid (hw : ISS → Nat → Bool → Option ISS)
    (hhw : ∀ s iid set s', hw s iid set = some s' → s.route_frame s')
    (d : IrqDecls) (s s' : ISS) (p : PendingInterrupts) (iid : Nat)
    (h : deliver_clint_changes_to_imsics_iid hw d s p iid = some s') : s.route_frame s' := by
  unfold deliver_clint_changes_to_imsics_iid at h
  cases h1 : deliver_pending_to_imsic hw d s p (s.compute_clint_pending_irq_bits_per_level d)
      iid with
  | none => simp [h1] at h
  | some s1 =>
    simp only [h1] at h
    exact route_frame_trans _ _ _ (route_frame_deliver hw hhw d _ _ _ _ _ h1)
      (route_frame_cascade hw hhw d _ _ _ h)

theorem route_frame_hw_irq_route (d : IrqDecls) : ∀ (fuel : Nat) (s : ISS) (iid : Nat)
    (set : Bool) (s' : ISS), clint_hw_irq_route d fuel s iid set = some s' →
      s.route_frame s' := by
  intro fuel
  induction fuel with
  | zero => intro s iid set s' h; simp [clint_hw_irq_route] at h
  | succ fuel ih =>
    intro s iid set s' h
    unfold clint_hw_irq_route at h
    exact route_frame_trans _ _ _ (route_frame_of_eq s (s.hw_write_mip iid set) rfl rfl rfl rfl)
      (route_frame_deliver_iid _ ih d _ _ _ _ h)


/-- Below 13 and apart from 2, 6 and 10, a bit of the VS pending set comes from the local
injection of `hvictl` alone. -/
theorem vs_pending_bit_injected (d : IrqDecls) (hv : d.codes.Valid) (s : ISS) (j : Nat)
    (hj : j < 13) (hne : j ≠ 2 ∧ j ≠ 6 ∧ j ≠ 10) :
    (s.compute_clint_pending_irq_bits_per_level d).vs_pending.testBit j =
      (s.csrs.hvictl.is_local_injected &&
        ((d.transform_s_to_vs s.csrs.hvictl.get_s_iid).1 &&
          decide ((d.transform_s_to_vs s.csrs.hvictl.get_s_iid).2 = j))) := by
  have hnl := testBit_MIx_NON_LEVELED_MASK_low d.codes hv j hj
  have h10 : ¬ (10 = j) := fun e => hne.2.2 e.symm
  have hvs : ¬ (j = 2 ∨ j = 6 ∨ j = 10) := by omega
  unfold compute_clint_pending_irq_bits_per_level
  have hz : (vsip_routed_read_64 d.codes s.csrs.clint).testBit j = false := by
    simp [vsip_routed_read_64, read_64, VSIP_READ_MASK, Nat.testBit_and, Nat.testBit_or,
      testBit_VSIE_MASK, hnl, hvs]
  cases h1 : s.csrs.hvictl.is_local_injected
  · simp [Nat.testBit_and, hz]
  · cases h2 : (d.transform_s_to_vs s.csrs.hvictl.get_s_iid).1
    · simp [h2, Nat.testBit_and, hz, testBit_BIT, EXC_VS_EXTERNAL_INTERRUPT]
    · simp [h2, Nat.testBit_and, Nat.testBit_or, testBit_BIT, hz, EXC_VS_EXTERNAL_INTERRUPT, h10]

theorem vs_pending_bit_congr (d : IrqDecls) (hv : d.codes.Valid) (s s' : ISS) (j : Nat)
    (hj : j < 13) (hne : j ≠ 2 ∧ j ≠ 6 ∧ j ≠ 10) (hh : s'.csrs.hvictl = s.csrs.hvictl) :
    (s.compute_clint_pending_irq_bits_per_level d).vs_pending.testBit j =
      (s'.compute_clint_pending_irq_bits_per_level d).vs_pending.testBit j := by
  rw [vs_pending_bit_injected d hv s j hj hne, vs_pending_bit_injected d hv s' j hj hne, hh]

theorem route_some_of_not_vs (hw : ISS → Nat → Bool → Option ISS) (s : ISS) (t g v : Nat)
    (ht : t ≠ VirtualSupervisorMode) : ∃ s', route_imsic_write hw s t g v = some s' := by
  unfold route_imsic_write
  split
  · exact ⟨_, rfl⟩
  · split
    · exact ⟨_, rfl⟩
    · split
      · exact ⟨_, rfl⟩
      · exact ⟨_, rfl⟩

theorem deliver_owner_some (hw : ISS → Nat → Bool → Option ISS) (d : IrqDecls) (s : ISS)
    (iid imsic_level : Nat) (edge : Bool)
    (h : imsic_level ≠ VirtualSupervisorMode ∨ edge = false ∨
      iid = get_external_iid imsic_level) :
    ∃ s', (if !edge then some s
      else if iid = get_external_iid imsic_level then some s
      else if !s.is_irq_mode_snps_nested_vectored imsic_level then some s
      else if imsic_level = VirtualSupervisorMode ∧ !s.csrs.hstatus.is_imsic_connected then
        some s
      else route_imsic_write hw s imsic_level s.csrs.hstatus.get_guest_id
        (s.get_iprio d imsic_level iid)) = some s' := by
  split
  · exact ⟨_, rfl⟩
  · split
    · exact ⟨_, rfl⟩
    · split
      · exact ⟨_, rfl⟩
      · split
        · exact ⟨_, rfl⟩
        · rename_i h1 h2 _ _
          rcases h with h | h | h
          · exact route_some_of_not_vs hw s _ _ _ h
          · rw [h] at h1; exact absurd rfl h1
          · exact absurd h h2

theorem deliver_some (hw : ISS → Nat → Bool → Option ISS) (d : IrqDecls) (s : ISS)
    (p q : PendingInterrupts) (iid : Nat)
    (h : iid = EXC_VS_EXTERNAL_INTERRUPT ∨ p.vs_pending.testBit iid = q.vs_pending.testBit iid) :
    ∃ s', deliver_pending_to_imsic hw d s p q iid = some s' := by
  unfold deliver_pending_to_imsic
  by_cases hm : q.m_pending &&& BIT iid ≠ 0
  · rw [if_pos hm]
    exact deliver_owner_some hw d s iid _ _ (Or.inl (by decide))
  · rw [if_neg hm]
    by_cases hs : q.s_hs_pending &&& BIT iid ≠ 0
    · rw [if_pos hs]
      exact deliver_owner_some hw d s iid _ _ (Or.inl (by decide))
    · rw [if_neg hs]
      by_cases hv : q.vs_pending &&& BIT iid ≠ 0
      · rw [if_pos hv]
        apply deliver_owner_some hw d s iid
        right
        rcases h with h | h
        · right; rw [h]; rfl
        · left
          rw [pendings_edge_detected_eq, h]
          cases q.vs_pending.testBit iid <;> rfl
      · rw [if_neg hv]
        exact ⟨_, rfl⟩

/-- The guest external interrupt line: `clint_hw_irq_route(EXC_S_GUEST_EXTERNAL_INTERRUPT, b)`
does not reach `clint_hw_irq_route` again, so one unit of fuel is enough. -/
theorem clint_hw_irq_route_sgei_some (d : IrqDecls) (hv : d.codes.Valid) (fuel : Nat) (s : ISS)
    (b : Bool) :
    ∃ s', clint_hw_irq_route d (fuel + 1) s EXC_S_GUEST_EXTERNAL_INTERRUPT b = some s' := by
  unfold clint_hw_irq_route deliver_clint_changes_to_imsics_iid
  obtain ⟨s2, h2⟩ := deliver_some (clint_hw_irq_route d fuel) d
    (s.hw_write_mip EXC_S_GUEST_EXTERNAL_INTERRUPT b)
    (s.compute_clint_pending_irq_bits_per_level d)
    ((s.hw_write_mip EXC_S_GUEST_EXTERNAL_INTERRUPT b).compute_clint_pending_irq_bits_per_level d)
    EXC_S_GUEST_EXTERNAL_INTERRUPT
    (Or.inr (vs_pending_bit_congr d hv _ _ 12 (by decide) (by decide) rfl))
  simp only [h2]
  unfold cascade_pendings_to_imsics
  obtain ⟨s3, h3⟩ := deliver_some (clint_hw_irq_route d fuel) d s2
    ((s.hw_write_mip EXC_S_GUEST_EXTERNAL_INTERRUPT b).compute_clint_pending_irq_bits_per_level d)
    (s2.compute_clint_pending_irq_bits_per_level d) EXC_VS_EXTERNAL_INTERRUPT (Or.inl rfl)
  simp only [h3]
  have hf := route_frame_deliver _ (route_frame_hw_irq_route d fuel) d _ _ _ _ _ h3
  exact deliver_some (clint_hw_irq_route d fuel) d s3 _ _ EXC_S_EXTERNAL_INTERRUPT
    (Or.inr (vs_pending_bit_congr d hv _ _ 9 (by decide) (by decide) hf.1))

theorem compute_vs_some (d : IrqDecls) (hv : d.codes.Valid) (fuel : Nat) (s : ISS) :
    ∃ s', compute_imsic_pending_interrupts_vs (clint_hw_irq_route d (fuel + 1)) s = some s' := by
  unfold compute_imsic_pending_interrupts_vs recalc_sgeip
  obtain ⟨s2, h2⟩ := clint_hw_irq_route_sgei_some d hv fuel
    ((List.range MAX_GUEST).foldl vs_bank_step (s, [])).1
    ((((List.range MAX_GUEST).foldl vs_bank_step (s, [])).1.csrs.hgeip.checked_read &&&
      ((List.range MAX_GUEST).foldl vs_bank_step (s, [])).1.csrs.hgeie.checked_read) != 0)
  simp only [h2]
  split <;> exact ⟨_, rfl⟩

theorem route_some (d : IrqDecls) (hv : d.codes.Valid) (fuel : Nat) (s : ISS) (t g v : Nat) :
    ∃ s', route_imsic_write (clint_hw_irq_route d (fuel + 1)) s t g v = some s' := by
  by_cases ht : t = VirtualSupervisorMode
  · unfold route_imsic_write
    split
    · exact ⟨_, rfl⟩
    · split
      · exact ⟨_, rfl⟩
      · split
        · exact ⟨_, rfl⟩
        · exact compute_vs_some d hv fuel _
  · exact route_some_of_not_vs _ s t g v ht


theorem bit0_clear_eip_init : bit0_clear eip_init := by
  unfold bit0_clear
  decide

theorem minor0_clear_init (tc : TrapCodes) : (ISS.init tc).minor0_clear := by
  refine ⟨bit0_clear_eip_init, bit0_clear_eip_init, bit0_clear_eip_init, bit0_clear_eip_init, ?_⟩
  intro b hb
  have hb' : b ∈ List.replicate MAX_GUEST
      ({ eidelivery := { reg := 0 }, eithreshold := icsr_eithreshold.init
         eip := eip_init, eie := eip_init } : icsr_vs_bank) := hb
  rw [List.mem_replicate] at hb'
  rw [hb'.2]
  exact ⟨bit0_clear_eip_init, bit0_clear_eip_init⟩

theorem apply_file_op_spec (d : IrqDecls) (hv : d.codes.Valid) (fuel : Nat) (s : ISS)
    (op : FileOp) (h : s.minor0_clear) :
    ∃ s', s.apply_file_op d (fuel + 1) op = some s' ∧ s'.minor0_clear := by
  cases op with
  | write_eip f k val =>
    exact ⟨_, rfl, minor0_clear_set_file_eip s f _ h
      (bit0_clear_checked_write _ k val (bit0_clear_file s f h).1)⟩
  | write_eie f k val =>
    exact ⟨_, rfl, minor0_clear_set_file_eie s f _ h
      (bit0_clear_checked_write _ k val (bit0_clear_file s f h).2)⟩
  | update_eip_bit f id set_bit =>
    exact ⟨_, rfl, (route_frame_update s f id set_bit).2 h⟩
  | route t g v =>
    obtain ⟨s', hs'⟩ := route_some d hv fuel s t g v
    exact ⟨s', hs', (route_frame_route _ (route_frame_hw_irq_route d (fuel + 1)) s s' t g v
      hs').2 h⟩

theorem run_file_ops_spec (d : IrqDecls) (hv : d.codes.Valid) (fuel : Nat) (ops : List FileOp) :
    ∀ s : ISS, s.minor0_clear →
      ∃ s', ISS.run_file_ops d (fuel + 1) ops s = some s' ∧ s'.minor0_clear := by
  induction ops with
  | nil => intro s h; exact ⟨s, rfl, h⟩
  | cons op ops ih =>
    intro s h
    obtain ⟨s1, h1, h1'⟩ := apply_file_op_spec d hv fuel s op h
    obtain ⟨s2, h2, h2'⟩ := ih s1 h1'
    refine ⟨s2, ?_, h2'⟩
    simp only [ISS.run_file_ops, h1]
    exact h2

/-- Claim C12. From the constructed hart, every sequence of indirect-register writes to
`eip[k]`/`eie[k]`, `imsic_update_eip_bit` calls and `route_imsic_write` calls (arguments in
range) runs to completion, and afterwards bit 0 of `eip[0]` and bit 0 of `eie[0]` are 0 in
the Machine file, the Supervisor file and every guest file. -/
theorem minor0_never_set (d : IrqDecls) (hv : d.codes.Valid) (fuel : Nat) (ops : List FileOp)
    (_hops : ∀ op ∈ ops, op.Valid) :
    ∃ s', ISS.run_file_ops d (fuel + 1) ops (ISS.init d.codes) = some s' ∧
      ∀ f : FileId, (word_reg (s'.file_eip f) 0).testBit 0 = false ∧
        (word_reg (s'.file_eie f) 0).testBit 0 = false := by
  obtain ⟨s', h1, h2⟩ := run_file_ops_spec d hv fuel ops _ (minor0_clear_init d.codes)
  refine ⟨s', h1, ?_⟩
  intro f
  obtain ⟨a, b⟩ := bit0_clear_file s' f h2
  exact ⟨a.1, b.1⟩

set_option maxRecDepth 100000 in
/-- Claim C12 at `sampleFileOps`: the operations are in range, they leave `0xFFFFFFFE` in
`eip[0]` and `eie[0]` of the Machine file and in `eip[0]` of guest 2 and 3 in `eip[1]` of the
Supervisor file, and bit 0 of every `eip[0]` and `eie[0]` is 0. -/
theorem minor0_never_set_witness :
    sampleDecls.codes.Valid ∧ (∀ op ∈ sampleFileOps, op.Valid) ∧
    (ISS.run_file_ops sampleDecls 1 sampleFileOps (ISS.init sampleDecls.codes)).map
      (fun s => (word_reg (s.file_eip FileId.machine) 0, word_reg (s.file_eie FileId.machine) 0,
        word_reg (s.file_eip (FileId.guest 2)) 0, word_reg (s.file_eip FileId.supervisor) 1)) =
      some (0xFFFFFFFE, 0xFFFFFFFE, 0xFFFFFFFE, 3) ∧
    ∃ s', ISS.run_file_ops sampleDecls 1 sampleFileOps (ISS.init sampleDecls.codes) = some s' ∧
      ∀ f : FileId, (word_reg (s'.file_eip f) 0).testBit 0 = false ∧
        (word_reg (s'.file_eie f) 0).testBit 0 = false :=
  ⟨by decide, by decide, by decide,
    minor0_never_set sampleDecls (by decide) 0 sampleFileOps (by decide)⟩

/-! # Frames of the recomputation of the interrupt files -/

theorem ms_frame_refl (s : ISS) : s.ms_frame s :=
  ⟨s.icsrs_m.eip, s.icsrs_s.eip, s.csrs.mtopei, s.csrs.stopei, s.csrs.clint.mip, rfl,
    fun _ _ _ _ => rfl⟩

theorem ms_frame_trans (a b c : ISS) (h1 : a.ms_frame b) (h2 : b.ms_frame c) : a.ms_frame c := by
  obtain ⟨e1, e2, t1, t2, m, hb, hm⟩ := h1
  obtain ⟨e1', e2', t1', t2', m', hc, hm'⟩ := h2
  subst hb
  subst hc
  exact ⟨e1', e2', t1', t2', m', rfl, fun j h64 h9 h11 => (hm' j h64 h9 h11).trans (hm j h64 h9 h11)⟩

theorem imsic_frame_refl (s : ISS) : s.imsic_frame s :=
  ⟨s.icsrs_m.eip, s.icsrs_s.eip, s.csrs.mtopei, s.csrs.stopei, s.csrs.vstopei, s.csrs.hgeip,
    s.csrs.clint.mip, rfl⟩

theorem imsic_frame_trans (a b c : ISS) (h1 : a.imsic_frame b) (h2 : b.imsic_frame c) :
    a.imsic_frame c := by
  obtain ⟨e1, e2, t1, t2, t3, g, m, hb⟩ := h1
  obtain ⟨e1', e2', t1', t2', t3', g', m', hc⟩ := h2
  subst hb
  subst hc
  exact ⟨e1', e2', t1', t2', t3', g', m', rfl⟩

theorem imsic_frame_of_ms (a b : ISS) (h : a.ms_frame b) : a.imsic_frame b := by
  obtain ⟨e1, e2, t1, t2, m, hb, _⟩ := h
  subst hb
  exact ⟨e1, e2, t1, t2, a.csrs.vstopei, a.csrs.hgeip, m, rfl⟩

theorem ms_frame_compute_m (s : ISS) : s.ms_frame s.compute_imsic_pending_interrupts_m := by
  refine ⟨s.icsrs_m.eip, s.icsrs_s.eip, _, s.csrs.stopei, _, rfl, ?_⟩
  intro j h64 h9 h11
  exact testBit_hw_write_mip_other s.csrs.clint EXC_M_EXTERNAL_INTERRUPT j _ h64 h11

theorem ms_frame_compute_s (s : ISS) : s.ms_frame s.compute_imsic_pending_interrupts_s := by
  refine ⟨s.icsrs_m.eip, s.icsrs_s.eip, s.csrs.mtopei, _, _, rfl, ?_⟩
  intro j h64 h9 h11
  exact testBit_hw_write_mip_other s.csrs.clint EXC_S_EXTERNAL_INTERRUPT j _ h64 h9

theorem ms_frame_eip_m (s : ISS) (eip : List icsr_32) :
    s.ms_frame { s with icsrs_m := { s.icsrs_m with eip := eip } } :=
  ⟨eip, s.icsrs_s.eip, s.csrs.mtopei, s.csrs.stopei, s.csrs.clint.mip, rfl, fun _ _ _ _ => rfl⟩

theorem ms_frame_eip_s (s : ISS) (eip : List icsr_32) :
    s.ms_frame { s with icsrs_s := { s.icsrs_s with eip := eip } } :=
  ⟨s.icsrs_m.eip, eip, s.csrs.mtopei, s.csrs.stopei, s.csrs.clint.mip, rfl, fun _ _ _ _ => rfl⟩

theorem ms_frame_hvictl (a b : ISS) (h : a.ms_frame b) : b.csrs.hvictl = a.csrs.hvictl := by
  obtain ⟨e1, e2, t1, t2, m, hb, _⟩ := h
  subst hb
  rfl

theorem ms_frame_route (hw : ISS → Nat → Bool → Option ISS) (s : ISS) (t g v : Nat)
    (ht : t ≠ VirtualSupervisorMode) :
    ∃ s', route_imsic_write hw s t g v = some s' ∧ s.ms_frame s' := by
  unfold route_imsic_write
  split
  · exact ⟨_, rfl, ms_frame_refl _⟩
  · split
    · exact ⟨_, rfl, ms_frame_trans _ _ _ (ms_frame_eip_m s _) (ms_frame_compute_m _)⟩
    · split
      · exact ⟨_, rfl, ms_frame_trans _ _ _ (ms_frame_eip_s s _) (ms_frame_compute_s _)⟩
      · exact ⟨_, rfl, ms_frame_refl _⟩

theorem ms_frame_deliver_owner (hw : ISS → Nat → Bool → Option ISS) (d : IrqDecls) (s : ISS)
    (iid imsic_level : Nat) (edge : Bool)
    (h : imsic_level ≠ VirtualSupervisorMode ∨ edge = false ∨
      iid = get_external_iid imsic_level) :
    ∃ s', (if !edge then some s
      else if iid = get_external_iid imsic_level then some s
      else if !s.is_irq_mode_snps_nested_vectored imsic_level then some s
      else if imsic_level = VirtualSupervisorMode ∧ !s.csrs.hstatus.is_imsic_connected then
        some s
      else route_imsic_write hw s imsic_level s.csrs.hstatus.get_guest_id
        (s.get_iprio d imsic_level iid)) = some s' ∧ s.ms_frame s' := by
  split
  · exact ⟨_, rfl, ms_frame_refl _⟩
  · split
    · exact ⟨_, rfl, ms_frame_refl _⟩
    · split
      · exact ⟨_, rfl, ms_frame_refl _⟩
      · split
        · exact ⟨_, rfl, ms_frame_refl _⟩
        · rename_i h1 h2 _ _
          rcases h with h | h | h
          · exact ms_frame_route hw s _ _ _ h
          · rw [h] at h1; exact absurd rfl h1
          · exact absurd h h2

theorem ms_frame_deliver (hw : ISS → Nat → Bool → Option ISS) (d : IrqDecls) (s : ISS)
    (p q : PendingInterrupts) (iid : Nat)
    (h : iid = EXC_VS_EXTERNAL_INTERRUPT ∨ p.vs_pending.testBit iid = q.vs_pending.testBit iid) :
    ∃ s', deliver_pending_to_imsic hw d s p q iid = some s' ∧ s.ms_frame s' := by
  unfold deliver_pending_to_imsic
  by_cases hm : q.m_pending &&& BIT iid ≠ 0
  · rw [if_pos hm]
    exact ms_frame_deliver_owner hw d s iid _ _ (Or.inl (by decide))
  · rw [if_neg hm]
    by_cases hs : q.s_hs_pending &&& BIT iid ≠ 0
    · rw [if_pos hs]
      exact ms_frame_deliver_owner hw d s iid _ _ (Or.inl (by decide))
    · rw [if_neg hs]
      by_cases hv : q.vs_pending &&& BIT iid ≠ 0
      · rw [if_pos hv]
        apply ms_frame_deliver_owner hw d s iid
        right
        rcases h with h | h
        · right; rw [h]; rfl
        · left
          rw [pendings_edge_detected_eq, h]
          cases q.vs_pending.testBit iid <;> rfl
      · rw [if_neg hv]
        exact ⟨_, rfl, ms_frame_refl _⟩

/-- The guest external interrupt line: after the store to `mip` bit 12,
`clint_hw_irq_route(EXC_S_GUEST_EXTERNAL_INTERRUPT, b)` only sends messages to the Machine and
the Supervisor file. -/
theorem sgei_route_frame (d : IrqDecls) (hv : d.codes.Valid) (fuel : Nat) (s : ISS) (b : Bool) :
    ∃ s', clint_hw_irq_route d (fuel + 1) s EXC_S_GUEST_EXTERNAL_INTERRUPT b = some s' ∧
      (s.hw_write_mip EXC_S_GUEST_EXTERNAL_INTERRUPT b).ms_frame s' := by
  unfold clint_hw_irq_route deliver_clint_changes_to_imsics_iid
  obtain ⟨s2, h2, f2⟩ := ms_frame_deliver (clint_hw_irq_route d fuel) d
    (s.hw_write_mip EXC_S_GUEST_EXTERNAL_INTERRUPT b)
    (s.compute_clint_pending_irq_bits_per_level d)
    ((s.hw_write_mip EXC_S_GUEST_EXTERNAL_INTERRUPT b).compute_clint_pending_irq_bits_per_level d)
    EXC_S_GUEST_EXTERNAL_INTERRUPT
    (Or.inr (vs_pending_bit_congr d hv _ _ 12 (by decide) (by decide) rfl))
  simp only [h2]
  unfold cascade_pendings_to_imsics
  obtain ⟨s3, h3, f3⟩ := ms_frame_deliver (clint_hw_irq_route d fuel) d s2
    ((s.hw_write_mip EXC_S_GUEST_EXTERNAL_INTERRUPT b).compute_clint_pending_irq_bits_per_level d)
    (s2.compute_clint_pending_irq_bits_per_level d) EXC_VS_EXTERNAL_INTERRUPT (Or.inl rfl)
  simp only [h3]
  obtain ⟨s4, h4, f4⟩ := ms_frame_deliver (clint_hw_irq_route d fuel) d s3
    (s2.compute_clint_pending_irq_bits_per_level d)
    (s3.compute_clint_pending_irq_bits_per_level d) EXC_S_EXTERNAL_INTERRUPT
    (Or.inr (vs_pending_bit_congr d hv _ _ 9 (by decide) (by decide) (ms_frame_hvictl _ _ f3)))
  exact ⟨s4, h4, ms_frame_trans _ _ _ (ms_frame_trans _ _ _ f2 f3) f4⟩

theorem testBit_hw_write_mip_self (c : csrs_clint_pend) (iid : Nat) (set : Bool)
    (hm : MIP_READ_MASK.testBit iid = true) :
    (c.hw_write_mip iid set).1.mip.testBit iid = set := by
  simp only [csrs_clint_pend.hw_write_mip, testBit_write_64, Nat.testBit_and, testBit_BIT, hm,
    decide_True, Bool.true_and, Nat.testBit_shiftLeft]
  cases set <;> simp

/-- After `recalc_sgeip`: the result exists, `hgeip`, `hgeie` and the guest files are as
before, and `mip` bit 12 tells whether the read values of `hgeip` and `hgeie` have a common
bit. -/
theorem recalc_sgeip_spec (d : IrqDecls) (hv : d.codes.Valid) (fuel : Nat) (s : ISS) :
    ∃ s', recalc_sgeip (clint_hw_irq_route d (fuel + 1)) s = some s' ∧ s.imsic_frame s' ∧
      s'.csrs.hgeip = s.csrs.hgeip ∧ s'.sgeip_line_ok := by
  unfold recalc_sgeip
  obtain ⟨s', h, f⟩ := sgei_route_frame d hv fuel s
    ((s.csrs.hgeip.checked_read &&& s.csrs.hgeie.checked_read) != 0)
  refine ⟨s', h, ?_, ?_, ?_⟩
  · exact imsic_frame_trans _ _ _
      ⟨s.icsrs_m.eip, s.icsrs_s.eip, s.csrs.mtopei, s.csrs.stopei, s.csrs.vstopei, s.csrs.hgeip,
        _, rfl⟩ (imsic_frame_of_ms _ _ f)
  · obtain ⟨e1, e2, t1, t2, m, hb, _⟩ := f
    subst hb
    rfl
  · obtain ⟨e1, e2, t1, t2, m, hb, hm⟩ := f
    subst hb
    unfold ISS.sgeip_line_ok
    show m.testBit 12 = true ↔ s.csrs.hgeip.checked_read &&& s.csrs.hgeie.checked_read ≠ 0
    rw [hm 12 (by decide) (by decide) (by decide)]
    show ((s.csrs.clint.hw_write_mip EXC_S_GUEST_EXTERNAL_INTERRUPT _).1.mip.testBit 12 = true) ↔ _
    have h12 : MIP_READ_MASK.testBit EXC_S_GUEST_EXTERNAL_INTERRUPT = true := by decide
    have := testBit_hw_write_mip_self s.csrs.clint EXC_S_GUEST_EXTERNAL_INTERRUPT
      ((s.csrs.hgeip.checked_read &&& s.csrs.hgeie.checked_read) != 0) h12
    rw [show (12 : Nat) = EXC_S_GUEST_EXTERNAL_INTERRUPT from rfl, this]
    simp

/-! # Guest external interrupt line and bitmap -/

theorem vs_fold_spec (l : List Nat) (s : ISS) (acc : List (Bool × Nat)) :
    l.foldl vs_bank_step (s, acc) =
      ({ s with csrs := { s.csrs with
          hgeip := l.foldl (fun h i => h.set_guest_pending i (s.guest_pending i).1)
            s.csrs.hgeip } },
       acc ++ l.map s.guest_pending) := by
  induction l generalizing s acc with
  | nil => simp
  | cons i l ih =>
    simp only [List.foldl_cons, List.map_cons]
    rw [show vs_bank_step (s, acc) i =
      ({ s with csrs := { s.csrs with
          hgeip := s.csrs.hgeip.set_guest_pending i (s.guest_pending i).1 } },
        acc ++ [s.guest_pending i]) from rfl]
    rw [ih]
    simp only [List.append_assoc, List.singleton_append]
    rfl

theorem id_to_vgein_lt (id : Nat) (h : id < MAX_GUEST) : id_to_vgein id = id + 1 := by
  unfold id_to_vgein
  unfold MAX_GUEST at *
  have : (id + 1) % 2 ^ 32 = id + 1 := Nat.mod_eq_of_lt (by omega)
  simp only [this]
  rw [if_neg (by omega)]

theorem testBit_set_guest_pending (h : csr_hgeip) (id : Nat) (val : Bool) (j : Nat)
    (hid : id < MAX_GUEST) :
    (h.set_guest_pending id val).reg.testBit j =
      (decide (j < 32) && (if j = id + 1 then val else h.reg.testBit j)) := by
  unfold csr_hgeip.set_guest_pending
  simp only [id_to_vgein_lt id hid, Nat.testBit_mod_two_pow, Nat.testBit_or, Nat.testBit_and,
    testBit_not64, testBit_BIT, Nat.testBit_shiftLeft]
  by_cases hj : j < 32
  · have h64 : j < 64 := by omega
    by_cases he : j = id + 1
    · subst he
      cases val <;> simp [hj, h64]
    · have he' : ¬ (id + 1 = j) := fun e => he e.symm
      simp only [hj, h64, he, he', decide_True, decide_False, Bool.true_and, Bool.not_false,
        Bool.and_true, if_false]
      by_cases hge : j ≥ id + 1
      · have : j - (id + 1) ≠ 0 := by omega
        cases val <;> simp [hge, Nat.testBit_one_eq_true_iff_self_eq_zero, this]
      · simp [hge]
  · simp [hj]

theorem hgeip_fold_bits (f : Nat → Bool) (h : csr_hgeip) (j : Nat) :
    ((List.range MAX_GUEST).foldl (fun h i => h.set_guest_pending i (f i)) h).reg.testBit j =
      (decide (j < 32) &&
        (if 1 ≤ j ∧ j ≤ MAX_GUEST then f (j - 1) else h.reg.testBit j)) := by
  have hr : List.range MAX_GUEST = [0, 1, 2, 3, 4, 5, 6, 7] := by decide
  rw [hr]
  simp only [List.foldl]
  rw [testBit_set_guest_pending _ 7 _ _ (by decide), testBit_set_guest_pending _ 6 _ _ (by decide),
    testBit_set_guest_pending _ 5 _ _ (by decide), testBit_set_guest_pending _ 4 _ _ (by decide),
    testBit_set_guest_pending _ 3 _ _ (by decide), testBit_set_guest_pending _ 2 _ _ (by decide),
    testBit_set_guest_pending _ 1 _ _ (by decide), testBit_set_guest_pending _ 0 _ _ (by decide)]
  unfold MAX_GUEST
  by_cases hj : j < 32
  · simp only [hj, decide_True, Bool.true_and]
    by_cases h8 : j = 8
    · subst h8; simp
    by_cases h7 : j = 7
    · subst h7; simp
    by_cases h6 : j = 6
    · subst h6; simp
    by_cases h5 : j = 5
    · subst h5; simp
    by_cases h4 : j = 4
    · subst h4; simp
    by_cases h3 : j = 3
    · subst h3; simp
    by_cases h2 : j = 2
    · subst h2; simp
    by_cases h1 : j = 1
    · subst h1; simp
    have hn : ¬ (1 ≤ j ∧ j ≤ 8) := by omega
    simp [h8, h7, h6, h5, h4, h3, h2, h1, hn]
  · simp [hj]

theorem testBit_HGIP_MASK (j : Nat) :
    csr_hgeip.HGIP_MASK.testBit j = decide (1 ≤ j ∧ j ≤ MAX_GUEST) := by
  have h : csr_hgeip.HGIP_MASK = (2 ^ 8 - 1) <<< 1 := by decide
  rw [h, Nat.testBit_shiftLeft, Nat.testBit_two_pow_sub_one]
  unfold MAX_GUEST
  apply Bool.eq_iff_iff.mpr
  simp
  omega

theorem imsic_frame_vs_final (s : ISS) (b : Bool) (v : Nat) :
    s.imsic_frame ((s.hw_write_mip EXC_VS_EXTERNAL_INTERRUPT b).set_topei VirtualSupervisorMode v) ∧
    s.imsic_frame ((s.set_topei VirtualSupervisorMode v).hw_write_mip EXC_VS_EXTERNAL_INTERRUPT b) :=
  ⟨⟨s.icsrs_m.eip, s.icsrs_s.eip, s.csrs.mtopei, s.csrs.stopei, _, s.csrs.hgeip, _, rfl⟩,
   ⟨s.icsrs_m.eip, s.icsrs_s.eip, s.csrs.mtopei, s.csrs.stopei, _, s.csrs.hgeip, _, rfl⟩⟩

theorem sgeip_line_ok_vs_final (s : ISS) (b : Bool) (v : Nat) (h : s.sgeip_line_ok) :
    ((s.hw_write_mip EXC_VS_EXTERNAL_INTERRUPT b).set_topei VirtualSupervisorMode v).sgeip_line_ok ∧
    ((s.set_topei VirtualSupervisorMode v).hw_write_mip EXC_VS_EXTERNAL_INTERRUPT b).sgeip_line_ok := by
  have hb : (s.csrs.clint.hw_write_mip EXC_VS_EXTERNAL_INTERRUPT b).1.mip.testBit 12 =
      s.csrs.clint.mip.testBit 12 :=
    testBit_hw_write_mip_other s.csrs.clint EXC_VS_EXTERNAL_INTERRUPT 12 b (by decide) (by decide)
  unfold ISS.sgeip_line_ok at *
  constructor
  · show (s.csrs.clint.hw_write_mip EXC_VS_EXTERNAL_INTERRUPT b).1.mip.testBit 12 = true ↔
      s.csrs.hgeip.checked_read &&& s.csrs.hgeie.checked_read ≠ 0
    rw [hb]; exact h
  · show (s.csrs.clint.hw_write_mip EXC_VS_EXTERNAL_INTERRUPT b).1.mip.testBit 12 = true ↔
      s.csrs.hgeip.checked_read &&& s.csrs.hgeie.checked_read ≠ 0
    rw [hb]; exact h

/-- After `compute_imsic_pending_interrupts_vs`: the result exists, only the registers of
`imsic_frame` differ, `hgeip` holds the asserted output of every guest file, and `mip` bit
12 follows `hgeip` and `hgeie`. -/
theorem compute_vs_spec (d : IrqDecls) (hv : d.codes.Valid) (fuel : Nat) (s : ISS) :
    ∃ s', compute_imsic_pending_interrupts_vs (clint_hw_irq_route d (fuel + 1)) s = some s' ∧
      s.imsic_frame s' ∧
      s'.csrs.hgeip = (List.range MAX_GUEST).foldl
        (fun h i => h.set_guest_pending i (s.guest_pending i).1) s.csrs.hgeip ∧
      s'.sgeip_line_ok := by
  unfold compute_imsic_pending_interrupts_vs
  rw [vs_fold_spec]
  obtain ⟨s2, h2, f2, g2, l2⟩ := recalc_sgeip_spec d hv fuel
    { s with csrs := { s.csrs with
        hgeip := (List.range MAX_GUEST).foldl
          (fun h i => h.set_guest_pending i (s.guest_pending i).1) s.csrs.hgeip } }
  simp only [h2]
  have f1 : s.imsic_frame { s with csrs := { s.csrs with
        hgeip := (List.range MAX_GUEST).foldl
          (fun h i => h.set_guest_pending i (s.guest_pending i).1) s.csrs.hgeip } } :=
    ⟨s.icsrs_m.eip, s.icsrs_s.eip, s.csrs.mtopei, s.csrs.stopei, s.csrs.vstopei, _,
      s.csrs.clint.mip, rfl⟩
  split
  · exact ⟨_, rfl, imsic_frame_trans _ _ _ (imsic_frame_trans _ _ _ f1 f2)
      (imsic_frame_vs_final s2 _ _).1, g2, (sgeip_line_ok_vs_final s2 _ _ l2).1⟩
  · exact ⟨_, rfl, imsic_frame_trans _ _ _ (imsic_frame_trans _ _ _ f1 f2)
      (imsic_frame_vs_final s2 _ _).2, g2, (sgeip_line_ok_vs_final s2 _ _ l2).2⟩

theorem virt_transform_id (s : ISS) (addr : Nat)
    (h : s.vs_mode = false ∨
      ((csr.CSR_TYPE_MASK &&& addr) >>> csr.CSR_TYPE_SHIFT == csr.CSR_TYPE_S) = false) :
    s.csr_address_virt_transform addr = addr := by
  unfold csr_address_virt_transform
  rcases h with h | h
  · simp [h]
  · simp only [h, Bool.and_false, Bool.false_eq_true, if_false]

set_option maxRecDepth 8000 in
theorem set_csr_value_hgeie (d : IrqDecls) (fuel : Nat) (s : ISS) (value : Nat)
    (read_accessed : Bool) :
    s.set_csr_value d fuel csr.HGEIE_ADDR value read_accessed =
      write_arm_result (recalc_sgeip (clint_hw_irq_route d fuel)
        { s with csrs := { s.csrs with hgeie := s.csrs.hgeie.checked_write value } }) := by
  unfold set_csr_value
  rw [virt_transform_id s csr.HGEIE_ADDR (Or.inr (by decide))]
  simp [csr.MIP_ADDR, csr.MIPH_ADDR, csr.SIP_ADDR, csr.SIPH_ADDR, csr.HIP_ADDR,
    csr.VSIP_ADDR, csr.VSIPH_ADDR, csr.MIE_ADDR, csr.MIEH_ADDR, csr.SIE_ADDR, csr.SIEH_ADDR,
    csr.HIE_ADDR, csr.VSIE_ADDR, csr.VSIEH_ADDR, csr.MVIP_ADDR, csr.MVIPH_ADDR, csr.MVIEN_ADDR,
    csr.MVIENH_ADDR, csr.HVIP_ADDR, csr.HVIPH_ADDR, csr.HVIEN_ADDR, csr.HVIENH_ADDR,
    csr.MIDELEG_ADDR, csr.MIDELEGH_ADDR, csr.HIDELEG_ADDR, csr.HIDELEGH_ADDR, csr.MTVEC_ADDR,
    csr.STVEC_ADDR, csr.VSTVEC_ADDR, csr.HVICTL_ADDR, csr.HGEIE_ADDR]

set_option maxRecDepth 8000 in
theorem set_csr_value_hgeip (d : IrqDecls) (fuel : Nat) (s : ISS) (value : Nat)
    (read_accessed : Bool) :
    s.set_csr_value d fuel csr.HGEIP_ADDR value read_accessed = Result.ok () s := by
  unfold set_csr_value
  rw [virt_transform_id s csr.HGEIP_ADDR (Or.inr (by decide))]
  simp [csr.MIP_ADDR, csr.MIPH_ADDR, csr.SIP_ADDR, csr.SIPH_ADDR, csr.HIP_ADDR,
    csr.VSIP_ADDR, csr.VSIPH_ADDR, csr.MIE_ADDR, csr.MIEH_ADDR, csr.SIE_ADDR, csr.SIEH_ADDR,
    csr.HIE_ADDR, csr.VSIE_ADDR, csr.VSIEH_ADDR, csr.MVIP_ADDR, csr.MVIPH_ADDR, csr.MVIEN_ADDR,
    csr.MVIENH_ADDR, csr.HVIP_ADDR, csr.HVIPH_ADDR, csr.HVIEN_ADDR, csr.HVIENH_ADDR,
    csr.MIDELEG_ADDR, csr.MIDELEGH_ADDR, csr.HIDELEG_ADDR, csr.HIDELEGH_ADDR, csr.MTVEC_ADDR,
    csr.STVEC_ADDR, csr.VSTVEC_ADDR, csr.HVICTL_ADDR, csr.HGEIE_ADDR, csr.HGEIP_ADDR,
    csr_hgeip.checked_write]

theorem guest_pending_frame (s s' : ISS) (h : s.imsic_frame s') (i : Nat) :
    s'.guest_pending i = s.guest_pending i := by
  obtain ⟨e1, e2, t1, t2, t3, g, m, hb⟩ := h
  subst hb
  rfl

/-- Claim C24. `recalc_sgeip`, a `set_csr_value` write to `hgeie` and
`compute_imsic_pending_interrupts_vs` all return, and in the state they return bit 12 of the
hardware `mip` is set if and only if `hgeip` read value AND `hgeie` read value is non-zero. -/
theorem sgeip_line (d : IrqDecls) (hv : d.codes.Valid) (fuel : Nat) (s : ISS) (value : Nat)
    (read_accessed : Bool) :
    (∃ s', recalc_sgeip (clint_hw_irq_route d (fuel + 1)) s = some s' ∧ s'.sgeip_line_ok) ∧
    (∃ s', s.set_csr_value d (fuel + 1) csr.HGEIE_ADDR value read_accessed = Result.ok () s' ∧
      s'.sgeip_line_ok) ∧
    (∃ s', compute_imsic_pending_interrupts_vs (clint_hw_irq_route d (fuel + 1)) s = some s' ∧
      s'.sgeip_line_ok) := by
  refine ⟨?_, ?_, ?_⟩
  · obtain ⟨s', h, _, _, l⟩ := recalc_sgeip_spec d hv fuel s
    exact ⟨s', h, l⟩
  · obtain ⟨s', h, _, _, l⟩ := recalc_sgeip_spec d hv fuel
      { s with csrs := { s.csrs with hgeie := s.csrs.hgeie.checked_write value } }
    refine ⟨s', ?_, l⟩
    rw [set_csr_value_hgeie, h]
    rfl
  · obtain ⟨s', h, _, _, l⟩ := compute_vs_spec d hv fuel s
    exact ⟨s', h, l⟩

set_option maxRecDepth 100000 in
/-- Claim C24 at `guestState`: after `compute_imsic_pending_interrupts_vs` the read value of
`hgeip` is 8, of `hgeie` is `0x1FE`, and `mip` bit 12 is set. -/
theorem sgeip_line_witness :
    sampleDecls.codes.Valid ∧
    (compute_imsic_pending_interrupts_vs (clint_hw_irq_route sampleDecls 1) guestState).map
      (fun s => (s.csrs.clint.mip.testBit 12, s.csrs.hgeip.checked_read,
        s.csrs.hgeie.checked_read)) = some (true, 8, 0x1FE) ∧
    ((∃ s', recalc_sgeip (clint_hw_irq_route sampleDecls 1) guestState = some s' ∧
        s'.sgeip_line_ok) ∧
    (∃ s', guestState.set_csr_value sampleDecls 1 csr.HGEIE_ADDR 8 false = Result.ok () s' ∧
      s'.sgeip_line_ok) ∧
    (∃ s', compute_imsic_pending_interrupts_vs (clint_hw_irq_route sampleDecls 1) guestState =
        some s' ∧ s'.sgeip_line_ok)) :=
  ⟨by decide, by decide, sgeip_line sampleDecls (by decide) 0 guestState 8 false⟩

/-- Claim C25. `compute_imsic_pending_interrupts_vs` returns, and in the state it returns bit
`i + 1` of `hgeip` (stored and read value) is the asserted output of `compute_imsic_pending`
on the file of guest `i`, for every `i` below `MAX_GUEST` (the guest files are those of the
state before); bit 0 and the bits above `MAX_GUEST` are 0 in the read value and are never set
in the stored value; a `set_csr_value` write to `hgeip` returns the same state. -/
theorem guest_pending_bitmap (d : IrqDecls) (hv : d.codes.Valid) (fuel : Nat) (s : ISS) :
    ∃ s', compute_imsic_pending_interrupts_vs (clint_hw_irq_route d (fuel + 1)) s = some s' ∧
      (∀ i, i < MAX_GUEST →
        s'.csrs.hgeip.reg.testBit (i + 1) = (s'.guest_pending i).1 ∧
        s'.csrs.hgeip.checked_read.testBit (i + 1) = (s'.guest_pending i).1 ∧
        s'.guest_pending i = s.guest_pending i) ∧
      (∀ j, j = 0 ∨ MAX_GUEST < j →
        s'.csrs.hgeip.checked_read.testBit j = false ∧
        (s'.csrs.hgeip.reg.testBit j = true → s.csrs.hgeip.reg.testBit j = true)) ∧
      ∀ (fuel' value : Nat) (read_accessed : Bool),
        s'.set_csr_value d fuel' csr.HGEIP_ADDR value read_accessed = Result.ok () s' := by
  obtain ⟨s', h, f, g, _⟩ := compute_vs_spec d hv fuel s
  refine ⟨s', h, ?_, ?_, ?_⟩
  · intro i hi
    have hb : s'.csrs.hgeip.reg.testBit (i + 1) = (s'.guest_pending i).1 := by
      rw [g, hgeip_fold_bits (fun i => (s.guest_pending i).1), guest_pending_frame s s' f]
      unfold MAX_GUEST at *
      have h1 : i + 1 < 32 := by omega
      have h2 : 1 ≤ i + 1 ∧ i + 1 ≤ 8 := by omega
      simp [h1, h2]
    refine ⟨hb, ?_, guest_pending_frame s s' f i⟩
    unfold csr_hgeip.checked_read
    rw [Nat.testBit_and, testBit_HGIP_MASK, hb]
    have h2 : 1 ≤ i + 1 ∧ i + 1 ≤ MAX_GUEST := by omega
    simp [h2]
  · intro j hj
    have hn : ¬ (1 ≤ j ∧ j ≤ MAX_GUEST) := by omega
    constructor
    · unfold csr_hgeip.checked_read
      rw [Nat.testBit_and, testBit_HGIP_MASK]
      simp [hn]
    · rw [g, hgeip_fold_bits (fun i => (s.guest_pending i).1)]
      simp only [hn, if_false, Bool.and_eq_true]
      exact fun h => h.2
  · intro fuel' value ra
    exact set_csr_value_hgeip d fuel' s' value ra

set_option maxRecDepth 100000 in
/-- Claim C25 at `guestState`: guest 2 asserts, guest 3 does not, and `hgeip` becomes 8. -/
theorem guest_pending_bitmap_witness :
    sampleDecls.codes.Valid ∧
    (compute_imsic_pending_interrupts_vs (clint_hw_irq_route sampleDecls 1) guestState).map
      (fun s => (s.csrs.hgeip.reg, (s.guest_pending 2).1, (s.guest_pending 3).1)) =
      some (8, true, false) ∧
    ∃ s', compute_imsic_pending_interrupts_vs (clint_hw_irq_route sampleDecls 1) guestState =
        some s' ∧
      (∀ i, i < MAX_GUEST →
        s'.csrs.hgeip.reg.testBit (i + 1) = (s'.guest_pending i).1 ∧
        s'.csrs.hgeip.checked_read.testBit (i + 1) = (s'.guest_pending i).1 ∧
        s'.guest_pending i = guestState.guest_pending i) ∧
      (∀ j, j = 0 ∨ MAX_GUEST < j →
        s'.csrs.hgeip.checked_read.testBit j = false ∧
        (s'.csrs.hgeip.reg.testBit j = true → guestState.csrs.hgeip.reg.testBit j = true)) ∧
      ∀ (fuel' value : Nat) (read_accessed : Bool),
        s'.set_csr_value sampleDecls fuel' csr.HGEIP_ADDR value read_accessed =
          Result.ok () s' :=
  ⟨by decide, by decide, guest_pending_bitmap sampleDecls (by decide) 0 guestState⟩

/-! # Memory-mapped messages -/

theorem testBit_word_reg_set (eip : List icsr_32) (id : Nat)
    (hlen : eip.length = eip_eie_arr_size) (hw : ∀ k, word_reg eip k < 2 ^ 32)
    (h1 : 1 ≤ id) (h2 : id ≤ 2047) (k j : Nat) :
    (word_reg (imsic_update_eip_bit eip id true) k).testBit j =
      if k = id / 32 ∧ j = id % 32 then true else (word_reg eip k).testBit j := by
  have hsize : eip_eie_arr_size = 64 := by decide
  rw [hsize] at hlen
  rw [word_reg_update eip id true k (by omega) (by omega)]
  by_cases hk : k = id / 32
  · simp only [hk, if_true, true_and]
    have hb : ∀ j, 32 ≤ j → (word_reg eip (id / 32)).testBit j = false := by
      intro j hj
      apply Nat.testBit_eq_false_of_lt
      exact Nat.lt_of_lt_of_le (hw _) (Nat.pow_le_pow_right (by decide) hj)
    have hm : id % 32 < 32 := Nat.mod_lt _ (by decide)
    simp only [Nat.testBit_mod_two_pow, Nat.testBit_or, testBit_BIT]
    by_cases hj : j = id % 32
    · subst hj; simp [hm]
    · have hj' : ¬ id % 32 = j := fun e => hj e.symm
      simp only [hj, hj', if_false, decide_False, Bool.or_false]
      by_cases h32 : j < 32
      · simp [h32]
      · simp [h32, hb j (by omega)]
  · simp [hk]

theorem route_m_spec (hw : ISS → Nat → Bool → Option ISS) (s : ISS) (g v : Nat) (hv0 : v ≠ 0) :
    route_imsic_write hw s MachineMode g v =
      some (compute_imsic_pending_interrupts_m
        { s with icsrs_m := { s.icsrs_m with eip := imsic_update_eip_bit s.icsrs_m.eip v true } }) := by
  unfold route_imsic_write
  rw [if_neg hv0, if_pos rfl]

theorem route_s_spec (hw : ISS → Nat → Bool → Option ISS) (s : ISS) (g v : Nat) (hv0 : v ≠ 0) :
    route_imsic_write hw s SupervisorMode g v =
      some (compute_imsic_pending_interrupts_s
        { s with icsrs_s := { s.icsrs_s with eip := imsic_update_eip_bit s.icsrs_s.eip v true } }) := by
  unfold route_imsic_write
  rw [if_neg hv0, if_neg (by decide), if_pos rfl]

theorem imsic_frame_icsrs_vs (a b : ISS) (h : a.imsic_frame b) : b.icsrs_vs = a.icsrs_vs := by
  obtain ⟨e1, e2, t1, t2, t3, g, m, hb⟩ := h
  subst hb
  rfl

theorem getD_set_bank (l : List icsr_vs_bank) (i : Nat) (a d : icsr_vs_bank)
    (h : i < l.length) : (l.set i a).getD i d = a := by
  simp [List.getD_eq_getElem?_getD, List.getElem?_set, h]

theorem route_vs_spec (d : IrqDecls) (hv : d.codes.Valid) (fuel : Nat) (s : ISS) (g v : Nat)
    (hv0 : v ≠ 0) (hg : g < s.icsrs_vs.bank.length) :
    ∃ s', route_imsic_write (clint_hw_irq_route d (fuel + 1)) s VirtualSupervisorMode g v =
        some s' ∧
      s'.file_eip (FileId.guest g) = imsic_update_eip_bit (s.file_eip (FileId.guest g)) v true := by
  unfold route_imsic_write
  rw [if_neg hv0, if_neg (by decide), if_neg (by decide), if_pos rfl]
  obtain ⟨s', h, f, _, _⟩ := compute_vs_spec d hv fuel
    { s with icsrs_vs := { s.icsrs_vs with
        bank := s.icsrs_vs.bank.set g
          { s.icsrs_vs.bank.getD g no_bank with
            eip := imsic_update_eip_bit (s.icsrs_vs.bank.getD g no_bank).eip v true } } }
  refine ⟨s', h, ?_⟩
  have hvs := imsic_frame_icsrs_vs _ _ f
  show (s'.icsrs_vs.bank.getD g no_bank).eip = _
  rw [hvs]
  show ((s.icsrs_vs.bank.set g _).getD g no_bank).eip = _
  rw [getD_set_bank _ _ _ _ hg]
  rfl

/-- Claim C26. For a page index `k` up to `1 + MAX_GUEST` and a written word `w`,
`post_write_imsic_mmio` at byte offset `k * 4096` is `route_imsic_write` with minor id
`w mod 2048` on the Machine file for `k = 0`, the Supervisor file for `k = 1`, and the guest
file `k - 2` otherwise; it returns, leaves the state unchanged for id 0, and for a non-zero
id bit `id mod 32` of word `id div 32` of the selected file's `eip` becomes 1 while every
other bit of that array is unchanged. -/
theorem mmio_msi_routing (d : IrqDecls) (hv : d.codes.Valid) (fuel : Nat) (s : ISS) (k w : Nat)
    (hk : k ≤ 1 + MAX_GUEST) (hbank : s.icsrs_vs.bank.length = MAX_GUEST)
    (hlen : (s.file_eip (mmio_file k)).length = eip_eie_arr_size)
    (hw32 : ∀ a, word_reg (s.file_eip (mmio_file k)) a < 2 ^ 32) :
    ImsicMem.post_write_imsic_mmio d (fuel + 1) s (k * 4096) w =
      route_imsic_write (clint_hw_irq_route d (fuel + 1)) s (mmio_level k) (k - 2) (w % 2048) ∧
    ∃ s', ImsicMem.post_write_imsic_mmio d (fuel + 1) s (k * 4096) w = some s' ∧
      (w % 2048 = 0 → s' = s) ∧
      (w % 2048 ≠ 0 → ∀ a b, (word_reg (s'.file_eip (mmio_file k)) a).testBit b =
        if a = w % 2048 / 32 ∧ b = w % 2048 % 32 then true
        else (word_reg (s.file_eip (mmio_file k)) a).testBit b) := by
  have hval : w &&& ImsicMem.max_imsic_iid = w % 2048 :=
    Nat.and_pow_two_sub_one_eq_mod w 11
  have hlt : w % 2048 < 2048 := Nat.mod_lt _ (by decide)
  have hroute : ImsicMem.post_write_imsic_mmio d (fuel + 1) s (k * 4096) w =
      route_imsic_write (clint_hw_irq_route d (fuel + 1)) s (mmio_level k) (k - 2)
        (w % 2048) := by
    unfold ImsicMem.post_write_imsic_mmio ImsicMem.page_size mmio_level
    have h1 : k * 4096 % 4096 = 0 := Nat.mul_mod_left k 4096
    have h2 : k * 4096 / 4096 = k := Nat.mul_div_left k (by decide)
    simp only [h1, h2, hval, if_true]
    by_cases k0 : k = 0
    · subst k0; simp
    · by_cases k1 : k = 1
      · subst k1; simp
      · simp [k0, k1]
  refine ⟨hroute, ?_⟩
  rw [hroute]
  by_cases h0 : w % 2048 = 0
  · refine ⟨s, ?_, fun _ => rfl, fun h => absurd h0 h⟩
    unfold route_imsic_write
    rw [if_pos h0]
  · have hspec : ∃ s', route_imsic_write (clint_hw_irq_route d (fuel + 1)) s (mmio_level k)
          (k - 2) (w % 2048) = some s' ∧
        s'.file_eip (mmio_file k) =
          imsic_update_eip_bit (s.file_eip (mmio_file k)) (w % 2048) true := by
      unfold mmio_level mmio_file
      by_cases k0 : k = 0
      · simp only [k0, if_true]
        exact ⟨_, route_m_spec _ s _ _ h0, rfl⟩
      · by_cases k1 : k = 1
        · simp only [k1, if_true, if_neg (by decide : ¬ (1 = 0))]
          exact ⟨_, route_s_spec _ s _ _ h0, rfl⟩
        · simp only [k0, k1, if_false]
          apply route_vs_spec d hv fuel s (k - 2) (w % 2048) h0
          rw [hbank]
          unfold MAX_GUEST at *
          omega
    obtain ⟨s', hs', he⟩ := hspec
    refine ⟨s', hs', fun h => absurd h h0, ?_⟩
    intro _ a b
    rw [he]
    exact testBit_word_reg_set _ _ hlen hw32 (by omega) (by omega) a b

set_option maxRecDepth 100000 in
/-- Claim C26 at the constructed hart, page 4 and word `0x807`: minor id 7 is set in the
file of guest 2, and the files of guest 1 and of Machine stay empty. -/
theorem mmio_msi_routing_witness :
    sampleDecls.codes.Valid ∧ 4 ≤ 1 + MAX_GUEST ∧
    (ISS.init sampleDecls.codes).icsrs_vs.bank.length = MAX_GUEST ∧
    ((ISS.init sampleDecls.codes).file_eip (mmio_file 4)).length = eip_eie_arr_size ∧
    (∀ a, word_reg ((ISS.init sampleDecls.codes).file_eip (mmio_file 4)) a < 2 ^ 32) ∧
    (ImsicMem.post_write_imsic_mmio sampleDecls 1 (ISS.init sampleDecls.codes) (4 * 4096)
        0x807).map (fun s => (word_reg (s.file_eip (FileId.guest 2)) 0,
          word_reg (s.file_eip (FileId.guest 1)) 0, word_reg (s.file_eip FileId.machine) 0)) =
      some (0x80, 0, 0) ∧
    (ImsicMem.post_write_imsic_mmio sampleDecls 1 (ISS.init sampleDecls.codes) (4 * 4096) 0x807 =
      route_imsic_write (clint_hw_irq_route sampleDecls 1) (ISS.init sampleDecls.codes)
        (mmio_level 4) (4 - 2) (0x807 % 2048) ∧
    ∃ s', ImsicMem.post_write_imsic_mmio sampleDecls 1 (ISS.init sampleDecls.codes) (4 * 4096)
        0x807 = some s' ∧
      (0x807 % 2048 = 0 → s' = ISS.init sampleDecls.codes) ∧
      (0x807 % 2048 ≠ 0 → ∀ a b, (word_reg (s'.file_eip (mmio_file 4)) a).testBit b =
        if a = 0x807 % 2048 / 32 ∧ b = 0x807 % 2048 % 32 then true
        else (word_reg ((ISS.init sampleDecls.codes).file_eip (mmio_file 4)) a).testBit b)) :=
  ⟨by decide, by decide, by decide, by decide, eip_init_word_lt, by decide,
    mmio_msi_routing sampleDecls (by decide) 0 (ISS.init sampleDecls.codes) 4 0x807 (by decide)
      (by decide) (by decide) eip_init_word_lt⟩

/-! # Delivery conditions -/

theorem get_guest_id_lt (h : csr_hstatus) : h.get_guest_id < MAX_GUEST := by
  unfold csr_hstatus.get_guest_id vgein_to_id MAX_GUEST
  simp only []
  split <;> omega

theorem route_level_spec (d : IrqDecls) (hv : d.codes.Valid) (fuel : Nat) (s : ISS) (L v : Nat)
    (hL : L = MachineMode ∨ L = SupervisorMode ∨ L = VirtualSupervisorMode)
    (hbank : s.icsrs_vs.bank.length = MAX_GUEST) :
    ∃ s', route_imsic_write (clint_hw_irq_route d (fuel + 1)) s L s.csrs.hstatus.get_guest_id v =
        some s' ∧
      s'.file_eip (s.level_file L) = imsic_update_eip_bit (s.file_eip (s.level_file L)) v true ∧
      (v = 0 → s' = s) := by
  by_cases h0 : v = 0
  · refine ⟨s, ?_, ?_, fun _ => rfl⟩
    · unfold route_imsic_write; rw [if_pos h0]
    · rw [h0]; rfl
  · rcases hL with h | h | h
    · subst h
      exact ⟨_, route_m_spec _ s _ _ h0, rfl, fun h => absurd h h0⟩
    · subst h
      exact ⟨_, route_s_spec _ s _ _ h0, rfl, fun h => absurd h h0⟩
    · subst h
      obtain ⟨s', h1, h2⟩ := route_vs_spec d hv fuel s s.csrs.hstatus.get_guest_id v h0
        (by rw [hbank]; exact get_guest_id_lt _)
      exact ⟨s', h1, h2, fun h => absurd h h0⟩

theorem deliver_owner_spec (d : IrqDecls) (hv : d.codes.Valid) (fuel : Nat) (s : ISS)
    (iid L : Nat) (edge : Bool)
    (hL : L = MachineMode ∨ L = SupervisorMode ∨ L = VirtualSupervisorMode)
    (hbank : s.icsrs_vs.bank.length = MAX_GUEST) :
    ((edge = true ∧ iid ≠ get_external_iid L ∧
        (s.get_xtvec L).mode = csr_mtvec.SnpsNestedVectored ∧
        ¬ (L = VirtualSupervisorMode ∧ s.csrs.hstatus.vgein = 0)) →
      ∃ s', (if !edge then some s
        else if iid = get_external_iid L then some s
        else if !s.is_irq_mode_snps_nested_vectored L then some s
        else if L = VirtualSupervisorMode ∧ !s.csrs.hstatus.is_imsic_connected then some s
        else route_imsic_write (clint_hw_irq_route d (fuel + 1)) s L s.csrs.hstatus.get_guest_id
          (s.get_iprio d L iid)) = some s' ∧
        s'.file_eip (s.level_file L) =
          imsic_update_eip_bit (s.file_eip (s.level_file L)) (s.get_iprio d L iid) true ∧
        (s.get_iprio d L iid = 0 → s' = s)) ∧
    (¬ (edge = true ∧ iid ≠ get_external_iid L ∧
        (s.get_xtvec L).mode = csr_mtvec.SnpsNestedVectored ∧
        ¬ (L = VirtualSupervisorMode ∧ s.csrs.hstatus.vgein = 0)) →
      (if !edge then some s
        else if iid = get_external_iid L then some s
        else if !s.is_irq_mode_snps_nested_vectored L then some s
        else if L = VirtualSupervisorMode ∧ !s.csrs.hstatus.is_imsic_connected then some s
        else route_imsic_write (clint_hw_irq_route d (fuel + 1)) s L s.csrs.hstatus.get_guest_id
          (s.get_iprio d L iid)) = some s) := by
  have hnv : s.is_irq_mode_snps_nested_vectored L = true ↔
      (s.get_xtvec L).mode = csr_mtvec.SnpsNestedVectored := by
    unfold is_irq_mode_snps_nested_vectored
    simp
  have hconn : s.csrs.hstatus.is_imsic_connected = true ↔ ¬ s.csrs.hstatus.vgein = 0 := by
    unfold csr_hstatus.is_imsic_connected
    simp
  constructor
  · rintro ⟨he, hx, hm, hc⟩
    have h3 : s.is_irq_mode_snps_nested_vectored L = true := hnv.mpr hm
    have h4 : ¬ (L = VirtualSupervisorMode ∧ (!s.csrs.hstatus.is_imsic_connected) = true) := by
      rintro ⟨a, b⟩
      apply hc
      refine ⟨a, ?_⟩
      by_contra hne
      rw [hconn.mpr hne] at b
      exact absurd b (by decide)
    rw [he]
    simp only [Bool.not_true, Bool.false_eq_true, if_false, if_neg hx, h3, if_neg h4]
    exact route_level_spec d hv fuel s L _ hL hbank
  · intro hn
    by_cases he : edge = true
    · rw [he]
      simp only [Bool.not_true, Bool.false_eq_true, if_false]
      by_cases hx : iid = get_external_iid L
      · rw [if_pos hx]
      · rw [if_neg hx]
        by_cases hm : s.is_irq_mode_snps_nested_vectored L = true
        · rw [hm]
          simp only [Bool.not_true, Bool.false_eq_true, if_false]
          have hc : L = VirtualSupervisorMode ∧ s.csrs.hstatus.vgein = 0 := by
            by_contra hc
            exact hn ⟨he, hx, hnv.mp hm, hc⟩
          have hd : s.csrs.hstatus.is_imsic_connected = false := by
            unfold csr_hstatus.is_imsic_connected
            simp [hc.2]
          rw [if_pos ⟨hc.1, by rw [hd]; rfl⟩]
        · have : s.is_irq_mode_snps_nested_vectored L = false := by
            cases h : s.is_irq_mode_snps_nested_vectored L
            · rfl
            · exact absurd h hm
          rw [this]
          simp
    · have : edge = false := by cases edge <;> simp_all
      rw [this]
      simp

/-- Claim C30. `deliver_pending_to_imsic(prev, new, iid)` returns.  When `delivers` holds for
a level `L` (it owns `iid` in `new`, bit `iid` of `L` goes from 0 to 1, `iid` is not the
external-interrupt id of `L`, `L` is in nested-vectored mode and is not VS with `vgein = 0`)
the `eip` array of the file of `L` becomes `imsic_update_eip_bit(eip, get_iprio(L, iid),
true)`, and the state is unchanged when that priority is 0.  When `delivers` holds for no
level the state is returned unchanged. -/
theorem deliver_first_order (d : IrqDecls) (hv : d.codes.Valid) (fuel : Nat) (s : ISS)
    (prev new : PendingInterrupts) (iid : Nat)
    (hbank : s.icsrs_vs.bank.length = MAX_GUEST) :
    (∀ L, s.delivers prev new iid L →
      ∃ s', deliver_pending_to_imsic (clint_hw_irq_route d (fuel + 1)) d s prev new iid =
          some s' ∧
        s'.file_eip (s.level_file L) =
          imsic_update_eip_bit (s.file_eip (s.level_file L)) (s.get_iprio d L iid) true ∧
        (s.get_iprio d L iid = 0 → s' = s)) ∧
    ((¬ ∃ L, s.delivers prev new iid L) →
      deliver_pending_to_imsic (clint_hw_irq_route d (fuel + 1)) d s prev new iid = some s) := by
  unfold deliver_pending_to_imsic
  by_cases hm : new.m_pending &&& BIT iid ≠ 0
  · rw [if_pos hm]
    have hb : new.m_pending.testBit iid = true := (and_BIT_ne_zero _ _).mp hm
    have hspec := deliver_owner_spec d hv fuel s iid MachineMode
      (pendings_edge_detected prev.m_pending new.m_pending iid) (Or.inl rfl) hbank
    have hedge : pendings_edge_detected prev.m_pending new.m_pending iid = true ↔
        prev.m_pending.testBit iid = false := by
      rw [pendings_edge_detected_eq, hb]; simp
    have hown : ∀ L, owner_level new iid = some L ↔ L = MachineMode := by
      intro L; unfold owner_level; simp [hb]; exact eq_comm
    constructor
    · rintro L ⟨h1, h2, h3, h4, h5⟩
      have := (hown L).mp h1
      subst this
      exact hspec.1 ⟨hedge.mpr h2, h3, h4, h5⟩
    · intro hn
      apply hspec.2
      rintro ⟨a, b, c, e⟩
      exact hn ⟨MachineMode, (hown _).mpr rfl, hedge.mp a, b, c, e⟩
  · rw [if_neg hm]
    have hbm : new.m_pending.testBit iid = false := by
      cases h : new.m_pending.testBit iid
      · rfl
      · exact absurd ((and_BIT_ne_zero _ _).mpr h) hm
    by_cases hs : new.s_hs_pending &&& BIT iid ≠ 0
    · rw [if_pos hs]
      have hb : new.s_hs_pending.testBit iid = true := (and_BIT_ne_zero _ _).mp hs
      have hspec := deliver_owner_spec d hv fuel s iid SupervisorMode
        (pendings_edge_detected prev.s_hs_pending new.s_hs_pending iid) (Or.inr (Or.inl rfl)) hbank
      have hedge : pendings_edge_detected prev.s_hs_pending new.s_hs_pending iid = true ↔
          prev.s_hs_pending.testBit iid = false := by
        rw [pendings_edge_detected_eq, hb]; simp
      have hown : ∀ L, owner_level new iid = some L ↔ L = SupervisorMode := by
        intro L; unfold owner_level; simp [hb, hbm]; exact eq_comm
      constructor
      · rintro L ⟨h1, h2, h3, h4, h5⟩
        have := (hown L).mp h1
        subst this
        exact hspec.1 ⟨hedge.mpr h2, h3, h4, h5⟩
      · intro hn
        apply hspec.2
        rintro ⟨a, b, c, e⟩
        exact hn ⟨SupervisorMode, (hown _).mpr rfl, hedge.mp a, b, c, e⟩
    · rw [if_neg hs]
      have hbs : new.s_hs_pending.testBit iid = false := by
        cases h : new.s_hs_pending.testBit iid
        · rfl
        · exact absurd ((and_BIT_ne_zero _ _).mpr h) hs
      by_cases hvs : new.vs_pending &&& BIT iid ≠ 0
      · rw [if_pos hvs]
        have hb : new.vs_pending.testBit iid = true := (and_BIT_ne_zero _ _).mp hvs
        have hspec := deliver_owner_spec d hv fuel s iid VirtualSupervisorMode
          (pendings_edge_detected prev.vs_pending new.vs_pending iid)
          (Or.inr (Or.inr rfl)) hbank
        have hedge : pendings_edge_detected prev.vs_pending new.vs_pending iid = true ↔
            prev.vs_pending.testBit iid = false := by
          rw [pendings_edge_detected_eq, hb]; simp
        have hown : ∀ L, owner_level new iid = some L ↔ L = VirtualSupervisorMode := by
          intro L; unfold owner_level; simp [hb, hbm, hbs]; exact eq_comm
        constructor
        · rintro L ⟨h1, h2, h3, h4, h5⟩
          have := (hown L).mp h1
          subst this
          exact hspec.1 ⟨hedge.mpr h2, h3, h4, h5⟩
        · intro hn
          apply hspec.2
          rintro ⟨a, b, c, e⟩
          exact hn ⟨VirtualSupervisorMode, (hown _).mpr rfl, hedge.mp a, b, c, e⟩
      · rw [if_neg hvs]
        have hbv : new.vs_pending.testBit iid = false := by
          cases h : new.vs_pending.testBit iid
          · rfl
          · exact absurd ((and_BIT_ne_zero _ _).mpr h) hvs
        constructor
        · rintro L ⟨h1, _⟩
          unfold owner_level at h1
          simp [hbm, hbs, hbv] at h1
        · intro _
          rfl

set_option maxRecDepth 100000 in
/-- Claim C30 at `mtimerState`: the Machine timer interrupt 7 goes from not pending to
pending, its Machine priority is 5, and bit 5 of `eip[0]` of the Machine file is set. -/
theorem deliver_first_order_witness :
    sampleDecls.codes.Valid ∧ mtimerState.icsrs_vs.bank.length = MAX_GUEST ∧
    mtimerState.delivers noPendings
      mtimerPendings 7 MachineMode ∧
    mtimerState.get_iprio sampleDecls MachineMode 7 = 5 ∧
    (deliver_pending_to_imsic (clint_hw_irq_route sampleDecls 1) sampleDecls mtimerState
        noPendings
        mtimerPendings 7).map
      (fun s => word_reg (s.file_eip FileId.machine) 0) = some 0x20 ∧
    ((∀ L, mtimerState.delivers noPendings
        mtimerPendings 7 L →
      ∃ s', deliver_pending_to_imsic (clint_hw_irq_route sampleDecls 1) sampleDecls mtimerState
          noPendings
          mtimerPendings 7 = some s' ∧
        s'.file_eip (mtimerState.level_file L) =
          imsic_update_eip_bit (mtimerState.file_eip (mtimerState.level_file L))
            (mtimerState.get_iprio sampleDecls L 7) true ∧
        (mtimerState.get_iprio sampleDecls L 7 = 0 → s' = mtimerState)) ∧
    ((¬ ∃ L, mtimerState.delivers noPendings
        mtimerPendings 7 L) →
      deliver_pending_to_imsic (clint_hw_irq_route sampleDecls 1) sampleDecls mtimerState
        noPendings
        mtimerPendings 7 = some mtimerState)) :=
  ⟨by decide, by decide, by decide, by decide, by decide,
    deliver_first_order sampleDecls (by decide) 0 mtimerState
      noPendings
      mtimerPendings 7 (by decide)⟩

/-! # Interrupt dispatch -/

theorem imsic_frame_pc (a b : ISS) (h : a.imsic_frame b) :
    b.pc = a.pc ∧ b.ivt_access = a.ivt_access := by
  obtain ⟨e1, e2, t1, t2, t3, g, m, hb⟩ := h
  subst hb
  exact ⟨rfl, rfl⟩

/-- What `notify_irq_taken` does when it claims: the top minor id of the level's `xtopei` is
pushed on the threshold stack of the level's file, its `eip` bit is cleared, `pc` and the
pending vector-table access are as before. -/
theorem notify_irq_taken_spec (d : IrqDecls) (hv : d.codes.Valid) (fuel : Nat) (s : ISS)
    (level : Nat)
    (hl : level = MachineMode ∨ level = SupervisorMode ∨ level = VirtualSupervisorMode)
    (hnv : (s.get_xtvec level).mode = csr_mtvec.SnpsNestedVectored)
    (hs : level = SupervisorMode →
      s.csrs.clint.is_iid_injected SupervisorMode EXC_S_EXTERNAL_INTERRUPT = false)
    (hvs : level = VirtualSupervisorMode → s.csrs.hstatus.is_imsic_connected = true)
    (hbank : s.icsrs_vs.bank.length = MAX_GUEST) :
    ∃ s', notify_irq_taken (clint_hw_irq_route d (fuel + 1)) s level = some s' ∧
      s'.file_eithreshold (s.level_file level) =
        (s.file_eithreshold (s.level_file level)).update_with_new_irq (s.get_topei level).iid ∧
      s'.file_eip (s.level_file level) =
        imsic_update_eip_bit (s.file_eip (s.level_file level)) (s.get_topei level).iid false ∧
      s'.pc = s.pc ∧ s'.ivt_access = s.ivt_access := by
  have hmode : s.is_irq_mode_snps_nested_vectored level = true := by
    unfold is_irq_mode_snps_nested_vectored
    simp [hnv]
  rcases hl with h | h | h
  · subst h
    unfold notify_irq_taken
    rw [if_pos rfl, if_pos hmode]
    exact ⟨_, rfl, rfl, rfl, rfl, rfl⟩
  · subst h
    unfold notify_irq_taken
    rw [if_neg (by decide), if_pos rfl, hmode, hs rfl]
    exact ⟨_, rfl, rfl, rfl, rfl, rfl⟩
  · subst h
    have hc := hvs rfl
    have hg : s.csrs.hstatus.get_guest_id < s.icsrs_vs.bank.length := by
      rw [hbank]; exact get_guest_id_lt _
    unfold notify_irq_taken
    rw [if_neg (by decide), if_neg (by decide), if_pos rfl, hc, hmode]
    simp only [Bool.and_self, if_true]
    unfold claim_topei_interrupt_internal claim_topei_interrupt
    rw [if_neg (by decide), if_neg (by decide)]
    simp only [Bool.false_eq_true, if_false]
    rw [if_pos (show _ = true from hc)]
    obtain ⟨s', h1, f, _, _⟩ := compute_vs_spec d hv fuel
      { s with icsrs_vs := { s.icsrs_vs with
          bank := (s.icsrs_vs.bank.set s.csrs.hstatus.get_guest_id
            { s.icsrs_vs.bank.getD s.csrs.hstatus.get_guest_id no_bank with
              eithreshold := (s.icsrs_vs.bank.getD s.csrs.hstatus.get_guest_id
                no_bank).eithreshold.update_with_new_irq
                  (s.get_topei VirtualSupervisorMode).iid }).set s.csrs.hstatus.get_guest_id
            { (s.icsrs_vs.bank.set s.csrs.hstatus.get_guest_id
              { s.icsrs_vs.bank.getD s.csrs.hstatus.get_guest_id no_bank with
                eithreshold := (s.icsrs_vs.bank.getD s.csrs.hstatus.get_guest_id
                  no_bank).eithreshold.update_with_new_irq
                    (s.get_topei VirtualSupervisorMode).iid }).getD s.csrs.hstatus.get_guest_id
                no_bank with
              eip := imsic_update_eip_bit
                ((s.icsrs_vs.bank.set s.csrs.hstatus.get_guest_id
                  { s.icsrs_vs.bank.getD s.csrs.hstatus.get_guest_id no_bank with
                    eithreshold := (s.icsrs_vs.bank.getD s.csrs.hstatus.get_guest_id
                      no_bank).eithreshold.update_with_new_irq
                        (s.get_topei VirtualSupervisorMode).iid }).getD
                  s.csrs.hstatus.get_guest_id no_bank).eip
                (s.get_topei VirtualSupervisorMode).iid false } } }
    refine ⟨s', h1, ?_, ?_, (imsic_frame_pc _ _ f).1, (imsic_frame_pc _ _ f).2⟩
    · have hvs' := imsic_frame_icsrs_vs _ _ f
      show (s'.icsrs_vs.bank.getD s.csrs.hstatus.get_guest_id no_bank).eithreshold = _
      rw [hvs']
      show (((s.icsrs_vs.bank.set _ _).set _ _).getD s.csrs.hstatus.get_guest_id
        no_bank).eithreshold = _
      rw [getD_set_bank _ _ _ _ (by rw [List.length_set]; exact hg)]
      show ((s.icsrs_vs.bank.set _ _).getD s.csrs.hstatus.get_guest_id no_bank).eithreshold = _
      rw [getD_set_bank _ _ _ _ hg]
      rfl
    · have hvs' := imsic_frame_icsrs_vs _ _ f
      show (s'.icsrs_vs.bank.getD s.csrs.hstatus.get_guest_id no_bank).eip = _
      rw [hvs']
      show (((s.icsrs_vs.bank.set _ _).set _ _).getD s.csrs.hstatus.get_guest_id
        no_bank).eip = _
      rw [getD_set_bank _ _ _ _ (by rw [List.length_set]; exact hg)]
      show imsic_update_eip_bit
        ((s.icsrs_vs.bank.set _ _).getD s.csrs.hstatus.get_guest_id no_bank).eip _ _ = _
      rw [getD_set_bank _ _ _ _ hg]
      rfl

theorem nv_line_eq (s : ISS) (level : Nat) (hi : (s.get_xcause level).interrupt ≠ 0) :
    s.nv_mode_get_ivt_line_num level = s.nv_line level := by
  unfold nv_mode_get_ivt_line_num nv_line NV_MODE_MAX_VECTOR
  rw [if_neg hi]
  by_cases h : level = SupervisorMode ∧
      s.csrs.clint.is_iid_injected SupervisorMode EXC_S_EXTERNAL_INTERRUPT = true
  · simp only [h, and_self, if_true]
    decide
  · simp only [h, if_false]
    rw [Nat.min_def]
    split <;> split <;> omega

/-- The state `jump_to_trap_vector` hands to `notify_irq_taken`, or returns for an
exception, when the level is in nested-vectored mode. -/
theorem jump_to_trap_vector_nv (hw : ISS → Nat → Bool → Option ISS) (s : ISS) (level : Nat)
    (hnv : (s.get_xtvec level).mode = csr_mtvec.SnpsNestedVectored)
    (hver : ¬ (level = MachineMode ∧
      s.verify_m_trap_vector (s.get_xtvec level).get_base_address = true)) :
    jump_to_trap_vector hw s level =
      if (s.get_xcause level).interrupt ≠ 0 then
        notify_irq_taken hw
          (s.set_pending_ivt
            (((s.get_xtvec level).get_base_address + 4 * s.nv_line level) % 2 ^ 32)) level
      else
        some (s.set_pending_ivt
          (((s.get_xtvec level).get_base_address + 4 * s.nv_line level) % 2 ^ 32)) := by
  unfold jump_to_trap_vector
  simp only []
  rw [if_neg hver]
  have hne : ¬ ((s.get_xtvec level).mode = csr_mtvec.Vectored) := by
    rw [hnv]; decide
  have hne' : ¬ (csr_mtvec.SnpsNestedVectored = csr_mtvec.Vectored) := by decide
  by_cases hi : (s.get_xcause level).interrupt ≠ 0
  · have hb : ((s.get_xcause level).interrupt != 0) = true := by simp [hi]
    rw [if_pos hi]
    simp only [hb, hne, hne', hnv, and_false, and_true, if_false, if_true, nv_line_eq s level hi]
  · have hb : ((s.get_xcause level).interrupt != 0) = false := by
      simp only [ne_eq, not_not] at hi
      simp [hi]
    have h0 : (s.get_xcause level).interrupt = 0 := by
      simp only [ne_eq, not_not] at hi
      exact hi
    have hlt : (s.get_xtvec level).get_base_address < 2 ^ 32 := by
      unfold csr_mtvec.get_base_address
      exact Nat.mod_lt _ (by decide)
    have hline : s.nv_line level = 0 := by
      unfold nv_line
      rw [if_pos h0]
    rw [if_neg hi, hline]
    simp only [hb, hne, hne', hnv, and_false, and_true, Bool.false_eq_true, false_and, if_false,
      not_false_eq_true, if_true, Nat.mul_zero, Nat.add_zero, Nat.mod_eq_of_lt hlt]

/-- Claim C21. For every `eithreshold` state in nested-vectored mode,
`mark_irq_as_handled()` gives exactly the state (head, recorded entries, tail) that
`checked_write(0)` gives. -/
theorem mark_handled_is_pop (t : icsr_eithreshold) (hm : t.mode_snps_vectored = true) :
    t.mark_irq_as_handled = t.checked_write 0 := by
  rw [checked_write_nv_pop t hm]
  rfl

set_option maxRecDepth 100000 in
/-- Claim C21 at `stackedThreshold` (head 4, entries 6 and 9, tail 300): the pop makes 6 the
head, removes entry 6, keeps entry 9 and the tail, and is the state after `checked_write(0)`. -/
theorem mark_handled_is_pop_witness :
    stackedThreshold.mode_snps_vectored = true ∧
    (stackedThreshold.reg, stackedThreshold.mark_irq_as_handled.reg,
      stackedThreshold.mark_irq_as_handled.recorded 6,
      stackedThreshold.mark_irq_as_handled.recorded 9,
      stackedThreshold.mark_irq_as_handled.threshold_tail) = (4, 6, false, true, 300) ∧
    stackedThreshold.mark_irq_as_handled = stackedThreshold.checked_write 0 :=
  ⟨by decide, by decide, mark_handled_is_pop stackedThreshold (by decide)⟩

set_option maxRecDepth 100000 in
/-- Claim C22 fails at `dispatchState`: a Machine external interrupt is dispatched in
nested-vectored mode with top minor id 5 in `mtopei` and a threshold stack with head 0 and no
entry; `mark_irq_as_handled()` would leave head 0, but after `jump_to_trap_vector` the head
is 5 and the state differs from the popped one. -/
theorem dispatch_pops_threshold_counterexample :
    (dispatchState.get_xcause MachineMode).interrupt = 1 ∧
    (dispatchState.get_xtvec MachineMode).mode = csr_mtvec.SnpsNestedVectored ∧
    dispatchState.icsrs_m.eithreshold.mode_snps_vectored = true ∧
    (dispatchState.get_topei MachineMode).iid = 5 ∧
    dispatchState.icsrs_m.eithreshold.reg = 0 ∧
    dispatchState.icsrs_m.eithreshold.mark_irq_as_handled.reg = 0 ∧
    (jump_to_trap_vector (clint_hw_irq_route sampleDecls 1) dispatchState MachineMode).map
      (fun s => (s.icsrs_m.eithreshold.reg,
        decide (s.icsrs_m.eithreshold =
          dispatchState.icsrs_m.eithreshold.mark_irq_as_handled))) = some (5, false) := by
  decide

theorem claim_on_xtopei_pop (d : IrqDecls) (hv : d.codes.Valid) (fuel : Nat) (s : ISS)
    (level : Nat)
    (hl : level = MachineMode ∨ level = SupervisorMode ∨ level = VirtualSupervisorMode)
    (hnv : (s.get_xtvec level).mode = csr_mtvec.SnpsNestedVectored)
    (hvs : level = VirtualSupervisorMode → s.csrs.hstatus.is_imsic_connected = true)
    (hbank : s.icsrs_vs.bank.length = MAX_GUEST) :
    ∃ s', claim_topei_interrupt_on_xtopei (clint_hw_irq_route d (fuel + 1)) s level 0 true =
        some s' ∧
      s'.file_eithreshold (s.level_file level) =
        (s.file_eithreshold (s.level_file level)).mark_irq_as_handled := by
  have hmode : s.is_irq_mode_snps_nested_vectored level = true := by
    unfold is_irq_mode_snps_nested_vectored
    simp [hnv]
  unfold claim_topei_interrupt_on_xtopei
  rw [hmode]
  simp only [beq_self_eq_true, Bool.and_self]
  unfold claim_topei_interrupt
  rcases hl with h | h | h
  · subst h
    rw [if_pos rfl]
    exact ⟨_, rfl, rfl⟩
  · subst h
    rw [if_neg (by decide), if_pos rfl]
    exact ⟨_, rfl, rfl⟩
  · subst h
    have hc := hvs rfl
    have hg : s.csrs.hstatus.get_guest_id < s.icsrs_vs.bank.length := by
      rw [hbank]; exact get_guest_id_lt _
    rw [if_neg (by decide), if_neg (by decide)]
    simp only [if_true]
    rw [if_pos (show _ = true from hc)]
    obtain ⟨s', h1, f, _, _⟩ := compute_vs_spec d hv fuel
      { s with icsrs_vs := { s.icsrs_vs with
          bank := s.icsrs_vs.bank.set s.csrs.hstatus.get_guest_id
            { s.icsrs_vs.bank.getD s.csrs.hstatus.get_guest_id no_bank with
              eithreshold := (s.icsrs_vs.bank.getD s.csrs.hstatus.get_guest_id
                no_bank).eithreshold.mark_irq_as_handled } } }
    refine ⟨s', h1, ?_⟩
    have hvs' := imsic_frame_icsrs_vs _ _ f
    show (s'.icsrs_vs.bank.getD s.csrs.hstatus.get_guest_id no_bank).eithreshold = _
    rw [hvs']
    show ((s.icsrs_vs.bank.set _ _).getD s.csrs.hstatus.get_guest_id no_bank).eithreshold = _
    rw [getD_set_bank _ _ _ _ hg]
    rfl

/-- Claim C22, amended. On an interrupt dispatch to a level in nested-vectored mode (Machine;
Supervisor when major id 9 is not injected; VS when a guest file is selected)
`jump_to_trap_vector` returns and the threshold stack of the level's file is pushed, not
popped: the `eithreshold` after the dispatch is `update_with_new_irq(top minor id of xtopei)`
of the one before, and the `eip` bit of that id is cleared.  The pop
`mark_irq_as_handled()` is applied by `claim_topei_interrupt_on_xtopei` for a write-only
write of 0 to `xtopei`. -/
theorem dispatch_pushes_threshold (d : IrqDecls) (hv : d.codes.Valid) (fuel : Nat) (s : ISS)
    (level : Nat)
    (hl : level = MachineMode ∨ level = SupervisorMode ∨ level = VirtualSupervisorMode)
    (hint : (s.get_xcause level).interrupt ≠ 0)
    (hnv : (s.get_xtvec level).mode = csr_mtvec.SnpsNestedVectored)
    (hver : ¬ (level = MachineMode ∧
      s.verify_m_trap_vector (s.get_xtvec level).get_base_address = true))
    (hs : level = SupervisorMode →
      s.csrs.clint.is_iid_injected SupervisorMode EXC_S_EXTERNAL_INTERRUPT = false)
    (hvs : level = VirtualSupervisorMode → s.csrs.hstatus.is_imsic_connected = true)
    (hbank : s.icsrs_vs.bank.length = MAX_GUEST) :
    (∃ s', jump_to_trap_vector (clint_hw_irq_route d (fuel + 1)) s level = some s' ∧
      s'.file_eithreshold (s.level_file level) =
        (s.file_eithreshold (s.level_file level)).update_with_new_irq (s.get_topei level).iid ∧
      s'.file_eip (s.level_file level) =
        imsic_update_eip_bit (s.file_eip (s.level_file level)) (s.get_topei level).iid false) ∧
    (∃ s', claim_topei_interrupt_on_xtopei (clint_hw_irq_route d (fuel + 1)) s level 0 true =
        some s' ∧
      s'.file_eithreshold (s.level_file level) =
        (s.file_eithreshold (s.level_file level)).mark_irq_as_handled) := by
  refine ⟨?_, claim_on_xtopei_pop d hv fuel s level hl hnv hvs hbank⟩
  rw [jump_to_trap_vector_nv _ s level hnv hver, if_pos hint]
  obtain ⟨s', h, h1, h2, _, _⟩ := notify_irq_taken_spec d hv fuel
    (s.set_pending_ivt
      (((s.get_xtvec level).get_base_address + 4 * s.nv_line level) % 2 ^ 32)) level hl hnv
    hs hvs hbank
  exact ⟨s', h, h1, h2⟩

set_option maxRecDepth 100000 in
/-- Claim C22, amended, at `dispatchState` and the Machine level: the dispatch turns the head
0 into 5, and a write-only write of 0 to `mtopei` pops. -/
theorem dispatch_pushes_threshold_witness :
    sampleDecls.codes.Valid ∧
    (dispatchState.get_xcause MachineMode).interrupt ≠ 0 ∧
    (dispatchState.get_xtvec MachineMode).mode = csr_mtvec.SnpsNestedVectored ∧
    dispatchState.icsrs_vs.bank.length = MAX_GUEST ∧
    (dispatchState.file_eithreshold FileId.machine).update_with_new_irq 5 =
      { dispatchState.icsrs_m.eithreshold with reg := 5 } ∧
    ((∃ s', jump_to_trap_vector (clint_hw_irq_route sampleDecls 1) dispatchState MachineMode =
        some s' ∧
      s'.file_eithreshold (dispatchState.level_file MachineMode) =
        (dispatchState.file_eithreshold
          (dispatchState.level_file MachineMode)).update_with_new_irq
          (dispatchState.get_topei MachineMode).iid ∧
      s'.file_eip (dispatchState.level_file MachineMode) =
        imsic_update_eip_bit (dispatchState.file_eip (dispatchState.level_file MachineMode))
          (dispatchState.get_topei MachineMode).iid false) ∧
    (∃ s', claim_topei_interrupt_on_xtopei (clint_hw_irq_route sampleDecls 1) dispatchState
        MachineMode 0 true = some s' ∧
      s'.file_eithreshold (dispatchState.level_file MachineMode) =
        (dispatchState.file_eithreshold
          (dispatchState.level_file MachineMode)).mark_irq_as_handled)) :=
  ⟨by decide, by decide, by decide, by decide, by decide,
    dispatch_pushes_threshold sampleDecls (by decide) 0 dispatchState MachineMode (Or.inl rfl)
      (by decide) (by decide) (by decide) (by decide) (by decide) (by decide)⟩

/-! # Supervisor file scenario -/

/-- Bit 9 (Supervisor external) of the Supervisor pending set when `mideleg` bit 9 is set:
`mip` bit 9 and `mie` bit 9. -/
theorem pending_bit_sei_delegated (d : IrqDecls) (s : ISS)
    (hdeleg : s.csrs.clint.mideleg.testBit 9 = true) :
    (s.compute_clint_pending_irq_bits_per_level d).s_hs_pending.testBit 9 =
      (s.csrs.clint.mip.testBit 9 && s.csrs.clint.mie.testBit 9) := by
  unfold compute_clint_pending_irq_bits_per_level
  simp [Nat.testBit_and, Nat.testBit_or, sip_routed_read_64, sie_routed_read_64,
    mip_routed_read_64, checked_read_hip, checked_read_hie, read_lo, read_64, SIP_READ_MASK,
    SIE_READ_MASK, HIP_READ_MASK, HIE_READ_MASK, MIP_READ_MASK, HVIP_OR_MASK, testBit_reg_to_lo,
    testBit_SIE_MASK, testBit_HIE_MASK, testBit_MIE_MASK, testBit_VSIE_MASK, testBit_not64,
    s_route_masks, checked_read_hideleg_64, HIDELEG_MASK, testBit_MIx_VS_MASK, hdeleg]

theorem topei_iid_set (r v : Nat) (hv : v < 2 ^ 8) :
    get_field (set_field (set_field r 16 12 v) 0 8 v) 16 12 = v := by
  unfold get_field set_field
  apply Nat.eq_of_testBit_eq
  intro i
  have hv12 : v % 2 ^ 12 = v := Nat.mod_eq_of_lt (by omega)
  have hv8 : v % 2 ^ 8 = v := Nat.mod_eq_of_lt hv
  have hhi : ∀ j, 8 ≤ j → v.testBit j = false := by
    intro j hj
    apply Nat.testBit_eq_false_of_lt
    exact Nat.lt_of_lt_of_le hv (Nat.pow_le_pow_right (by decide) hj)
  rw [hv12, hv8]
  simp only [Nat.testBit_mod_two_pow, Nat.testBit_shiftRight, Nat.testBit_or, Nat.testBit_and,
    testBit_not32, Nat.testBit_shiftLeft, Nat.testBit_two_pow_sub_one, Nat.shiftLeft_zero]
  by_cases hi : i < 12
  · have h1 : 16 + i < 32 := by omega
    have h2 : 16 + i ≥ 16 := by omega
    have h3 : 16 + i - 16 = i := by omega
    have h4 : ¬ (16 + i < 8) := by omega
    simp [hi, h1, h2, h3, h4, hhi (16 + i) (by omega)]
  · have : v.testBit i = false := hhi i (by omega)
    simp [hi, this]

/-- Claim C29, amended. With `mideleg` bit 9 = 1 and the Supervisor file with delivery on,
threshold 0 and minor id 5 the lowest id set in both `eip` and `eie`, after
`compute_imsic_pending_interrupts_s` the register `stopei` reports minor id 5, `mip` bit 9 is
set, and the Supervisor pending set of `compute_clint_pending_irq_bits_per_level` has bit 9
exactly when `mie` bit 9 (the enable of the Supervisor external interrupt) is set. -/
theorem s_file_scenario (d : IrqDecls) (s : ISS)
    (hdeleg : s.csrs.clint.mideleg.testBit 9 = true)
    (hdel : s.icsrs_s.eidelivery.delivery_on = true)
    (hth : s.icsrs_s.eithreshold.reg = 0)
    (hw : ∀ k, word_reg s.icsrs_s.eip k < 2 ^ 32)
    (hlow : is_lowest_pending_enabled s.icsrs_s.eip s.icsrs_s.eie 5) :
    (s.compute_imsic_pending_interrupts_s.compute_clint_pending_irq_bits_per_level
      d).s_hs_pending.testBit 9 = s.csrs.clint.mie.testBit 9 ∧
    s.compute_imsic_pending_interrupts_s.csrs.clint.mip.testBit 9 = true ∧
    s.compute_imsic_pending_interrupts_s.csrs.stopei.iid = 5 := by
  have hscan := imsic_scan_lowest _ _ hw 5 hlow
  have hr : compute_imsic_pending s.icsrs_s.eip s.icsrs_s.eie eip_eie_arr_size
      s.icsrs_s.eithreshold s.icsrs_s.eidelivery
      (s.is_irq_mode_snps_nested_vectored SupervisorMode) = (true, 5) := by
    unfold compute_imsic_pending
    simp [hdel, hth, hscan, IMSIC_MAX_IRQS]
  have hcs : s.compute_imsic_pending_interrupts_s =
      (s.hw_write_mip EXC_S_EXTERNAL_INTERRUPT true).set_topei SupervisorMode 5 := by
    unfold compute_imsic_pending_interrupts_s
    simp only [hr]
  have hb : (s.csrs.clint.hw_write_mip EXC_S_EXTERNAL_INTERRUPT true).1.mip.testBit 9 = true :=
    testBit_hw_write_mip_self s.csrs.clint EXC_S_EXTERNAL_INTERRUPT true (by decide)
  rw [hcs]
  refine ⟨?_, hb, ?_⟩
  · rw [pending_bit_sei_delegated d _ (show ((s.hw_write_mip EXC_S_EXTERNAL_INTERRUPT
      true).set_topei SupervisorMode 5).csrs.clint.mideleg.testBit 9 = true from hdeleg)]
    show ((s.csrs.clint.hw_write_mip EXC_S_EXTERNAL_INTERRUPT true).1.mip.testBit 9 &&
      s.csrs.clint.mie.testBit 9) = s.csrs.clint.mie.testBit 9
    rw [hb]
    rfl
  · show get_field (set_field (set_field s.csrs.stopei.reg 16 12 5) 0 8 5) 16 12 = 5
    exact topei_iid_set _ 5 (by decide)

set_option maxRecDepth 100000 in
theorem sFileState_word_lt : ∀ k, word_reg sFileState.icsrs_s.eip k < 2 ^ 32 := by
  intro k
  by_cases h : k < 64
  · revert k; decide
  · unfold word_reg
    have hlen : sFileState.icsrs_s.eip.length = 64 := by decide
    rw [List.getD_eq_getElem?_getD, List.getElem?_eq_none (by omega)]
    decide

set_option maxRecDepth 100000 in
theorem sFileState_lowest :
    is_lowest_pending_enabled sFileState.icsrs_s.eip sFileState.icsrs_s.eie 5 := by
  unfold is_lowest_pending_enabled
  decide

set_option maxRecDepth 100000 in
/-- Claim C29, amended, at `sFileState`, where `mie` bit 9 is set: the Supervisor pending
set has bit 9 and `stopei` reports 5. -/
theorem s_file_scenario_witness :
    sFileState.csrs.clint.mideleg.testBit 9 = true ∧
    sFileState.icsrs_s.eidelivery.delivery_on = true ∧
    sFileState.icsrs_s.eithreshold.reg = 0 ∧
    (∀ k, word_reg sFileState.icsrs_s.eip k < 2 ^ 32) ∧
    is_lowest_pending_enabled sFileState.icsrs_s.eip sFileState.icsrs_s.eie 5 ∧
    sFileState.csrs.clint.mie.testBit 9 = true ∧
    ((sFileState.compute_imsic_pending_interrupts_s.compute_clint_pending_irq_bits_per_level
      sampleDecls).s_hs_pending.testBit 9 = sFileState.csrs.clint.mie.testBit 9 ∧
    sFileState.compute_imsic_pending_interrupts_s.csrs.clint.mip.testBit 9 = true ∧
    sFileState.compute_imsic_pending_interrupts_s.csrs.stopei.iid = 5) :=
  ⟨by decide, by decide, by decide, sFileState_word_lt, sFileState_lowest, by decide,
    s_file_scenario sampleDecls sFileState (by decide) (by decide) (by decide)
      sFileState_word_lt sFileState_lowest⟩

set_option maxRecDepth 100000 in
/-- Claim C29 fails at `sFileMaskedState`: `mideleg` bit 9 is 1, the Supervisor file has
delivery on, threshold 0, bit 5 set in `eip[0]` and `eie[0]` and no lower id pending and
enabled; after `compute_imsic_pending_interrupts_s` the register `stopei` reports 5 and `mip`
bit 9 is set, but the Supervisor pending set does not include bit 9, because `mie` bit 9 is
0. -/
theorem s_file_scenario_counterexample :
    sFileMaskedState.csrs.clint.mideleg.testBit 9 = true ∧
    sFileMaskedState.icsrs_s.eidelivery.delivery_on = true ∧
    sFileMaskedState.icsrs_s.eithreshold.reg = 0 ∧
    (word_reg sFileMaskedState.icsrs_s.eip 0).testBit 5 = true ∧
    (word_reg sFileMaskedState.icsrs_s.eie 0).testBit 5 = true ∧
    (∀ id, id < 5 →
      eip_eie_bit sFileMaskedState.icsrs_s.eip sFileMaskedState.icsrs_s.eie id = false) ∧
    sFileMaskedState.compute_imsic_pending_interrupts_s.csrs.stopei.iid = 5 ∧
    sFileMaskedState.compute_imsic_pending_interrupts_s.csrs.clint.mip.testBit 9 = true ∧
    (sFileMaskedState.compute_imsic_pending_interrupts_s.compute_clint_pending_irq_bits_per_level
      sampleDecls).s_hs_pending.testBit 9 = false := by
  decide

/-! # Access to the interrupt files through CSRs -/

theorem no_counter_trap_low (s : ISS) (addr : Nat) (h : addr < 0xC00) :
    s.validate_csr_counter_read_access_rights addr = none := by
  have h' : ¬ ((addr ≥ 0xC00 ∧ addr ≤ 0xC1F) ∨ (addr ≥ 0xC80 ∧ addr ≤ 0xC9F)) := by omega
  unfold validate_csr_counter_read_access_rights
  rw [if_neg h']

theorem virt_transform_vs_file (s : ISS) (h : s.prv = VirtualSupervisorMode) :
    s.csr_address_virt_transform csr.STOPEI_ADDR = csr.VSTOPEI_ADDR ∧
    s.csr_address_virt_transform csr.SIREG_ADDR = csr.VSIREG_ADDR ∧
    s.csr_address_virt_transform csr.SIREG2_ADDR = csr.VSIREG2_ADDR ∧
    s.csr_address_virt_transform csr.SIREG3_ADDR = csr.VSIREG3_ADDR ∧
    s.csr_address_virt_transform csr.SIREG4_ADDR = csr.VSIREG4_ADDR ∧
    s.csr_address_virt_transform csr.SIREG5_ADDR = csr.VSIREG5_ADDR ∧
    s.csr_address_virt_transform csr.SIREG6_ADDR = csr.VSIREG6_ADDR := by
  have hvs : s.vs_mode = true := by simp [vs_mode, h]
  unfold csr_address_virt_transform
  rw [hvs]
  decide

set_option maxRecDepth 8000 in
theorem get_csr_value_vstopei (d : IrqDecls) (s : ISS) (addr : Nat)
    (hc : s.validate_csr_counter_read_access_rights addr = none)
    (ht : s.csr_address_virt_transform addr = csr.VSTOPEI_ADDR) :
    s.get_csr_value d addr = s.read_after_check s.vstopei_access_check s.csrs.vstopei.reg := by
  unfold get_csr_value
  rw [hc]
  simp only []
  rw [ht]
  simp [csr.MIP_ADDR, csr.MIPH_ADDR, csr.SIP_ADDR, csr.SIPH_ADDR, csr.HIP_ADDR,
    csr.VSIP_ADDR, csr.VSIPH_ADDR, csr.MIE_ADDR, csr.MIEH_ADDR, csr.SIE_ADDR, csr.SIEH_ADDR,
    csr.HIE_ADDR, csr.VSIE_ADDR, csr.VSIEH_ADDR, csr.MVIP_ADDR, csr.MVIPH_ADDR, csr.MVIEN_ADDR,
    csr.MVIENH_ADDR, csr.HVIP_ADDR, csr.HVIPH_ADDR, csr.HVIEN_ADDR, csr.HVIENH_ADDR,
    csr.MIDELEG_ADDR, csr.MIDELEGH_ADDR, csr.HIDELEG_ADDR, csr.HIDELEGH_ADDR, csr.MTVEC_ADDR,
    csr.STVEC_ADDR, csr.VSTVEC_ADDR, csr.HVICTL_ADDR, csr.HGEIE_ADDR, csr.HGEIP_ADDR,
    csr.MTOPEI_ADDR, csr.STOPEI_ADDR, csr.VSTOPEI_ADDR, csr.MISELECT_ADDR, csr.MIREG_ADDR,
    csr.MIREG2_ADDR, csr.MIREG3_ADDR, csr.MIREG4_ADDR, csr.MIREG5_ADDR, csr.MIREG6_ADDR,
    csr.SISELECT_ADDR, csr.SIREG_ADDR, csr.SIREG2_ADDR, csr.SIREG3_ADDR, csr.SIREG4_ADDR,
    csr.SIREG5_ADDR, csr.SIREG6_ADDR, csr.VSISELECT_ADDR, csr.VSIREG_ADDR, csr.VSIREG2_ADDR,
    csr.VSIREG3_ADDR, csr.VSIREG4_ADDR, csr.VSIREG5_ADDR, csr.VSIREG6_ADDR]

set_option maxRecDepth 8000 in
theorem set_csr_value_vstopei (d : IrqDecls) (fuel : Nat) (s : ISS) (addr value : Nat)
    (read_accessed : Bool) (ht : s.csr_address_virt_transform addr = csr.VSTOPEI_ADDR) :
    s.set_csr_value d fuel addr value read_accessed =
      s.xtopei_write d fuel s.vstopei_access_check VirtualSupervisorMode value read_accessed := by
  unfold set_csr_value
  simp only []
  rw [ht]
  simp [csr.MIP_ADDR, csr.MIPH_ADDR, csr.SIP_ADDR, csr.SIPH_ADDR, csr.HIP_ADDR,
    csr.VSIP_ADDR, csr.VSIPH_ADDR, csr.MIE_ADDR, csr.MIEH_ADDR, csr.SIE_ADDR, csr.SIEH_ADDR,
    csr.HIE_ADDR, csr.VSIE_ADDR, csr.VSIEH_ADDR, csr.MVIP_ADDR, csr.MVIPH_ADDR, csr.MVIEN_ADDR,
    csr.MVIENH_ADDR, csr.HVIP_ADDR, csr.HVIPH_ADDR, csr.HVIEN_ADDR, csr.HVIENH_ADDR,
    csr.MIDELEG_ADDR, csr.MIDELEGH_ADDR, csr.HIDELEG_ADDR, csr.HIDELEGH_ADDR, csr.MTVEC_ADDR,
    csr.STVEC_ADDR, csr.VSTVEC_ADDR, csr.HVICTL_ADDR, csr.HGEIE_ADDR, csr.HGEIP_ADDR,
    csr.MTOPEI_ADDR, csr.STOPEI_ADDR, csr.VSTOPEI_ADDR, csr.MISELECT_ADDR, csr.MIREG_ADDR,
    csr.MIREG2_ADDR, csr.MIREG3_ADDR, csr.MIREG4_ADDR, csr.MIREG5_ADDR, csr.MIREG6_ADDR,
    csr.SISELECT_ADDR, csr.SIREG_ADDR, csr.SIREG2_ADDR, csr.SIREG3_ADDR, csr.SIREG4_ADDR,
    csr.SIREG5_ADDR, csr.SIREG6_ADDR, csr.VSISELECT_ADDR, csr.VSIREG_ADDR, csr.VSIREG2_ADDR,
    csr.VSIREG3_ADDR, csr.VSIREG4_ADDR, csr.VSIREG5_ADDR, csr.VSIREG6_ADDR]

set_option maxRecDepth 8000 in
theorem get_csr_value_stopei (d : IrqDecls) (s : ISS) (addr : Nat)
    (hc : s.validate_csr_counter_read_access_rights addr = none)
    (ht : s.csr_address_virt_transform addr = csr.STOPEI_ADDR) :
    s.get_csr_value d addr =
      s.read_after_check s.s_sei_injection_access_check s.csrs.stopei.reg := by
  unfold get_csr_value
  rw [hc]
  simp only []
  rw [ht]
  simp [csr.MIP_ADDR, csr.MIPH_ADDR, csr.SIP_ADDR, csr.SIPH_ADDR, csr.HIP_ADDR,
    csr.VSIP_ADDR, csr.VSIPH_ADDR, csr.MIE_ADDR, csr.MIEH_ADDR, csr.SIE_ADDR, csr.SIEH_ADDR,
    csr.HIE_ADDR, csr.VSIE_ADDR, csr.VSIEH_ADDR, csr.MVIP_ADDR, csr.MVIPH_ADDR, csr.MVIEN_ADDR,
    csr.MVIENH_ADDR, csr.HVIP_ADDR, csr.HVIPH_ADDR, csr.HVIEN_ADDR, csr.HVIENH_ADDR,
    csr.MIDELEG_ADDR, csr.MIDELEGH_ADDR, csr.HIDELEG_ADDR, csr.HIDELEGH_ADDR, csr.MTVEC_ADDR,
    csr.STVEC_ADDR, csr.VSTVEC_ADDR, csr.HVICTL_ADDR, csr.HGEIE_ADDR, csr.HGEIP_ADDR,
    csr.MTOPEI_ADDR, csr.STOPEI_ADDR, csr.VSTOPEI_ADDR, csr.MISELECT_ADDR, csr.MIREG_ADDR,
    csr.MIREG2_ADDR, csr.MIREG3_ADDR, csr.MIREG4_ADDR, csr.MIREG5_ADDR, csr.MIREG6_ADDR,
    csr.SISELECT_ADDR, csr.SIREG_ADDR, csr.SIREG2_ADDR, csr.SIREG3_ADDR, csr.SIREG4_ADDR,
    csr.SIREG5_ADDR, csr.SIREG6_ADDR, csr.VSISELECT_ADDR, csr.VSIREG_ADDR, csr.VSIREG2_ADDR,
    csr.VSIREG3_ADDR, csr.VSIREG4_ADDR, csr.VSIREG5_ADDR, csr.VSIREG6_ADDR]

set_option maxRecDepth 8000 in
theorem set_csr_value_stopei (d : IrqDecls) (fuel : Nat) (s : ISS) (addr value : Nat)
    (read_accessed : Bool) (ht : s.csr_address_virt_transform addr = csr.STOPEI_ADDR) :
    s.set_csr_value d fuel addr value read_accessed =
      s.xtopei_write d fuel s.s_sei_injection_access_check SupervisorMode value
        read_accessed := by
  unfold set_csr_value
  simp only []
  rw [ht]
  simp [csr.MIP_ADDR, csr.MIPH_ADDR, csr.SIP_ADDR, csr.SIPH_ADDR, csr.HIP_ADDR,
    csr.VSIP_ADDR, csr.VSIPH_ADDR, csr.MIE_ADDR, csr.MIEH_ADDR, csr.SIE_ADDR, csr.SIEH_ADDR,
    csr.HIE_ADDR, csr.VSIE_ADDR, csr.VSIEH_ADDR, csr.MVIP_ADDR, csr.MVIPH_ADDR, csr.MVIEN_ADDR,
    csr.MVIENH_ADDR, csr.HVIP_ADDR, csr.HVIPH_ADDR, csr.HVIEN_ADDR, csr.HVIENH_ADDR,
    csr.MIDELEG_ADDR, csr.MIDELEGH_ADDR, csr.HIDELEG_ADDR, csr.HIDELEGH_ADDR, csr.MTVEC_ADDR,
    csr.STVEC_ADDR, csr.VSTVEC_ADDR, csr.HVICTL_ADDR, csr.HGEIE_ADDR, csr.HGEIP_ADDR,
    csr.MTOPEI_ADDR, csr.STOPEI_ADDR, csr.VSTOPEI_ADDR, csr.MISELECT_ADDR, csr.MIREG_ADDR,
    csr.MIREG2_ADDR, csr.MIREG3_ADDR, csr.MIREG4_ADDR, csr.MIREG5_ADDR, csr.MIREG6_ADDR,
    csr.SISELECT_ADDR, csr.SIREG_ADDR, csr.SIREG2_ADDR, csr.SIREG3_ADDR, csr.SIREG4_ADDR,
    csr.SIREG5_ADDR, csr.SIREG6_ADDR, csr.VSISELECT_ADDR, csr.VSIREG_ADDR, csr.VSIREG2_ADDR,
    csr.VSIREG3_ADDR, csr.VSIREG4_ADDR, csr.VSIREG5_ADDR, csr.VSIREG6_ADDR]

set_option maxRecDepth 8000 in
theorem get_csr_value_vsireg (d : IrqDecls) (s : ISS) (addr a : Nat)
    (hc : s.validate_csr_counter_read_access_rights addr = none)
    (ht : s.csr_address_virt_transform addr = a)
    (ha : a = csr.VSIREG_ADDR ∨ a = csr.VSIREG2_ADDR ∨ a = csr.VSIREG3_ADDR ∨
      a = csr.VSIREG4_ADDR ∨ a = csr.VSIREG5_ADDR ∨ a = csr.VSIREG6_ADDR) :
    s.get_csr_value d addr = s.vsireg_read d a := by
  unfold get_csr_value
  rw [hc]
  simp only []
  rw [ht]
  rcases ha with h | h | h | h | h | h <;> subst h <;> simp [csr.MIP_ADDR, csr.MIPH_ADDR, csr.SIP_ADDR, csr.SIPH_ADDR, csr.HIP_ADDR,
    csr.VSIP_ADDR, csr.VSIPH_ADDR, csr.MIE_ADDR, csr.MIEH_ADDR, csr.SIE_ADDR, csr.SIEH_ADDR,
    csr.HIE_ADDR, csr.VSIE_ADDR, csr.VSIEH_ADDR, csr.MVIP_ADDR, csr.MVIPH_ADDR, csr.MVIEN_ADDR,
    csr.MVIENH_ADDR, csr.HVIP_ADDR, csr.HVIPH_ADDR, csr.HVIEN_ADDR, csr.HVIENH_ADDR,
    csr.MIDELEG_ADDR, csr.MIDELEGH_ADDR, csr.HIDELEG_ADDR, csr.HIDELEGH_ADDR, csr.MTVEC_ADDR,
    csr.STVEC_ADDR, csr.VSTVEC_ADDR, csr.HVICTL_ADDR, csr.HGEIE_ADDR, csr.HGEIP_ADDR,
    csr.MTOPEI_ADDR, csr.STOPEI_ADDR, csr.VSTOPEI_ADDR, csr.MISELECT_ADDR, csr.MIREG_ADDR,
    csr.MIREG2_ADDR, csr.MIREG3_ADDR, csr.MIREG4_ADDR, csr.MIREG5_ADDR, csr.MIREG6_ADDR,
    csr.SISELECT_ADDR, csr.SIREG_ADDR, csr.SIREG2_ADDR, csr.SIREG3_ADDR, csr.SIREG4_ADDR,
    csr.SIREG5_ADDR, csr.SIREG6_ADDR, csr.VSISELECT_ADDR, csr.VSIREG_ADDR, csr.VSIREG2_ADDR,
    csr.VSIREG3_ADDR, csr.VSIREG4_ADDR, csr.VSIREG5_ADDR, csr.VSIREG6_ADDR]

set_option maxRecDepth 8000 in
theorem set_csr_value_vsireg (d : IrqDecls) (fuel : Nat) (s : ISS) (addr a value : Nat)
    (read_accessed : Bool) (ht : s.csr_address_virt_transform addr = a)
    (ha : a = csr.VSIREG_ADDR ∨ a = csr.VSIREG2_ADDR ∨ a = csr.VSIREG3_ADDR ∨
      a = csr.VSIREG4_ADDR ∨ a = csr.VSIREG5_ADDR ∨ a = csr.VSIREG6_ADDR) :
    s.set_csr_value d fuel addr value read_accessed = s.vsireg_write d fuel a value := by
  unfold set_csr_value
  simp only []
  rw [ht]
  rcases ha with h | h | h | h | h | h <;> subst h <;> simp [csr.MIP_ADDR, csr.MIPH_ADDR, csr.SIP_ADDR, csr.SIPH_ADDR, csr.HIP_ADDR,
    csr.VSIP_ADDR, csr.VSIPH_ADDR, csr.MIE_ADDR, csr.MIEH_ADDR, csr.SIE_ADDR, csr.SIEH_ADDR,
    csr.HIE_ADDR, csr.VSIE_ADDR, csr.VSIEH_ADDR, csr.MVIP_ADDR, csr.MVIPH_ADDR, csr.MVIEN_ADDR,
    csr.MVIENH_ADDR, csr.HVIP_ADDR, csr.HVIPH_ADDR, csr.HVIEN_ADDR, csr.HVIENH_ADDR,
    csr.MIDELEG_ADDR, csr.MIDELEGH_ADDR, csr.HIDELEG_ADDR, csr.HIDELEGH_ADDR, csr.MTVEC_ADDR,
    csr.STVEC_ADDR, csr.VSTVEC_ADDR, csr.HVICTL_ADDR, csr.HGEIE_ADDR, csr.HGEIP_ADDR,
    csr.MTOPEI_ADDR, csr.STOPEI_ADDR, csr.VSTOPEI_ADDR, csr.MISELECT_ADDR, csr.MIREG_ADDR,
    csr.MIREG2_ADDR, csr.MIREG3_ADDR, csr.MIREG4_ADDR, csr.MIREG5_ADDR, csr.MIREG6_ADDR,
    csr.SISELECT_ADDR, csr.SIREG_ADDR, csr.SIREG2_ADDR, csr.SIREG3_ADDR, csr.SIREG4_ADDR,
    csr.SIREG5_ADDR, csr.SIREG6_ADDR, csr.VSISELECT_ADDR, csr.VSIREG_ADDR, csr.VSIREG2_ADDR,
    csr.VSIREG3_ADDR, csr.VSIREG4_ADDR, csr.VSIREG5_ADDR, csr.VSIREG6_ADDR]

set_option maxRecDepth 8000 in
theorem get_csr_value_sireg (d : IrqDecls) (s : ISS) (addr a : Nat)
    (hc : s.validate_csr_counter_read_access_rights addr = none)
    (ht : s.csr_address_virt_transform addr = a)
    (ha : a = csr.SIREG_ADDR ∨ a = csr.SIREG2_ADDR ∨ a = csr.SIREG3_ADDR ∨
      a = csr.SIREG4_ADDR ∨ a = csr.SIREG5_ADDR ∨ a = csr.SIREG6_ADDR) :
    s.get_csr_value d addr = s.sireg_read d a := by
  unfold get_csr_value
  rw [hc]
  simp only []
  rw [ht]
  rcases ha with h | h | h | h | h | h <;> subst h <;> simp [csr.MIP_ADDR, csr.MIPH_ADDR, csr.SIP_ADDR, csr.SIPH_ADDR, csr.HIP_ADDR,
    csr.VSIP_ADDR, csr.VSIPH_ADDR, csr.MIE_ADDR, csr.MIEH_ADDR, csr.SIE_ADDR, csr.SIEH_ADDR,
    csr.HIE_ADDR, csr.VSIE_ADDR, csr.VSIEH_ADDR, csr.MVIP_ADDR, csr.MVIPH_ADDR, csr.MVIEN_ADDR,
    csr.MVIENH_ADDR, csr.HVIP_ADDR, csr.HVIPH_ADDR, csr.HVIEN_ADDR, csr.HVIENH_ADDR,
    csr.MIDELEG_ADDR, csr.MIDELEGH_ADDR, csr.HIDELEG_ADDR, csr.HIDELEGH_ADDR, csr.MTVEC_ADDR,
    csr.STVEC_ADDR, csr.VSTVEC_ADDR, csr.HVICTL_ADDR, csr.HGEIE_ADDR, csr.HGEIP_ADDR,
    csr.MTOPEI_ADDR, csr.STOPEI_ADDR, csr.VSTOPEI_ADDR, csr.MISELECT_ADDR, csr.MIREG_ADDR,
    csr.MIREG2_ADDR, csr.MIREG3_ADDR, csr.MIREG4_ADDR, csr.MIREG5_ADDR, csr.MIREG6_ADDR,
    csr.SISELECT_ADDR, csr.SIREG_ADDR, csr.SIREG2_ADDR, csr.SIREG3_ADDR, csr.SIREG4_ADDR,
    csr.SIREG5_ADDR, csr.SIREG6_ADDR, csr.VSISELECT_ADDR, csr.VSIREG_ADDR, csr.VSIREG2_ADDR,
    csr.VSIREG3_ADDR, csr.VSIREG4_ADDR, csr.VSIREG5_ADDR, csr.VSIREG6_ADDR]

set_option maxRecDepth 8000 in
theorem set_csr_value_sireg (d : IrqDecls) (fuel : Nat) (s : ISS) (addr a value : Nat)
    (read_accessed : Bool) (ht : s.csr_address_virt_transform addr = a)
    (ha : a = csr.SIREG_ADDR ∨ a = csr.SIREG2_ADDR ∨ a = csr.SIREG3_ADDR ∨
      a = csr.SIREG4_ADDR ∨ a = csr.SIREG5_ADDR ∨ a = csr.SIREG6_ADDR) :
    s.set_csr_value d fuel addr value read_accessed = s.sireg_write d a value := by
  unfold set_csr_value
  simp only []
  rw [ht]
  rcases ha with h | h | h | h | h | h <;> subst h <;> simp [csr.MIP_ADDR, csr.MIPH_ADDR, csr.SIP_ADDR, csr.SIPH_ADDR, csr.HIP_ADDR,
    csr.VSIP_ADDR, csr.VSIPH_ADDR, csr.MIE_ADDR, csr.MIEH_ADDR, csr.SIE_ADDR, csr.SIEH_ADDR,
    csr.HIE_ADDR, csr.VSIE_ADDR, csr.VSIEH_ADDR, csr.MVIP_ADDR, csr.MVIPH_ADDR, csr.MVIEN_ADDR,
    csr.MVIENH_ADDR, csr.HVIP_ADDR, csr.HVIPH_ADDR, csr.HVIEN_ADDR, csr.HVIENH_ADDR,
    csr.MIDELEG_ADDR, csr.MIDELEGH_ADDR, csr.HIDELEG_ADDR, csr.HIDELEGH_ADDR, csr.MTVEC_ADDR,
    csr.STVEC_ADDR, csr.VSTVEC_ADDR, csr.HVICTL_ADDR, csr.HGEIE_ADDR, csr.HGEIP_ADDR,
    csr.MTOPEI_ADDR, csr.STOPEI_ADDR, csr.VSTOPEI_ADDR, csr.MISELECT_ADDR, csr.MIREG_ADDR,
    csr.MIREG2_ADDR, csr.MIREG3_ADDR, csr.MIREG4_ADDR, csr.MIREG5_ADDR, csr.MIREG6_ADDR,
    csr.SISELECT_ADDR, csr.SIREG_ADDR, csr.SIREG2_ADDR, csr.SIREG3_ADDR, csr.SIREG4_ADDR,
    csr.SIREG5_ADDR, csr.SIREG6_ADDR, csr.VSISELECT_ADDR, csr.VSIREG_ADDR, csr.VSIREG2_ADDR,
    csr.VSIREG3_ADDR, csr.VSIREG4_ADDR, csr.VSIREG5_ADDR, csr.VSIREG6_ADDR]

theorem vs_access_exception_eq (s : ISS)
    (hprv : s.prv = MachineMode ∨ s.prv = SupervisorMode ∨ s.prv = VirtualSupervisorMode) :
    s.vs_csr_icsrs_access_exception = some (vs_access_exc s.prv) := by
  unfold vs_csr_icsrs_access_exception vs_access_exc
  rcases hprv with h | h | h <;> rw [h] <;> decide

theorem vs_file_transform (s : ISS) (addr a b : Nat)
    (hb : ((csr.CSR_TYPE_MASK &&& a) >>> csr.CSR_TYPE_SHIFT == csr.CSR_TYPE_S) = false)
    (hab : s.prv = VirtualSupervisorMode → s.csr_address_virt_transform b = a)
    (h : addr = a ∨ (s.prv = VirtualSupervisorMode ∧ addr = b)) :
    s.csr_address_virt_transform addr = a := by
  rcases h with h | ⟨h1, h2⟩
  · rw [h]; exact virt_transform_id s a (Or.inr hb)
  · rw [h2]; exact hab h1

theorem vs_imsic_unmapped (n a : Nat) (h1 : 0x70 ≤ a) (h2 : a ≤ 0xFF) :
    icsr_vs_table.is_valid_addr n a 0 = false := by
  unfold icsr_vs_table.is_valid_addr icsr_vs_table.lookup iprio_lookup
  have hi : ¬ (icsr_iprio_arr.icsr_addr_iprio0 ≤ a ∧
      a < icsr_iprio_arr.icsr_addr_iprio0 + icsr_iprio_arr.iprio_csr_arr_size) := by
    have : icsr_iprio_arr.icsr_addr_iprio0 + icsr_iprio_arr.iprio_csr_arr_size = 0x40 := by
      decide
    rw [this]
    omega
  rw [if_neg hi]
  have hv : ¬ (csr_hstatus.VGEIN_FIRST_GUEST ≤ 0 ∧ 0 < csr_hstatus.MAX_VGEIN_BANKS) := by
    decide
  rw [if_neg hv]
  rfl

/-- Claim C27. From M, HS or VS, `get_csr_value` and `set_csr_value` on `vstopei` (the
address of `vstopei`, or from VS the address of `stopei`) with `hstatus.vgein = 0`, and on
`vsireg` .. `vsireg6` (or from VS the addresses of `sireg` .. `sireg6`) with an indirect
address that is not mapped for the bank of `hstatus.vgein`, raise `vs_access_exc`:
`EXC_ILLEGAL_INSTR` from M and HS, `EXC_VIRTUAL_INSTRUCTION` from VS; the state at the raise
is the state before.  With `vgein = 0` no address in `0x70 .. 0xFF` is mapped. -/
theorem vs_file_access_denied (d : IrqDecls) (fuel : Nat) (s : ISS) (addr value : Nat)
    (read_accessed : Bool)
    (hprv : s.prv = MachineMode ∨ s.prv = SupervisorMode ∨ s.prv = VirtualSupervisorMode) :
    ((addr = csr.VSTOPEI_ADDR ∨ (s.prv = VirtualSupervisorMode ∧ addr = csr.STOPEI_ADDR)) →
      s.csrs.hstatus.vgein = 0 →
      s.get_csr_value d addr = Result.trap (vs_access_exc s.prv) s ∧
      s.set_csr_value d fuel addr value read_accessed = Result.trap (vs_access_exc s.prv) s) ∧
    (((addr = csr.VSIREG_ADDR ∨ (s.prv = VirtualSupervisorMode ∧ addr = csr.SIREG_ADDR)) ∨
      (addr = csr.VSIREG2_ADDR ∨ (s.prv = VirtualSupervisorMode ∧ addr = csr.SIREG2_ADDR)) ∨
      (addr = csr.VSIREG3_ADDR ∨ (s.prv = VirtualSupervisorMode ∧ addr = csr.SIREG3_ADDR)) ∨
      (addr = csr.VSIREG4_ADDR ∨ (s.prv = VirtualSupervisorMode ∧ addr = csr.SIREG4_ADDR)) ∨
      (addr = csr.VSIREG5_ADDR ∨ (s.prv = VirtualSupervisorMode ∧ addr = csr.SIREG5_ADDR)) ∨
      (addr = csr.VSIREG6_ADDR ∨ (s.prv = VirtualSupervisorMode ∧ addr = csr.SIREG6_ADDR))) →
      icsr_vs_table.is_valid_addr d.SMPU_NREGIONS
        ((s.csrs.vsiselect +
          csr.xireg_to_xselect_offset (s.csr_address_virt_transform addr)) % 2 ^ 32)
        s.csrs.hstatus.get_vgein = false →
      s.get_csr_value d addr = Result.trap (vs_access_exc s.prv) s ∧
      s.set_csr_value d fuel addr value read_accessed = Result.trap (vs_access_exc s.prv) s) ∧
    (∀ a, 0x70 ≤ a → a ≤ 0xFF → icsr_vs_table.is_valid_addr d.SMPU_NREGIONS a 0 = false) ∧
    (s.prv = MachineMode ∨ s.prv = SupervisorMode → vs_access_exc s.prv = Exc.EXC_ILLEGAL_INSTR) ∧
    (s.prv = VirtualSupervisorMode → vs_access_exc s.prv = Exc.EXC_VIRTUAL_INSTRUCTION) := by
  have hexc := vs_access_exception_eq s hprv
  refine ⟨?_, ?_, fun a h1 h2 => vs_imsic_unmapped _ a h1 h2, ?_, ?_⟩
  · intro haddr hvg
    have hlow : addr < 0xC00 := by
      rcases haddr with h | ⟨_, h⟩ <;> rw [h] <;> decide
    have ht := vs_file_transform s addr csr.VSTOPEI_ADDR csr.STOPEI_ADDR (by decide)
      (fun h => (virt_transform_vs_file s h).1) haddr
    have hchk : s.vstopei_access_check = some (vs_access_exc s.prv) := by
      unfold vstopei_access_check csr_hstatus.is_imsic_connected
      simp [hvg, hexc]
    rw [get_csr_value_vstopei d s addr (no_counter_trap_low s addr hlow) ht,
      set_csr_value_vstopei d fuel s addr value read_accessed ht]
    unfold read_after_check xtopei_write
    rw [hchk]
    exact ⟨rfl, rfl⟩
  · intro haddr hinv
    have hlow : addr < 0xC00 := by
      rcases haddr with (h | ⟨_, h⟩) | (h | ⟨_, h⟩) | (h | ⟨_, h⟩) | (h | ⟨_, h⟩) |
        (h | ⟨_, h⟩) | (h | ⟨_, h⟩) <;> rw [h] <;> decide
    have ht : ∃ a, s.csr_address_virt_transform addr = a ∧
        (a = csr.VSIREG_ADDR ∨ a = csr.VSIREG2_ADDR ∨ a = csr.VSIREG3_ADDR ∨
          a = csr.VSIREG4_ADDR ∨ a = csr.VSIREG5_ADDR ∨ a = csr.VSIREG6_ADDR) := by
      rcases haddr with h | h | h | h | h | h
      · exact ⟨_, vs_file_transform s addr csr.VSIREG_ADDR csr.SIREG_ADDR (by decide)
          (fun h => (virt_transform_vs_file s h).2.1) h, Or.inl rfl⟩
      · exact ⟨_, vs_file_transform s addr csr.VSIREG2_ADDR csr.SIREG2_ADDR (by decide)
          (fun h => (virt_transform_vs_file s h).2.2.1) h, Or.inr (Or.inl rfl)⟩
      · exact ⟨_, vs_file_transform s addr csr.VSIREG3_ADDR csr.SIREG3_ADDR (by decide)
          (fun h => (virt_transform_vs_file s h).2.2.2.1) h, Or.inr (Or.inr (Or.inl rfl))⟩
      · exact ⟨_, vs_file_transform s addr csr.VSIREG4_ADDR csr.SIREG4_ADDR (by decide)
          (fun h => (virt_transform_vs_file s h).2.2.2.2.1) h,
          Or.inr (Or.inr (Or.inr (Or.inl rfl)))⟩
      · exact ⟨_, vs_file_transform s addr csr.VSIREG5_ADDR csr.SIREG5_ADDR (by decide)
          (fun h => (virt_transform_vs_file s h).2.2.2.2.2.1) h,
          Or.inr (Or.inr (Or.inr (Or.inr (Or.inl rfl))))⟩
      · exact ⟨_, vs_file_transform s addr csr.VSIREG6_ADDR csr.SIREG6_ADDR (by decide)
          (fun h => (virt_transform_vs_file s h).2.2.2.2.2.2) h,
          Or.inr (Or.inr (Or.inr (Or.inr (Or.inr rfl))))⟩
    obtain ⟨a, hta, ha⟩ := ht
    rw [hta] at hinv
    have hchk : s.vs_icsrs_access_check d
        ((s.csrs.vsiselect + csr.xireg_to_xselect_offset a) % 2 ^ 32) =
        some (vs_access_exc s.prv) := by
      unfold vs_icsrs_access_check
      simp only [hinv, Bool.false_eq_true, if_false, hexc]
    rw [get_csr_value_vsireg d s addr a (no_counter_trap_low s addr hlow) hta ha,
      set_csr_value_vsireg d fuel s addr a value read_accessed hta ha]
    unfold vsireg_read vsireg_write
    simp only [hchk]
    exact ⟨trivial, trivial⟩
  · intro h
    unfold vs_access_exc
    rcases h with h | h <;> rw [h] <;> decide
  · intro h
    unfold vs_access_exc
    rw [h]; decide

set_option maxRecDepth 100000 in
/-- Claim C27 at `vsDisconnectedState` (VS mode, `vgein = 0`, `vsiselect = 0x70`): reading
`stopei` and reading or writing `sireg` trap with the virtual-instruction exception. -/
theorem vs_file_access_denied_witness :
    vsDisconnectedState.prv = VirtualSupervisorMode ∧
    vsDisconnectedState.csrs.hstatus.vgein = 0 ∧
    vsDisconnectedState.get_csr_value sampleDecls csr.STOPEI_ADDR =
      Result.trap Exc.EXC_VIRTUAL_INSTRUCTION vsDisconnectedState ∧
    vsDisconnectedState.set_csr_value sampleDecls 1 csr.SIREG_ADDR 1 false =
      Result.trap Exc.EXC_VIRTUAL_INSTRUCTION vsDisconnectedState ∧
    vsDisconnectedState.get_csr_value sampleDecls csr.SIREG_ADDR =
      Result.trap (vs_access_exc vsDisconnectedState.prv) vsDisconnectedState ∧
    vsDisconnectedState.set_csr_value sampleDecls 1 csr.SIREG_ADDR 1 false =
      Result.trap (vs_access_exc vsDisconnectedState.prv) vsDisconnectedState :=
  ⟨by decide, by decide, by decide, by decide,
    (vs_file_access_denied sampleDecls 1 vsDisconnectedState csr.SIREG_ADDR 1 false
      (Or.inr (Or.inr (by decide)))).2.1 (Or.inl (Or.inr ⟨by decide, rfl⟩)) (by decide)⟩

theorem is_iid_injected_sei (c : csrs_clint_pend) :
    c.is_iid_injected SupervisorMode EXC_S_EXTERNAL_INTERRUPT =
      (!c.mideleg.testBit 9 && c.mvirt.mvien.testBit 9) := by
  unfold csrs_clint_pend.is_iid_injected
  rw [if_neg (by decide), if_pos rfl]
  have h := and_BIT_ne_zero (s_route_masks c).2 EXC_S_EXTERNAL_INTERRUPT
  have hb : (s_route_masks c).2.testBit EXC_S_EXTERNAL_INTERRUPT =
      (!c.mideleg.testBit 9 && c.mvirt.mvien.testBit 9) := by
    simp [s_route_masks, Nat.testBit_and, testBit_not64, EXC_S_EXTERNAL_INTERRUPT]
  rw [← hb]
  cases hc : (s_route_masks c).2.testBit EXC_S_EXTERNAL_INTERRUPT
  · have : ¬ ((s_route_masks c).2 &&& BIT EXC_S_EXTERNAL_INTERRUPT ≠ 0) := by
      rw [h, hc]; simp
    simp only [ne_eq, not_not] at this
    simp [this]
  · have : (s_route_masks c).2 &&& BIT EXC_S_EXTERNAL_INTERRUPT ≠ 0 := h.mpr hc
    simp [this]

theorem sei_check_blocked (s : ISS) (h : s.sei_blocked) :
    s.s_sei_injection_access_check = some Exc.EXC_ILLEGAL_INSTR := by
  obtain ⟨h1, h2, h3⟩ := h
  unfold s_sei_injection_access_check
  rw [is_iid_injected_sei, h1, h2, h3]
  rfl

theorem sei_check_free (s : ISS) (h : ¬ s.sei_blocked) :
    s.s_sei_injection_access_check = none := by
  unfold s_sei_injection_access_check
  rw [is_iid_injected_sei]
  unfold sei_blocked at h
  by_cases hp : s.prv = SupervisorMode
  · have : ¬ (s.csrs.clint.mideleg.testBit 9 = false ∧
        s.csrs.clint.mvirt.mvien.testBit 9 = true) := fun hh => h ⟨hp, hh⟩
    cases h2 : s.csrs.clint.mideleg.testBit 9 <;>
      cases h3 : s.csrs.clint.mvirt.mvien.testBit 9 <;> simp_all
  · have : (s.prv == SupervisorMode) = false := by simp [hp]
    simp [this]

theorem s_lookup_eq_imsic (n a : Nat) (h1 : 0x70 ≤ a) (h2 : a ≤ 0xFF) :
    icsr_ms_table.lookup n SupervisorMode a = imsic_lookup a := by
  unfold icsr_ms_table.lookup iprio_lookup
  have hi : ¬ (icsr_iprio_arr.icsr_addr_iprio0 ≤ a ∧
      a < icsr_iprio_arr.icsr_addr_iprio0 + icsr_iprio_arr.iprio_csr_arr_size) := by
    have : icsr_iprio_arr.icsr_addr_iprio0 + icsr_iprio_arr.iprio_csr_arr_size = 0x40 := by
      decide
    rw [this]
    omega
  rw [if_neg hi]
  have hs1 : smpu_lookup n icsr.icsr_addr_smpuaddr0 a = none := by
    unfold smpu_lookup icsr.icsr_addr_smpuaddr0
    rw [if_neg (by omega)]
  have hs2 : smpu_lookup n icsr.icsr_addr_hmpuaddr0 a = none := by
    unfold smpu_lookup icsr.icsr_addr_hmpuaddr0
    rw [if_neg (by omega)]
  cases him : imsic_lookup a <;> simp [Option.orElse, hs1, hs2]

theorem imsic_lookup_cases (a : Nat) (r : icsr_ref) (h : imsic_lookup a = some r) :
    r = icsr_ref.eidelivery ∨ r = icsr_ref.eithreshold ∨ (∃ k, r = icsr_ref.eip k) ∨
      ∃ k, r = icsr_ref.eie k := by
  unfold imsic_lookup at h
  split at h
  · simp only [Option.some.injEq] at h; exact Or.inl h.symm
  · split at h
    · simp only [Option.some.injEq] at h; exact Or.inr (Or.inl h.symm)
    · split at h
      · simp only [Option.some.injEq] at h; exact Or.inr (Or.inr (Or.inl ⟨_, h.symm⟩))
      · split at h
        · simp only [Option.some.injEq] at h; exact Or.inr (Or.inr (Or.inr ⟨_, h.symm⟩))
        · exact absurd h (by simp)

theorem s_lookup_imsic (n a : Nat) (h1 : 0x70 ≤ a) (h2 : a ≤ 0xFF)
    (hvalid : icsr_ms_table.is_valid_addr n SupervisorMode a = true) :
    ∃ r, icsr_ms_table.lookup n SupervisorMode a = some r ∧
      (r = icsr_ref.eidelivery ∨ r = icsr_ref.eithreshold ∨ (∃ k, r = icsr_ref.eip k) ∨
        ∃ k, r = icsr_ref.eie k) := by
  unfold icsr_ms_table.is_valid_addr at hvalid
  rw [s_lookup_eq_imsic n a h1 h2] at hvalid ⊢
  cases h : imsic_lookup a with
  | none => rw [h] at hvalid; exact absurd hvalid (by simp)
  | some r => exact ⟨r, rfl, imsic_lookup_cases a r h⟩

theorem vs_access_exception_vs (s : ISS) (h : s.prv = VirtualSupervisorMode) :
    s.vs_csr_icsrs_access_exception = some Exc.EXC_VIRTUAL_INSTRUCTION := by
  unfold vs_csr_icsrs_access_exception
  rw [h]
  decide

/-- From a level other than VS: `stopei` and the Supervisor file through `sireg` trap with
the illegal-instruction exception exactly when `sei_blocked` holds. -/
theorem sei_blocks_hs (d : IrqDecls) (fuel : Nat) (s : ISS)
    (addr value : Nat) (read_accessed : Bool) (hprv : s.prv ≠ VirtualSupervisorMode) :
    (addr = csr.STOPEI_ADDR →
      (s.sei_blocked →
        s.get_csr_value d addr = Result.trap Exc.EXC_ILLEGAL_INSTR s ∧
        s.set_csr_value d fuel addr value read_accessed =
          Result.trap Exc.EXC_ILLEGAL_INSTR s) ∧
      (¬ s.sei_blocked →
        (∃ v, s.get_csr_value d addr = Result.ok v s) ∧
        ∃ s', s.set_csr_value d fuel addr value read_accessed = Result.ok () s')) ∧
    ((addr = csr.SIREG_ADDR ∨ addr = csr.SIREG2_ADDR ∨ addr = csr.SIREG3_ADDR ∨
        addr = csr.SIREG4_ADDR ∨ addr = csr.SIREG5_ADDR ∨ addr = csr.SIREG6_ADDR) →
      icsr_ms_table.is_valid_addr d.SMPU_NREGIONS SupervisorMode
        ((s.csrs.siselect + csr.xireg_to_xselect_offset addr) % 2 ^ 32) = true →
      0x70 ≤ (s.csrs.siselect + csr.xireg_to_xselect_offset addr) % 2 ^ 32 →
      (s.csrs.siselect + csr.xireg_to_xselect_offset addr) % 2 ^ 32 ≤ 0xFF →
      (s.sei_blocked →
        s.get_csr_value d addr = Result.trap Exc.EXC_ILLEGAL_INSTR s ∧
        s.set_csr_value d fuel addr value read_accessed =
          Result.trap Exc.EXC_ILLEGAL_INSTR s) ∧
      (¬ s.sei_blocked →
        (∃ v, s.get_csr_value d addr = Result.ok v s) ∧
        ∃ s', s.set_csr_value d fuel addr value read_accessed = Result.ok () s')) := by
  have hvs : s.vs_mode = false := by simp [vs_mode, hprv]
  have ht := virt_transform_id s addr (Or.inl hvs)
  constructor
  · intro haddr
    have hlow : addr < 0xC00 := by rw [haddr]; decide
    rw [get_csr_value_stopei d s addr (no_counter_trap_low s addr hlow) (ht.trans haddr),
      set_csr_value_stopei d fuel s addr value read_accessed (ht.trans haddr)]
    unfold read_after_check xtopei_write
    constructor
    · intro hb
      rw [sei_check_blocked s hb]
      exact ⟨rfl, rfl⟩
    · intro hb
      rw [sei_check_free s hb]
      refine ⟨⟨_, rfl⟩, ?_⟩
      unfold claim_topei_interrupt_on_xtopei claim_topei_interrupt
      rw [if_neg (by decide), if_pos rfl]
      exact ⟨_, rfl⟩
  · intro haddr hvalid h1 h2
    have hlow : addr < 0xC00 := by
      rcases haddr with h | h | h | h | h | h <;> rw [h] <;> decide
    rw [get_csr_value_sireg d s addr addr (no_counter_trap_low s addr hlow) ht haddr,
      set_csr_value_sireg d fuel s addr addr value read_accessed ht haddr]
    unfold sireg_read sireg_write
    simp only [hvalid, Bool.not_true, Bool.false_eq_true, if_false]
    have hchk : s.s_icsr_imsic_access_check
        ((s.csrs.siselect + csr.xireg_to_xselect_offset addr) % 2 ^ 32) =
        s.s_sei_injection_access_check := by
      unfold s_icsr_imsic_access_check
      rw [if_pos ⟨h1, h2⟩]
    rw [hchk]
    constructor
    · intro hb
      rw [sei_check_blocked s hb]
      exact ⟨rfl, rfl⟩
    · intro hb
      rw [sei_check_free s hb]
      obtain ⟨r, hr, hcases⟩ := s_lookup_imsic d.SMPU_NREGIONS _ h1 h2 hvalid
      have hsm : is_smpuaddr ((s.csrs.siselect + csr.xireg_to_xselect_offset addr) % 2 ^ 32) =
          false := by
        unfold is_smpuaddr icsr.icsr_addr_smpuaddr0
        simp
        omega
      simp only [hsm, Bool.false_eq_true, if_false]
      unfold icsr_ms_table.default_read32 icsr_ms_table.default_write32
      rw [hr]
      rcases hcases with h | h | ⟨k, h⟩ | ⟨k, h⟩ <;> subst h <;>
        exact ⟨⟨_, rfl⟩, ⟨_, rfl⟩⟩

theorem write_arm_result_ne_trap (o : Option ISS) (e : Exc) (s' : ISS) :
    write_arm_result o ≠ Result.trap e s' := by
  unfold write_arm_result
  cases o <;> simp

/-- From VS: the addresses of `stopei` and `sireg` .. `sireg6` select `vstopei` and the guest
file, and no access raises the illegal-instruction exception. -/
theorem sei_blocks_vs (d : IrqDecls) (fuel : Nat) (s : ISS)
    (addr value : Nat) (read_accessed : Bool) (hprv : s.prv = VirtualSupervisorMode)
    (haddr : addr = csr.STOPEI_ADDR ∨ addr = csr.SIREG_ADDR ∨ addr = csr.SIREG2_ADDR ∨
      addr = csr.SIREG3_ADDR ∨ addr = csr.SIREG4_ADDR ∨ addr = csr.SIREG5_ADDR ∨
      addr = csr.SIREG6_ADDR)
    (hsm : addr ≠ csr.STOPEI_ADDR → is_smpuaddr ((s.csrs.vsiselect +
      csr.xireg_to_xselect_offset (s.csr_address_virt_transform addr)) % 2 ^ 32) = false) :
    (∀ s', s.get_csr_value d addr ≠ Result.trap Exc.EXC_ILLEGAL_INSTR s') ∧
    ∀ s', s.set_csr_value d fuel addr value read_accessed ≠
      Result.trap Exc.EXC_ILLEGAL_INSTR s' := by
  have hexc := vs_access_exception_vs s hprv
  have hlow : addr < 0xC00 := by
    rcases haddr with h | h | h | h | h | h | h <;> rw [h] <;> decide
  obtain ⟨t0, t1, t2, t3, t4, t5, t6⟩ := virt_transform_vs_file s hprv
  rcases haddr with h | h
  · subst h
    rw [get_csr_value_vstopei d s _ (no_counter_trap_low s _ hlow) t0,
      set_csr_value_vstopei d fuel s _ value read_accessed t0]
    have hchk : s.vstopei_access_check = some Exc.EXC_VIRTUAL_INSTRUCTION ∨
        s.vstopei_access_check = none := by
      unfold vstopei_access_check
      rw [hexc]
      split
      · exact Or.inl rfl
      · exact Or.inr rfl
    unfold read_after_check xtopei_write
    rcases hchk with hc | hc <;> rw [hc]
    · exact ⟨fun s' => by simp, fun s' => by simp⟩
    · exact ⟨fun s' => by simp, fun s' => write_arm_result_ne_trap _ _ _⟩
  · have hne : addr ≠ csr.STOPEI_ADDR := by
      rcases h with h | h | h | h | h | h <;> rw [h] <;> decide
    have hsm' := hsm hne
    have ht : ∃ a, s.csr_address_virt_transform addr = a ∧
        (a = csr.VSIREG_ADDR ∨ a = csr.VSIREG2_ADDR ∨ a = csr.VSIREG3_ADDR ∨
          a = csr.VSIREG4_ADDR ∨ a = csr.VSIREG5_ADDR ∨ a = csr.VSIREG6_ADDR) := by
      rcases h with h | h | h | h | h | h <;> subst h
      · exact ⟨_, t1, Or.inl rfl⟩
      · exact ⟨_, t2, Or.inr (Or.inl rfl)⟩
      · exact ⟨_, t3, Or.inr (Or.inr (Or.inl rfl))⟩
      · exact ⟨_, t4, Or.inr (Or.inr (Or.inr (Or.inl rfl)))⟩
      · exact ⟨_, t5, Or.inr (Or.inr (Or.inr (Or.inr (Or.inl rfl))))⟩
      · exact ⟨_, t6, Or.inr (Or.inr (Or.inr (Or.inr (Or.inr rfl))))⟩
    obtain ⟨a, hta, ha⟩ := ht
    rw [hta] at hsm'
    rw [get_csr_value_vsireg d s addr a (no_counter_trap_low s addr hlow) hta ha,
      set_csr_value_vsireg d fuel s addr a value read_accessed hta ha]
    have hchk : s.vs_icsrs_access_check d
          ((s.csrs.vsiselect + csr.xireg_to_xselect_offset a) % 2 ^ 32) =
          some Exc.EXC_VIRTUAL_INSTRUCTION ∨
        s.vs_icsrs_access_check d
          ((s.csrs.vsiselect + csr.xireg_to_xselect_offset a) % 2 ^ 32) = none := by
      unfold vs_icsrs_access_check
      rw [hexc]
      simp only []
      split
      · exact Or.inr rfl
      · exact Or.inl rfl
    unfold vsireg_read vsireg_write
    simp only [hsm', Bool.false_eq_true, if_false]
    rcases hchk with hc | hc <;> rw [hc]
    · exact ⟨fun s' => by simp, fun s' => by simp⟩
    · constructor
      · intro s'
        cases icsr_vs_table.default_read32 s.icsrs_vs d.SMPU_NREGIONS
          ((s.csrs.vsiselect + csr.xireg_to_xselect_offset a) % 2 ^ 32)
          s.csrs.hstatus.get_vgein <;> simp
      · intro s'
        cases icsr_vs_table.default_write32 s.icsrs_vs d.SMPU_NREGIONS
          ((s.csrs.vsiselect + csr.xireg_to_xselect_offset a) % 2 ^ 32)
          s.csrs.hstatus.get_vgein value
        · simp
        · exact write_arm_result_ne_trap _ _ _

/-- Claim C28. From a level other than VS, a read or write of `stopei`, or of `sireg` ..
`sireg6` with a valid indirect address in `0x70 .. 0xFF`, raises `EXC_ILLEGAL_INSTR` with the
state unchanged when `sei_blocked` holds (Supervisor mode, `mideleg` bit 9 = 0, `mvien` bit
9 = 1) and completes otherwise.  From VS these addresses select `vstopei` and the guest
file, `sei_blocked` does not hold, and no access (indirect address outside the SMPU range)
raises `EXC_ILLEGAL_INSTR`. -/
theorem sei_injection_blocks_file_access (d : IrqDecls) (fuel : Nat) (s : ISS)
    (addr value : Nat) (read_accessed : Bool) :
    (s.prv ≠ VirtualSupervisorMode →
      (addr = csr.STOPEI_ADDR →
        (s.sei_blocked →
          s.get_csr_value d addr = Result.trap Exc.EXC_ILLEGAL_INSTR s ∧
          s.set_csr_value d fuel addr value read_accessed =
            Result.trap Exc.EXC_ILLEGAL_INSTR s) ∧
        (¬ s.sei_blocked →
          (∃ v, s.get_csr_value d addr = Result.ok v s) ∧
          ∃ s', s.set_csr_value d fuel addr value read_accessed = Result.ok () s')) ∧
      ((addr = csr.SIREG_ADDR ∨ addr = csr.SIREG2_ADDR ∨ addr = csr.SIREG3_ADDR ∨
          addr = csr.SIREG4_ADDR ∨ addr = csr.SIREG5_ADDR ∨ addr = csr.SIREG6_ADDR) →
        icsr_ms_table.is_valid_addr d.SMPU_NREGIONS SupervisorMode
          ((s.csrs.siselect + csr.xireg_to_xselect_offset addr) % 2 ^ 32) = true →
        0x70 ≤ (s.csrs.siselect + csr.xireg_to_xselect_offset addr) % 2 ^ 32 →
        (s.csrs.siselect + csr.xireg_to_xselect_offset addr) % 2 ^ 32 ≤ 0xFF →
        (s.sei_blocked →
          s.get_csr_value d addr = Result.trap Exc.EXC_ILLEGAL_INSTR s ∧
          s.set_csr_value d fuel addr value read_accessed =
            Result.trap Exc.EXC_ILLEGAL_INSTR s) ∧
        (¬ s.sei_blocked →
          (∃ v, s.get_csr_value d addr = Result.ok v s) ∧
          ∃ s', s.set_csr_value d fuel addr value read_accessed = Result.ok () s'))) ∧
    (s.prv = VirtualSupervisorMode →
      (addr = csr.STOPEI_ADDR ∨ addr = csr.SIREG_ADDR ∨ addr = csr.SIREG2_ADDR ∨
        addr = csr.SIREG3_ADDR ∨ addr = csr.SIREG4_ADDR ∨ addr = csr.SIREG5_ADDR ∨
        addr = csr.SIREG6_ADDR) →
      (addr ≠ csr.STOPEI_ADDR → is_smpuaddr ((s.csrs.vsiselect +
        csr.xireg_to_xselect_offset (s.csr_address_virt_transform addr)) % 2 ^ 32) = false) →
      ¬ s.sei_blocked ∧
      (∀ s', s.get_csr_value d addr ≠ Result.trap Exc.EXC_ILLEGAL_INSTR s') ∧
      ∀ s', s.set_csr_value d fuel addr value read_accessed ≠
        Result.trap Exc.EXC_ILLEGAL_INSTR s') :=
  ⟨fun hprv => sei_blocks_hs d fuel s addr value read_accessed hprv,
   fun hprv haddr hsm =>
    ⟨fun hb => absurd (hb.1.symm.trans hprv) (by decide),
      sei_blocks_vs d fuel s addr value read_accessed hprv haddr hsm⟩⟩

set_option maxRecDepth 100000 in
/-- Claim C28 at `seiInjectedState` (Supervisor mode, `mvien` bit 9 set, `siselect = 0x80`):
reading and writing `sireg` trap with the illegal-instruction exception, and the same write
from Machine mode completes. -/
theorem sei_injection_blocks_file_access_witness :
    seiInjectedState.prv ≠ VirtualSupervisorMode ∧ seiInjectedState.sei_blocked ∧
    icsr_ms_table.is_valid_addr sampleDecls.SMPU_NREGIONS SupervisorMode
      ((seiInjectedState.csrs.siselect + csr.xireg_to_xselect_offset csr.SIREG_ADDR) %
        2 ^ 32) = true ∧
    ((seiInjectedState.csrs.siselect + csr.xireg_to_xselect_offset csr.SIREG_ADDR) % 2 ^ 32 =
      0x80) ∧
    (∃ s', ({ seiInjectedState with prv := MachineMode }).set_csr_value sampleDecls 1
      csr.SIREG_ADDR 0x10 false = Result.ok () s') ∧
    seiInjectedState.get_csr_value sampleDecls csr.SIREG_ADDR =
      Result.trap Exc.EXC_ILLEGAL_INSTR seiInjectedState ∧
    seiInjectedState.set_csr_value sampleDecls 1 csr.SIREG_ADDR 0x10 false =
      Result.trap Exc.EXC_ILLEGAL_INSTR seiInjectedState :=
  ⟨by decide, by decide, by decide, by decide,
    ((((sei_injection_blocks_file_access sampleDecls 1
      { seiInjectedState with prv := MachineMode } csr.SIREG_ADDR 0x10 false).1
      (by decide)).2 (Or.inl rfl) (by decide) (by decide) (by decide)).2 (by decide)).2,
    (((sei_injection_blocks_file_access sampleDecls 1 seiInjectedState csr.SIREG_ADDR 0x10
      false).1 (by decide)).2 (Or.inl rfl) (by decide) (by decide) (by decide)).1 (by decide)⟩

/-! # Bit fields -/

theorem testBit_get_field (r lo w i : Nat) :
    (get_field r lo w).testBit i = (decide (i < w) && r.testBit (lo + i)) := by
  unfold get_field
  rw [Nat.testBit_mod_two_pow, Nat.testBit_shiftRight]

theorem testBit_set_field (r lo w v i : Nat) :
    (set_field r lo w v).testBit i =
      ((r.testBit i && decide (i < 32) && !(decide (lo ≤ i) && decide (i - lo < w))) ||
        (decide (lo ≤ i) && decide (i - lo < w) && v.testBit (i - lo))) := by
  unfold set_field
  simp only [Nat.testBit_or, Nat.testBit_and, testBit_not32, Nat.testBit_shiftLeft,
    Nat.testBit_mod_two_pow, Nat.testBit_two_pow_sub_one]
  by_cases h1 : lo ≤ i <;> by_cases h2 : i - lo < w <;> by_cases h3 : i < 32 <;>
    simp [h1, h2, h3]

/-! # Read-only bits of `mideleg` -/

theorem mideleg_write_other (c : csrs_clint_pend) (w : MidelegWrite) (j : Nat)
    (h1 : j ≠ 1) (h5 : j ≠ 5) (h9 : j ≠ 9) (hj : j < 64) :
    (c.apply_mideleg_write w).mideleg.testBit j = c.mideleg.testBit j := by
  have hm : SIE_MASK.testBit j = false := by
    rw [testBit_SIE_MASK]; simp [h1, h5, h9]
  cases w with
  | lo val =>
    simp [apply_mideleg_write, checked_write_mideleg, write_lo, testBit_write_64,
      Nat.testBit_and, MIDELEG_WRITE_MASK, hm, hj]
  | hi val =>
    simp [apply_mideleg_write, checked_write_midelegh, write_hi, testBit_write_64,
      Nat.testBit_and, MIDELEG_WRITE_MASK, hm, hj]

theorem run_mideleg_writes_other (ws : List MidelegWrite) (c : csrs_clint_pend) (j : Nat)
    (h1 : j ≠ 1) (h5 : j ≠ 5) (h9 : j ≠ 9) (hj : j < 64) :
    (run_mideleg_writes ws c).mideleg.testBit j = c.mideleg.testBit j := by
  induction ws generalizing c with
  | nil => rfl
  | cons w ws ih =>
    show (run_mideleg_writes ws (c.apply_mideleg_write w)).mideleg.testBit j = _
    rw [ih, mideleg_write_other c w j h1 h5 h9 hj]

theorem testBit_checked_read_mideleg (c : csrs_clint_pend) (j : Nat) :
    c.checked_read_mideleg.testBit j =
      (decide (j < 32) && (c.mideleg.testBit j &&
        decide (j = 1 ∨ j = 5 ∨ j = 9 ∨ j = 2 ∨ j = 6 ∨ j = 10 ∨ j = 12))) := by
  unfold checked_read_mideleg read_lo read_64 MIDELEG_READ_MASK
  rw [testBit_reg_to_lo, Nat.testBit_and, Nat.testBit_or, testBit_SIE_MASK, testBit_HIE_MASK]
  congr 2
  apply Bool.eq_iff_iff.mpr
  simp
  omega

/-- Claim C35. From the constructed state, after any sequence `ws` of `checked_write_mideleg`
and `checked_write_midelegh` calls with arbitrary values, `checked_read_mideleg` has bits 2,
6, 10 and 12 set; and the read values after two such sequences `ws` and `ws'` agree on
every bit other than 1, 5 and 9. -/
theorem mideleg_read_only_one_bits (ws ws' : List MidelegWrite) :
    (run_mideleg_writes ws csrs_clint_pend.init).checked_read_mideleg.testBit 2 = true ∧
    (run_mideleg_writes ws csrs_clint_pend.init).checked_read_mideleg.testBit 6 = true ∧
    (run_mideleg_writes ws csrs_clint_pend.init).checked_read_mideleg.testBit 10 = true ∧
    (run_mideleg_writes ws csrs_clint_pend.init).checked_read_mideleg.testBit 12 = true ∧
    ∀ j, j ≠ 1 → j ≠ 5 → j ≠ 9 →
      (run_mideleg_writes ws csrs_clint_pend.init).checked_read_mideleg.testBit j =
        (run_mideleg_writes ws' csrs_clint_pend.init).checked_read_mideleg.testBit j := by
  have hfix : ∀ (l : List MidelegWrite) (j : Nat), j ≠ 1 → j ≠ 5 → j ≠ 9 → j < 64 →
      (run_mideleg_writes l csrs_clint_pend.init).mideleg.testBit j = HIE_MASK.testBit j :=
    fun l j h1 h5 h9 hj => run_mideleg_writes_other l _ j h1 h5 h9 hj
  refine ⟨?_, ?_, ?_, ?_, ?_⟩
  · rw [testBit_checked_read_mideleg, hfix ws 2 (by decide) (by decide) (by decide) (by decide)]
    decide
  · rw [testBit_checked_read_mideleg, hfix ws 6 (by decide) (by decide) (by decide) (by decide)]
    decide
  · rw [testBit_checked_read_mideleg, hfix ws 10 (by decide) (by decide) (by decide) (by decide)]
    decide
  · rw [testBit_checked_read_mideleg, hfix ws 12 (by decide) (by decide) (by decide) (by decide)]
    decide
  · intro j h1 h5 h9
    rw [testBit_checked_read_mideleg, testBit_checked_read_mideleg]
    by_cases hj : j < 32
    · rw [hfix ws j h1 h5 h9 (by omega), hfix ws' j h1 h5 h9 (by omega)]
    · simp [hj]

/-- Claim C35 for two sequences: writing all-ones to `mideleg` gives the read value `0x1666`,
writing 0 gives `0x1444`, and bit 12 is set. -/
theorem mideleg_read_only_one_bits_witness :
    (run_mideleg_writes [MidelegWrite.hi 0, MidelegWrite.lo 0xFFFFFFFF]
        csrs_clint_pend.init).checked_read_mideleg = 0x1666 ∧
    (run_mideleg_writes [MidelegWrite.lo 0, MidelegWrite.hi 0xFFFFFFFF]
        csrs_clint_pend.init).checked_read_mideleg = 0x1444 ∧
    (run_mideleg_writes [MidelegWrite.hi 0, MidelegWrite.lo 0xFFFFFFFF]
        csrs_clint_pend.init).checked_read_mideleg.testBit 12 = true :=
  ⟨by decide, by decide,
    (mideleg_read_only_one_bits [MidelegWrite.hi 0, MidelegWrite.lo 0xFFFFFFFF] []).2.2.2.1⟩

/-! # Well-formedness of the threshold stack -/

theorem tstack_insert_wf (t : icsr_eithreshold) (v : Nat) (hv1 : 1 ≤ v) (hv2 : v ≤ 255)
    (hr : t.reg < 2048)
    (he : ∀ i, t.thresholds.getD i false = true →
      1 ≤ i ∧ i ≤ 255 ∧ 1 ≤ t.reg ∧ t.reg ≤ 255 ∧ t.reg ≤ i) :
    (t.tstack_insert v).reg < 2048 ∧
    ∀ i, (t.tstack_insert v).thresholds.getD i false = true →
      1 ≤ i ∧ i ≤ 255 ∧ 1 ≤ (t.tstack_insert v).reg ∧ (t.tstack_insert v).reg ≤ 255 ∧
        (t.tstack_insert v).reg ≤ i := by
  rw [tstack_insert_reg, tstack_insert_thresholds]
  by_cases hu : t.reg = 0 ∨ 255 < t.reg
  · simp only [hu, if_true]
    refine ⟨by omega, ?_⟩
    intro i hi
    have := he i hi
    omega
  · simp only [hu, if_false]
    have h1 : 1 ≤ t.reg ∧ t.reg ≤ 255 := by omega
    refine ⟨by split <;> omega, ?_⟩
    intro i hi
    by_cases hik : i = t.reg
    · subst hik
      refine ⟨h1.1, h1.2, ?_, ?_, ?_⟩ <;> split <;> omega
    · rw [getD_set_ne _ _ _ _ hik] at hi
      have := he i hi
      refine ⟨this.1, this.2.1, ?_, ?_, ?_⟩ <;> split <;> omega

theorem tstack_pop_wf (t : icsr_eithreshold) (ht : t.threshold_tail < 2048)
    (he : ∀ i, t.thresholds.getD i false = true →
      1 ≤ i ∧ i ≤ 255 ∧ 1 ≤ t.reg ∧ t.reg ≤ 255 ∧ t.reg ≤ i) :
    t.tstack_pop.reg < 2048 ∧
    ∀ i, t.tstack_pop.thresholds.getD i false = true →
      1 ≤ i ∧ i ≤ 255 ∧ 1 ≤ t.tstack_pop.reg ∧ t.tstack_pop.reg ≤ 255 ∧
        t.tstack_pop.reg ≤ i := by
  unfold tstack_pop
  cases hs : tstack_pop_scan t.thresholds NV_MODE_MAX_VECTOR 1 with
  | none =>
    refine ⟨ht, ?_⟩
    intro i hi
    have h1 := he i hi
    have := tstack_pop_scan_none _ _ _ hs i h1.1 (by unfold NV_MODE_MAX_VECTOR; omega)
    rw [this] at hi
    exact absurd hi (by simp)
  | some k =>
    obtain ⟨a, b, c, e⟩ := tstack_pop_scan_some _ _ _ _ hs
    unfold NV_MODE_MAX_VECTOR at b
    refine ⟨by show k < 2048; omega, ?_⟩
    intro i hi
    have hi' : (t.thresholds.set k false).getD i false = true := hi
    rw [getD_set_false] at hi'
    have h2 : t.thresholds.getD i false = true ∧ i ≠ k := by
      simpa using hi'
    have h1 := he i h2.1
    have hki : k ≤ i := by
      rcases Nat.lt_or_ge i k with h | h
      · have := e i h1.1 h
        rw [this] at h2
        exact absurd h2.1 (by simp)
      · exact h
    show 1 ≤ i ∧ i ≤ 255 ∧ 1 ≤ k ∧ k ≤ 255 ∧ k ≤ i
    omega

theorem tstack_put_tail_wf (t : icsr_eithreshold) (v : Nat) (hv : v < 2048)
    (hr : t.reg < 2048)
    (he : ∀ i, t.thresholds.getD i false = true →
      1 ≤ i ∧ i ≤ 255 ∧ 1 ≤ t.reg ∧ t.reg ≤ 255 ∧ t.reg ≤ i) :
    (t.tstack_put_tail v).reg < 2048 ∧ (t.tstack_put_tail v).threshold_tail < 2048 ∧
    ∀ i, (t.tstack_put_tail v).thresholds.getD i false = true →
      1 ≤ i ∧ i ≤ 255 ∧ 1 ≤ (t.tstack_put_tail v).reg ∧ (t.tstack_put_tail v).reg ≤ 255 ∧
        (t.tstack_put_tail v).reg ≤ i := by
  rw [tstack_put_tail_eq]
  refine ⟨by show (if t.reg = 0 ∨ 255 < t.reg then v else t.reg) < 2048; split <;> omega,
    hv, ?_⟩
  intro i hi
  have h1 := he i hi
  have hu : ¬ (t.reg = 0 ∨ 255 < t.reg) := by omega
  show 1 ≤ i ∧ i ≤ 255 ∧ 1 ≤ (if t.reg = 0 ∨ 255 < t.reg then v else t.reg) ∧
    (if t.reg = 0 ∨ 255 < t.reg then v else t.reg) ≤ 255 ∧
    (if t.reg = 0 ∨ 255 < t.reg then v else t.reg) ≤ i
  rw [if_neg hu]
  exact h1

theorem tstack_put_tail_frame (t : icsr_eithreshold) (v : Nat) :
    (t.tstack_put_tail v).mode_snps_vectored = t.mode_snps_vectored := by
  rw [tstack_put_tail_eq]

theorem threshold_op_wf (t : icsr_eithreshold) (op : ThresholdOp) (hop : op.Valid)
    (hm : t.mode_snps_vectored = true) (hr : t.reg < 2048) (ht : t.threshold_tail < 2048)
    (he : ∀ i, t.thresholds.getD i false = true →
      1 ≤ i ∧ i ≤ 255 ∧ 1 ≤ t.reg ∧ t.reg ≤ 255 ∧ t.reg ≤ i) :
    (t.apply_op op).mode_snps_vectored = true ∧ (t.apply_op op).reg < 2048 ∧
    (t.apply_op op).threshold_tail < 2048 ∧
    ∀ i, (t.apply_op op).thresholds.getD i false = true →
      1 ≤ i ∧ i ≤ 255 ∧ 1 ≤ (t.apply_op op).reg ∧ (t.apply_op op).reg ≤ 255 ∧
        (t.apply_op op).reg ≤ i := by
  cases op with
  | write v =>
    have ha : t.apply_op (ThresholdOp.write v) = t.checked_write v := rfl
    rw [ha]
    by_cases hv : v < 2048
    · by_cases h0 : v = 0
      · subst h0
        rw [checked_write_nv_pop t hm]
        exact ⟨by rw [(tstack_pop_frame t).2]; exact hm, (tstack_pop_wf t ht he).1,
          by rw [(tstack_pop_frame t).1]; exact ht, (tstack_pop_wf t ht he).2⟩
      · by_cases h255 : v ≤ 255
        · rw [checked_write_nv_insert t v hm (by omega) h255]
          exact ⟨by rw [(tstack_insert_frame t v).2]; exact hm,
            (tstack_insert_wf t v (by omega) h255 hr he).1,
            by rw [(tstack_insert_frame t v).1]; exact ht,
            (tstack_insert_wf t v (by omega) h255 hr he).2⟩
        · rw [checked_write_nv_tail t v hm (by omega) hv]
          exact ⟨by rw [tstack_put_tail_frame]; exact hm, tstack_put_tail_wf t v hv hr he⟩
    · have : t.checked_write v = t := by
        unfold checked_write is_upper_bound_valid_minor_iid IMSIC_MAX_IRQS
        have : v ≥ 2048 := by omega
        simp [this]
      rw [this]
      exact ⟨hm, hr, ht, he⟩
  | new_irq id =>
    obtain ⟨h1, h2⟩ := hop
    have ha : t.apply_op (ThresholdOp.new_irq id) = t.update_with_new_irq id := rfl
    rw [ha]
    have hu : t.update_with_new_irq id = t.tstack_insert (min id 255) := by
      unfold update_with_new_irq update_with_new_irq_snps_vectored is_tailed_iid
        NV_MODE_MAX_VECTOR
      rw [if_pos hm]
      by_cases hid : id > 255
      · simp only [hid, decide_True, if_true]
        rw [Nat.min_eq_right (by omega)]
      · simp only [hid, decide_False, Bool.false_eq_true, if_false]
        rw [Nat.min_eq_left (by omega)]
    rw [hu]
    have hv1 : 1 ≤ min id 255 := by omega
    have hv2 : min id 255 ≤ 255 := by omega
    exact ⟨by rw [(tstack_insert_frame t _).2]; exact hm,
      (tstack_insert_wf t _ hv1 hv2 hr he).1,
      by rw [(tstack_insert_frame t _).1]; exact ht,
      (tstack_insert_wf t _ hv1 hv2 hr he).2⟩
  | handled =>
    have ha : t.apply_op ThresholdOp.handled = t.tstack_pop := rfl
    rw [ha]
    exact ⟨by rw [(tstack_pop_frame t).2]; exact hm, (tstack_pop_wf t ht he).1,
      by rw [(tstack_pop_frame t).1]; exact ht, (tstack_pop_wf t ht he).2⟩

theorem threshold_ops_wf (ops : List ThresholdOp) : ∀ (t : icsr_eithreshold),
    (∀ op ∈ ops, op.Valid) →
    t.mode_snps_vectored = true → t.reg < 2048 → t.threshold_tail < 2048 →
    (∀ i, t.thresholds.getD i false = true →
      1 ≤ i ∧ i ≤ 255 ∧ 1 ≤ t.reg ∧ t.reg ≤ 255 ∧ t.reg ≤ i) →
    (run_ops ops t).reg < 2048 ∧
    ∀ i, (run_ops ops t).thresholds.getD i false = true →
      1 ≤ i ∧ i ≤ 255 ∧ 1 ≤ (run_ops ops t).reg ∧ (run_ops ops t).reg ≤ 255 ∧
        (run_ops ops t).reg ≤ i := by
  induction ops with
  | nil => intro t _ _ hr _ he; exact ⟨hr, he⟩
  | cons op ops ih =>
    intro t hops hm hr ht he
    obtain ⟨a, b, c, e⟩ := threshold_op_wf t op (hops op (List.mem_cons_self _ _)) hm hr ht he
    exact ih (t.apply_op op) (fun o ho => hops o (List.mem_cons_of_mem _ ho)) a b c e

theorem nvThreshold_empty (i : Nat) : nvThreshold.thresholds.getD i false = false := by
  show (List.replicate 256 false).getD i false = false
  simp only [List.getD_eq_getElem?_getD, List.getElem?_replicate]
  split <;> rfl

/-- Claim C39. From a freshly constructed `eithreshold` put in nested-vectored mode, after
any sequence of `checked_write(v)` with a 32-bit `v`, `update_with_new_irq(id)` with `id` in
1..2047 and `mark_irq_as_handled()`: the head `reg` is below 2048; every set entry of
`thresholds` has an index in 1..255; if some entry is set then the head is in 1..255; and
every set entry has an index greater than or equal to the head. -/
theorem threshold_stack_wf (ops : List ThresholdOp) (hops : ∀ op ∈ ops, op.Valid) :
    (run_ops ops nvThreshold).reg < IMSIC_MAX_IRQS ∧
    (∀ i, (run_ops ops nvThreshold).thresholds.getD i false = true →
      1 ≤ i ∧ i ≤ NV_MODE_MAX_VECTOR) ∧
    ((∃ i, (run_ops ops nvThreshold).thresholds.getD i false = true) →
      1 ≤ (run_ops ops nvThreshold).reg ∧ (run_ops ops nvThreshold).reg ≤ NV_MODE_MAX_VECTOR) ∧
    (∀ i, (run_ops ops nvThreshold).thresholds.getD i false = true →
      (run_ops ops nvThreshold).reg ≤ i) := by
  have h := threshold_ops_wf ops nvThreshold hops rfl (by decide) (by decide)
    (fun i hi => by rw [nvThreshold_empty] at hi; exact absurd hi (by simp))
  unfold IMSIC_MAX_IRQS NV_MODE_MAX_VECTOR
  refine ⟨h.1, fun i hi => ⟨(h.2 i hi).1, (h.2 i hi).2.1⟩, ?_, fun i hi => (h.2 i hi).2.2.2.2⟩
  rintro ⟨i, hi⟩
  exact ⟨(h.2 i hi).2.2.1, (h.2 i hi).2.2.2.1⟩

set_option maxRecDepth 100000 in
/-- Claim C39 at `sampleThresholdOps`: the operations are in range, they leave head 4, tail
300 and entry 9 set, and the head is at most 9. -/
theorem threshold_stack_wf_witness :
    (∀ op ∈ sampleThresholdOps, op.Valid) ∧
    (run_ops sampleThresholdOps nvThreshold).reg = 4 ∧
    (run_ops sampleThresholdOps nvThreshold).threshold_tail = 300 ∧
    (run_ops sampleThresholdOps nvThreshold).thresholds.getD 9 false = true ∧
    (run_ops sampleThresholdOps nvThreshold).reg ≤ 9 :=
  ⟨by decide, by decide, by decide, by decide,
    (threshold_stack_wf sampleThresholdOps (by decide)).2.2.2 9 (by decide)⟩

/-! # Output of an interrupt file -/

theorem compute_imsic_pending_on (eip eie : List icsr_32) (size : Nat) (th : icsr_eithreshold)
    (dl : icsr_eidelivery) (nv : Bool) (hd : dl.delivery_on = true) :
    compute_imsic_pending eip eie size th dl nv =
      (decide (imsic_scan eip eie size 0 < (if th.reg = 0 then IMSIC_MAX_IRQS else th.reg)),
       if (decide (imsic_scan eip eie size 0 < (if th.reg = 0 then IMSIC_MAX_IRQS else th.reg))
          || nv) = true then imsic_scan eip eie size 0 else 0) := by
  unfold compute_imsic_pending
  simp [hd]

theorem compute_imsic_pending_off (eip eie : List icsr_32) (size : Nat) (th : icsr_eithreshold)
    (dl : icsr_eidelivery) (nv : Bool) (hd : dl.delivery_on = false) :
    compute_imsic_pending eip eie size th dl nv = (false, 0) := by
  unfold compute_imsic_pending
  simp [hd]

theorem lowest_ne_zero (eip eie : List icsr_32) (c : Nat)
    (h0 : (word_reg eip 0 &&& word_reg eie 0).testBit 0 = false)
    (hc : is_lowest_pending_enabled eip eie c) : 1 ≤ c := by
  rcases Nat.eq_zero_or_pos c with h | h
  · subst h
    have := hc.2.1
    unfold eip_eie_bit at this
    rw [show (0 : Nat) / 32 = 0 from rfl, show (0 : Nat) % 32 = 0 from rfl, h0] at this
    exact absurd this (by simp)
  · exact h

/-- Claim C37 fails for an empty file (`eip_init`, bit 0 of `eip[0] & eie[0]` clear) with
threshold 0, delivery on and `nested_vectored = true`: `compute_imsic_pending` returns the
top minor id 4096, the value of `NO_IRQ_PENDING`, which is not below `IMSIC_MAX_IRQS`. -/
theorem top_minor_id_sentinel_counterexample :
    (word_reg eip_init 0 &&& word_reg eip_init 0).testBit 0 = false ∧
    nvThreshold.reg < IMSIC_MAX_IRQS ∧
    (compute_imsic_pending eip_init eip_init eip_eie_arr_size nvThreshold { reg := 1 } true).2
      = 4096 ∧
    ¬ ((compute_imsic_pending eip_init eip_init eip_eie_arr_size nvThreshold { reg := 1 }
      true).2 < IMSIC_MAX_IRQS) := by
  decide

/-- Claim C37, amended. For 32-bit `eip` words, bit 0 of `eip[0] & eie[0]` clear and a
threshold below 2048, the top minor id `top` returned by `compute_imsic_pending` is 0, or the
lowest id in 1..2047 whose `eip` and `eie` bits are both set, or `NO_IRQ_PENDING` = 4096;
it is 4096 exactly when delivery is on, `nested_vectored` is true and no id below 2048 is
pending and enabled.  The value reduced to 12 bits, which is what `set_topei` stores in
`xtopei.iid`, is 0 or such an id, so it is below `IMSIC_MAX_IRQS`. -/
theorem top_minor_id_range (eip eie : List icsr_32) (eithreshold : icsr_eithreshold)
    (eidelivery : icsr_eidelivery) (nested_vectored : Bool)
    (hw : ∀ k, word_reg eip k < 2 ^ 32) (ht : eithreshold.reg < IMSIC_MAX_IRQS)
    (h0 : (word_reg eip 0 &&& word_reg eie 0).testBit 0 = false) (top : Nat)
    (htop : top = (compute_imsic_pending eip eie eip_eie_arr_size eithreshold eidelivery
      nested_vectored).2) :
    (top = 0 ∨ (1 ≤ top ∧ top < IMSIC_MAX_IRQS ∧ is_lowest_pending_enabled eip eie top) ∨
      top = NO_IRQ_PENDING) ∧
    (top = NO_IRQ_PENDING ↔
      eidelivery.delivery_on = true ∧ nested_vectored = true ∧
        ∀ id, id < IMSIC_MAX_IRQS → eip_eie_bit eip eie id = false) ∧
    (top % 2 ^ 12 = 0 ∨
      (1 ≤ top % 2 ^ 12 ∧ top % 2 ^ 12 < IMSIC_MAX_IRQS ∧
        is_lowest_pending_enabled eip eie (top % 2 ^ 12))) := by
  have hmax : IMSIC_MAX_IRQS = 2048 := rfl
  have hno : NO_IRQ_PENDING = 4096 := by decide
  rw [hmax] at ht
  cases hd : eidelivery.delivery_on with
  | false =>
    rw [compute_imsic_pending_off _ _ _ _ _ _ hd] at htop
    subst htop
    refine ⟨Or.inl rfl, ?_, Or.inl rfl⟩
    rw [hno]
    constructor
    · intro h; exact absurd h (by decide)
    · intro h; exact absurd h.1 (by simp)
  | true =>
    rw [compute_imsic_pending_on _ _ _ _ _ _ hd] at htop
    have hth : (if eithreshold.reg = 0 then IMSIC_MAX_IRQS else eithreshold.reg) ≤ 2048 := by
      rw [hmax]; split <;> omega
    rcases imsic_scan_cases eip eie hw with ⟨hs, hnone⟩ | hlow
    · rw [hs, hno] at htop
      have hnm : ¬ (4096 < (if eithreshold.reg = 0 then IMSIC_MAX_IRQS else eithreshold.reg)) := by
        omega
      simp only [hnm, decide_False, Bool.false_or] at htop
      cases nested_vectored with
      | false =>
        simp only [Bool.false_eq_true, if_false] at htop
        subst htop
        refine ⟨Or.inl rfl, ?_, Or.inl rfl⟩
        rw [hno]
        constructor
        · intro h; exact absurd h (by decide)
        · intro h; exact absurd h.2.1 (by simp)
      | true =>
        simp only [if_true] at htop
        subst htop
        refine ⟨Or.inr (Or.inr hno.symm), ?_, Or.inl (by decide)⟩
        rw [hno]
        exact ⟨fun _ => ⟨rfl, rfl, hnone⟩, fun _ => rfl⟩
    · have hc1 := lowest_ne_zero eip eie _ h0 hlow
      have hc2 : imsic_scan eip eie eip_eie_arr_size 0 < 2048 := hlow.1
      have hsome : ¬ ∀ id, id < IMSIC_MAX_IRQS → eip_eie_bit eip eie id = false := by
        intro h
        have := h _ hlow.1
        rw [hlow.2.1] at this
        exact absurd this (by simp)
      have htop' : top = if (decide (imsic_scan eip eie eip_eie_arr_size 0 <
          (if eithreshold.reg = 0 then IMSIC_MAX_IRQS else eithreshold.reg))
          || nested_vectored) = true then imsic_scan eip eie eip_eie_arr_size 0 else 0 := htop
      clear htop
      by_cases hcnd : (decide (imsic_scan eip eie eip_eie_arr_size 0 <
          (if eithreshold.reg = 0 then IMSIC_MAX_IRQS else eithreshold.reg))
          || nested_vectored) = true
      · rw [if_pos hcnd] at htop'
        subst htop'
        refine ⟨Or.inr (Or.inl ⟨hc1, hlow.1, hlow⟩), ?_, Or.inr ?_⟩
        · rw [hno]
          constructor
          · intro h; omega
          · intro h; exact absurd h.2.2 hsome
        · rw [Nat.mod_eq_of_lt (by omega)]
          exact ⟨hc1, hlow.1, hlow⟩
      · rw [if_neg hcnd] at htop'
        subst htop'
        refine ⟨Or.inl rfl, ?_, Or.inl rfl⟩
        rw [hno]
        constructor
        · intro h; exact absurd h (by decide)
        · intro h; exact absurd h.2.2 hsome

/-- Claim C37, amended, at `pendEip`/`pendEie` (ids 4 and 5 pending, id 5 enabled) with
`nvThreshold`, delivery on and `nested_vectored = true`: the top minor id is 5. -/
theorem top_minor_id_range_witness :
    (∀ k, word_reg pendEip k < 2 ^ 32) ∧
    (word_reg pendEip 0 &&& word_reg pendEie 0).testBit 0 = false ∧
    (compute_imsic_pending pendEip pendEie eip_eie_arr_size nvThreshold { reg := 1 } true).2
      = 5 ∧
    (5 = 0 ∨ (1 ≤ 5 ∧ 5 < IMSIC_MAX_IRQS ∧ is_lowest_pending_enabled pendEip pendEie 5) ∨
      5 = NO_IRQ_PENDING) :=
  ⟨pendEip_word_lt, by decide, by decide,
    (top_minor_id_range pendEip pendEie nvThreshold { reg := 1 } true pendEip_word_lt
      (by decide) (by decide) 5 (by decide)).1⟩

/-! # Level of the interrupt to take -/

theorem pending_and_enabled_m (s : ISS) (pm : Nat) :
    s.pending_and_enabled pm MachineMode =
      some (decide (pm ≠ 0 ∧ (s.prv ≠ MachineMode ∨ csr_mstatus.mie s.csrs.mstatus ≠ 0))) := by
  unfold pending_and_enabled is_irq_globaly_enable_per_level
  by_cases hm : pm = 0 <;> by_cases h1 : s.prv = MachineMode <;>
    by_cases e1 : csr_mstatus.mie s.csrs.mstatus = 0 <;> simp [hm, h1, e1]

theorem pending_and_enabled_s (s : ISS) (ps : Nat) :
    s.pending_and_enabled ps SupervisorMode =
      some (decide (ps ≠ 0 ∧ ((s.prv ≠ MachineMode ∧ s.prv ≠ SupervisorMode) ∨
        (s.prv = SupervisorMode ∧ csr_mstatus.sie s.csrs.mstatus ≠ 0)))) := by
  have hS : ¬ (SupervisorMode = MachineMode) := by decide
  have a1 : (MachineMode == SupervisorMode) = false := by decide
  have a2 : ¬ (MachineMode = SupervisorMode) := by decide
  unfold pending_and_enabled is_irq_globaly_enable_per_level
  simp only [hS, if_false, if_true]
  by_cases hm : ps = 0 <;> by_cases h1 : s.prv = MachineMode <;>
    by_cases h2 : s.prv = SupervisorMode <;>
    by_cases e1 : csr_mstatus.sie s.csrs.mstatus = 0 <;> simp [hm, h1, h2, e1, a1, a2]

theorem pending_and_enabled_vs (s : ISS) (pv : Nat) :
    s.pending_and_enabled pv VirtualSupervisorMode =
      some (decide (pv ≠ 0 ∧ (s.prv = VirtualUserMode ∨
        (s.prv = VirtualSupervisorMode ∧ csr_vsstatus.sie s.csrs.vsstatus ≠ 0)))) := by
  have hV : ¬ (VirtualSupervisorMode = MachineMode) := by decide
  have hVS : ¬ (VirtualSupervisorMode = SupervisorMode) := by decide
  have a1 : (VirtualSupervisorMode == VirtualUserMode) = false := by decide
  have a2 : ¬ (VirtualSupervisorMode = VirtualUserMode) := by decide
  unfold pending_and_enabled is_irq_globaly_enable_per_level
  simp only [hV, hVS, if_false, if_true]
  by_cases hm : pv = 0 <;> by_cases h1 : s.prv = VirtualUserMode <;>
    by_cases h2 : s.prv = VirtualSupervisorMode <;>
    by_cases e1 : csr_vsstatus.sie s.csrs.vsstatus = 0 <;> simp [hm, h1, h2, e1, a1, a2]

theorem compute_pending_interrupt_eq (s : ISS) (p : PendingInterrupts) :
    s.compute_pending_interrupt p =
      some (if p.m_pending ≠ 0 ∧ (s.prv ≠ MachineMode ∨ csr_mstatus.mie s.csrs.mstatus ≠ 0) then
          MachineMode
        else if p.s_hs_pending ≠ 0 ∧ ((s.prv ≠ MachineMode ∧ s.prv ≠ SupervisorMode) ∨
            (s.prv = SupervisorMode ∧ csr_mstatus.sie s.csrs.mstatus ≠ 0)) then SupervisorMode
        else if p.vs_pending ≠ 0 ∧ (s.prv = VirtualUserMode ∨
            (s.prv = VirtualSupervisorMode ∧ csr_vsstatus.sie s.csrs.vsstatus ≠ 0)) then
          VirtualSupervisorMode
        else NoneMode) := by
  unfold compute_pending_interrupt
  rw [pending_and_enabled_m, pending_and_enabled_s, pending_and_enabled_vs]
  by_cases c1 : p.m_pending ≠ 0 ∧ (s.prv ≠ MachineMode ∨ csr_mstatus.mie s.csrs.mstatus ≠ 0)
  · rw [if_pos c1, decide_eq_true c1]
  · rw [if_neg c1, decide_eq_false c1]
    by_cases c2 : p.s_hs_pending ≠ 0 ∧ ((s.prv ≠ MachineMode ∧ s.prv ≠ SupervisorMode) ∨
        (s.prv = SupervisorMode ∧ csr_mstatus.sie s.csrs.mstatus ≠ 0))
    · rw [if_pos c2, decide_eq_true c2]
    · rw [if_neg c2, decide_eq_false c2]
      by_cases c3 : p.vs_pending ≠ 0 ∧ (s.prv = VirtualUserMode ∨
          (s.prv = VirtualSupervisorMode ∧ csr_vsstatus.sie s.csrs.vsstatus ≠ 0))
      · rw [if_pos c3, decide_eq_true c3]
      · rw [if_neg c3, decide_eq_false c3]

theorem get_field_one_bit (reg lo : Nat) (h : get_field reg lo 1 ≠ 0) : get_field reg lo 1 = 1 := by
  unfold get_field at *
  omega

/-- Claim C40. For every state and pending sets `compute_pending_interrupt` returns a level
`r`, and: in Machine mode `r` is neither Supervisor nor VS; in HS or User mode `r` is not
VS; `r` is Machine while in Machine mode only if `mstatus.mie = 1`; `r` is Supervisor while
in HS mode only if `mstatus.sie = 1`; `r` is VS while in VS mode only if `vsstatus.sie = 1`;
and `r` is Machine whenever the Machine pending set is non-zero and
`is_irq_globaly_enable_per_level(MachineMode)` holds. -/
theorem no_interrupt_below_current_level (s : ISS) (p : PendingInterrupts) :
    ∃ r, s.compute_pending_interrupt p = some r ∧
      (s.prv = MachineMode → r ≠ SupervisorMode ∧ r ≠ VirtualSupervisorMode) ∧
      (s.prv = SupervisorMode ∨ s.prv = UserMode → r ≠ VirtualSupervisorMode) ∧
      (s.prv = MachineMode → r = MachineMode → csr_mstatus.mie s.csrs.mstatus = 1) ∧
      (s.prv = SupervisorMode → r = SupervisorMode → csr_mstatus.sie s.csrs.mstatus = 1) ∧
      (s.prv = VirtualSupervisorMode → r = VirtualSupervisorMode →
        csr_vsstatus.sie s.csrs.vsstatus = 1) ∧
      (p.m_pending ≠ 0 → s.is_irq_globaly_enable_per_level MachineMode = some true →
        r = MachineMode) := by
  refine ⟨_, compute_pending_interrupt_eq s p, ?_, ?_, ?_, ?_, ?_, ?_⟩
  · intro h
    have hS : ¬ (MachineMode = SupervisorMode) := by decide
    have hV : ¬ (MachineMode = VirtualSupervisorMode) := by decide
    have hN1 : ¬ (NoneMode = SupervisorMode) := by decide
    have hN2 : ¬ (NoneMode = VirtualSupervisorMode) := by decide
    have hU : ¬ (MachineMode = VirtualUserMode) := by decide
    simp only [h, hS, hV, hU, ne_eq, not_true_eq_false, false_and, and_false, or_false,
      false_or, if_false, not_false_eq_true, and_true]
    split <;> simp [hS, hV, hN1, hN2]
  · intro h
    have hS : ¬ (SupervisorMode = VirtualSupervisorMode) := by decide
    have hM : ¬ (MachineMode = VirtualSupervisorMode) := by decide
    have hN2 : ¬ (NoneMode = VirtualSupervisorMode) := by decide
    have h3 : ¬ (s.prv = VirtualUserMode) := by
      rcases h with h | h <;> rw [h] <;> decide
    have h4 : ¬ (s.prv = VirtualSupervisorMode) := by
      rcases h with h | h <;> rw [h] <;> decide
    simp only [h3, h4, false_and, or_false, and_false, if_false]
    split
    · exact hM
    · split
      · exact hS
      · exact hN2
  · intro h hr
    have hS : ¬ (SupervisorMode = MachineMode) := by decide
    have hV : ¬ (VirtualSupervisorMode = MachineMode) := by decide
    have hN : ¬ (NoneMode = MachineMode) := by decide
    by_cases hc : p.m_pending ≠ 0 ∧ (s.prv ≠ MachineMode ∨ csr_mstatus.mie s.csrs.mstatus ≠ 0)
    · rcases hc.2 with h' | h'
      · exact absurd h h'
      · exact get_field_one_bit _ _ h'
    · rw [if_neg hc] at hr
      split at hr
      · exact absurd hr hS
      · split at hr
        · exact absurd hr hV
        · exact absurd hr hN
  · intro h hr
    have hMS : ¬ (MachineMode = SupervisorMode) := by decide
    have hV : ¬ (VirtualSupervisorMode = SupervisorMode) := by decide
    have hN : ¬ (NoneMode = SupervisorMode) := by decide
    split at hr
    · exact absurd hr hMS
    · split at hr
      · rename_i hc
        rcases hc.2 with h' | h'
        · exact absurd h h'.2
        · exact get_field_one_bit _ _ h'.2
      · split at hr
        · exact absurd hr hV
        · exact absurd hr hN
  · intro h hr
    have hMV : ¬ (MachineMode = VirtualSupervisorMode) := by decide
    have hSV : ¬ (SupervisorMode = VirtualSupervisorMode) := by decide
    have hN : ¬ (NoneMode = VirtualSupervisorMode) := by decide
    have hVU : ¬ (VirtualSupervisorMode = VirtualUserMode) := by decide
    split at hr
    · exact absurd hr hMV
    · split at hr
      · exact absurd hr hSV
      · split at hr
        · rename_i hc
          rcases hc.2 with h' | h'
          · rw [h] at h'; exact absurd h' hVU
          · exact get_field_one_bit _ _ h'.2
        · exact absurd hr hN
  · intro hm he
    have hen : s.prv ≠ MachineMode ∨ csr_mstatus.mie s.csrs.mstatus ≠ 0 := by
      unfold is_irq_globaly_enable_per_level at he
      simp only [if_true, Option.some.injEq] at he
      by_cases h1 : s.prv = MachineMode
      · right
        intro h0
        simp [h1, h0] at he
      · exact Or.inl h1
    rw [if_pos ⟨hm, hen⟩]

set_option maxRecDepth 100000 in
/-- Claim C40 at `hsState` (HS mode, `mstatus.sie = 1`) with the timer interrupt pending at
each level: the Machine level is chosen; the constructed hart (Machine mode, `mstatus.mie =
0`) takes none. -/
theorem no_interrupt_below_current_level_witness :
    hsState.prv = SupervisorMode ∧
    hsState.compute_pending_interrupt timerPendings = some MachineMode ∧
    (ISS.init aiaCodes).compute_pending_interrupt timerPendings = some NoneMode ∧
    ∃ r, hsState.compute_pending_interrupt timerPendings = some r ∧
      (hsState.prv = MachineMode → r ≠ SupervisorMode ∧ r ≠ VirtualSupervisorMode) :=
  ⟨by decide, by decide, by decide,
    (no_interrupt_below_current_level hsState timerPendings).imp
      (fun r h => ⟨h.1, h.2.1⟩)⟩

/-! # Top interrupt registers -/

theorem set_field_idem2 (r a wa va b wb vb : Nat) :
    set_field (set_field (set_field (set_field r a wa va) b wb vb) a wa va) b wb vb =
      set_field (set_field r a wa va) b wb vb := by
  apply Nat.eq_of_testBit_eq
  intro i
  simp only [testBit_set_field]
  generalize r.testBit i = x
  generalize va.testBit (i - a) = y
  generalize vb.testBit (i - b) = z
  generalize decide (i < 32) = c
  generalize decide (a ≤ i) = p1
  generalize decide (i - a < wa) = p2
  generalize decide (b ≤ i) = q1
  generalize decide (i - b < wb) = q2
  cases x <;> cases y <;> cases z <;> cases c <;> cases p1 <;> cases p2 <;> cases q1 <;>
    cases q2 <;> rfl

theorem set_iid_iprio_idem (t : csr_topi) (e p : Nat) :
    (t.set_iid_iprio e p).set_iid_iprio e p = t.set_iid_iprio e p := by
  unfold csr_topi.set_iid_iprio
  simp only [set_field_idem2]

theorem prepare_xtopi_congr (cp : CprioDecls) (d : IrqDecls) (s : ISS) (a b c : csr_topi)
    (level pend : Nat) :
    major_irq_prepare_iid_prio cp d
        { s with csrs := { s.csrs with mtopi := a, stopi := b, vstopi := c } } level pend =
      s.major_irq_prepare_iid_prio cp d level pend := rfl

theorem new_xtopi_congr (cp : CprioDecls) (d : IrqDecls) (s : ISS) (a b c : csr_topi)
    (level pend : Nat) (t : csr_topi) :
    new_xtopi cp d
        { s with csrs := { s.csrs with mtopi := a, stopi := b, vstopi := c } } level pend t =
      s.new_xtopi cp d level pend t := rfl

theorem recalc_xtopi_eq (cp : CprioDecls) (d : IrqDecls) (s : ISS) (p : PendingInterrupts) :
    s.recalc_xtopi cp d p =
      match s.new_xtopi cp d MachineMode p.m_pending s.csrs.mtopi with
      | none => none
      | some a =>
        match s.new_xtopi cp d SupervisorMode p.s_hs_pending s.csrs.stopi with
        | none => none
        | some b =>
          match s.new_xtopi cp d VirtualSupervisorMode p.vs_pending s.csrs.vstopi with
          | none => none
          | some c =>
            some { s with csrs := { s.csrs with mtopi := a, stopi := b, vstopi := c } } := by
  rfl

theorem new_xtopi_zero (cp : CprioDecls) (d : IrqDecls) (s : ISS) (level : Nat) (t : csr_topi) :
    s.new_xtopi cp d level 0 t = some { reg := 0 } := by
  unfold new_xtopi
  simp

theorem new_xtopi_some (cp : CprioDecls) (d : IrqDecls) (s : ISS) (level pend : Nat)
    (t : csr_topi) (h0 : pend ≠ 0)
    (hp : s.major_irq_prepare_iid_prio cp d level pend ≠ none) :
    ∃ a, s.new_xtopi cp d level pend t = some a := by
  unfold new_xtopi
  rw [if_pos h0]
  cases hr : s.major_irq_prepare_iid_prio cp d level pend with
  | none => exact absurd hr hp
  | some r => exact ⟨_, rfl⟩

theorem new_xtopi_idem (cp : CprioDecls) (d : IrqDecls) (s : ISS) (level pend : Nat)
    (t a : csr_topi) (h : s.new_xtopi cp d level pend t = some a) :
    s.new_xtopi cp d level pend a = some a := by
  unfold new_xtopi at *
  by_cases h0 : pend ≠ 0
  · rw [if_pos h0] at h ⊢
    cases hr : s.major_irq_prepare_iid_prio cp d level pend with
    | none => rw [hr] at h; exact absurd h (by simp)
    | some r =>
      rw [hr] at h
      simp only [Option.some.injEq] at h
      subst h
      simp only [set_iid_iprio_idem]
  · rw [if_neg h0] at h ⊢
    exact h

theorem recalc_xtopi_some (cp : CprioDecls) (d : IrqDecls) (s s' : ISS)
    (p : PendingInterrupts) (h : s.recalc_xtopi cp d p = some s') :
    ∃ a b c, s.new_xtopi cp d MachineMode p.m_pending s.csrs.mtopi = some a ∧
      s.new_xtopi cp d SupervisorMode p.s_hs_pending s.csrs.stopi = some b ∧
      s.new_xtopi cp d VirtualSupervisorMode p.vs_pending s.csrs.vstopi = some c ∧
      s' = { s with csrs := { s.csrs with mtopi := a, stopi := b, vstopi := c } } := by
  rw [recalc_xtopi_eq] at h
  cases h1 : s.new_xtopi cp d MachineMode p.m_pending s.csrs.mtopi with
  | none => rw [h1] at h; exact absurd h (by simp)
  | some a =>
    cases h2 : s.new_xtopi cp d SupervisorMode p.s_hs_pending s.csrs.stopi with
    | none => rw [h1, h2] at h; exact absurd h (by simp)
    | some b =>
      cases h3 : s.new_xtopi cp d VirtualSupervisorMode p.vs_pending s.csrs.vstopi with
      | none => rw [h1, h2, h3] at h; exact absurd h (by simp)
      | some c =>
        rw [h1, h2, h3] at h
        simp only [Option.some.injEq] at h
        exact ⟨a, b, c, rfl, rfl, rfl, h.symm⟩

theorem recalc_xtopi_of_some (cp : CprioDecls) (d : IrqDecls) (s : ISS)
    (p : PendingInterrupts) (a b c : csr_topi)
    (h1 : s.new_xtopi cp d MachineMode p.m_pending s.csrs.mtopi = some a)
    (h2 : s.new_xtopi cp d SupervisorMode p.s_hs_pending s.csrs.stopi = some b)
    (h3 : s.new_xtopi cp d VirtualSupervisorMode p.vs_pending s.csrs.vstopi = some c) :
    s.recalc_xtopi cp d p =
      some { s with csrs := { s.csrs with mtopi := a, stopi := b, vstopi := c } } := by
  rw [recalc_xtopi_eq, h1, h2, h3]

/-- Claim C33. Whenever `recalc_xtopi` returns, for each level whose pending set passed in
is 0 the whole register `mtopi`, `stopi` or `vstopi` is 0 afterwards; and `recalc_xtopi`
returns when `major_irq_prepare_iid_prio` does not throw for the levels with a non-zero
pending set. -/
theorem recalc_xtopi_clears (cp : CprioDecls) (d : IrqDecls) (s : ISS)
    (p : PendingInterrupts) :
    (∀ s', s.recalc_xtopi cp d p = some s' →
      (p.m_pending = 0 → s'.csrs.mtopi.reg = 0) ∧
      (p.s_hs_pending = 0 → s'.csrs.stopi.reg = 0) ∧
      (p.vs_pending = 0 → s'.csrs.vstopi.reg = 0)) ∧
    ((p.m_pending ≠ 0 → s.major_irq_prepare_iid_prio cp d MachineMode p.m_pending ≠ none) →
      (p.s_hs_pending ≠ 0 →
        s.major_irq_prepare_iid_prio cp d SupervisorMode p.s_hs_pending ≠ none) →
      (p.vs_pending ≠ 0 →
        s.major_irq_prepare_iid_prio cp d VirtualSupervisorMode p.vs_pending ≠ none) →
      ∃ s', s.recalc_xtopi cp d p = some s') := by
  constructor
  · intro s' h
    obtain ⟨a, b, c, h1, h2, h3, hs⟩ := recalc_xtopi_some cp d s s' p h
    subst hs
    refine ⟨?_, ?_, ?_⟩
    · intro h0
      rw [h0, new_xtopi_zero] at h1
      simp only [Option.some.injEq] at h1
      subst h1
      rfl
    · intro h0
      rw [h0, new_xtopi_zero] at h2
      simp only [Option.some.injEq] at h2
      subst h2
      rfl
    · intro h0
      rw [h0, new_xtopi_zero] at h3
      simp only [Option.some.injEq] at h3
      subst h3
      rfl
  · intro hm hs hv
    have e : ∀ level pend t, (pend ≠ 0 → s.major_irq_prepare_iid_prio cp d level pend ≠ none) →
        ∃ a, s.new_xtopi cp d level pend t = some a := by
      intro level pend t hh
      by_cases h0 : pend = 0
      · rw [h0]; exact ⟨_, new_xtopi_zero cp d s level t⟩
      · exact new_xtopi_some cp d s level pend t h0 (hh h0)
    obtain ⟨a, h1⟩ := e MachineMode p.m_pending s.csrs.mtopi hm
    obtain ⟨b, h2⟩ := e SupervisorMode p.s_hs_pending s.csrs.stopi hs
    obtain ⟨c, h3⟩ := e VirtualSupervisorMode p.vs_pending s.csrs.vstopi hv
    exact ⟨_, recalc_xtopi_of_some cp d s p a b c h1 h2 h3⟩

set_option maxRecDepth 100000 in
/-- Claim C33 at `timerPendingState`, where `stopi` holds `0x50003`, with only the Machine
timer interrupt pending: `recalc_xtopi` returns, `mtopi` reports id 7, and `stopi` and
`vstopi` are 0. -/
theorem recalc_xtopi_clears_witness :
    timerPendingState.csrs.stopi.reg = 0x50003 ∧
    (∃ s', timerPendingState.recalc_xtopi sampleCprio sampleDecls mtimerPendings = some s' ∧
      s'.csrs.mtopi.reg = 0x70000 ∧ s'.csrs.stopi.reg = 0 ∧ s'.csrs.vstopi.reg = 0) ∧
    (∀ s', timerPendingState.recalc_xtopi sampleCprio sampleDecls mtimerPendings = some s' →
      s'.csrs.stopi.reg = 0) :=
  ⟨by decide, by decide,
    fun s' h => ((recalc_xtopi_clears sampleCprio sampleDecls timerPendingState
      mtimerPendings).1 s' h).2.1 (by decide)⟩

/-! # Idempotence of the recomputation -/

theorem hw_write_mip_idem (c : csrs_clint_pend) (iid : Nat) (set : Bool) :
    ((c.hw_write_mip iid set).1.hw_write_mip iid set).1 = (c.hw_write_mip iid set).1 := by
  unfold csrs_clint_pend.hw_write_mip
  simp only
  congr 1
  apply Nat.eq_of_testBit_eq
  intro i
  simp only [testBit_write_64]
  generalize c.mip.testBit i = x
  generalize (MIP_READ_MASK &&& BIT iid).testBit i = y
  generalize ((if set = true then 1 else 0) <<< iid).testBit i = z
  generalize decide (i < 64) = w
  cases x <;> cases y <;> cases z <;> cases w <;> rfl

theorem set_topei_idem (s : ISS) (level v : Nat) :
    (s.set_topei level v).set_topei level v = s.set_topei level v := by
  have hS : ¬ (SupervisorMode = MachineMode) := by decide
  unfold set_topei
  by_cases h1 : level = MachineMode
  · subst h1
    simp only [if_true, set_field_idem2]
  · by_cases h2 : level = SupervisorMode
    · subst h2
      simp only [hS, if_true, if_false, set_field_idem2]
    · simp only [h1, h2, if_false, set_field_idem2]

theorem compute_m_idem (s : ISS) :
    s.compute_imsic_pending_interrupts_m.compute_imsic_pending_interrupts_m =
      s.compute_imsic_pending_interrupts_m := by
  have h : ∀ (b : Bool) (v : Nat),
      compute_imsic_pending_interrupts_m
        ((ISS.hw_write_mip s EXC_M_EXTERNAL_INTERRUPT b).set_topei MachineMode v) =
      (ISS.hw_write_mip ((ISS.hw_write_mip s EXC_M_EXTERNAL_INTERRUPT b).set_topei MachineMode v)
        EXC_M_EXTERNAL_INTERRUPT
        (compute_imsic_pending s.icsrs_m.eip s.icsrs_m.eie eip_eie_arr_size
          s.icsrs_m.eithreshold s.icsrs_m.eidelivery
          (s.is_irq_mode_snps_nested_vectored MachineMode)).1).set_topei MachineMode
        (compute_imsic_pending s.icsrs_m.eip s.icsrs_m.eie eip_eie_arr_size
          s.icsrs_m.eithreshold s.icsrs_m.eidelivery
          (s.is_irq_mode_snps_nested_vectored MachineMode)).2 := fun _ _ => rfl
  have hc : ∀ (b : Bool) (v : Nat),
      ISS.hw_write_mip ((ISS.hw_write_mip s EXC_M_EXTERNAL_INTERRUPT b).set_topei MachineMode v)
        EXC_M_EXTERNAL_INTERRUPT b =
      (ISS.hw_write_mip s EXC_M_EXTERNAL_INTERRUPT b).set_topei MachineMode v := by
    intro b v
    have := hw_write_mip_idem s.csrs.clint EXC_M_EXTERNAL_INTERRUPT b
    unfold ISS.hw_write_mip set_topei
    simp only [if_true]
    rw [this]
  have e : s.compute_imsic_pending_interrupts_m =
      (ISS.hw_write_mip s EXC_M_EXTERNAL_INTERRUPT
        (compute_imsic_pending s.icsrs_m.eip s.icsrs_m.eie eip_eie_arr_size
          s.icsrs_m.eithreshold s.icsrs_m.eidelivery
          (s.is_irq_mode_snps_nested_vectored MachineMode)).1).set_topei MachineMode
        (compute_imsic_pending s.icsrs_m.eip s.icsrs_m.eie eip_eie_arr_size
          s.icsrs_m.eithreshold s.icsrs_m.eidelivery
          (s.is_irq_mode_snps_nested_vectored MachineMode)).2 := rfl
  rw [e, h, hc, set_topei_idem]

theorem compute_s_idem (s : ISS) :
    s.compute_imsic_pending_interrupts_s.compute_imsic_pending_interrupts_s =
      s.compute_imsic_pending_interrupts_s := by
  have hS : ¬ (SupervisorMode = MachineMode) := by decide
  have h : ∀ (b : Bool) (v : Nat),
      compute_imsic_pending_interrupts_s
        ((ISS.hw_write_mip s EXC_S_EXTERNAL_INTERRUPT b).set_topei SupervisorMode v) =
      (ISS.hw_write_mip ((ISS.hw_write_mip s EXC_S_EXTERNAL_INTERRUPT b).set_topei SupervisorMode v)
        EXC_S_EXTERNAL_INTERRUPT
        (compute_imsic_pending s.icsrs_s.eip s.icsrs_s.eie eip_eie_arr_size
          s.icsrs_s.eithreshold s.icsrs_s.eidelivery
          (s.is_irq_mode_snps_nested_vectored SupervisorMode)).1).set_topei SupervisorMode
        (compute_imsic_pending s.icsrs_s.eip s.icsrs_s.eie eip_eie_arr_size
          s.icsrs_s.eithreshold s.icsrs_s.eidelivery
          (s.is_irq_mode_snps_nested_vectored SupervisorMode)).2 := fun _ _ => rfl
  have hc : ∀ (b : Bool) (v : Nat),
      ISS.hw_write_mip ((ISS.hw_write_mip s EXC_S_EXTERNAL_INTERRUPT b).set_topei SupervisorMode v)
        EXC_S_EXTERNAL_INTERRUPT b =
      (ISS.hw_write_mip s EXC_S_EXTERNAL_INTERRUPT b).set_topei SupervisorMode v := by
    intro b v
    have := hw_write_mip_idem s.csrs.clint EXC_S_EXTERNAL_INTERRUPT b
    unfold ISS.hw_write_mip set_topei
    simp only [hS, if_true, if_false]
    rw [this]
  have e : s.compute_imsic_pending_interrupts_s =
      (ISS.hw_write_mip s EXC_S_EXTERNAL_INTERRUPT
        (compute_imsic_pending s.icsrs_s.eip s.icsrs_s.eie eip_eie_arr_size
          s.icsrs_s.eithreshold s.icsrs_s.eidelivery
          (s.is_irq_mode_snps_nested_vectored SupervisorMode)).1).set_topei SupervisorMode
        (compute_imsic_pending s.icsrs_s.eip s.icsrs_s.eie eip_eie_arr_size
          s.icsrs_s.eithreshold s.icsrs_s.eidelivery
          (s.is_irq_mode_snps_nested_vectored SupervisorMode)).2 := rfl
  rw [e, h, hc, set_topei_idem]

theorem recompute_xtopi_idem (cp : CprioDecls) (d : IrqDecls) (s s1 : ISS)
    (h : s.recompute_xtopi cp d = some s1) : s1.recompute_xtopi cp d = some s1 := by
  obtain ⟨a, b, c, h1, h2, h3, hs⟩ := recalc_xtopi_some cp d s s1 _ h
  subst hs
  exact recalc_xtopi_of_some cp d _ _ a b c
    (new_xtopi_idem cp d s _ _ _ a h1) (new_xtopi_idem cp d s _ _ _ b h2)
    (new_xtopi_idem cp d s _ _ _ c h3)

/-- Claim C32. If the chain `compute_clint_pending_irq_bits_per_level`,
`process_clint_pending_irq_bits_per_level`, `recalc_xtopi` returns state `s1`, then run again
on `s1` it returns a state with the same `mtopi`, `stopi` and `vstopi`, in fact `s1` itself;
and `compute_imsic_pending_interrupts_m` (`_s`) run twice leaves `mip` and `mtopei`
(`stopei`), in fact the whole state, as after the first run. -/
theorem recompute_idempotent (cp : CprioDecls) (d : IrqDecls) (s : ISS) :
    (∀ s1, s.recompute_xtopi cp d = some s1 →
      ∃ s2, s1.recompute_xtopi cp d = some s2 ∧ s2.csrs.mtopi = s1.csrs.mtopi ∧
        s2.csrs.stopi = s1.csrs.stopi ∧ s2.csrs.vstopi = s1.csrs.vstopi ∧ s2 = s1) ∧
    (s.compute_imsic_pending_interrupts_m.compute_imsic_pending_interrupts_m.csrs.clint.mip =
        s.compute_imsic_pending_interrupts_m.csrs.clint.mip ∧
      s.compute_imsic_pending_interrupts_m.compute_imsic_pending_interrupts_m.csrs.mtopei =
        s.compute_imsic_pending_interrupts_m.csrs.mtopei ∧
      s.compute_imsic_pending_interrupts_m.compute_imsic_pending_interrupts_m =
        s.compute_imsic_pending_interrupts_m) ∧
    (s.compute_imsic_pending_interrupts_s.compute_imsic_pending_interrupts_s.csrs.clint.mip =
        s.compute_imsic_pending_interrupts_s.csrs.clint.mip ∧
      s.compute_imsic_pending_interrupts_s.compute_imsic_pending_interrupts_s.csrs.stopei =
        s.compute_imsic_pending_interrupts_s.csrs.stopei ∧
      s.compute_imsic_pending_interrupts_s.compute_imsic_pending_interrupts_s =
        s.compute_imsic_pending_interrupts_s) := by
  refine ⟨fun s1 h => ⟨s1, recompute_xtopi_idem cp d s s1 h, rfl, rfl, rfl, rfl⟩, ?_, ?_⟩
  · rw [compute_m_idem]; exact ⟨rfl, rfl, rfl⟩
  · rw [compute_s_idem]; exact ⟨rfl, rfl, rfl⟩

set_option maxRecDepth 100000 in
/-- Claim C32 at `timerPendingState`: the chain returns with `mtopi` reporting id 7 and
`stopi` 0, and a second run returns the same `mtopi`. -/
theorem recompute_idempotent_witness :
    (∃ s1, timerPendingState.recompute_xtopi sampleCprio sampleDecls = some s1 ∧
      s1.csrs.mtopi.reg = 0x70000 ∧ s1.csrs.stopi.reg = 0 ∧
      ∃ s2, s1.recompute_xtopi sampleCprio sampleDecls = some s2 ∧
        s2.csrs.mtopi = s1.csrs.mtopi) ∧
    dispatchState.compute_imsic_pending_interrupts_m.csrs.mtopei.reg = 0x50005 :=
  ⟨⟨_, rfl, by decide, by decide,
      ((recompute_idempotent sampleCprio sampleDecls timerPendingState).1 _ rfl).imp
        (fun s2 h => ⟨h.1, h.2.1⟩)⟩,
    by decide⟩

/-! # Closure of the file recomputation -/

theorem topei_iid_set_mod (r v : Nat) :
    get_field (set_field (set_field r 16 12 v) 0 8 v) 16 12 = v % 2 ^ 12 := by
  apply Nat.eq_of_testBit_eq
  intro i
  rw [testBit_get_field, testBit_set_field, testBit_set_field, Nat.testBit_mod_two_pow]
  by_cases hi : i < 12
  · have h1 : ¬ (16 + i - 0 < 8) := by omega
    have h2 : 16 + i < 32 := by omega
    have h3 : 16 ≤ 16 + i := by omega
    have h4 : 16 + i - 16 = i := by omega
    have h5 : ¬ (16 + i < 8) := by omega
    simp [hi, h1, h2, h3, h4, h5]
  · simp [hi]

theorem file_closed_of_final (s : ISS) (level : Nat) (b : Bool) (v : Nat)
    (hl : level = MachineMode ∨ level = SupervisorMode ∨ level = VirtualSupervisorMode)
    (hout : ((ISS.hw_write_mip s (get_external_iid level) b).set_topei level v).file_output
      level = (b, v)) :
    ((ISS.hw_write_mip s (get_external_iid level) b).set_topei level v).file_closed level := by
  have hS : ¬ (SupervisorMode = MachineMode) := by decide
  have hV : ¬ (VirtualSupervisorMode = MachineMode) := by decide
  have hVS : ¬ (VirtualSupervisorMode = SupervisorMode) := by decide
  unfold file_closed
  rw [hout]
  rcases hl with h | h | h <;> subst h
  · constructor
    · show (s.csrs.clint.hw_write_mip EXC_M_EXTERNAL_INTERRUPT b).1.mip.testBit 11 = b
      exact testBit_hw_write_mip_self _ _ _ (by decide)
    · exact topei_iid_set_mod _ _
  · constructor
    · show (s.csrs.clint.hw_write_mip EXC_S_EXTERNAL_INTERRUPT b).1.mip.testBit 9 = b
      exact testBit_hw_write_mip_self _ _ _ (by decide)
    · unfold get_topei set_topei csr_topei.iid
      simp only [hS, if_false, if_true]
      exact topei_iid_set_mod _ _
  · constructor
    · show (s.csrs.clint.hw_write_mip EXC_VS_EXTERNAL_INTERRUPT b).1.mip.testBit 10 = b
      exact testBit_hw_write_mip_self _ _ _ (by decide)
    · unfold get_topei set_topei csr_topei.iid
      simp only [hV, hVS, if_false]
      exact topei_iid_set_mod _ _

theorem file_closed_compute_m (s : ISS) :
    s.compute_imsic_pending_interrupts_m.file_closed MachineMode :=
  file_closed_of_final s MachineMode _ _ (Or.inl rfl) rfl

theorem file_closed_compute_s (s : ISS) :
    s.compute_imsic_pending_interrupts_s.file_closed SupervisorMode :=
  file_closed_of_final s SupervisorMode _ _ (Or.inr (Or.inl rfl)) rfl

theorem imsic_frame_guest (a b : ISS) (h : a.imsic_frame b) :
    b.csrs.hstatus = a.csrs.hstatus ∧ ∀ i, b.guest_pending i = a.guest_pending i := by
  obtain ⟨e1, e2, t1, t2, t3, g, m, hb⟩ := h
  subst hb
  exact ⟨rfl, fun _ => rfl⟩

theorem compute_vs_closed (d : IrqDecls) (hv : d.codes.Valid) (fuel : Nat) (s : ISS)
    (hc : s.csrs.hstatus.is_imsic_connected = true) :
    ∃ s', compute_imsic_pending_interrupts_vs (clint_hw_irq_route d (fuel + 1)) s = some s' ∧
      s.imsic_frame s' ∧ s'.file_closed VirtualSupervisorMode := by
  unfold compute_imsic_pending_interrupts_vs
  rw [vs_fold_spec]
  obtain ⟨s2, h2, f2, g2, l2⟩ := recalc_sgeip_spec d hv fuel
    { s with csrs := { s.csrs with
        hgeip := (List.range MAX_GUEST).foldl
          (fun h i => h.set_guest_pending i (s.guest_pending i).1) s.csrs.hgeip } }
  simp only [h2]
  have f1 : s.imsic_frame { s with csrs := { s.csrs with
        hgeip := (List.range MAX_GUEST).foldl
          (fun h i => h.set_guest_pending i (s.guest_pending i).1) s.csrs.hgeip } } :=
    ⟨s.icsrs_m.eip, s.icsrs_s.eip, s.csrs.mtopei, s.csrs.stopei, s.csrs.vstopei, _,
      s.csrs.clint.mip, rfl⟩
  have f12 := imsic_frame_trans _ _ _ f1 f2
  have hh := (imsic_frame_guest _ _ f12).1
  have hgp := (imsic_frame_guest _ _ f12).2
  have hc2 : s2.csrs.hstatus.is_imsic_connected = true := by rw [hh]; exact hc
  rw [if_pos hc2]
  refine ⟨_, rfl, imsic_frame_trans _ _ _ f12 (imsic_frame_vs_final s2 _ _).1, ?_⟩
  apply file_closed_of_final s2 VirtualSupervisorMode _ _ (Or.inr (Or.inr rfl))
  have hg : s2.csrs.hstatus.get_guest_id < MAX_GUEST := get_guest_id_lt _
  have hr : ([] ++ List.map s.guest_pending (List.range MAX_GUEST)).getD
      s2.csrs.hstatus.get_guest_id (false, 0) = s.guest_pending s2.csrs.hstatus.get_guest_id := by
    simp only [List.nil_append, List.getD_eq_getElem?_getD, List.getElem?_map,
      List.getElem?_range hg, Option.map_some', Option.getD_some]
  rw [hr]
  show s2.guest_pending s2.csrs.hstatus.get_guest_id = _
  rw [hgp]

theorem claim_spec (d : IrqDecls) (hv : d.codes.Valid) (fuel : Nat) (s : ISS)
    (level : Nat) (mark : Bool)
    (hl : level = MachineMode ∨ level = SupervisorMode ∨ level = VirtualSupervisorMode)
    (hvs : level = VirtualSupervisorMode → s.csrs.hstatus.is_imsic_connected = true)
    (hbank : s.icsrs_vs.bank.length = MAX_GUEST) :
    ∃ s', claim_topei_interrupt (clint_hw_irq_route d (fuel + 1)) s level mark = some s' ∧
      s'.file_eie (s.level_file level) = s.file_eie (s.level_file level) ∧
      s'.file_eip (s.level_file level) =
        (if mark = true then s.file_eip (s.level_file level)
          else imsic_update_eip_bit (s.file_eip (s.level_file level))
            (s.get_topei level).iid false) ∧
      s'.file_eithreshold (s.level_file level) =
        (if mark = true then (s.file_eithreshold (s.level_file level)).mark_irq_as_handled
          else s.file_eithreshold (s.level_file level)) ∧
      s'.file_closed level := by
  rcases hl with h | h | h
  · subst h
    unfold claim_topei_interrupt
    rw [if_pos rfl]
    cases mark
    · exact ⟨_, rfl, rfl, rfl, rfl, file_closed_compute_m _⟩
    · exact ⟨_, rfl, rfl, rfl, rfl, file_closed_compute_m _⟩
  · subst h
    unfold claim_topei_interrupt
    rw [if_neg (by decide), if_pos rfl]
    cases mark
    · exact ⟨_, rfl, rfl, rfl, rfl, file_closed_compute_s _⟩
    · exact ⟨_, rfl, rfl, rfl, rfl, file_closed_compute_s _⟩
  · subst h
    have hc := hvs rfl
    have hg : s.csrs.hstatus.get_guest_id < s.icsrs_vs.bank.length := by
      rw [hbank]; exact get_guest_id_lt _
    unfold claim_topei_interrupt
    rw [if_neg (by decide), if_neg (by decide)]
    simp only []
    rw [if_pos (show _ = true from hc)]
    cases mark
    · simp only [Bool.false_eq_true, if_false]
      obtain ⟨s', h1, f, hcl⟩ := compute_vs_closed d hv fuel
        { s with icsrs_vs := { s.icsrs_vs with
            bank := s.icsrs_vs.bank.set s.csrs.hstatus.get_guest_id
              { s.icsrs_vs.bank.getD s.csrs.hstatus.get_guest_id no_bank with
                eip := imsic_update_eip_bit
                  (s.icsrs_vs.bank.getD s.csrs.hstatus.get_guest_id no_bank).eip
                  (s.get_topei VirtualSupervisorMode).iid false } } } hc
      have hvs' := imsic_frame_icsrs_vs _ _ f
      refine ⟨s', h1, ?_, ?_, ?_, hcl⟩
      · show (s'.icsrs_vs.bank.getD s.csrs.hstatus.get_guest_id no_bank).eie = _
        rw [hvs']
        show ((s.icsrs_vs.bank.set _ _).getD s.csrs.hstatus.get_guest_id no_bank).eie = _
        rw [getD_set_bank _ _ _ _ hg]
        rfl
      · show (s'.icsrs_vs.bank.getD s.csrs.hstatus.get_guest_id no_bank).eip = _
        rw [hvs']
        show ((s.icsrs_vs.bank.set _ _).getD s.csrs.hstatus.get_guest_id no_bank).eip = _
        rw [getD_set_bank _ _ _ _ hg]
        rfl
      · show (s'.icsrs_vs.bank.getD s.csrs.hstatus.get_guest_id no_bank).eithreshold = _
        rw [hvs']
        show ((s.icsrs_vs.bank.set _ _).getD s.csrs.hstatus.get_guest_id
          no_bank).eithreshold = _
        rw [getD_set_bank _ _ _ _ hg]
        rfl
    · simp only [if_true]
      obtain ⟨s', h1, f, hcl⟩ := compute_vs_closed d hv fuel
        { s with icsrs_vs := { s.icsrs_vs with
            bank := s.icsrs_vs.bank.set s.csrs.hstatus.get_guest_id
              { s.icsrs_vs.bank.getD s.csrs.hstatus.get_guest_id no_bank with
                eithreshold := (s.icsrs_vs.bank.getD s.csrs.hstatus.get_guest_id
                  no_bank).eithreshold.mark_irq_as_handled } } } hc
      have hvs' := imsic_frame_icsrs_vs _ _ f
      refine ⟨s', h1, ?_, ?_, ?_, hcl⟩
      · show (s'.icsrs_vs.bank.getD s.csrs.hstatus.get_guest_id no_bank).eie = _
        rw [hvs']
        show ((s.icsrs_vs.bank.set _ _).getD s.csrs.hstatus.get_guest_id no_bank).eie = _
        rw [getD_set_bank _ _ _ _ hg]
        rfl
      · show (s'.icsrs_vs.bank.getD s.csrs.hstatus.get_guest_id no_bank).eip = _
        rw [hvs']
        show ((s.icsrs_vs.bank.set _ _).getD s.csrs.hstatus.get_guest_id no_bank).eip = _
        rw [getD_set_bank _ _ _ _ hg]
        rfl
      · show (s'.icsrs_vs.bank.getD s.csrs.hstatus.get_guest_id no_bank).eithreshold = _
        rw [hvs']
        show ((s.icsrs_vs.bank.set _ _).getD s.csrs.hstatus.get_guest_id
          no_bank).eithreshold = _
        rw [getD_set_bank _ _ _ _ hg]
        rfl

theorem eip_bit_clear (eip : List icsr_32) (t id : Nat) :
    eip_bit (imsic_update_eip_bit eip t false) id =
      (eip_bit eip id && !decide (id = t ∧ t ≠ 0)) := by
  unfold imsic_update_eip_bit eip_bit word_reg
  by_cases h0 : t = 0
  · simp [h0]
  · simp only [h0, if_false, Bool.false_eq_true, icsr_32.BITS_PER_CSR, getD_set_icsr]
    by_cases hw : t / 32 = id / 32 ∧ t / 32 < eip.length
    · rw [if_pos hw]
      simp only [Nat.testBit_mod_two_pow, Nat.testBit_and, testBit_not64, testBit_BIT]
      rw [hw.1]
      have h32 : id % 32 < 32 := Nat.mod_lt _ (by decide)
      have h64 : id % 32 < 64 := by omega
      by_cases hb : t % 32 = id % 32
      · have : id = t := by omega
        simp [h32, h64, hb, this, h0]
      · have : ¬ (id = t) := by intro e; rw [e] at hb; exact hb rfl
        simp [h32, h64, hb, this]
    · rw [if_neg hw]
      by_cases hid : id = t
      · subst hid
        have hlen : ¬ (id / 32 < eip.length) := fun h => hw ⟨rfl, h⟩
        have : eip.getD (id / 32) { reg := 0, mask := 0 } = { reg := 0, mask := 0 } := by
          simp only [List.getD_eq_getElem?_getD]
          rw [List.getElem?_eq_none (by omega)]
          rfl
        rw [this]
        simp
      · simp [hid]

/-! # Writes to the trap vector and to `xtopei` -/

set_option maxRecDepth 8000 in
theorem set_csr_value_mtopei (d : IrqDecls) (fuel : Nat) (s : ISS) (value : Nat)
    (read_accessed : Bool) :
    s.set_csr_value d fuel csr.MTOPEI_ADDR value read_accessed =
      write_arm_result (claim_topei_interrupt_on_xtopei (clint_hw_irq_route d fuel) s
        MachineMode value (!read_accessed)) := by
  unfold set_csr_value
  rw [virt_transform_id s csr.MTOPEI_ADDR (Or.inr (by decide))]
  simp [xtopei_write, csr.MIP_ADDR, csr.MIPH_ADDR, csr.SIP_ADDR, csr.SIPH_ADDR, csr.HIP_ADDR,
    csr.VSIP_ADDR, csr.VSIPH_ADDR, csr.MIE_ADDR, csr.MIEH_ADDR, csr.SIE_ADDR, csr.SIEH_ADDR,
    csr.HIE_ADDR, csr.VSIE_ADDR, csr.VSIEH_ADDR, csr.MVIP_ADDR, csr.MVIPH_ADDR, csr.MVIEN_ADDR,
    csr.MVIENH_ADDR, csr.HVIP_ADDR, csr.HVIPH_ADDR, csr.HVIEN_ADDR, csr.HVIENH_ADDR,
    csr.MIDELEG_ADDR, csr.MIDELEGH_ADDR, csr.HIDELEG_ADDR, csr.HIDELEGH_ADDR, csr.MTVEC_ADDR,
    csr.STVEC_ADDR, csr.VSTVEC_ADDR, csr.HVICTL_ADDR, csr.HGEIE_ADDR, csr.HGEIP_ADDR,
    csr.MTOPEI_ADDR]

set_option maxRecDepth 8000 in
theorem set_csr_value_mtvec (d : IrqDecls) (fuel : Nat) (s : ISS) (value : Nat)
    (read_accessed : Bool) :
    s.set_csr_value d fuel csr.MTVEC_ADDR value read_accessed =
      Result.ok () (on_xtvec_write
        { s with csrs := { s.csrs with mtvec := s.csrs.mtvec.checked_write value } }
        MachineMode) := by
  unfold set_csr_value
  rw [virt_transform_id s csr.MTVEC_ADDR (Or.inr (by decide))]
  simp [csr.MIP_ADDR, csr.MIPH_ADDR, csr.SIP_ADDR, csr.SIPH_ADDR, csr.HIP_ADDR,
    csr.VSIP_ADDR, csr.VSIPH_ADDR, csr.MIE_ADDR, csr.MIEH_ADDR, csr.SIE_ADDR, csr.SIEH_ADDR,
    csr.HIE_ADDR, csr.VSIE_ADDR, csr.VSIEH_ADDR, csr.MVIP_ADDR, csr.MVIPH_ADDR, csr.MVIEN_ADDR,
    csr.MVIENH_ADDR, csr.HVIP_ADDR, csr.HVIPH_ADDR, csr.HVIEN_ADDR, csr.HVIENH_ADDR,
    csr.MIDELEG_ADDR, csr.MIDELEGH_ADDR, csr.HIDELEG_ADDR, csr.HIDELEGH_ADDR, csr.MTVEC_ADDR]

/-- Claim C36. For a level M, S or VS (VS with a guest file selected)
`claim_topei_interrupt_on_xtopei` returns.  If the level is in nested-vectored mode, the
written value is 0 and the access is write-only, the `eip` array of the level's file is
unchanged and its `eithreshold` is `mark_irq_as_handled()` of the one before.  Otherwise the
`eithreshold` is unchanged and every `eip` bit is as before except the bit of the id reported
in `xtopei.iid`, which is cleared when that id is non-zero.  In both cases `eie` is
unchanged, and in the returned state the level's bit of `mip` and `xtopei.iid` are the output
of `compute_imsic_pending` on the file (`file_closed`).  A `set_csr_value` write to `mtopei`
is this call with `access_write_only = !read_accessed`. -/
theorem claim_through_xtopei (d : IrqDecls) (hv : d.codes.Valid) (fuel : Nat) (s : ISS)
    (level value : Nat) (access_write_only read_accessed : Bool)
    (hl : level = MachineMode ∨ level = SupervisorMode ∨ level = VirtualSupervisorMode)
    (hvs : level = VirtualSupervisorMode → s.csrs.hstatus.is_imsic_connected = true)
    (hbank : s.icsrs_vs.bank.length = MAX_GUEST) :
    (∃ s', claim_topei_interrupt_on_xtopei (clint_hw_irq_route d (fuel + 1)) s level value
        access_write_only = some s' ∧
      s'.file_eie (s.level_file level) = s.file_eie (s.level_file level) ∧
      (((s.get_xtvec level).mode = csr_mtvec.SnpsNestedVectored ∧ value = 0 ∧
          access_write_only = true) →
        s'.file_eip (s.level_file level) = s.file_eip (s.level_file level) ∧
        s'.file_eithreshold (s.level_file level) =
          (s.file_eithreshold (s.level_file level)).mark_irq_as_handled) ∧
      (¬ ((s.get_xtvec level).mode = csr_mtvec.SnpsNestedVectored ∧ value = 0 ∧
          access_write_only = true) →
        s'.file_eithreshold (s.level_file level) = s.file_eithreshold (s.level_file level) ∧
        ∀ id, eip_bit (s'.file_eip (s.level_file level)) id =
          (eip_bit (s.file_eip (s.level_file level)) id &&
            !decide (id = (s.get_topei level).iid ∧ (s.get_topei level).iid ≠ 0))) ∧
      s'.file_closed level) ∧
    s.set_csr_value d (fuel + 1) csr.MTOPEI_ADDR value read_accessed =
      write_arm_result (claim_topei_interrupt_on_xtopei (clint_hw_irq_route d (fuel + 1)) s
        MachineMode value (!read_accessed)) := by
  refine ⟨?_, set_csr_value_mtopei d (fuel + 1) s value read_accessed⟩
  unfold claim_topei_interrupt_on_xtopei
  obtain ⟨s', h, he, hp, ht, hc⟩ := claim_spec d hv fuel s level
    (s.is_irq_mode_snps_nested_vectored level && value == 0 && access_write_only) hl hvs hbank
  refine ⟨s', h, he, ?_, ?_, hc⟩
  · intro hpop
    have hm : (s.is_irq_mode_snps_nested_vectored level && value == 0 &&
        access_write_only) = true := by
      unfold is_irq_mode_snps_nested_vectored
      simp [hpop.1, hpop.2.1, hpop.2.2]
    rw [hm] at hp ht
    exact ⟨hp, ht⟩
  · intro hpop
    have hm : (s.is_irq_mode_snps_nested_vectored level && value == 0 &&
        access_write_only) = false := by
      cases hx : (s.is_irq_mode_snps_nested_vectored level && value == 0 &&
        access_write_only) with
      | false => rfl
      | true =>
        exfalso
        apply hpop
        unfold is_irq_mode_snps_nested_vectored at hx
        simp only [Bool.and_eq_true, beq_iff_eq] at hx
        exact ⟨hx.1.1, hx.1.2, hx.2⟩
    rw [hm] at hp ht
    simp only [Bool.false_eq_true, if_false] at hp ht
    refine ⟨ht, ?_⟩
    intro id
    rw [hp, eip_bit_clear]

set_option maxRecDepth 100000 in
/-- Claim C36 at `dispatchState` (Machine file with id 5 pending, `mtopei.iid = 5`): a write
of 5 to `mtopei` clears `eip` bit 5 and leaves `mtopei` 0. -/
theorem claim_through_xtopei_witness :
    sampleDecls.codes.Valid ∧ dispatchState.icsrs_vs.bank.length = MAX_GUEST ∧
    dispatchState.csrs.mtopei.iid = 5 ∧ eip_bit dispatchState.icsrs_m.eip 5 = true ∧
    (claim_topei_interrupt_on_xtopei (clint_hw_irq_route sampleDecls 1) dispatchState
        MachineMode 5 true).map (fun s => (eip_bit s.icsrs_m.eip 5, s.csrs.mtopei.reg)) =
      some (false, 0) ∧
    ∃ s', claim_topei_interrupt_on_xtopei (clint_hw_irq_route sampleDecls 1) dispatchState
        MachineMode 5 true = some s' ∧ s'.file_closed MachineMode :=
  ⟨by decide, by decide, by decide, by decide, by decide,
    (claim_through_xtopei sampleDecls (by decide) 0 dispatchState MachineMode 5 true false
      (Or.inl rfl) (fun h => absurd h (by decide)) (by decide)).1.imp
      (fun s' h => ⟨h.1, h.2.2.2.2⟩)⟩

/-! # Threshold after taking an interrupt -/

theorem update_with_new_irq_eq (t : icsr_eithreshold) (id : Nat)
    (hm : t.mode_snps_vectored = true) :
    t.update_with_new_irq id = t.tstack_insert (min id 255) := by
  unfold update_with_new_irq update_with_new_irq_snps_vectored is_tailed_iid
    NV_MODE_MAX_VECTOR
  rw [if_pos hm]
  by_cases hid : id > 255
  · simp only [hid, decide_True, if_true]
    rw [Nat.min_eq_right (by omega)]
  · simp only [hid, decide_False, Bool.false_eq_true, if_false]
    rw [Nat.min_eq_left (by omega)]

theorem asserted_top (eip eie : List icsr_32) (size : Nat) (th : icsr_eithreshold)
    (dl : icsr_eidelivery) (nv : Bool) (t : Nat)
    (h : compute_imsic_pending eip eie size th dl nv = (true, t)) :
    dl.delivery_on = true ∧ imsic_scan eip eie size 0 = t ∧
      t < (if th.reg = 0 then IMSIC_MAX_IRQS else th.reg) := by
  cases hd : dl.delivery_on with
  | false =>
    rw [compute_imsic_pending_off _ _ _ _ _ _ hd] at h
    exact absurd h (by simp)
  | true =>
    rw [compute_imsic_pending_on _ _ _ _ _ _ hd] at h
    simp only [Prod.mk.injEq, decide_eq_true_eq] at h
    obtain ⟨h1, h2⟩ := h
    have hc : (decide (imsic_scan eip eie size 0 <
        (if th.reg = 0 then IMSIC_MAX_IRQS else th.reg)) || nv) = true := by
      simp [h1]
    rw [if_pos hc] at h2
    subst h2
    exact ⟨rfl, rfl, h1⟩

theorem asserted_lowest (eip eie : List icsr_32) (th : icsr_eithreshold)
    (dl : icsr_eidelivery) (nv : Bool) (hw : ∀ k, word_reg eip k < 2 ^ 32)
    (hth : th.reg < IMSIC_MAX_IRQS)
    (h : (compute_imsic_pending eip eie eip_eie_arr_size th dl nv).1 = true) :
    is_lowest_pending_enabled eip eie (imsic_scan eip eie eip_eie_arr_size 0) ∧
      imsic_scan eip eie eip_eie_arr_size 0 < (if th.reg = 0 then IMSIC_MAX_IRQS else th.reg) := by
  have hmax : IMSIC_MAX_IRQS = 2048 := rfl
  have hno : NO_IRQ_PENDING = 4096 := by decide
  cases hd : dl.delivery_on with
  | false =>
    rw [compute_imsic_pending_off _ _ _ _ _ _ hd] at h
    exact absurd h (by simp)
  | true =>
    rw [compute_imsic_pending_on _ _ _ _ _ _ hd] at h
    simp only [decide_eq_true_eq] at h
    have hle : (if th.reg = 0 then IMSIC_MAX_IRQS else th.reg) ≤ 2048 := by
      rw [hmax] at hth ⊢; split <;> omega
    rcases imsic_scan_cases eip eie hw with ⟨hs, _⟩ | hlow
    · rw [hs, hno] at h
      omega
    · exact ⟨hlow, h⟩

theorem word_lt_update (eip : List icsr_32) (id : Nat) (set_bit : Bool)
    (hw : ∀ k, word_reg eip k < 2 ^ 32) :
    ∀ k, word_reg (imsic_update_eip_bit eip id set_bit) k < 2 ^ 32 := by
  intro k
  unfold imsic_update_eip_bit
  by_cases h0 : id = 0
  · rw [if_pos h0]; exact hw k
  · rw [if_neg h0]
    simp only []
    unfold word_reg
    cases set_bit
    · simp only [Bool.false_eq_true, if_false, getD_set_icsr]
      split
      · exact Nat.mod_lt _ (by decide)
      · exact hw k
    · simp only [if_true, getD_set_icsr]
      split
      · exact Nat.mod_lt _ (by decide)
      · exact hw k

/-- Claim C38. Let `mtvec` and the Machine `eithreshold` be in nested-vectored mode, the
`eip` words be 32-bit with bit 0 of `eip[0] & eie[0]` clear, the threshold below 2048, and
let `compute_imsic_pending` on the Machine file return `(true, t)` with `mtopei.iid = t`.
Then `notify_irq_taken(MachineMode)` returns, `t` is in 1..2047, the `eithreshold` head is
`min t 255`, `eip` bit `t` is cleared and the other `eip` bits and `eie` are unchanged,
the returned state is `file_closed`, and with the returned threshold the file asserts, for
any `eip`/`eie` content, only if some id below `min t 255` is pending and enabled; the same
for `mip` bit 11 of the returned state. -/
theorem threshold_after_taking (d : IrqDecls) (fuel : Nat) (s : ISS) (t : Nat)
    (hnv : s.csrs.mtvec.mode = csr_mtvec.SnpsNestedVectored)
    (hmode : s.icsrs_m.eithreshold.mode_snps_vectored = true)
    (hw : ∀ k, word_reg s.icsrs_m.eip k < 2 ^ 32)
    (h0 : (word_reg s.icsrs_m.eip 0 &&& word_reg s.icsrs_m.eie 0).testBit 0 = false)
    (hth : s.icsrs_m.eithreshold.reg < IMSIC_MAX_IRQS)
    (hout : s.file_output MachineMode = (true, t))
    (hiid : s.csrs.mtopei.iid = t) :
    ∃ s', notify_irq_taken (clint_hw_irq_route d fuel) s MachineMode = some s' ∧
      1 ≤ t ∧ t < IMSIC_MAX_IRQS ∧
      s'.icsrs_m.eithreshold.reg = min t 255 ∧
      eip_bit s'.icsrs_m.eip t = false ∧
      (∀ id, id ≠ t → eip_bit s'.icsrs_m.eip id = eip_bit s.icsrs_m.eip id) ∧
      s'.icsrs_m.eie = s.icsrs_m.eie ∧
      s'.file_closed MachineMode ∧
      (∀ eip eie : List icsr_32, (∀ k, word_reg eip k < 2 ^ 32) →
        (compute_imsic_pending eip eie eip_eie_arr_size s'.icsrs_m.eithreshold
          s'.icsrs_m.eidelivery (s'.is_irq_mode_snps_nested_vectored MachineMode)).1 = true →
        ∃ c, c < min t 255 ∧ eip_eie_bit eip eie c = true) ∧
      (s'.csrs.clint.mip.testBit 11 = true →
        ∃ c, c < min t 255 ∧ eip_eie_bit s'.icsrs_m.eip s'.icsrs_m.eie c = true) := by
  have hmax : IMSIC_MAX_IRQS = 2048 := rfl
  have hnvb : s.is_irq_mode_snps_nested_vectored MachineMode = true := by
    unfold is_irq_mode_snps_nested_vectored get_xtvec
    simp [hnv]
  have hout' : compute_imsic_pending s.icsrs_m.eip s.icsrs_m.eie eip_eie_arr_size
      s.icsrs_m.eithreshold s.icsrs_m.eidelivery
      (s.is_irq_mode_snps_nested_vectored MachineMode) = (true, t) := hout
  obtain ⟨hd, hscan, hlt⟩ := asserted_top _ _ _ _ _ _ _ hout'
  have hlow := (asserted_lowest _ _ _ _ _ hw hth (by rw [hout'])).1
  rw [hscan] at hlow
  have ht1 : 1 ≤ t := lowest_ne_zero _ _ _ h0 hlow
  have ht2 : t < 2048 := hlow.1
  have hreg : (s.icsrs_m.eithreshold.update_with_new_irq t).reg = min t 255 := by
    rw [update_with_new_irq_eq _ _ hmode, tstack_insert_reg]
    rw [hmax] at hlt
    by_cases hu : s.icsrs_m.eithreshold.reg = 0 ∨ 255 < s.icsrs_m.eithreshold.reg
    · rw [if_pos hu]
    · rw [if_neg hu]
      have hne : ¬ (s.icsrs_m.eithreshold.reg = 0) := fun e => hu (Or.inl e)
      rw [if_neg hne] at hlt
      have : s.icsrs_m.eithreshold.reg > min t 255 := by omega
      rw [if_pos this]
  have hgen : ∀ (th : icsr_eithreshold) (dl : icsr_eidelivery) (nv : Bool)
      (eip eie : List icsr_32), th.reg = min t 255 → (∀ k, word_reg eip k < 2 ^ 32) →
      (compute_imsic_pending eip eie eip_eie_arr_size th dl nv).1 = true →
      ∃ c, c < min t 255 ∧ eip_eie_bit eip eie c = true := by
    intro th dl nv eip eie hr hw' ha
    have hth' : th.reg < IMSIC_MAX_IRQS := by rw [hr, hmax]; omega
    obtain ⟨l1, l2⟩ := asserted_lowest eip eie th dl nv hw' hth' ha
    have hne : ¬ (th.reg = 0) := by rw [hr]; omega
    rw [if_neg hne, hr] at l2
    exact ⟨_, l2, l1.2.1⟩
  unfold notify_irq_taken
  rw [if_pos rfl, if_pos hnvb]
  have hiid' : (s.get_topei MachineMode).iid = t := hiid
  rw [hiid']
  unfold claim_topei_interrupt_internal claim_topei_interrupt
  rw [if_pos rfl]
  simp only [Bool.false_eq_true, if_false]
  have hiid2 : (get_topei { s with icsrs_m := { s.icsrs_m with
      eithreshold := s.icsrs_m.eithreshold.update_with_new_irq t } } MachineMode).iid = t := hiid
  rw [hiid2]
  refine ⟨_, rfl, ht1, ht2, hreg, ?_, ?_, rfl, file_closed_compute_m _, ?_, ?_⟩
  · show eip_bit (imsic_update_eip_bit s.icsrs_m.eip t false) t = false
    rw [eip_bit_clear]
    have : t ≠ 0 := by omega
    simp [this]
  · intro id hid
    show eip_bit (imsic_update_eip_bit s.icsrs_m.eip t false) id = _
    rw [eip_bit_clear]
    simp [hid]
  · intro eip eie hw' ha
    exact hgen _ _ _ eip eie hreg hw' ha
  · intro hb
    have hcl := file_closed_compute_m { s with icsrs_m := { s.icsrs_m with
      eithreshold := s.icsrs_m.eithreshold.update_with_new_irq t
      eip := imsic_update_eip_bit s.icsrs_m.eip t false } }
    have h1 := hcl.1
    rw [show get_external_iid MachineMode = 11 from rfl] at h1
    rw [h1] at hb
    exact hgen _ _ _ _ _ hreg (word_lt_update _ _ _ hw) hb

set_option maxRecDepth 100000 in
theorem dispatchState_word_lt : ∀ k, word_reg dispatchState.icsrs_m.eip k < 2 ^ 32 := by
  intro k
  by_cases h : k < 64
  · revert k; decide
  · unfold word_reg
    have hlen : dispatchState.icsrs_m.eip.length = 64 := by decide
    rw [List.getD_eq_getElem?_getD, List.getElem?_eq_none (by omega)]
    decide

set_option maxRecDepth 100000 in
/-- Claim C38 at `dispatchState` with `t = 5`: after `notify_irq_taken` the head is 5, `eip`
bit 5 is clear and `mip` bit 11 is 0. -/
theorem threshold_after_taking_witness :
    dispatchState.csrs.mtvec.mode = csr_mtvec.SnpsNestedVectored ∧
    dispatchState.icsrs_m.eithreshold.mode_snps_vectored = true ∧
    dispatchState.file_output MachineMode = (true, 5) ∧
    dispatchState.csrs.mtopei.iid = 5 ∧ dispatchState.csrs.clint.mip.testBit 11 = true ∧
    (notify_irq_taken (clint_hw_irq_route sampleDecls 1) dispatchState MachineMode).map
      (fun s => (s.icsrs_m.eithreshold.reg, eip_bit s.icsrs_m.eip 5,
        s.csrs.clint.mip.testBit 11)) = some (5, false, false) ∧
    ∃ s', notify_irq_taken (clint_hw_irq_route sampleDecls 1) dispatchState MachineMode =
        some s' ∧ s'.icsrs_m.eithreshold.reg = min 5 255 :=
  ⟨by decide, by decide, by decide, by decide, by decide, by decide,
    (threshold_after_taking sampleDecls 1 dispatchState 5 (by decide) (by decide)
      dispatchState_word_lt (by decide) (by decide) (by decide) (by decide)).imp
      (fun s' h => ⟨h.1, h.2.2.2.1⟩)⟩

/-! # Operations that leave a file unrecomputed -/

set_option maxRecDepth 100000 in
/-- Claim C31 fails at `sCascadeState`: `mtvec` and `stvec` are nested-vectored, `mideleg`
bit 9 is 0, `mie` bit 9 is 1, the Machine priority of id 9 is 4 and the Supervisor priority
of id 5 is 7.  `clint_hw_irq_route(EXC_S_TIMER_INTERRUPT, true)` delivers the Supervisor
timer interrupt into the Supervisor file (`eip` bit 7 becomes 1), the file asserts, `mip` bit
9 becomes 1 and bit 9 becomes pending at Machine level, where it was not before; yet the
Machine file is unchanged and its `eip` bit 4 is 0 when the call returns. -/
theorem s_to_m_cascade_missed :
    sampleDecls.codes.Valid ∧
    (sCascadeState.get_xtvec MachineMode).mode = csr_mtvec.SnpsNestedVectored ∧
    (sCascadeState.get_xtvec SupervisorMode).mode = csr_mtvec.SnpsNestedVectored ∧
    sCascadeState.csrs.clint.mideleg.testBit 9 = false ∧
    sCascadeState.csrs.clint.mie.testBit 9 = true ∧
    sCascadeState.get_iprio sampleDecls MachineMode EXC_S_EXTERNAL_INTERRUPT = 4 ∧
    sCascadeState.get_iprio sampleDecls SupervisorMode EXC_S_TIMER_INTERRUPT = 7 ∧
    (sCascadeState.compute_clint_pending_irq_bits_per_level sampleDecls).m_pending.testBit 9
      = false ∧
    (sCascadeState.hw_write_mip EXC_S_TIMER_INTERRUPT true).delivers
      (sCascadeState.compute_clint_pending_irq_bits_per_level sampleDecls)
      ((sCascadeState.hw_write_mip EXC_S_TIMER_INTERRUPT true).compute_clint_pending_irq_bits_per_level
        sampleDecls) EXC_S_TIMER_INTERRUPT SupervisorMode ∧
    eip_bit sCascadeState.icsrs_s.eip 7 = false ∧
    (clint_hw_irq_route sampleDecls 1 sCascadeState EXC_S_TIMER_INTERRUPT true).map
      (fun s => (eip_bit s.icsrs_s.eip 7, s.csrs.clint.mip.testBit 9,
        (s.compute_clint_pending_irq_bits_per_level sampleDecls).m_pending.testBit 9,
        eip_bit s.icsrs_m.eip 4, s.icsrs_m.eip == sCascadeState.icsrs_m.eip)) =
      some (true, true, true, false, true) := by
  decide

set_option maxRecDepth 100000 in
/-- Claim C34 fails at `thresholdBlockedState`, a state in which `mip` bit 11 and
`mtopei.iid` agree with `compute_imsic_pending` on the Machine file (threshold 3, id 5
pending and enabled, Direct mode): `set_csr_value(MTVEC_ADDR, 3)` returns normally with
`mtvec` and the threshold register in nested-vectored mode, `compute_imsic_pending` on the
resulting file returns top minor id 5, and `mtopei.iid` is still 0. -/
theorem mtvec_write_breaks_closure :
    thresholdBlockedState.prv = MachineMode ∧
    thresholdBlockedState.file_closed MachineMode ∧
    thresholdBlockedState.file_output MachineMode = (false, 0) ∧
    ∃ s', thresholdBlockedState.set_csr_value sampleDecls 1 csr.MTVEC_ADDR 3 false =
        Result.ok () s' ∧
      s'.csrs.mtvec.mode = csr_mtvec.SnpsNestedVectored ∧
      s'.icsrs_m.eithreshold.mode_snps_vectored = true ∧
      s'.file_output MachineMode = (false, 5) ∧
      s'.csrs.mtopei.iid = 0 ∧
      ¬ s'.file_closed MachineMode :=
  ⟨by decide, by decide, by decide, _,
    set_csr_value_mtvec sampleDecls 1 thresholdBlockedState 3 false,
    by decide, by decide, by decide, by decide, by decide⟩

end RVVP
